import Mathlib

/-! # HDCP 1.x transmitter state machine (xhdcp1x_tx.c)

A shallow embedding of the transmit state machine of the Xilinx HDCP 1.x driver,
followed by theorems about it.

Conventions of the embedding.

* The instance record `XHdcp1x_Tx` carries the fields of the C structure that the
  state machine touches, plus two ghost fields: `Calls`, the chronological list of
  requests issued to the collaborators (port, cipher, platform), and `Path`, the
  chronological list of states entered.
* The collaborators are a parameter `Env`.  Every answer of a collaborator is a
  function of the list of calls issued so far, so a collaborator may behave in any
  deterministic, history dependent way.
* Machine integers are natural numbers; a store into a `u16` or `u64` object
  truncates with `%`.
* A C loop that counts down (`NumTries`, `NumAttempts`, `NumIterations`) is a
  recursion on its counter.  Every other loop is a bounded iteration of its body, and
  a lemma states that the guard of the loop is closed when the iteration stops, so
  that the bound never cuts a run short: `IsKsvValidStep_closed`,
  `AwaitRequestComplete_done`, `TransitionLoop_closed`, `ProcessPendingLoop_closed`,
  `ReadKsvChunks_closed`.
* The callbacks of the port and the cipher run between the functions of the
  interface, never inside a call to a collaborator.
* Debug logging (`DebugLog`, `snprintf`) has no effect on the state machine and is
  left out.
-/

namespace XHdcp1x

/-! ## Constants and enumerations -/

/-- Flag to track physical state. -/
def FLAG_PHY_UP : Nat := 1 <<< 0

/-- Flag to track repeater state. -/
def FLAG_IS_REPEATER : Nat := 1 <<< 1

/-- Timeout value for 5ms. -/
def TMO_5MS : Nat := 5

/-- Timeout value for 100ms. -/
def TMO_100MS : Nat := 100

/-- Timeout value for 1s. -/
def TMO_1SECOND : Nat := 1000

/-- Status code of success (`XST_SUCCESS` of xstatus.h, value `0L`). -/
def XST_SUCCESS : Int := 0

/-- Modelled from the spec: the port headers are not part of the sources; by the spec
the BKSV register is 5 bytes wide. -/
def XHDCP1X_PORT_SIZE_BKSV : Nat := 5

/-- Modelled from the spec: the port headers are not part of the sources; by the spec
the AKSV register is 5 bytes wide. -/
def XHDCP1X_PORT_SIZE_AKSV : Nat := 5

/-- Modelled from the spec: the port headers are not part of the sources; by the spec
the AN register is 8 bytes wide. -/
def XHDCP1X_PORT_SIZE_AN : Nat := 8

/-- Modelled from the spec: the port headers are not part of the sources; by the spec
the AINFO register is 1 byte wide. -/
def XHDCP1X_PORT_SIZE_AINFO : Nat := 1

/-- Size of a SHA-1 digest in bytes (`SHA1HashSize` of sha1.h). -/
def SHA1HashSize : Nat := 20

/-- The event enumeration `tEvent`, in declaration order. -/
inductive tEvent
  | EVENT_NULL
  | EVENT_AUTHENTICATE
  | EVENT_CHECK
  | EVENT_DISABLE
  | EVENT_ENABLE
  | EVENT_LINKDOWN
  | EVENT_PHYDOWN
  | EVENT_PHYUP
  | EVENT_POLL
  | EVENT_TIMEOUT
  deriving DecidableEq, Repr

/-- The state enumeration `tState`, in declaration order. -/
inductive tState
  | STATE_DISABLED
  | STATE_DETERMINERXCAPABLE
  | STATE_EXCHANGEKSVS
  | STATE_COMPUTATIONS
  | STATE_VALIDATERX
  | STATE_AUTHENTICATED
  | STATE_LINKINTEGRITYCHECK
  | STATE_TESTFORREPEATER
  | STATE_WAITFORREADY
  | STATE_READKSVLIST
  | STATE_UNAUTHENTICATED
  | STATE_PHYDOWN
  deriving DecidableEq, Repr

open tEvent tState

/-- Ordinal of an event in the C enumeration. -/
def tEvent.toNat : tEvent → Nat
  | EVENT_NULL => 0
  | EVENT_AUTHENTICATE => 1
  | EVENT_CHECK => 2
  | EVENT_DISABLE => 3
  | EVENT_ENABLE => 4
  | EVENT_LINKDOWN => 5
  | EVENT_PHYDOWN => 6
  | EVENT_PHYUP => 7
  | EVENT_POLL => 8
  | EVENT_TIMEOUT => 9

/-- Event of an ordinal; `none` for a value outside the enumeration. -/
def tEvent.ofNat? : Nat → Option tEvent
  | 0 => some EVENT_NULL
  | 1 => some EVENT_AUTHENTICATE
  | 2 => some EVENT_CHECK
  | 3 => some EVENT_DISABLE
  | 4 => some EVENT_ENABLE
  | 5 => some EVENT_LINKDOWN
  | 6 => some EVENT_PHYDOWN
  | 7 => some EVENT_PHYUP
  | 8 => some EVENT_POLL
  | 9 => some EVENT_TIMEOUT
  | _ => none

/-- Request types of the cipher (`XHdcp1x_CipherRequestType`). -/
inductive XHdcp1x_CipherRequestType
  | XHDCP1X_CIPHER_REQUEST_BLOCK
  | XHDCP1X_CIPHER_REQUEST_REKEY
  | XHDCP1X_CIPHER_REQUEST_RNG
  deriving DecidableEq, Repr

open XHdcp1x_CipherRequestType

/-! ## Collaborators -/

/-- A request issued by the state machine to one of its collaborators, with the
arguments passed.  Byte buffers are lists of bytes. -/
inductive Call
  | PortCfgInitialize
  | PortEnable
  | PortDisable
  | PortSetCallback
  | PortRead (Offset : Nat) (BufSize : Nat)
  | PortWrite (Offset : Nat) (Data : List Nat)
  | PortIsCapable
  | PortIsRepeater
  | PortGetRepeaterInfo
  | CipherCfgInitialize
  | CipherEnable
  | CipherDisable
  | CipherSetCallback
  | CipherSetRiUpdate (IsEnabled : Bool)
  | CipherGetEncryption
  | CipherEnableEncryption (StreamMap : Nat)
  | CipherDisableEncryption (StreamMap : Nat)
  | CipherDoRequest (Request : XHdcp1x_CipherRequestType)
  | CipherIsRequestComplete
  | CipherGetMi
  | CipherGetMo
  | CipherGetRi
  | CipherGetRo
  | CipherGetLocalKsv
  | CipherSetRemoteKsv (Ksv : Nat)
  | CipherSetB (X Y Z : Nat)
  | CipherSetNumLanes (NumLanes : Nat)
  | PlatformTimerStart (TimeoutInMs : Nat)
  | PlatformTimerStop
  | PlatformTimerBusy (DelayInMs : Nat)
  | PlatformIsKsvRevoked (Ksv : Nat)
  deriving DecidableEq, Repr

/-- The collaborators of one transmitter instance: configuration, port, cipher,
platform and SHA-1.  Each answer is a function of the calls issued before it.

The constants come from headers that are not part of the sources; they are fields
here.  `SHA1Result` stands for the SHA-1 module (sha1.h): a context is the list of
bytes fed to it, and the field gives the status and the digest bytes for a message.

`CipherPending` and `pending_dec` state the hardware contract behind the busy wait of
`GenerateAn`: a cipher that reports "not complete" is strictly closer to completion
afterwards, so polling reaches completion.  `size_ksvfifo_pos` states that a chunk of
the KSV FIFO has at least one byte.

`StackByte` gives the indeterminate content of an automatic array that the C code
declares without initialising it: the value found in byte `i` of the array when the
function is entered after the given calls. -/
structure Env where
  IsHDMI : Bool
  XHDCP1X_PORT_OFFSET_BKSV : Nat
  XHDCP1X_PORT_OFFSET_RO : Nat
  XHDCP1X_PORT_OFFSET_AKSV : Nat
  XHDCP1X_PORT_OFFSET_AN : Nat
  XHDCP1X_PORT_OFFSET_AINFO : Nat
  XHDCP1X_PORT_OFFSET_KSVFIFO : Nat
  XHDCP1X_PORT_OFFSET_VH0 : Nat
  XHDCP1X_PORT_SIZE_KSVFIFO : Nat
  size_ksvfifo_pos : 0 < XHDCP1X_PORT_SIZE_KSVFIFO
  shaSuccess : Int
  SHA1Result : List Nat → Int × List Nat
  PortCfgInitialize : List Call → Int
  PortRead : List Call → Nat → Nat → Int × List Nat
  PortWrite : List Call → Nat → List Nat → Int
  PortIsCapable : List Call → Bool
  PortIsRepeater : List Call → Bool
  PortGetRepeaterInfo : List Call → Int × Nat
  CipherCfgInitialize : List Call → Int
  CipherGetEncryption : List Call → Nat
  CipherDisableEncryption : List Call → Nat → Int
  CipherDoRequest : List Call → XHdcp1x_CipherRequestType → Int
  CipherIsRequestComplete : List Call → Bool
  CipherGetMi : List Call → Nat
  CipherGetMo : List Call → Nat
  CipherGetRi : List Call → Nat
  CipherGetRo : List Call → Nat
  CipherGetLocalKsv : List Call → Nat
  CipherSetNumLanes : List Call → Nat → Int
  PlatformIsKsvRevoked : List Call → Nat → Bool
  StackByte : List Call → Nat → Nat
  CipherPending : List Call → Nat
  pending_dec : ∀ h : List Call, CipherIsRequestComplete h = false →
    CipherPending (h ++ [Call.CipherIsRequestComplete]) < CipherPending h

/-! ## Data model -/

/-- Modelled from the spec: the declaration of the statistics structure (xhdcp1x.h) is
not part of the sources; the spec describes six monotonically increasing counters,
which are unbounded naturals here. -/
structure XHdcp1x_TxStats where
  AuthFailed : Nat
  AuthPassed : Nat
  ReauthRequested : Nat
  ReadFailures : Nat
  LinkCheckPassed : Nat
  LinkCheckFailed : Nat
  deriving DecidableEq, Repr

/-- The transmitter instance.  `StateHelper` and `EncryptionMap` are `u64`, `Flags`
and `PendingEvents` are `u16`.  `Calls` and `Path` are ghost fields: the requests
issued to the collaborators and the states entered, oldest first. -/
structure XHdcp1x_Tx where
  CurrentState : tState
  PreviousState : tState
  StateHelper : Nat
  Flags : Nat
  PendingEvents : Nat
  EncryptionMap : Nat
  Stats : XHdcp1x_TxStats
  Calls : List Call
  Path : List tState
  deriving DecidableEq, Repr

/-- Records a request to a collaborator. -/
def issue (s : XHdcp1x_Tx) (c : Call) : XHdcp1x_Tx :=
  { s with Calls := s.Calls ++ [c] }

/-- Assignment to `InstancePtr->Flags`. -/
def setFlags (s : XHdcp1x_Tx) (v : Nat) : XHdcp1x_Tx :=
  { s with Flags := v }

/-- Assignment to `InstancePtr->StateHelper`. -/
def setStateHelper (s : XHdcp1x_Tx) (v : Nat) : XHdcp1x_Tx :=
  { s with StateHelper := v }

/-- Assignment to `InstancePtr->PendingEvents`. -/
def setPendingEvents (s : XHdcp1x_Tx) (v : Nat) : XHdcp1x_Tx :=
  { s with PendingEvents := v }

/-- Assignment to `InstancePtr->EncryptionMap`. -/
def setEncryptionMap (s : XHdcp1x_Tx) (v : Nat) : XHdcp1x_Tx :=
  { s with EncryptionMap := v }

/-- Assignment to `InstancePtr->Stats`. -/
def setStats (s : XHdcp1x_Tx) (v : XHdcp1x_TxStats) : XHdcp1x_Tx :=
  { s with Stats := v }

/-- Statement `InstancePtr->Stats.AuthFailed++`. -/
def countAuthFailed (s : XHdcp1x_Tx) : XHdcp1x_Tx :=
  setStats s { s.Stats with AuthFailed := s.Stats.AuthFailed + 1 }

/-- Statement `InstancePtr->Stats.AuthPassed++`. -/
def countAuthPassed (s : XHdcp1x_Tx) : XHdcp1x_Tx :=
  setStats s { s.Stats with AuthPassed := s.Stats.AuthPassed + 1 }

/-- Statement `InstancePtr->Stats.ReauthRequested++`. -/
def countReauthRequested (s : XHdcp1x_Tx) : XHdcp1x_Tx :=
  setStats s { s.Stats with ReauthRequested := s.Stats.ReauthRequested + 1 }

/-- Statement `InstancePtr->Stats.ReadFailures++`. -/
def countReadFailures (s : XHdcp1x_Tx) : XHdcp1x_Tx :=
  setStats s { s.Stats with ReadFailures := s.Stats.ReadFailures + 1 }

/-- Statement `InstancePtr->Stats.LinkCheckPassed++`. -/
def countLinkCheckPassed (s : XHdcp1x_Tx) : XHdcp1x_Tx :=
  setStats s { s.Stats with LinkCheckPassed := s.Stats.LinkCheckPassed + 1 }

/-- Statement `InstancePtr->Stats.LinkCheckFailed++`. -/
def countLinkCheckFailed (s : XHdcp1x_Tx) : XHdcp1x_Tx :=
  setStats s { s.Stats with LinkCheckFailed := s.Stats.LinkCheckFailed + 1 }

/-- The swap of `DoTheState`: `PreviousState = CurrentState; CurrentState = NextState`;
the state entered is appended to the ghost path. -/
def swapState (s : XHdcp1x_Tx) (NextState : tState) : XHdcp1x_Tx :=
  { s with PreviousState := s.CurrentState, CurrentState := NextState,
           Path := s.Path ++ [NextState] }

/-- C statement `x &= ~m` on a 16-bit object, with `m` an `unsigned int` constant. -/
def clearBits16 (x m : Nat) : Nat := (x &&& (0xFFFFFFFF ^^^ m)) % 2 ^ 16

/-- C statement `x |= m` on a 16-bit object. -/
def setBits16 (x m : Nat) : Nat := (x ||| m) % 2 ^ 16

/-! ## Event queue -/

/-- This function posts an event to a state machine. -/
def PostEvent (s : XHdcp1x_Tx) (Event : tEvent) : XHdcp1x_Tx :=
  let s1 : XHdcp1x_Tx :=
    if Event = EVENT_DISABLE then
      setPendingEvents s (clearBits16 s.PendingEvents (1 <<< EVENT_ENABLE.toNat))
    else if Event = EVENT_PHYDOWN then
      setPendingEvents s (clearBits16 s.PendingEvents (1 <<< EVENT_PHYUP.toNat))
    else s
  setPendingEvents s1 (setBits16 s1.PendingEvents (1 <<< Event.toNat))

/-! ## Timer -/

/-- This function starts a state machine's timer. -/
def StartTimer (s : XHdcp1x_Tx) (TimeoutInMs : Nat) : XHdcp1x_Tx :=
  issue s (Call.PlatformTimerStart (TimeoutInMs % 2 ^ 16))

/-- This function stops a state machine's timer. -/
def StopTimer (s : XHdcp1x_Tx) : XHdcp1x_Tx :=
  issue s Call.PlatformTimerStop

/-- This function busy delays a state machine. -/
def BusyDelay (s : XHdcp1x_Tx) (DelayInMs : Nat) : XHdcp1x_Tx :=
  issue s (Call.PlatformTimerBusy (DelayInMs % 2 ^ 16))

/-! ## Callbacks -/

/-- This function acts as the reauthentication callback for a state machine. -/
def ReauthenticateCallback (s : XHdcp1x_Tx) : XHdcp1x_Tx :=
  PostEvent (countReauthRequested s) EVENT_AUTHENTICATE

/-- This function acts as the check link callback for a state machine. -/
def CheckLinkCallback (s : XHdcp1x_Tx) : XHdcp1x_Tx :=
  PostEvent s EVENT_CHECK

/-! ## Encryption control -/

/-- This function sets the check link state of the handler. -/
def SetCheckLinkState (env : Env) (s : XHdcp1x_Tx) (isEnabled : Bool) : XHdcp1x_Tx :=
  if env.IsHDMI then
    if isEnabled then
      issue (issue s Call.CipherSetCallback) (Call.CipherSetRiUpdate true)
    else
      issue s (Call.CipherSetRiUpdate false)
  else s

/-- This function enables encryption for a state machine. -/
def EnableEncryption (env : Env) (s : XHdcp1x_Tx) : XHdcp1x_Tx :=
  if s.EncryptionMap ≠ 0 then
    let StreamMap := env.CipherGetEncryption s.Calls % 2 ^ 64
    let s1 := issue s Call.CipherGetEncryption
    if StreamMap ≠ s1.EncryptionMap then
      let s2 := BusyDelay s1 TMO_5MS
      issue s2 (Call.CipherEnableEncryption s2.EncryptionMap)
    else s1
  else s

/-- This function disables encryption for a state machine. -/
def DisableEncryption (env : Env) (s : XHdcp1x_Tx) : XHdcp1x_Tx :=
  let StreamMap := env.CipherGetEncryption s.Calls % 2 ^ 64
  let s1 := issue s Call.CipherGetEncryption
  if StreamMap ≠ 0 then
    let s2 := issue s1 (Call.CipherDisableEncryption (2 ^ 64 - 1))
    BusyDelay s2 TMO_5MS
  else s1

/-- This function enables a state machine. -/
def Enable (s : XHdcp1x_Tx) : XHdcp1x_Tx :=
  let s1 := setStats s ⟨0, 0, 0, 0, 0, 0⟩
  let s2 := issue s1 Call.CipherEnable
  let s3 := issue s2 Call.PortSetCallback
  issue s3 Call.PortEnable

/-- This function disables a state machine. -/
def Disable (s : XHdcp1x_Tx) : XHdcp1x_Tx :=
  let s1 := issue s Call.PortDisable
  let s2 := issue s1 Call.CipherDisable
  let s3 := StopTimer s2
  let s4 := setFlags s3 (clearBits16 s3.Flags FLAG_IS_REPEATER)
  let s5 := setStateHelper s4 0
  setEncryptionMap s5 0

/-! ## Authentication actions -/

/-- This function checks to ensure that the remote end is hdcp capable. -/
def CheckRxCapable (env : Env) (s : XHdcp1x_Tx) (_NextState : tState) :
    XHdcp1x_Tx × tState :=
  let Capable := env.PortIsCapable s.Calls
  let s1 := issue s Call.PortIsCapable
  if Capable then (s1, STATE_EXCHANGEKSVS) else (s1, STATE_UNAUTHENTICATED)

/-- One round of the busy wait `while (!XHdcp1x_CipherIsRequestComplete(CipherPtr));`
of `GenerateAn`.  The second component tells whether the wait has ended; while it has
not, the cipher is polled once more. -/
def AwaitStep (env : Env) (p : XHdcp1x_Tx × Bool) : XHdcp1x_Tx × Bool :=
  if p.2 then p
  else (issue p.1 Call.CipherIsRequestComplete, env.CipherIsRequestComplete p.1.Calls)

/-- The busy wait of `GenerateAn`.  By `Env.pending_dec` the cipher reports completion
within `CipherPending + 1` polls (lemma `AwaitRequestComplete_done`). -/
def AwaitRequestComplete (env : Env) (s : XHdcp1x_Tx) : XHdcp1x_Tx × Bool :=
  (AwaitStep env)^[env.CipherPending s.Calls + 1] (s, false)

/-- This function generates the An from a random number generator. -/
def GenerateAn (env : Env) (s : XHdcp1x_Tx) : XHdcp1x_Tx × Nat :=
  let Status := env.CipherDoRequest s.Calls XHDCP1X_CIPHER_REQUEST_RNG
  let s1 := issue s (Call.CipherDoRequest XHDCP1X_CIPHER_REQUEST_RNG)
  let r : XHdcp1x_Tx × Nat :=
    if Status = XST_SUCCESS then
      let s2 := (AwaitRequestComplete env s1).1
      (issue s2 Call.CipherGetMi, env.CipherGetMi s2.Calls % 2 ^ 64)
    else (s1, 0)
  if r.2 = 0 then (r.1, 0x351F7175406A74D) else r

/-- The busy wait `while (!XHdcp1x_CipherIsRequestComplete(CipherPtr));` of
`GenerateAn` for a cipher of any behaviour, given by its answers `IsComplete`, cut off
after `Polls` polls: the result is `none` when the cipher has not reported completion
within that many polls. -/
def BusyWaitWithin (IsComplete : List Call → Bool) : Nat → XHdcp1x_Tx → Option XHdcp1x_Tx
  | 0, _ => none
  | n + 1, s =>
    if IsComplete s.Calls then some (issue s Call.CipherIsRequestComplete)
    else BusyWaitWithin IsComplete n (issue s Call.CipherIsRequestComplete)

/-- The function `GenerateAn` for a cipher of any behaviour, given by its answers to
the three calls the function makes, with the busy wait cut off after `Polls` polls: the
result is `none` when the function has not returned by then. -/
def GenerateAnWithin (DoRequest : List Call → XHdcp1x_CipherRequestType → Int)
    (IsComplete : List Call → Bool) (GetMi : List Call → Nat) (Polls : Nat)
    (s : XHdcp1x_Tx) : Option (XHdcp1x_Tx × Nat) :=
  let Status := DoRequest s.Calls XHDCP1X_CIPHER_REQUEST_RNG
  let s1 := issue s (Call.CipherDoRequest XHDCP1X_CIPHER_REQUEST_RNG)
  if Status = XST_SUCCESS then
    match BusyWaitWithin IsComplete Polls s1 with
    | none => none
    | some s2 =>
      let An := GetMi s2.Calls % 2 ^ 64
      some (issue s2 Call.CipherGetMi, if An = 0 then 0x351F7175406A74D else An)
  else some (s1, 0x351F7175406A74D)

/-- One round of the loop `while (Ksv != 0)` of `IsKsvValid`, on the pair
`(Ksv, NumOnes)`. -/
def IsKsvValidStep (p : Nat × Nat) : Nat × Nat :=
  if p.1 ≠ 0 then
    (p.1 >>> 1, if p.1 &&& 1 ≠ 0 then p.2 + 1 else p.2)
  else p

/-- This function validates a KSV value as having 20 1s and 20 0s.  The argument is
a `u64`, so its loop has shifted every bit out after 64 rounds. -/
def IsKsvValid (Ksv : Nat) : Bool :=
  let NumOnes := (IsKsvValidStep^[64] (Ksv % 2 ^ 64, 0)).2
  if NumOnes = 20 then true else false

/-- Modelled from the spec: the macro `XHDCP1X_PORT_BUF_TO_UINT` (xhdcp1x_port.h) is not
part of the sources; by the spec the wire format is little-endian, buffer byte 0 being
the least significant byte.  Every use has a bit count that is a multiple of 8. -/
def XHDCP1X_PORT_BUF_TO_UINT (Buf : List Nat) (NumBits : Nat) : Nat :=
  ((List.range (NumBits / 8)).map (fun i => (Buf.getD i 0 % 256) * 256 ^ i)).sum

/-- Modelled from the spec: the macro `XHDCP1X_PORT_UINT_TO_BUF` (xhdcp1x_port.h) is not
part of the sources; by the spec the wire format is little-endian, buffer byte 0 being
the least significant byte.  The bytes of the buffer beyond the value are kept. -/
def XHDCP1X_PORT_UINT_TO_BUF (Buf : List Nat) (Uint NumBits : Nat) : List Nat :=
  (List.range (NumBits / 8)).map (fun i => Uint / 256 ^ i % 256) ++ Buf.drop (NumBits / 8)

/-- The buffer after `XHdcp1x_PortRead(PortPtr, Offset, Buf, BufSize)` when the port
delivers the bytes `Data`: at most `BufSize` bytes are stored at the start of the
buffer, the rest of the buffer is kept. -/
def PortReadInto (Buf Data : List Nat) (BufSize : Nat) : List Nat :=
  (Data.take BufSize).map (fun b => b % 256) ++ Buf.drop (min Data.length BufSize)

/-- The content of an automatic array of `Size` bytes that is declared without an
initialiser (`u8 Buf[2];`), in a function entered after the calls `h`: each byte holds
the indeterminate value that the environment gives it. -/
def UninitBuf (env : Env) (h : List Call) (Size : Nat) : List Nat :=
  (List.range Size).map (fun i => env.StackByte h i % 256)

/-- This function exchanges the ksvs between the two ends of the link. -/
def ExchangeKsvs (env : Env) (s : XHdcp1x_Tx) (_NextState : tState) :
    XHdcp1x_Tx × tState :=
  let Buf : List Nat := List.replicate 8 0
  let r := env.PortRead s.Calls env.XHDCP1X_PORT_OFFSET_BKSV 5
  let s1 := issue s (Call.PortRead env.XHDCP1X_PORT_OFFSET_BKSV 5)
  if r.1 > 0 then
    let Buf1 := PortReadInto Buf r.2 5
    let RemoteKsv := XHDCP1X_PORT_BUF_TO_UINT Buf1 (XHDCP1X_PORT_SIZE_BKSV * 8)
    if ¬ (IsKsvValid RemoteKsv = true) then
      (s1, STATE_UNAUTHENTICATED)
    else
      let Revoked := env.PlatformIsKsvRevoked s1.Calls RemoteKsv
      let s2 := issue s1 (Call.PlatformIsKsvRevoked RemoteKsv)
      if Revoked then
        (s2, STATE_UNAUTHENTICATED)
      else
        let Repeater := env.PortIsRepeater s2.Calls
        let s3 := issue s2 Call.PortIsRepeater
        let s4 : XHdcp1x_Tx :=
          if Repeater then setFlags s3 (setBits16 s3.Flags FLAG_IS_REPEATER)
          else setFlags s3 (clearBits16 s3.Flags FLAG_IS_REPEATER)
        let g := GenerateAn env s4
        let An := g.2
        let s5 := setStateHelper g.1 An
        let LocalKsv := env.CipherGetLocalKsv s5.Calls % 2 ^ 64
        let s6 := issue s5 Call.CipherGetLocalKsv
        let s7 := issue s6 (Call.CipherSetRemoteKsv RemoteKsv)
        let Buf2 := XHDCP1X_PORT_UINT_TO_BUF Buf1 An (XHDCP1X_PORT_SIZE_AN * 8)
        let s8 := issue s7 (Call.PortWrite env.XHDCP1X_PORT_OFFSET_AN (Buf2.take XHDCP1X_PORT_SIZE_AN))
        let Buf3 := XHDCP1X_PORT_UINT_TO_BUF Buf2 LocalKsv (XHDCP1X_PORT_SIZE_AKSV * 8)
        let s9 := issue s8 (Call.PortWrite env.XHDCP1X_PORT_OFFSET_AKSV (Buf3.take XHDCP1X_PORT_SIZE_AKSV))
        (s9, STATE_COMPUTATIONS)
  else
    (countReadFailures s1, STATE_UNAUTHENTICATED)

/-- This function initiates the computations for a state machine. -/
def StartComputations (_env : Env) (s : XHdcp1x_Tx) (NextState : tState) :
    XHdcp1x_Tx × tState :=
  let Value := s.StateHelper
  let X := (Value &&& 0x0FFFFFFF) % 2 ^ 32
  let Value1 := Value >>> 28
  let Y := (Value1 &&& 0x0FFFFFFF) % 2 ^ 32
  let Value2 := Value1 >>> 28
  let Z := (Value2 &&& 0x000000FF) % 2 ^ 32
  let Z1 := if s.Flags &&& FLAG_IS_REPEATER ≠ 0 then (Z ||| (1 <<< 8)) % 2 ^ 32 else Z
  let s1 := issue s (Call.CipherSetB X Y Z1)
  let s2 := issue s1 (Call.CipherDoRequest XHDCP1X_CIPHER_REQUEST_BLOCK)
  (s2, NextState)

/-- This function polls the progress of the computations for a state machine. -/
def PollForComputations (env : Env) (s : XHdcp1x_Tx) (NextState : tState) :
    XHdcp1x_Tx × tState :=
  let Done := env.CipherIsRequestComplete s.Calls
  let s1 := issue s Call.CipherIsRequestComplete
  if Done then (s1, STATE_VALIDATERX) else (s1, NextState)

/-- One pass through the body of the `do` loop of `ValidateRx` with the given value of
`NumTries`, on the instance, the two byte buffer and the next state. -/
def ValidateRxBody (env : Env) (NumTries : Nat) (p : XHdcp1x_Tx × List Nat × tState) :
    XHdcp1x_Tx × List Nat × tState :=
  let s := p.1
  let r := env.PortRead s.Calls env.XHDCP1X_PORT_OFFSET_RO 2
  let s1 := issue s (Call.PortRead env.XHDCP1X_PORT_OFFSET_RO 2)
  let Buf := PortReadInto p.2.1 r.2 2
  if r.1 > 0 then
    let RemoteRo := XHDCP1X_PORT_BUF_TO_UINT Buf (2 * 8) % 2 ^ 16
    let LocalRo := env.CipherGetRo s1.Calls % 2 ^ 16
    let s2 := issue s1 Call.CipherGetRo
    if LocalRo = RemoteRo then
      (s2, Buf, STATE_TESTFORREPEATER)
    else if NumTries = 1 then
      (countAuthFailed s2, Buf, p.2.2)
    else (s2, Buf, p.2.2)
  else
    (countReadFailures s1, Buf, p.2.2)

/-- The `do ... while ((*NextStatePtr == STATE_UNAUTHENTICATED) && (NumTries > 0))`
loop of `ValidateRx`, entered with the given value of `NumTries`. -/
def ValidateRxLoop (env : Env) : Nat → XHdcp1x_Tx × List Nat × tState →
    XHdcp1x_Tx × List Nat × tState
  | 0, p => ValidateRxBody env 0 p
  | n + 1, p =>
    let q := ValidateRxBody env (n + 1) p
    if q.2.2 = STATE_UNAUTHENTICATED ∧ 0 < n then ValidateRxLoop env n q else q

/-- This function validates the attached receiver.  The local buffer `u8 Buf[2]` is
not initialised in C: it starts with indeterminate bytes, so after a read that stores
fewer than 2 bytes the value compared holds what was in the buffer before. -/
def ValidateRx (env : Env) (s : XHdcp1x_Tx) (_NextState : tState) : XHdcp1x_Tx × tState :=
  let q := ValidateRxLoop env 3 (s, UninitBuf env s.Calls 2, STATE_UNAUTHENTICATED)
  (q.1, q.2.2)

/-- One pass through the body of the `do` loop of `CheckLinkIntegrity`. -/
def CheckLinkIntegrityBody (env : Env) (p : XHdcp1x_Tx × List Nat × tState) :
    XHdcp1x_Tx × List Nat × tState :=
  let s := p.1
  let r := env.PortRead s.Calls env.XHDCP1X_PORT_OFFSET_RO 2
  let s1 := issue s (Call.PortRead env.XHDCP1X_PORT_OFFSET_RO 2)
  let Buf := PortReadInto p.2.1 r.2 2
  if r.1 > 0 then
    let RemoteRi := XHDCP1X_PORT_BUF_TO_UINT Buf 16 % 2 ^ 16
    let LocalRi := env.CipherGetRi s1.Calls % 2 ^ 16
    let s2 := issue s1 Call.CipherGetRi
    if LocalRi = RemoteRi then (s2, Buf, STATE_AUTHENTICATED) else (s2, Buf, p.2.2)
  else
    (countReadFailures s1, Buf, p.2.2)

/-- The `do ... while ((*NextStatePtr != STATE_AUTHENTICATED) && (NumTries > 0))` loop
of `CheckLinkIntegrity`, entered with the given value of `NumTries`. -/
def CheckLinkIntegrityLoop (env : Env) : Nat → XHdcp1x_Tx × List Nat × tState →
    XHdcp1x_Tx × List Nat × tState
  | 0, p => CheckLinkIntegrityBody env p
  | n + 1, p =>
    let q := CheckLinkIntegrityBody env p
    if q.2.2 ≠ STATE_AUTHENTICATED ∧ 0 < n then CheckLinkIntegrityLoop env n q else q

/-- This function checks the integrity of a hdcp link.  The local buffer `u8 Buf[2]`
is not initialised in C: it starts with indeterminate bytes, so after a read that
stores fewer than 2 bytes the value compared holds what was in the buffer before. -/
def CheckLinkIntegrity (env : Env) (s : XHdcp1x_Tx) (_NextState : tState) :
    XHdcp1x_Tx × tState :=
  let q := CheckLinkIntegrityLoop env 3 (s, UninitBuf env s.Calls 2, STATE_DETERMINERXCAPABLE)
  let s1 := q.1
  if q.2.2 = STATE_AUTHENTICATED then (countLinkCheckPassed s1, q.2.2)
  else (countLinkCheckFailed s1, q.2.2)

/-- This function checks the remote end to see if its a repeater. -/
def TestForRepeater (env : Env) (s : XHdcp1x_Tx) (_NextState : tState) :
    XHdcp1x_Tx × tState :=
  let Repeater := env.PortIsRepeater s.Calls
  let s1 := issue s Call.PortIsRepeater
  if Repeater then
    let s2 := setFlags s1 (setBits16 s1.Flags FLAG_IS_REPEATER)
    let Buf : List Nat := List.replicate XHDCP1X_PORT_SIZE_AINFO 0
    let s3 := issue s2
      (Call.PortWrite env.XHDCP1X_PORT_OFFSET_AINFO (Buf.take XHDCP1X_PORT_SIZE_AINFO))
    (EnableEncryption env s3, STATE_WAITFORREADY)
  else
    (setFlags s1 (clearBits16 s1.Flags FLAG_IS_REPEATER), STATE_AUTHENTICATED)

/-- This function polls a state machine in the "wait for ready" state. -/
def PollForWaitForReady (env : Env) (s : XHdcp1x_Tx) (NextState : tState) :
    XHdcp1x_Tx × tState :=
  let r := env.PortGetRepeaterInfo s.Calls
  let Status := r.1
  let RepeaterInfo := r.2 % 2 ^ 16
  let s1 := issue s Call.PortGetRepeaterInfo
  if Status = XST_SUCCESS then
    if RepeaterInfo &&& 0x0880 = 0 then
      if RepeaterInfo &&& 0x007F ≠ 0 then
        (setStateHelper s1 RepeaterInfo, STATE_READKSVLIST)
      else (s1, STATE_AUTHENTICATED)
    else (s1, STATE_UNAUTHENTICATED)
  else (s1, NextState)

/-! ## KSV list validation -/

/-- Working state of `ValidateKsvList`: the instance, the 24 byte buffer, the bytes fed
to SHA-1 so far, the number of bytes left to read and the validity flag. -/
structure KsvListState where
  Tx : XHdcp1x_Tx
  Buf : List Nat
  Sha1Context : List Nat
  NumToRead : Nat
  IsValid : Bool

/-- One pass through the body of the loop of `ValidateKsvList` that reads the ksv
list. -/
def ReadKsvChunk (env : Env) (p : KsvListState) : KsvListState :=
  let NumThisTime :=
    if env.XHDCP1X_PORT_SIZE_KSVFIFO > p.NumToRead then p.NumToRead
    else env.XHDCP1X_PORT_SIZE_KSVFIFO
  let r := env.PortRead p.Tx.Calls env.XHDCP1X_PORT_OFFSET_KSVFIFO NumThisTime
  let s1 := issue p.Tx (Call.PortRead env.XHDCP1X_PORT_OFFSET_KSVFIFO NumThisTime)
  let Buf := PortReadInto p.Buf r.2 NumThisTime
  if r.1 > 0 then
    { p with
      Tx := s1
      Buf := Buf
      Sha1Context := p.Sha1Context ++ Buf.take NumThisTime
      NumToRead := p.NumToRead - NumThisTime }
  else
    { p with
      Tx := countReadFailures s1
      Buf := Buf
      NumToRead := p.NumToRead - NumThisTime
      IsValid := false }

/-- The `do ... while ((NumToRead > 0) && (IsValid))` loop of `ValidateKsvList`.  The
first argument bounds the number of further passes; as every pass reads at least one
byte while bytes are left, `NumToRead` itself is a bound. -/
def ReadKsvChunks (env : Env) : Nat → KsvListState → KsvListState
  | 0, p => ReadKsvChunk env p
  | n + 1, p =>
    let q := ReadKsvChunk env p
    if 0 < q.NumToRead ∧ q.IsValid = true then ReadKsvChunks env n q else q

/-- The value assembled from the four digest bytes at `Index`, high byte first, in a
`u32`. -/
def CalcValueAt (Sha1Buf : List Nat) (Index : Nat) : Nat :=
  let b := fun i => Sha1Buf.getD (Index + i) 0 % 256
  let v0 := b 0
  let v1 := ((v0 <<< 8) % 2 ^ 32) ||| b 1
  let v2 := ((v1 <<< 8) % 2 ^ 32) ||| b 2
  ((v2 <<< 8) % 2 ^ 32) ||| b 3

/-- Working state of the loop of `ValidateKsvList` that compares the digest with the
value of the far end: the instance, the buffer, the position in the digest, the port
offset (a `u8`) and the validity flag. -/
structure VCheckState where
  Tx : XHdcp1x_Tx
  Buf : List Nat
  Index : Nat
  Offset : Nat
  IsValid : Bool

/-- One pass through the body of the loop over the SHA-1 chunks. -/
def CheckShaChunk (env : Env) (Sha1Buf : List Nat) (p : VCheckState) : VCheckState :=
  let CalcValue := CalcValueAt Sha1Buf p.Index
  let r := env.PortRead p.Tx.Calls p.Offset 4
  let s1 := issue p.Tx (Call.PortRead p.Offset 4)
  let Buf := PortReadInto p.Buf r.2 4
  let ReadValue := if r.1 > 0 then XHDCP1X_PORT_BUF_TO_UINT Buf 32 % 2 ^ 32 else 0
  let s2 : XHdcp1x_Tx := if r.1 > 0 then s1 else countReadFailures s1
  { Tx := s2
    Buf := Buf
    Index := p.Index + 4
    Offset := (p.Offset + 4) % 2 ^ 8
    IsValid := if CalcValue ≠ ReadValue then false else p.IsValid }

/-- The `do ... while (NumIterations > 0)` loop over the SHA-1 chunks, entered with
the given value of `NumIterations`. -/
def CheckShaChunks (env : Env) (Sha1Buf : List Nat) : Nat → VCheckState → VCheckState
  | 0, p => CheckShaChunk env Sha1Buf p
  | n + 1, p =>
    let q := CheckShaChunk env Sha1Buf p
    if 0 < n then CheckShaChunks env Sha1Buf n q else q

/-- This function validates the ksv list from an attached repeater. -/
def ValidateKsvList (env : Env) (s : XHdcp1x_Tx) (RepeaterInfo : Nat) : XHdcp1x_Tx × Bool :=
  let NumToRead := (RepeaterInfo &&& 0x7F) * 5
  let p := ReadKsvChunks env NumToRead
    { Tx := s, Buf := List.replicate 24 0, Sha1Context := [], NumToRead := NumToRead,
      IsValid := true }
  if p.IsValid then
    let Buf1 := (p.Buf.set 0 ((RepeaterInfo &&& 0xFF) % 2 ^ 8)).set 1
      (((RepeaterInfo >>> 8) &&& 0xFF) % 2 ^ 8)
    let Ctx1 := p.Sha1Context ++ Buf1.take 2
    let Mo := env.CipherGetMo p.Tx.Calls % 2 ^ 64
    let s1 := issue p.Tx Call.CipherGetMo
    let Buf2 := XHDCP1X_PORT_UINT_TO_BUF Buf1 Mo 64
    let Ctx2 := Ctx1 ++ Buf2.take 8
    let d := env.SHA1Result Ctx2
    if d.1 = env.shaSuccess then
      let q := CheckShaChunks env d.2 (SHA1HashSize >>> 2)
        { Tx := s1, Buf := Buf2, Index := 0, Offset := env.XHDCP1X_PORT_OFFSET_VH0 % 2 ^ 8,
          IsValid := p.IsValid }
      (q.Tx, q.IsValid)
    else (s1, false)
  else (p.Tx, p.IsValid)

/-- The `do ... while ((NumAttempts > 0) && (!KsvListIsValid))` loop of `ReadKsvList`,
entered with the given value of `NumAttempts`. -/
def ReadKsvListLoop (env : Env) (RepeaterInfo : Nat) : Nat → XHdcp1x_Tx → XHdcp1x_Tx × Bool
  | 0, s => ValidateKsvList env s RepeaterInfo
  | n + 1, s =>
    let q := ValidateKsvList env s RepeaterInfo
    if 0 < n ∧ ¬ (q.2 = true) then ReadKsvListLoop env RepeaterInfo n q.1 else q

/-- This function reads the ksv list from an attached repeater. -/
def ReadKsvList (env : Env) (s : XHdcp1x_Tx) (_NextState : tState) : XHdcp1x_Tx × tState :=
  let RepeaterInfo := (s.StateHelper &&& 0x0FFF) % 2 ^ 16
  let q := ReadKsvListLoop env RepeaterInfo 3 s
  if q.2 then (q.1, STATE_AUTHENTICATED) else (q.1, STATE_UNAUTHENTICATED)

/-- This function queries a a handler to check if its been authenticated. -/
def IsAuthenticated (s : XHdcp1x_Tx) : Bool :=
  match s.CurrentState with
  | STATE_AUTHENTICATED => true
  | STATE_LINKINTEGRITYCHECK => true
  | _ => false

/-! ## State handlers -/

/-- This function runs the "disabled" state of the transmit state machine. -/
def RunDisabledState (_env : Env) (s : XHdcp1x_Tx) (Event : tEvent) (NextState : tState) :
    XHdcp1x_Tx × tState :=
  match Event with
  | EVENT_ENABLE =>
    if s.Flags &&& FLAG_PHY_UP = 0 then (s, STATE_PHYDOWN) else (s, STATE_UNAUTHENTICATED)
  | EVENT_PHYDOWN => (setFlags s (clearBits16 s.Flags FLAG_PHY_UP), NextState)
  | EVENT_PHYUP => (setFlags s (setBits16 s.Flags FLAG_PHY_UP), NextState)
  | _ => (s, NextState)

/-- This function runs the "determine rx capable" state of the transmit state
machine. -/
def RunDetermineRxCapableState (_env : Env) (s : XHdcp1x_Tx) (Event : tEvent)
    (NextState : tState) : XHdcp1x_Tx × tState :=
  match Event with
  | EVENT_DISABLE => (s, STATE_DISABLED)
  | EVENT_PHYDOWN => (s, STATE_PHYDOWN)
  | _ => (s, NextState)

/-- This function runs the "exchange ksvs" state of the transmit state machine. -/
def RunExchangeKsvsState (_env : Env) (s : XHdcp1x_Tx) (Event : tEvent)
    (NextState : tState) : XHdcp1x_Tx × tState :=
  match Event with
  | EVENT_DISABLE => (s, STATE_DISABLED)
  | EVENT_PHYDOWN => (s, STATE_PHYDOWN)
  | _ => (s, NextState)

/-- This function runs the "computations" state of the transmit state machine. -/
def RunComputationsState (env : Env) (s : XHdcp1x_Tx) (Event : tEvent)
    (NextState : tState) : XHdcp1x_Tx × tState :=
  match Event with
  | EVENT_AUTHENTICATE => (s, STATE_DETERMINERXCAPABLE)
  | EVENT_DISABLE => (s, STATE_DISABLED)
  | EVENT_PHYDOWN => (s, STATE_PHYDOWN)
  | EVENT_POLL => PollForComputations env s NextState
  | _ => (s, NextState)

/-- This function runs the "validate-rx" state of the transmit state machine. -/
def RunValidateRxState (env : Env) (s : XHdcp1x_Tx) (Event : tEvent)
    (NextState : tState) : XHdcp1x_Tx × tState :=
  match Event with
  | EVENT_AUTHENTICATE => (s, STATE_DETERMINERXCAPABLE)
  | EVENT_DISABLE => (s, STATE_DISABLED)
  | EVENT_PHYDOWN => (s, STATE_PHYDOWN)
  | EVENT_TIMEOUT => ValidateRx env s NextState
  | _ => (s, NextState)

/-- This function runs the "authenticated" state of the transmit state machine. -/
def RunAuthenticatedState (_env : Env) (s : XHdcp1x_Tx) (Event : tEvent)
    (NextState : tState) : XHdcp1x_Tx × tState :=
  match Event with
  | EVENT_AUTHENTICATE => (s, STATE_DETERMINERXCAPABLE)
  | EVENT_CHECK => (s, STATE_LINKINTEGRITYCHECK)
  | EVENT_DISABLE => (s, STATE_DISABLED)
  | EVENT_PHYDOWN => (s, STATE_PHYDOWN)
  | _ => (s, NextState)

/-- This function runs the "link-integrity check" state of the transmit state
machine. -/
def RunLinkIntegrityCheckState (env : Env) (s : XHdcp1x_Tx) (Event : tEvent)
    (NextState : tState) : XHdcp1x_Tx × tState :=
  match Event with
  | EVENT_AUTHENTICATE => (s, STATE_DETERMINERXCAPABLE)
  | EVENT_DISABLE => (s, STATE_DISABLED)
  | EVENT_PHYDOWN => (s, STATE_PHYDOWN)
  | EVENT_POLL => CheckLinkIntegrity env s NextState
  | _ => (s, NextState)

/-- This function runs the "test-for-repeater" state of the transmit state
machine. -/
def RunTestForRepeaterState (env : Env) (s : XHdcp1x_Tx) (Event : tEvent)
    (NextState : tState) : XHdcp1x_Tx × tState :=
  match Event with
  | EVENT_AUTHENTICATE => (s, STATE_DETERMINERXCAPABLE)
  | EVENT_DISABLE => (s, STATE_DISABLED)
  | EVENT_PHYDOWN => (s, STATE_PHYDOWN)
  | EVENT_POLL => TestForRepeater env s NextState
  | _ => (s, NextState)

/-- This function runs the "wait-for-ready" state of the transmit state machine. -/
def RunWaitForReadyState (env : Env) (s : XHdcp1x_Tx) (Event : tEvent)
    (NextState : tState) : XHdcp1x_Tx × tState :=
  match Event with
  | EVENT_AUTHENTICATE => (s, STATE_DETERMINERXCAPABLE)
  | EVENT_DISABLE => (s, STATE_DISABLED)
  | EVENT_PHYDOWN => (s, STATE_PHYDOWN)
  | EVENT_POLL => PollForWaitForReady env s NextState
  | EVENT_TIMEOUT =>
    let r := PollForWaitForReady env s NextState
    if r.2 = STATE_WAITFORREADY then (r.1, STATE_UNAUTHENTICATED) else r
  | _ => (s, NextState)

/-- This function runs the "read-ksv-list" state of the transmit state machine. -/
def RunReadKsvListState (_env : Env) (s : XHdcp1x_Tx) (Event : tEvent)
    (NextState : tState) : XHdcp1x_Tx × tState :=
  match Event with
  | EVENT_AUTHENTICATE => (s, STATE_DETERMINERXCAPABLE)
  | EVENT_DISABLE => (s, STATE_DISABLED)
  | EVENT_PHYDOWN => (s, STATE_PHYDOWN)
  | _ => (s, NextState)

/-- This function runs the "unauthenticated" state of the transmit state machine. -/
def RunUnauthenticatedState (_env : Env) (s : XHdcp1x_Tx) (Event : tEvent)
    (NextState : tState) : XHdcp1x_Tx × tState :=
  match Event with
  | EVENT_AUTHENTICATE => (s, STATE_DETERMINERXCAPABLE)
  | EVENT_DISABLE => (s, STATE_DISABLED)
  | EVENT_PHYDOWN => (s, STATE_PHYDOWN)
  | _ => (s, NextState)

/-- This function runs the "physical-layer-down" state of the transmit state
machine. -/
def RunPhysicalLayerDownState (_env : Env) (s : XHdcp1x_Tx) (Event : tEvent)
    (NextState : tState) : XHdcp1x_Tx × tState :=
  match Event with
  | EVENT_DISABLE => (s, STATE_DISABLED)
  | EVENT_PHYUP =>
    if s.EncryptionMap ≠ 0 then (PostEvent s EVENT_AUTHENTICATE, STATE_UNAUTHENTICATED)
    else (s, STATE_UNAUTHENTICATED)
  | _ => (s, NextState)

/-! ## Entry and exit actions, dispatch -/

/-- This function enters a state. -/
def EnterState (env : Env) (s : XHdcp1x_Tx) (State : tState) (NextState : tState) :
    XHdcp1x_Tx × tState :=
  match State with
  | STATE_DISABLED => (Disable s, NextState)
  | STATE_DETERMINERXCAPABLE =>
    let s1 := setFlags s (setBits16 s.Flags FLAG_PHY_UP)
    let s2 := SetCheckLinkState env s1 false
    let s3 := DisableEncryption env s2
    CheckRxCapable env s3 NextState
  | STATE_EXCHANGEKSVS =>
    ExchangeKsvs env (setStateHelper s 0) NextState
  | STATE_COMPUTATIONS => StartComputations env s NextState
  | STATE_VALIDATERX =>
    (StartTimer (setStateHelper s 0) TMO_100MS, NextState)
  | STATE_WAITFORREADY =>
    (StartTimer (setStateHelper s 0) (5 * TMO_1SECOND), NextState)
  | STATE_READKSVLIST => ReadKsvList env s NextState
  | STATE_AUTHENTICATED =>
    let s1 := EnableEncryption env (setStateHelper s 0)
    if s1.PreviousState ≠ STATE_LINKINTEGRITYCHECK then
      let s2 := countAuthPassed s1
      (SetCheckLinkState env s2 true, NextState)
    else (s1, NextState)
  | STATE_LINKINTEGRITYCHECK => CheckLinkIntegrity env s NextState
  | STATE_UNAUTHENTICATED =>
    let s1 := setFlags s (clearBits16 s.Flags FLAG_IS_REPEATER)
    let s2 := setFlags s1 (setBits16 s1.Flags FLAG_PHY_UP)
    (DisableEncryption env s2, NextState)
  | STATE_PHYDOWN =>
    let s1 := setFlags s (clearBits16 s.Flags FLAG_PHY_UP)
    let s2 := DisableEncryption env s1
    (issue s2 Call.CipherDisable, NextState)
  | STATE_TESTFORREPEATER => (s, NextState)

/-- This function exits a state. -/
def ExitState (_env : Env) (s : XHdcp1x_Tx) (State : tState) : XHdcp1x_Tx :=
  match State with
  | STATE_DISABLED => Enable s
  | STATE_COMPUTATIONS => setStateHelper s 0
  | STATE_VALIDATERX => StopTimer s
  | STATE_WAITFORREADY => StopTimer s
  | STATE_READKSVLIST => setStateHelper s 0
  | STATE_PHYDOWN => issue s Call.CipherEnable
  | _ => s

/-- The handler of the current state, first part of `DoTheState`; `NextState` starts
as the current state. -/
def RunState (env : Env) (s : XHdcp1x_Tx) (Event : tEvent) : XHdcp1x_Tx × tState :=
  let NextState := s.CurrentState
  match s.CurrentState with
  | STATE_DISABLED => RunDisabledState env s Event NextState
  | STATE_DETERMINERXCAPABLE => RunDetermineRxCapableState env s Event NextState
  | STATE_EXCHANGEKSVS => RunExchangeKsvsState env s Event NextState
  | STATE_COMPUTATIONS => RunComputationsState env s Event NextState
  | STATE_VALIDATERX => RunValidateRxState env s Event NextState
  | STATE_AUTHENTICATED => RunAuthenticatedState env s Event NextState
  | STATE_LINKINTEGRITYCHECK => RunLinkIntegrityCheckState env s Event NextState
  | STATE_TESTFORREPEATER => RunTestForRepeaterState env s Event NextState
  | STATE_WAITFORREADY => RunWaitForReadyState env s Event NextState
  | STATE_READKSVLIST => RunReadKsvListState env s Event NextState
  | STATE_UNAUTHENTICATED => RunUnauthenticatedState env s Event NextState
  | STATE_PHYDOWN => RunPhysicalLayerDownState env s Event NextState

/-- One round of the loop `while (InstancePtr->CurrentState != NextState)` of
`DoTheState`, on the instance and `NextState`: while the guard holds the state
transition is performed (exit action, swap, entry action). -/
def TransitionStep (env : Env) (p : XHdcp1x_Tx × tState) : XHdcp1x_Tx × tState :=
  if p.1.CurrentState ≠ p.2 then
    let s1 := ExitState env p.1 p.1.CurrentState
    let s2 := swapState s1 p.2
    EnterState env s2 s2.CurrentState p.2
  else p

/-- The loop of state transitions of `DoTheState`, run for at most the given number of
rounds. -/
def TransitionLoop (env : Env) (Rounds : Nat) (p : XHdcp1x_Tx × tState) :
    XHdcp1x_Tx × tState :=
  (TransitionStep env)^[Rounds] p

/-- This function drives a transmit state machine.  The loop of state transitions has
left its guard after 4 rounds whatever the handler produced (lemma
`TransitionLoop_closed`), and further rounds change nothing. -/
def DoTheState (env : Env) (s : XHdcp1x_Tx) (Event : tEvent) : XHdcp1x_Tx :=
  (TransitionLoop env 4 (RunState env s Event)).1

/-- This function initializes a transmit state machine. -/
def Init (env : Env) (s : XHdcp1x_Tx) : XHdcp1x_Tx :=
  let DummyState := STATE_DISABLED
  (EnterState env (setPendingEvents s 0) STATE_DISABLED DummyState).1

/-- Call `DoTheState(InstancePtr, Event)` of `ProcessPending`, where `Event` is the
loop counter.  A counter value outside the enumeration selects the default branch of
every handler, which leaves `NextState` equal to the current state: nothing happens. -/
def DoTheStateOrd (env : Env) (s : XHdcp1x_Tx) (Event : Nat) : XHdcp1x_Tx :=
  match tEvent.ofNat? Event with
  | some e => DoTheState env s e
  | none => s

/-- Working state of the loop of `ProcessPending`: the instance and the locals
`Pending` (a `u16`) and `Event`. -/
structure PendingState where
  Tx : XHdcp1x_Tx
  Pending : Nat
  Event : Nat

/-- One pass through the body of the `do` loop of `ProcessPending`. -/
def ProcessPendingBody (env : Env) (p : PendingState) : PendingState :=
  { Tx := if p.Pending &&& 1 ≠ 0 then DoTheStateOrd env p.Tx p.Event else p.Tx
    Pending := p.Pending >>> 1
    Event := p.Event + 1 }

/-- The `do ... while (Pending != 0)` loop of `ProcessPending`.  The first argument
bounds the number of further passes; `Pending` is a `u16`, so 15 further passes empty
it. -/
def ProcessPendingLoop (env : Env) : Nat → PendingState → PendingState
  | 0, p => ProcessPendingBody env p
  | n + 1, p =>
    let q := ProcessPendingBody env p
    if q.Pending ≠ 0 then ProcessPendingLoop env n q else q

/-- This function processes the events pending on a state machine. -/
def ProcessPending (env : Env) (s : XHdcp1x_Tx) : XHdcp1x_Tx :=
  if s.PendingEvents ≠ 0 then
    let Pending := s.PendingEvents % 2 ^ 16
    let s1 := setPendingEvents s 0
    (ProcessPendingLoop env 15 { Tx := s1, Pending := Pending, Event := 0 }).Tx
  else s

/-! ## Public interface -/

/-- The instance after `memset(InstancePtr, 0, sizeof(XHdcp1x_Tx))`, with empty ghost
fields. -/
def ZeroInstance : XHdcp1x_Tx :=
  { CurrentState := STATE_DISABLED
    PreviousState := STATE_DISABLED
    StateHelper := 0
    Flags := 0
    PendingEvents := 0
    EncryptionMap := 0
    Stats := ⟨0, 0, 0, 0, 0, 0⟩
    Calls := []
    Path := [] }

/-- This function initializes an hdcp interface. -/
def XHdcp1x_TxCfgInitialize (env : Env) : XHdcp1x_Tx × Int :=
  let s0 := ZeroInstance
  let Status := env.PortCfgInitialize s0.Calls
  let s1 := issue s0 Call.PortCfgInitialize
  if Status = XST_SUCCESS then
    let Status1 := env.CipherCfgInitialize s1.Calls
    let s2 := issue s1 Call.CipherCfgInitialize
    if Status1 = XST_SUCCESS then (Init env s2, Status1) else (s2, Status1)
  else (s1, Status)

/-- This function polls an hdcp interface. -/
def XHdcp1x_TxPoll (env : Env) (s : XHdcp1x_Tx) : XHdcp1x_Tx × Int :=
  let s1 := ProcessPending env s
  (DoTheState env s1 EVENT_POLL, XST_SUCCESS)

/-- This function resets an hdcp interface. -/
def XHdcp1x_TxReset (s : XHdcp1x_Tx) : XHdcp1x_Tx × Int :=
  (PostEvent (PostEvent s EVENT_DISABLE) EVENT_ENABLE, XST_SUCCESS)

/-- This function enables an hdcp interface. -/
def XHdcp1x_TxEnable (s : XHdcp1x_Tx) : XHdcp1x_Tx × Int :=
  (PostEvent s EVENT_ENABLE, XST_SUCCESS)

/-- This function disables an hdcp interface. -/
def XHdcp1x_TxDisable (s : XHdcp1x_Tx) : XHdcp1x_Tx × Int :=
  (PostEvent s EVENT_DISABLE, XST_SUCCESS)

/-- This function updates the physical state of an hdcp interface. -/
def XHdcp1x_TxSetPhysicalState (s : XHdcp1x_Tx) (IsUp : Bool) : XHdcp1x_Tx × Int :=
  let Event := if IsUp then EVENT_PHYUP else EVENT_PHYDOWN
  (PostEvent s Event, XST_SUCCESS)

/-- This function set the lane count of an hdcp interface.  The result is `none` when
the assertion `LaneCount > 0` fails. -/
def XHdcp1x_TxSetLaneCount (env : Env) (s : XHdcp1x_Tx) (LaneCount : Int) :
    Option (XHdcp1x_Tx × Int) :=
  if LaneCount > 0 then
    some (issue s (Call.CipherSetNumLanes (LaneCount.toNat % 2 ^ 32)),
      env.CipherSetNumLanes s.Calls (LaneCount.toNat % 2 ^ 32))
  else none

/-- This function initiates authentication on an interface. -/
def XHdcp1x_TxAuthenticate (s : XHdcp1x_Tx) : XHdcp1x_Tx × Int :=
  (PostEvent s EVENT_AUTHENTICATE, XST_SUCCESS)

/-- This function queries an interface to check if authentication is still in
progress. -/
def XHdcp1x_TxIsInProgress (s : XHdcp1x_Tx) : Bool :=
  match s.CurrentState with
  | STATE_DISABLED => false
  | STATE_UNAUTHENTICATED => false
  | STATE_AUTHENTICATED => false
  | STATE_LINKINTEGRITYCHECK => false
  | _ => true

/-- This function queries an interface to check if its been authenticated. -/
def XHdcp1x_TxIsAuthenticated (s : XHdcp1x_Tx) : Bool :=
  IsAuthenticated s

/-- This function retrieves the current encryption stream map. -/
def XHdcp1x_TxGetEncryption (s : XHdcp1x_Tx) : Nat :=
  s.EncryptionMap

/-- This function enables encryption on set of streams on a hdcp interface. -/
def XHdcp1x_TxEnableEncryption (env : Env) (s : XHdcp1x_Tx) (StreamMap : Nat) :
    XHdcp1x_Tx × Int :=
  let s1 := setEncryptionMap s ((s.EncryptionMap ||| (StreamMap % 2 ^ 64)) % 2 ^ 64)
  if IsAuthenticated s1 then (EnableEncryption env s1, XST_SUCCESS) else (s1, XST_SUCCESS)

/-- This function disables encryption on set of streams on a hdcp interface. -/
def XHdcp1x_TxDisableEncryption (env : Env) (s : XHdcp1x_Tx) (StreamMap : Nat) :
    XHdcp1x_Tx × Int :=
  let Map := StreamMap % 2 ^ 64
  let Status := env.CipherDisableEncryption s.Calls Map
  let s1 := issue s (Call.CipherDisableEncryption Map)
  if Status = XST_SUCCESS then
    (setEncryptionMap s1 ((s1.EncryptionMap &&& ((2 ^ 64 - 1) ^^^ Map)) % 2 ^ 64), Status)
  else (s1, Status)

/-- This function handles a timeout on an hdcp interface. -/
def XHdcp1x_TxHandleTimeout (s : XHdcp1x_Tx) : XHdcp1x_Tx :=
  PostEvent s EVENT_TIMEOUT

/-! ## Definitions used to state the properties -/

/-- Number of one bits among the 64 low bits of a value. -/
def popcount (v : Nat) : Nat :=
  ((List.range 64).filter (fun i => v.testBit i)).length

/-! ## Sample collaborators -/

/-- Answer of the sample port to a read: the BKSV register holds `0x00000FFFFF`, the
Ro register `0xBEEF`; every other register reads as zero bytes. -/
def samplePortRead (_h : List Call) (Offset BufSize : Nat) : Int × List Nat :=
  if Offset = 0x00 then (BufSize, [0xFF, 0xFF, 0x0F, 0x00, 0x00])
  else if Offset = 0x08 then (BufSize, [0xEF, 0xBE])
  else (BufSize, List.replicate BufSize 0)

/-- A sample set of collaborators (HDMI register offsets): the receiver is capable, is
not a repeater and has BKSV `0x00000FFFFF`, which is not revoked; the cipher completes
every request at once, its random number is `0x0123456789ABCDEF` and its Ro and Ri are
`0xBEEF`; no stream is encrypted; every byte of an uninitialised buffer holds `0xA5`. -/
def sampleEnv : Env where
  IsHDMI := true
  XHDCP1X_PORT_OFFSET_BKSV := 0x00
  XHDCP1X_PORT_OFFSET_RO := 0x08
  XHDCP1X_PORT_OFFSET_AKSV := 0x10
  XHDCP1X_PORT_OFFSET_AN := 0x18
  XHDCP1X_PORT_OFFSET_AINFO := 0x15
  XHDCP1X_PORT_OFFSET_KSVFIFO := 0x43
  XHDCP1X_PORT_OFFSET_VH0 := 0x20
  XHDCP1X_PORT_SIZE_KSVFIFO := 5
  size_ksvfifo_pos := by decide
  shaSuccess := 0
  SHA1Result := fun _ => (0, List.replicate 20 0)
  PortCfgInitialize := fun _ => 0
  PortRead := samplePortRead
  PortWrite := fun _ _ Data => Data.length
  PortIsCapable := fun _ => true
  PortIsRepeater := fun _ => false
  PortGetRepeaterInfo := fun _ => (0, 0)
  CipherCfgInitialize := fun _ => 0
  CipherGetEncryption := fun _ => 0
  CipherDisableEncryption := fun _ _ => 0
  CipherDoRequest := fun _ _ => 0
  CipherIsRequestComplete := fun _ => true
  CipherGetMi := fun _ => 0x0123456789ABCDEF
  CipherGetMo := fun _ => 0
  CipherGetRi := fun _ => 0xBEEF
  CipherGetRo := fun _ => 0xBEEF
  CipherGetLocalKsv := fun _ => 0x00000FFFFF
  CipherSetNumLanes := fun _ _ => 0
  PlatformIsKsvRevoked := fun _ _ => false
  StackByte := fun _ _ => 0xA5
  CipherPending := fun _ => 0
  pending_dec := by intro h hf; simp at hf

/-- The sample collaborators with a cipher whose random number generator yields
zero. -/
def sampleEnvZeroMi : Env :=
  { sampleEnv with CipherGetMi := fun _ => 0 }

/-- The sample collaborators with a cipher that refuses every request. -/
def sampleEnvNoRequest : Env :=
  { sampleEnv with CipherDoRequest := fun _ _ => 1 }

/-- An instance in the given state with the given flags and pending events, all other
fields zero. -/
def sampleTx (State : tState) (Flags PendingEvents : Nat) : XHdcp1x_Tx :=
  { ZeroInstance with CurrentState := State, Flags := Flags, PendingEvents := PendingEvents }

/-- The fields of an instance that only the dispatcher, `PostEvent` and the entry
action of Disabled change: the state pair, the ghost path, the pending events and
the encryption map. -/
def XHdcp1x_Tx.core (s : XHdcp1x_Tx) : tState × tState × List tState × Nat × Nat :=
  (s.CurrentState, s.PreviousState, s.Path, s.PendingEvents, s.EncryptionMap)

/-- Length of the longest chain of entry actions that starts with the entry action of
a state: the entry actions of DetermineRxCapable, ExchangeKsvs, ReadKsvList and
LinkIntegrityCheck choose a next state, all others keep the state entered. -/
def chainRank : tState → Nat
  | STATE_LINKINTEGRITYCHECK => 3
  | STATE_DETERMINERXCAPABLE => 2
  | STATE_EXCHANGEKSVS => 1
  | STATE_READKSVLIST => 1
  | _ => 0

/-- The guard of the loop of `DoTheState` is closed: the current state is the next
state. -/
def LoopClosed (p : XHdcp1x_Tx × tState) : Prop :=
  p.1.CurrentState = p.2

/-- The states in which the state machine never rests: their entry actions always
choose another state. -/
def Passing (st : tState) : Prop :=
  st = STATE_DETERMINERXCAPABLE ∨ st = STATE_EXCHANGEKSVS ∨ st = STATE_READKSVLIST

/-- The sample collaborators with a cipher whose Ri has drifted away from the Ri' of
the receiver. -/
def sampleEnvRiDrift : Env :=
  { sampleEnv with CipherGetRi := fun _ => 0xBEEE }

/-- The event alphabet of the spec in ascending ordinal order: Authenticate, Check,
Disable, Enable, LinkDown, PhyDown, PhyUp, Poll, Timeout. -/
def DrainOrder : List tEvent :=
  [EVENT_AUTHENTICATE, EVENT_CHECK, EVENT_DISABLE, EVENT_ENABLE, EVENT_LINKDOWN,
    EVENT_PHYDOWN, EVENT_PHYUP, EVENT_POLL, EVENT_TIMEOUT]

/-- The events to which a poll applies `DoTheState`, in the words of the spec: the
events of the pending set in ascending ordinal order, then Poll. -/
def PolledEvents (s : XHdcp1x_Tx) : List tEvent :=
  DrainOrder.filter (fun e => s.PendingEvents.testBit e.toNat) ++ [EVENT_POLL]

/-- The poll in the words of the spec: clear the pending set, apply `DoTheState` once
for each event of the former pending set in ascending ordinal order, then apply
`DoTheState` to Poll. -/
def PollBySpec (env : Env) (s : XHdcp1x_Tx) : XHdcp1x_Tx :=
  (PolledEvents s).foldl (DoTheState env) (setPendingEvents s 0)

/-- The steps of applying `DoTheState` to a list of events in turn: each event paired
with the instance it is applied to. -/
def StepsFrom (env : Env) : XHdcp1x_Tx → List tEvent → List (XHdcp1x_Tx × tEvent)
  | _, [] => []
  | t, e :: es => (t, e) :: StepsFrom env (DoTheState env t e) es

/-- The handler that posts an event: in PhyDown, a PhyUp event posts Authenticate when
the encryption map is not zero.  No other handler posts. -/
def HandlerPosts (s : XHdcp1x_Tx) (e : tEvent) : Prop :=
  s.CurrentState = STATE_PHYDOWN ∧ e = EVENT_PHYUP ∧ s.EncryptionMap ≠ 0

instance (s : XHdcp1x_Tx) (e : tEvent) : Decidable (HandlerPosts s e) := by
  unfold HandlerPosts
  infer_instance

/-- The sample collaborators with a port whose repeater info cannot be read. -/
def sampleEnvNoRepeaterInfo : Env :=
  { sampleEnv with PortGetRepeaterInfo := fun _ => (1, 0) }

/-- The sample collaborators with a port that is a repeater and reports the given
repeater info. -/
def sampleEnvRepeater (RepeaterInfo : Nat) : Env :=
  { sampleEnv with
    PortIsRepeater := fun _ => true
    PortGetRepeaterInfo := fun _ => (0, RepeaterInfo) }

/-- The sample collaborators with a platform that reports every KSV revoked. -/
def sampleEnvRevoked : Env :=
  { sampleEnv with PlatformIsKsvRevoked := fun _ _ => true }

/-- One attempt of `ValidateRx` or `CheckLinkIntegrity` to read the 16 bit value of
the receiver, seen from outside: from the history of calls and the two byte buffer
before the attempt to those after it.  The port is read, and after a successful read
the cipher is asked for its value with the call `Get`. -/
def AttemptNext (env : Env) (Get : Call) (a : List Call × List Nat) :
    List Call × List Nat :=
  (a.1 ++ [Call.PortRead env.XHDCP1X_PORT_OFFSET_RO 2]
      ++ (if (env.PortRead a.1 env.XHDCP1X_PORT_OFFSET_RO 2).1 > 0 then [Get] else []),
    PortReadInto a.2 (env.PortRead a.1 env.XHDCP1X_PORT_OFFSET_RO 2).2 2)

/-- The attempt made with the given history and buffer reads the port successfully and
the value read equals the value `Local` of the cipher. -/
def AttemptMatches (env : Env) (Local : List Call → Nat) (a : List Call × List Nat) : Prop :=
  (env.PortRead a.1 env.XHDCP1X_PORT_OFFSET_RO 2).1 > 0
  ∧ Local (a.1 ++ [Call.PortRead env.XHDCP1X_PORT_OFFSET_RO 2]) % 2 ^ 16
      = XHDCP1X_PORT_BUF_TO_UINT
          (PortReadInto a.2 (env.PortRead a.1 env.XHDCP1X_PORT_OFFSET_RO 2).2 2) 16 % 2 ^ 16

/-- The attempt made with the given history and buffer reads the port successfully and
the value read differs from the value `Local` of the cipher. -/
def AttemptMismatches (env : Env) (Local : List Call → Nat) (a : List Call × List Nat) :
    Prop :=
  (env.PortRead a.1 env.XHDCP1X_PORT_OFFSET_RO 2).1 > 0
  ∧ Local (a.1 ++ [Call.PortRead env.XHDCP1X_PORT_OFFSET_RO 2]) % 2 ^ 16
      ≠ XHDCP1X_PORT_BUF_TO_UINT
          (PortReadInto a.2 (env.PortRead a.1 env.XHDCP1X_PORT_OFFSET_RO 2).2 2) 16 % 2 ^ 16

/-- Number of reads of the port in a history of calls. -/
def readCount (l : List Call) : Nat :=
  l.countP (fun c => match c with
    | Call.PortRead _ _ => true
    | _ => false)

/-- History of calls and buffer with which attempt number `k + 1` of `ValidateRx` or
`CheckLinkIntegrity` starts, when the function is called on the instance `s`: the
buffer starts with the indeterminate bytes of the uninitialised array, and every
earlier attempt has left its calls and its bytes. -/
def AttemptAt (env : Env) (Get : Call) (s : XHdcp1x_Tx) (k : Nat) : List Call × List Nat :=
  (AttemptNext env Get)^[k] (s.Calls, UninitBuf env s.Calls 2)

/-- The sample collaborators with a receiver whose Ro' is `0xBEEE` at every read, while
the Ro of the cipher is `0xBEEF`. -/
def sampleEnvRoMismatch : Env :=
  { sampleEnv with
    PortRead := fun _ Offset BufSize =>
      if Offset = 0x08 then (BufSize, [0xEE, 0xBE]) else (BufSize, List.replicate BufSize 0) }

/-- The sample collaborators with a receiver whose Ro' register delivers the single
byte `0xEF` at every read, which the port reports as a success, while the Ro and the Ri
of the cipher are `0x00EF`.  The second byte of the uninitialised buffer holds `0xA5`,
as in the sample collaborators, so the value compared is `0xA5EF`. -/
def sampleEnvShortRo : Env :=
  { sampleEnv with
    PortRead := fun _ Offset BufSize =>
      if Offset = 0x08 then (1, [0xEF]) else (BufSize, List.replicate BufSize 0)
    CipherGetRo := fun _ => 0x00EF
    CipherGetRi := fun _ => 0x00EF }

/-- The collaborators `sampleEnvShortRo` when the uninitialised buffer happens to hold
zero bytes, so the value compared is `0x00EF`. -/
def sampleEnvShortRoZero : Env :=
  { sampleEnvShortRo with StackByte := fun _ _ => 0 }

/-- The counters of passed authentications and of passed and failed link checks. -/
def XHdcp1x_Tx.linkStats (s : XHdcp1x_Tx) : Nat × Nat × Nat :=
  (s.Stats.AuthPassed, s.Stats.LinkCheckPassed, s.Stats.LinkCheckFailed)

/-- Number of calls in a history that set the Ri update callback of the cipher or switch
the Ri update on or off. -/
def armCount (l : List Call) : Nat :=
  l.countP (fun c => match c with
    | Call.CipherSetCallback => true
    | Call.CipherSetRiUpdate _ => true
    | _ => false)

/-- The state of `ValidateKsvList` when its loop that reads the ksv list has ended. -/
def KsvListRead (env : Env) (s : XHdcp1x_Tx) (RepeaterInfo : Nat) : KsvListState :=
  ReadKsvChunks env ((RepeaterInfo &&& 0x7F) * 5)
    { Tx := s, Buf := List.replicate 24 0, Sha1Context := [],
      NumToRead := (RepeaterInfo &&& 0x7F) * 5, IsValid := true }

/-- The value of Mo that `ValidateKsvList` gets from the cipher. -/
def KsvListMo (env : Env) (s : XHdcp1x_Tx) (RepeaterInfo : Nat) : Nat :=
  env.CipherGetMo (KsvListRead env s RepeaterInfo).Tx.Calls % 2 ^ 64

/-- The buffer of `ValidateKsvList` after the repeater information and Mo have been
put in it. -/
def KsvListMoBuf (env : Env) (s : XHdcp1x_Tx) (RepeaterInfo : Nat) : List Nat :=
  XHDCP1X_PORT_UINT_TO_BUF
    (((KsvListRead env s RepeaterInfo).Buf.set 0 ((RepeaterInfo &&& 0xFF) % 2 ^ 8)).set 1
      (((RepeaterInfo >>> 8) &&& 0xFF) % 2 ^ 8))
    (KsvListMo env s RepeaterInfo) 64

/-- The bytes that `ValidateKsvList` has put into the SHA-1 transform when it finalises
the digest: those of the ksv list, of the repeater information and of Mo. -/
def Sha1Fed (env : Env) (s : XHdcp1x_Tx) (RepeaterInfo : Nat) : List Nat :=
  (KsvListRead env s RepeaterInfo).Sha1Context
    ++ (((KsvListRead env s RepeaterInfo).Buf.set 0 ((RepeaterInfo &&& 0xFF) % 2 ^ 8)).set 1
        (((RepeaterInfo >>> 8) &&& 0xFF) % 2 ^ 8)).take 2
    ++ (KsvListMoBuf env s RepeaterInfo).take 8

/-- The digest that `ValidateKsvList` compares with the value of the far end. -/
def KsvListDigest (env : Env) (s : XHdcp1x_Tx) (RepeaterInfo : Nat) : List Nat :=
  (env.SHA1Result (Sha1Fed env s RepeaterInfo)).2

/-- The state of the loop over the SHA-1 chunks of `ValidateKsvList` after `k` passes. -/
def VhAfter (env : Env) (s : XHdcp1x_Tx) (RepeaterInfo : Nat) (k : Nat) : VCheckState :=
  (CheckShaChunk env (KsvListDigest env s RepeaterInfo))^[k]
    { Tx := issue (KsvListRead env s RepeaterInfo).Tx Call.CipherGetMo,
      Buf := KsvListMoBuf env s RepeaterInfo, Index := 0,
      Offset := env.XHDCP1X_PORT_OFFSET_VH0 % 2 ^ 8,
      IsValid := true }

/-- Sample collaborators for the validation of a ksv list: every read of the port
succeeds, the digest has the bytes 1 to 20, and the registers VH0 to VH4 (offsets
`0x20` to `0x33`) hold the bytes of the digest, each word either in the order of the
digest (high byte first) or in reverse order (low byte first). -/
def sampleEnvVh (LowByteFirst : Bool) : Env :=
  { sampleEnv with
    SHA1Result := fun _ =>
      (0, [1, 2, 3, 4, 5, 6, 7, 8, 9, 10, 11, 12, 13, 14, 15, 16, 17, 18, 19, 20])
    PortRead := fun _ Offset BufSize =>
      if 0x20 ≤ Offset ∧ Offset < 0x34 then
        (4, if LowByteFirst then
              [Offset - 0x20 + 4, Offset - 0x20 + 3, Offset - 0x20 + 2, Offset - 0x20 + 1]
            else
              [Offset - 0x20 + 1, Offset - 0x20 + 2, Offset - 0x20 + 3, Offset - 0x20 + 4])
      else (1, List.replicate BufSize 0) }

/-- The bytes of the ksv list in the order in which they are read from the KSV FIFO:
while bytes are left, the next chunk of at most `XHDCP1X_PORT_SIZE_KSVFIFO` bytes is
read into the buffer, and its bytes come next.  The first argument bounds the number
of chunks. -/
def KsvFifoBytes (env : Env) : Nat → List Call → List Nat → Nat → List Nat
  | 0, _, _, _ => []
  | fuel + 1, h, Buf, NumToRead =>
    if NumToRead = 0 then []
    else
      let n := min env.XHDCP1X_PORT_SIZE_KSVFIFO NumToRead
      let Buf1 := PortReadInto Buf (env.PortRead h env.XHDCP1X_PORT_OFFSET_KSVFIFO n).2 n
      Buf1.take n
        ++ KsvFifoBytes env fuel (h ++ [Call.PortRead env.XHDCP1X_PORT_OFFSET_KSVFIFO n])
            Buf1 (NumToRead - n)

/-- The byte string of the spec over which the digest of the ksv list is computed: the
bytes of the ksv list, the low and the high byte of the repeater information, and Mo
as 8 bytes, most significant byte first. -/
def Sha1FedBySpec (env : Env) (s : XHdcp1x_Tx) (RepeaterInfo : Nat) : List Nat :=
  KsvFifoBytes env ((RepeaterInfo &&& 0x7F) * 5 + 1) s.Calls (List.replicate 24 0)
      ((RepeaterInfo &&& 0x7F) * 5)
    ++ [RepeaterInfo &&& 0xFF, (RepeaterInfo >>> 8) &&& 0xFF]
    ++ (List.range 8).map (fun i => KsvListMo env s RepeaterInfo / 256 ^ (7 - i) % 256)

/-- The sample collaborators with a port whose every read succeeds and yields zero
bytes, a cipher whose Mo is `0x0102030405060708`, and a SHA-1 stand-in whose digest is
made of the first 20 bytes put in, so that it tells byte strings of up to 20 bytes
apart. -/
def sampleEnvMo : Env :=
  { sampleEnv with
    PortRead := fun _ _ BufSize => (1, List.replicate BufSize 0)
    CipherGetMo := fun _ => 0x0102030405060708
    SHA1Result := fun l => (0, (l ++ List.replicate 20 0).take 20) }

/-- The sample collaborators (whose digest is all zero bytes) with a port whose read of
VH0 (offset `0x20`) fails, while every other read succeeds and yields zero bytes. -/
def sampleEnvVh0Fails : Env :=
  { sampleEnv with
    PortRead := fun _ Offset BufSize =>
      if Offset = 0x20 then (0, []) else (1, List.replicate BufSize 0) }

/-- An instance in the given state with the PhyUp flag set and the given encryption map,
all other fields zero. -/
def sampleTxMap (State : tState) (EncryptionMap : Nat) : XHdcp1x_Tx :=
  { ZeroInstance with CurrentState := State, Flags := 1, EncryptionMap := EncryptionMap }

/-- The requests that the invariants of the state machine keep track of: enabling and
disabling of the port and of the cipher, requests to enable encryption, and starting
and stopping of the timer. -/
def Call.watched : Call → Bool
  | Call.PortEnable => true
  | Call.PortDisable => true
  | Call.CipherEnable => true
  | Call.CipherDisable => true
  | Call.CipherEnableEncryption _ => true
  | Call.PlatformTimerStart _ => true
  | Call.PlatformTimerStop => true
  | _ => false

/-- The PhyUp flag in a value of the field `Flags`. -/
def phyBit (Flags : Nat) : Bool := Flags.testBit 0

/-- The PhyUp flag of an instance and the watched requests it has issued, oldest
first. -/
def XHdcp1x_Tx.view (s : XHdcp1x_Tx) : Bool × List Call :=
  (phyBit s.Flags, s.Calls.filter Call.watched)

/-- The watched requests that `EnableEncryption` issues on an instance with the given
history of calls and encryption map: a request to encrypt the map, when the map is not
zero and differs from the stream map that the cipher reports. -/
def EncLog (env : Env) (h : List Call) (Map : Nat) : List Call :=
  if Map ≠ 0 ∧ env.CipherGetEncryption h % 2 ^ 64 ≠ Map then
    [Call.CipherEnableEncryption Map]
  else []

/-- The watched requests of the handler of the current state for an event: only the
handler of TestForRepeater issues one, the request of `EnableEncryption`, on a poll
that finds a repeater. -/
def HandlerLog (env : Env) (s : XHdcp1x_Tx) (e : tEvent) : List Call :=
  if s.CurrentState = STATE_TESTFORREPEATER ∧ e = EVENT_POLL
      ∧ env.PortIsRepeater s.Calls = true then
    EncLog env
      (s.Calls ++ [Call.PortIsRepeater,
        Call.PortWrite env.XHDCP1X_PORT_OFFSET_AINFO
          (List.replicate XHDCP1X_PORT_SIZE_AINFO 0)])
      s.EncryptionMap
  else []

/-- The watched requests of the exit action of a state. -/
def ExitLog : tState → List Call
  | STATE_DISABLED => [Call.CipherEnable, Call.PortEnable]
  | STATE_VALIDATERX => [Call.PlatformTimerStop]
  | STATE_WAITFORREADY => [Call.PlatformTimerStop]
  | STATE_PHYDOWN => [Call.CipherEnable]
  | _ => []

/-- The watched requests of the entry action of a state, run on the given instance. -/
def EntryLog (env : Env) (s : XHdcp1x_Tx) : tState → List Call
  | STATE_DISABLED => [Call.PortDisable, Call.CipherDisable, Call.PlatformTimerStop]
  | STATE_VALIDATERX => [Call.PlatformTimerStart 100]
  | STATE_WAITFORREADY => [Call.PlatformTimerStart 5000]
  | STATE_AUTHENTICATED => EncLog env s.Calls s.EncryptionMap
  | STATE_PHYDOWN => [Call.CipherDisable]
  | _ => []

/-- The PhyUp flag after the entry action of a state, from the flag before it. -/
def EntryPhy : tState → Bool → Bool
  | STATE_DETERMINERXCAPABLE, _ => true
  | STATE_UNAUTHENTICATED, _ => true
  | STATE_PHYDOWN, _ => false
  | _, b => b

/-- The PhyUp flag after the handler of the current state has run for an event: only
the handler of Disabled changes it, on PhyDown and PhyUp. -/
def HandlerPhy (s : XHdcp1x_Tx) (e : tEvent) : Bool :=
  if s.CurrentState = STATE_DISABLED ∧ e = EVENT_PHYDOWN then false
  else if s.CurrentState = STATE_DISABLED ∧ e = EVENT_PHYUP then true
  else phyBit s.Flags

/-- Whether the cipher is held enabled, after one more request: `CipherEnable` enables
it, `CipherDisable` disables it. -/
def cipherStep (b : Option Bool) : Call → Option Bool
  | Call.CipherEnable => some true
  | Call.CipherDisable => some false
  | _ => b

/-- Whether the port is held enabled, after one more request. -/
def portStep (b : Option Bool) : Call → Option Bool
  | Call.PortEnable => some true
  | Call.PortDisable => some false
  | _ => b

/-- Whether encryption has been requested from the cipher since the cipher was last
disabled, after one more request. -/
def encryptionStep (b : Bool) : Call → Bool
  | Call.CipherEnableEncryption _ => true
  | Call.CipherDisable => false
  | _ => b

/-- The most recent enable (`some true`) or disable (`some false`) request issued to the
cipher in a history of calls; `none` when there is no such request. -/
def cipherHeld (l : List Call) : Option Bool := l.foldl cipherStep none

/-- The most recent enable or disable request issued to the port in a history of
calls. -/
def portHeld (l : List Call) : Option Bool := l.foldl portStep none

/-- Whether in a history of calls a request to enable encryption has been issued to the
cipher that no later request to disable the cipher has followed. -/
def encryptionRequested (l : List Call) : Bool := l.foldl encryptionStep false

/-- What the invariant of the reachable states says in a given state about the PhyUp
flag and the watched requests: in Disabled the cipher and the port are held disabled;
in PhyDown the flag is clear, the cipher is held disabled and the port enabled; in
both no encryption is requested; in every other state the flag is set and the cipher
and the port are held enabled. -/
def Held (st : tState) (v : Bool × List Call) : Prop :=
  match st with
  | STATE_DISABLED =>
    cipherHeld v.2 = some false ∧ portHeld v.2 = some false ∧ encryptionRequested v.2 = false
  | STATE_PHYDOWN =>
    v.1 = false ∧ cipherHeld v.2 = some false ∧ portHeld v.2 = some true
      ∧ encryptionRequested v.2 = false
  | _ => v.1 = true ∧ cipherHeld v.2 = some true ∧ portHeld v.2 = some true

/-- The next states that the handlers of Disabled and PhyDown can ask for. -/
def Legal (st nx : tState) : Prop :=
  (st = STATE_DISABLED ∨ st = STATE_PHYDOWN) →
    (nx = STATE_DISABLED ∨ nx = STATE_PHYDOWN ∨ nx = STATE_UNAUTHENTICATED)

/-- A call of the public interface or of one of the two callbacks, with its
arguments. -/
inductive TxOp
  | Poll
  | Reset
  | Enable
  | Disable
  | SetPhysicalState (IsUp : Bool)
  | SetLaneCount (LaneCount : Int)
  | Authenticate
  | EnableEncryption (StreamMap : Nat)
  | DisableEncryption (StreamMap : Nat)
  | HandleTimeout
  | ReauthenticateCallback
  | CheckLinkCallback
  deriving DecidableEq, Repr

/-- The instance after a call of the public interface or of a callback.  A call of
`XHdcp1x_TxSetLaneCount` whose assertion fails leaves the instance as it is. -/
def TxOp.apply (env : Env) (s : XHdcp1x_Tx) : TxOp → XHdcp1x_Tx
  | TxOp.Poll => (XHdcp1x_TxPoll env s).1
  | TxOp.Reset => (XHdcp1x_TxReset s).1
  | TxOp.Enable => (XHdcp1x_TxEnable s).1
  | TxOp.Disable => (XHdcp1x_TxDisable s).1
  | TxOp.SetPhysicalState IsUp => (XHdcp1x_TxSetPhysicalState s IsUp).1
  | TxOp.SetLaneCount LaneCount =>
    match XHdcp1x_TxSetLaneCount env s LaneCount with
    | some r => r.1
    | none => s
  | TxOp.Authenticate => (XHdcp1x_TxAuthenticate s).1
  | TxOp.EnableEncryption StreamMap => (XHdcp1x_TxEnableEncryption env s StreamMap).1
  | TxOp.DisableEncryption StreamMap => (XHdcp1x_TxDisableEncryption env s StreamMap).1
  | TxOp.HandleTimeout => XHdcp1x_TxHandleTimeout s
  | TxOp.ReauthenticateCallback => XHdcp1x.ReauthenticateCallback s
  | TxOp.CheckLinkCallback => XHdcp1x.CheckLinkCallback s

/-- The instance reached from initialisation by a sequence of calls of the public
interface and of the callbacks: the states of the instance between the calls. -/
def Run (env : Env) (ops : List TxOp) : XHdcp1x_Tx :=
  ops.foldl (TxOp.apply env) (XHdcp1x_TxCfgInitialize env).1

/-- The timeouts of the requests to start the platform timer in a history of calls, in
the order of the requests. -/
def timerStarts (l : List Call) : List Nat :=
  l.filterMap (fun c => match c with
    | Call.PlatformTimerStart t => some t
    | _ => none)

/-- The timeout, in milliseconds, with which the entry action of a state starts the
platform timer, if it starts it. -/
def EntryTimeout : tState → Option Nat
  | STATE_VALIDATERX => some 100
  | STATE_WAITFORREADY => some 5000
  | _ => none

/-- The instance `t` comes from the instance `s` by transitions whose entry actions
issued all the requests to start the timer made in between: the ghost path grew by the
states entered, and the timer was started once for each ValidateRx and WaitForReady
among them, with the timeout of that state. -/
def TimerFollows (s t : XHdcp1x_Tx) : Prop :=
  ∃ chain : List tState, t.Path = s.Path ++ chain
    ∧ timerStarts t.Calls = timerStarts s.Calls ++ chain.filterMap EntryTimeout


/-- The sample collaborators with a cipher that reports stream 0 as encrypted. -/
def sampleEnvEncrypting : Env :=
  { sampleEnv with CipherGetEncryption := fun _ => 1 }

/-- The stream maps of the requests to enable encryption issued to the cipher in a
history of calls, in the order of the requests. -/
def encRequests (l : List Call) : List Nat :=
  l.filterMap (fun c => match c with
    | Call.CipherEnableEncryption m => some m
    | _ => none)

/-- The instance `t` comes from the instance `s` by steps that keep the encryption map
or clear it, and every request to enable encryption issued in between was for the
encryption map of `s`, which is then not zero. -/
def EncFollows (s t : XHdcp1x_Tx) : Prop :=
  (t.EncryptionMap = s.EncryptionMap ∨ t.EncryptionMap = 0)
    ∧ ∃ R : List Nat, encRequests t.Calls = encRequests s.Calls ++ R
        ∧ ∀ m ∈ R, m = s.EncryptionMap ∧ m ≠ 0

/-- The sample collaborators with a port whose every write fails: it returns the count
`-1`. -/
def sampleEnvWriteFails : Env :=
  { sampleEnv with PortWrite := fun _ _ _ => -1 }

/-- The sample collaborators with a port whose every read fails: it returns the count
`0` and stores nothing. -/
def sampleEnvReadFails : Env :=
  { sampleEnv with PortRead := fun _ _ _ => (0, []) }

/-- The collaborators `env` with the answers `W` of the port to a write in place of
those of `env`. -/
def withPortWrite (env : Env) (W : List Call → Nat → List Nat → Int) : Env :=
  { env with PortWrite := W }


/-- The instance with which attempt number `k + 1` of `ReadKsvList` to validate the ksv
list starts, when every earlier attempt was made: each attempt works on the instance
the one before it has left. -/
def KsvAttemptAt (env : Env) (RepeaterInfo : Nat) (s : XHdcp1x_Tx) (k : Nat) : XHdcp1x_Tx :=
  (fun t => (ValidateKsvList env t RepeaterInfo).1)^[k] s

/-- Attempt number `k + 1` of `ReadKsvList` validates the ksv list. -/
def KsvAttemptValid (env : Env) (RepeaterInfo : Nat) (s : XHdcp1x_Tx) (k : Nat) : Bool :=
  (ValidateKsvList env (KsvAttemptAt env RepeaterInfo s k) RepeaterInfo).2

/-- An instance in the given state with the PhyUp flag set and the given state helper,
all other fields zero. -/
def sampleTxHelper (State : tState) (StateHelper : Nat) : XHdcp1x_Tx :=
  { ZeroInstance with CurrentState := State, Flags := 1, StateHelper := StateHelper }


/-- The little-endian encoding of a value in `n` bytes: byte 0 is the least significant
byte. -/
def LittleEndianBytes (v n : Nat) : List Nat :=
  (List.range n).map (fun i => v / 256 ^ i % 256)

/-- The instance on which `ExchangeKsvs`, called on the instance `s`, calls
`GenerateAn`, when the BKSV read from the port is the valid, not revoked `Ksv`: the
BKSV has been read, the platform has been asked whether it is revoked, and the port
whether the receiver is a repeater, which sets or clears the IsRepeater flag. -/
def ExchangeKsvsBeforeAn (env : Env) (s : XHdcp1x_Tx) (Ksv : Nat) : XHdcp1x_Tx :=
  let s2 := issue (issue s (Call.PortRead env.XHDCP1X_PORT_OFFSET_BKSV 5))
    (Call.PlatformIsKsvRevoked Ksv)
  let s3 := issue s2 Call.PortIsRepeater
  if env.PortIsRepeater s2.Calls then setFlags s3 (setBits16 s3.Flags FLAG_IS_REPEATER)
  else setFlags s3 (clearBits16 s3.Flags FLAG_IS_REPEATER)


/-- A repeater information word with which the state machine goes on to read the ksv
list: it fits 16 bits, neither the bit "maximum devices exceeded" (bit 7) nor the bit
"maximum cascade exceeded" (bit 11) is set, and the device count in its low 7 bits is
not zero. -/
def ReadyInfo (RepeaterInfo : Nat) : Prop :=
  RepeaterInfo < 2 ^ 16 ∧ RepeaterInfo &&& 0x0880 = 0 ∧ RepeaterInfo &&& 0x007F ≠ 0

/-- The state helper is as it should be at a point of the loop of state transitions
with current state `cur`, next state `nx` and state helper `h`.  When the loop has
ended, the state helper is not zero exactly in Computations.  When a transition is
due, the state helper that the exit action of `cur` leaves (the exit actions of
Computations and ReadKsvList clear it) is not zero exactly when Computations is about to
be entered; nothing is asked when ReadKsvList is about to be entered. -/
def HelperOk (cur nx : tState) (h : Nat) : Prop :=
  if cur = nx then (h ≠ 0 ↔ nx = STATE_COMPUTATIONS)
  else nx ≠ STATE_READKSVLIST →
    ((if cur = STATE_COMPUTATIONS ∨ cur = STATE_READKSVLIST then 0 else h) ≠ 0
      ↔ nx = STATE_COMPUTATIONS)

/-- The third attempt of `ValidateRx`, called on the instance `s`, is reached and reads
the port successfully a value that differs from the Ro of the cipher: neither the first
nor the second attempt has read a value equal to Ro, and the third reads one that
differs. -/
def ThirdAttemptMismatch (env : Env) (s : XHdcp1x_Tx) : Prop :=
  ¬ AttemptMatches env env.CipherGetRo (AttemptAt env Call.CipherGetRo s 0)
  ∧ ¬ AttemptMatches env env.CipherGetRo (AttemptAt env Call.CipherGetRo s 1)
  ∧ AttemptMismatches env env.CipherGetRo (AttemptAt env Call.CipherGetRo s 2)

/-- The sample collaborators with a receiver whose Ro' is `0xBEEE` at the first two
reads of the port, while the Ro of the cipher is `0xBEEF`, and whose every later read
fails. -/
def sampleEnvRoThirdFails : Env :=
  { sampleEnv with
    PortRead := fun h _ BufSize =>
      if readCount h < 2 then (BufSize, [0xEE, 0xBE]) else (0, []) }


/-- The reading of a ksv list of `NumToRead` bytes in the words of the spec: while bytes
are left, a chunk of at most `XHDCP1X_PORT_SIZE_KSVFIFO` bytes is requested from the KSV
FIFO, and the reading stops at the first read that fails.  The result is the list of
the sizes requested, in order, and whether every read succeeded.  The first argument
bounds the number of chunks. -/
def KsvReadsBySpec (env : Env) : Nat → List Call → Nat → List Nat × Bool
  | 0, _, _ => ([], true)
  | fuel + 1, h, NumToRead =>
    if NumToRead = 0 then ([], true)
    else
      let n := min env.XHDCP1X_PORT_SIZE_KSVFIFO NumToRead
      if (env.PortRead h env.XHDCP1X_PORT_OFFSET_KSVFIFO n).1 > 0 then
        let r := KsvReadsBySpec env fuel (h ++ [Call.PortRead env.XHDCP1X_PORT_OFFSET_KSVFIFO n])
          (NumToRead - n)
        (n :: r.1, r.2)
      else ([n], false)

/-- The state pair, the ghost path, the pending set and the counters of passed and of
failed authentications of an instance. -/
def XHdcp1x_Tx.progress (s : XHdcp1x_Tx) :
    tState × tState × List tState × Nat × Nat × Nat :=
  (s.CurrentState, s.PreviousState, s.Path, s.PendingEvents, s.Stats.AuthPassed,
    s.Stats.AuthFailed)

/-! # Theorems -/

/-! ## Projections of the elementary updates -/

@[simp] theorem issue_CurrentState (s : XHdcp1x_Tx) (c : Call) :
    (issue s c).CurrentState = s.CurrentState := rfl

@[simp] theorem issue_PreviousState (s : XHdcp1x_Tx) (c : Call) :
    (issue s c).PreviousState = s.PreviousState := rfl

@[simp] theorem issue_StateHelper (s : XHdcp1x_Tx) (c : Call) :
    (issue s c).StateHelper = s.StateHelper := rfl

@[simp] theorem issue_Flags (s : XHdcp1x_Tx) (c : Call) :
    (issue s c).Flags = s.Flags := rfl

@[simp] theorem issue_PendingEvents (s : XHdcp1x_Tx) (c : Call) :
    (issue s c).PendingEvents = s.PendingEvents := rfl

@[simp] theorem issue_EncryptionMap (s : XHdcp1x_Tx) (c : Call) :
    (issue s c).EncryptionMap = s.EncryptionMap := rfl

@[simp] theorem issue_Stats (s : XHdcp1x_Tx) (c : Call) :
    (issue s c).Stats = s.Stats := rfl

@[simp] theorem issue_Calls (s : XHdcp1x_Tx) (c : Call) :
    (issue s c).Calls = s.Calls ++ [c] := rfl

@[simp] theorem issue_Path (s : XHdcp1x_Tx) (c : Call) :
    (issue s c).Path = s.Path := rfl

@[simp] theorem setFlags_CurrentState (s : XHdcp1x_Tx) (v : Nat) :
    (setFlags s v).CurrentState = s.CurrentState := rfl

@[simp] theorem setFlags_PreviousState (s : XHdcp1x_Tx) (v : Nat) :
    (setFlags s v).PreviousState = s.PreviousState := rfl

@[simp] theorem setFlags_StateHelper (s : XHdcp1x_Tx) (v : Nat) :
    (setFlags s v).StateHelper = s.StateHelper := rfl

@[simp] theorem setFlags_Flags (s : XHdcp1x_Tx) (v : Nat) :
    (setFlags s v).Flags = v := rfl

@[simp] theorem setFlags_PendingEvents (s : XHdcp1x_Tx) (v : Nat) :
    (setFlags s v).PendingEvents = s.PendingEvents := rfl

@[simp] theorem setFlags_EncryptionMap (s : XHdcp1x_Tx) (v : Nat) :
    (setFlags s v).EncryptionMap = s.EncryptionMap := rfl

@[simp] theorem setFlags_Stats (s : XHdcp1x_Tx) (v : Nat) :
    (setFlags s v).Stats = s.Stats := rfl

@[simp] theorem setFlags_Calls (s : XHdcp1x_Tx) (v : Nat) :
    (setFlags s v).Calls = s.Calls := rfl

@[simp] theorem setFlags_Path (s : XHdcp1x_Tx) (v : Nat) :
    (setFlags s v).Path = s.Path := rfl

@[simp] theorem setStateHelper_CurrentState (s : XHdcp1x_Tx) (v : Nat) :
    (setStateHelper s v).CurrentState = s.CurrentState := rfl

@[simp] theorem setStateHelper_PreviousState (s : XHdcp1x_Tx) (v : Nat) :
    (setStateHelper s v).PreviousState = s.PreviousState := rfl

@[simp] theorem setStateHelper_StateHelper (s : XHdcp1x_Tx) (v : Nat) :
    (setStateHelper s v).StateHelper = v := rfl

@[simp] theorem setStateHelper_Flags (s : XHdcp1x_Tx) (v : Nat) :
    (setStateHelper s v).Flags = s.Flags := rfl

@[simp] theorem setStateHelper_PendingEvents (s : XHdcp1x_Tx) (v : Nat) :
    (setStateHelper s v).PendingEvents = s.PendingEvents := rfl

@[simp] theorem setStateHelper_EncryptionMap (s : XHdcp1x_Tx) (v : Nat) :
    (setStateHelper s v).EncryptionMap = s.EncryptionMap := rfl

@[simp] theorem setStateHelper_Stats (s : XHdcp1x_Tx) (v : Nat) :
    (setStateHelper s v).Stats = s.Stats := rfl

@[simp] theorem setStateHelper_Calls (s : XHdcp1x_Tx) (v : Nat) :
    (setStateHelper s v).Calls = s.Calls := rfl

@[simp] theorem setStateHelper_Path (s : XHdcp1x_Tx) (v : Nat) :
    (setStateHelper s v).Path = s.Path := rfl

@[simp] theorem setPendingEvents_CurrentState (s : XHdcp1x_Tx) (v : Nat) :
    (setPendingEvents s v).CurrentState = s.CurrentState := rfl

@[simp] theorem setPendingEvents_PreviousState (s : XHdcp1x_Tx) (v : Nat) :
    (setPendingEvents s v).PreviousState = s.PreviousState := rfl

@[simp] theorem setPendingEvents_StateHelper (s : XHdcp1x_Tx) (v : Nat) :
    (setPendingEvents s v).StateHelper = s.StateHelper := rfl

@[simp] theorem setPendingEvents_Flags (s : XHdcp1x_Tx) (v : Nat) :
    (setPendingEvents s v).Flags = s.Flags := rfl

@[simp] theorem setPendingEvents_PendingEvents (s : XHdcp1x_Tx) (v : Nat) :
    (setPendingEvents s v).PendingEvents = v := rfl

@[simp] theorem setPendingEvents_EncryptionMap (s : XHdcp1x_Tx) (v : Nat) :
    (setPendingEvents s v).EncryptionMap = s.EncryptionMap := rfl

@[simp] theorem setPendingEvents_Stats (s : XHdcp1x_Tx) (v : Nat) :
    (setPendingEvents s v).Stats = s.Stats := rfl

@[simp] theorem setPendingEvents_Calls (s : XHdcp1x_Tx) (v : Nat) :
    (setPendingEvents s v).Calls = s.Calls := rfl

@[simp] theorem setPendingEvents_Path (s : XHdcp1x_Tx) (v : Nat) :
    (setPendingEvents s v).Path = s.Path := rfl

@[simp] theorem setEncryptionMap_CurrentState (s : XHdcp1x_Tx) (v : Nat) :
    (setEncryptionMap s v).CurrentState = s.CurrentState := rfl

@[simp] theorem setEncryptionMap_PreviousState (s : XHdcp1x_Tx) (v : Nat) :
    (setEncryptionMap s v).PreviousState = s.PreviousState := rfl

@[simp] theorem setEncryptionMap_StateHelper (s : XHdcp1x_Tx) (v : Nat) :
    (setEncryptionMap s v).StateHelper = s.StateHelper := rfl

@[simp] theorem setEncryptionMap_Flags (s : XHdcp1x_Tx) (v : Nat) :
    (setEncryptionMap s v).Flags = s.Flags := rfl

@[simp] theorem setEncryptionMap_PendingEvents (s : XHdcp1x_Tx) (v : Nat) :
    (setEncryptionMap s v).PendingEvents = s.PendingEvents := rfl

@[simp] theorem setEncryptionMap_EncryptionMap (s : XHdcp1x_Tx) (v : Nat) :
    (setEncryptionMap s v).EncryptionMap = v := rfl

@[simp] theorem setEncryptionMap_Stats (s : XHdcp1x_Tx) (v : Nat) :
    (setEncryptionMap s v).Stats = s.Stats := rfl

@[simp] theorem setEncryptionMap_Calls (s : XHdcp1x_Tx) (v : Nat) :
    (setEncryptionMap s v).Calls = s.Calls := rfl

@[simp] theorem setEncryptionMap_Path (s : XHdcp1x_Tx) (v : Nat) :
    (setEncryptionMap s v).Path = s.Path := rfl

@[simp] theorem setStats_CurrentState (s : XHdcp1x_Tx) (v : XHdcp1x_TxStats) :
    (setStats s v).CurrentState = s.CurrentState := rfl

@[simp] theorem setStats_PreviousState (s : XHdcp1x_Tx) (v : XHdcp1x_TxStats) :
    (setStats s v).PreviousState = s.PreviousState := rfl

@[simp] theorem setStats_StateHelper (s : XHdcp1x_Tx) (v : XHdcp1x_TxStats) :
    (setStats s v).StateHelper = s.StateHelper := rfl

@[simp] theorem setStats_Flags (s : XHdcp1x_Tx) (v : XHdcp1x_TxStats) :
    (setStats s v).Flags = s.Flags := rfl

@[simp] theorem setStats_PendingEvents (s : XHdcp1x_Tx) (v : XHdcp1x_TxStats) :
    (setStats s v).PendingEvents = s.PendingEvents := rfl

@[simp] theorem setStats_EncryptionMap (s : XHdcp1x_Tx) (v : XHdcp1x_TxStats) :
    (setStats s v).EncryptionMap = s.EncryptionMap := rfl

@[simp] theorem setStats_Stats (s : XHdcp1x_Tx) (v : XHdcp1x_TxStats) :
    (setStats s v).Stats = v := rfl

@[simp] theorem setStats_Calls (s : XHdcp1x_Tx) (v : XHdcp1x_TxStats) :
    (setStats s v).Calls = s.Calls := rfl

@[simp] theorem setStats_Path (s : XHdcp1x_Tx) (v : XHdcp1x_TxStats) :
    (setStats s v).Path = s.Path := rfl

@[simp] theorem countAuthFailed_CurrentState (s : XHdcp1x_Tx) :
    (countAuthFailed s).CurrentState = s.CurrentState := rfl

@[simp] theorem countAuthFailed_PreviousState (s : XHdcp1x_Tx) :
    (countAuthFailed s).PreviousState = s.PreviousState := rfl

@[simp] theorem countAuthFailed_StateHelper (s : XHdcp1x_Tx) :
    (countAuthFailed s).StateHelper = s.StateHelper := rfl

@[simp] theorem countAuthFailed_Flags (s : XHdcp1x_Tx) :
    (countAuthFailed s).Flags = s.Flags := rfl

@[simp] theorem countAuthFailed_PendingEvents (s : XHdcp1x_Tx) :
    (countAuthFailed s).PendingEvents = s.PendingEvents := rfl

@[simp] theorem countAuthFailed_EncryptionMap (s : XHdcp1x_Tx) :
    (countAuthFailed s).EncryptionMap = s.EncryptionMap := rfl

@[simp] theorem countAuthFailed_Stats (s : XHdcp1x_Tx) :
    (countAuthFailed s).Stats = { s.Stats with AuthFailed := s.Stats.AuthFailed + 1 } := rfl

@[simp] theorem countAuthFailed_Calls (s : XHdcp1x_Tx) :
    (countAuthFailed s).Calls = s.Calls := rfl

@[simp] theorem countAuthFailed_Path (s : XHdcp1x_Tx) :
    (countAuthFailed s).Path = s.Path := rfl

@[simp] theorem countAuthPassed_CurrentState (s : XHdcp1x_Tx) :
    (countAuthPassed s).CurrentState = s.CurrentState := rfl

@[simp] theorem countAuthPassed_PreviousState (s : XHdcp1x_Tx) :
    (countAuthPassed s).PreviousState = s.PreviousState := rfl

@[simp] theorem countAuthPassed_StateHelper (s : XHdcp1x_Tx) :
    (countAuthPassed s).StateHelper = s.StateHelper := rfl

@[simp] theorem countAuthPassed_Flags (s : XHdcp1x_Tx) :
    (countAuthPassed s).Flags = s.Flags := rfl

@[simp] theorem countAuthPassed_PendingEvents (s : XHdcp1x_Tx) :
    (countAuthPassed s).PendingEvents = s.PendingEvents := rfl

@[simp] theorem countAuthPassed_EncryptionMap (s : XHdcp1x_Tx) :
    (countAuthPassed s).EncryptionMap = s.EncryptionMap := rfl

@[simp] theorem countAuthPassed_Stats (s : XHdcp1x_Tx) :
    (countAuthPassed s).Stats = { s.Stats with AuthPassed := s.Stats.AuthPassed + 1 } := rfl

@[simp] theorem countAuthPassed_Calls (s : XHdcp1x_Tx) :
    (countAuthPassed s).Calls = s.Calls := rfl

@[simp] theorem countAuthPassed_Path (s : XHdcp1x_Tx) :
    (countAuthPassed s).Path = s.Path := rfl

@[simp] theorem countReauthRequested_CurrentState (s : XHdcp1x_Tx) :
    (countReauthRequested s).CurrentState = s.CurrentState := rfl

@[simp] theorem countReauthRequested_PreviousState (s : XHdcp1x_Tx) :
    (countReauthRequested s).PreviousState = s.PreviousState := rfl

@[simp] theorem countReauthRequested_StateHelper (s : XHdcp1x_Tx) :
    (countReauthRequested s).StateHelper = s.StateHelper := rfl

@[simp] theorem countReauthRequested_Flags (s : XHdcp1x_Tx) :
    (countReauthRequested s).Flags = s.Flags := rfl

@[simp] theorem countReauthRequested_PendingEvents (s : XHdcp1x_Tx) :
    (countReauthRequested s).PendingEvents = s.PendingEvents := rfl

@[simp] theorem countReauthRequested_EncryptionMap (s : XHdcp1x_Tx) :
    (countReauthRequested s).EncryptionMap = s.EncryptionMap := rfl

@[simp] theorem countReauthRequested_Stats (s : XHdcp1x_Tx) :
    (countReauthRequested s).Stats = { s.Stats with ReauthRequested := s.Stats.ReauthRequested + 1 } := rfl

@[simp] theorem countReauthRequested_Calls (s : XHdcp1x_Tx) :
    (countReauthRequested s).Calls = s.Calls := rfl

@[simp] theorem countReauthRequested_Path (s : XHdcp1x_Tx) :
    (countReauthRequested s).Path = s.Path := rfl

@[simp] theorem countReadFailures_CurrentState (s : XHdcp1x_Tx) :
    (countReadFailures s).CurrentState = s.CurrentState := rfl

@[simp] theorem countReadFailures_PreviousState (s : XHdcp1x_Tx) :
    (countReadFailures s).PreviousState = s.PreviousState := rfl

@[simp] theorem countReadFailures_StateHelper (s : XHdcp1x_Tx) :
    (countReadFailures s).StateHelper = s.StateHelper := rfl

@[simp] theorem countReadFailures_Flags (s : XHdcp1x_Tx) :
    (countReadFailures s).Flags = s.Flags := rfl

@[simp] theorem countReadFailures_PendingEvents (s : XHdcp1x_Tx) :
    (countReadFailures s).PendingEvents = s.PendingEvents := rfl

@[simp] theorem countReadFailures_EncryptionMap (s : XHdcp1x_Tx) :
    (countReadFailures s).EncryptionMap = s.EncryptionMap := rfl

@[simp] theorem countReadFailures_Stats (s : XHdcp1x_Tx) :
    (countReadFailures s).Stats = { s.Stats with ReadFailures := s.Stats.ReadFailures + 1 } := rfl

@[simp] theorem countReadFailures_Calls (s : XHdcp1x_Tx) :
    (countReadFailures s).Calls = s.Calls := rfl

@[simp] theorem countReadFailures_Path (s : XHdcp1x_Tx) :
    (countReadFailures s).Path = s.Path := rfl

@[simp] theorem countLinkCheckPassed_CurrentState (s : XHdcp1x_Tx) :
    (countLinkCheckPassed s).CurrentState = s.CurrentState := rfl

@[simp] theorem countLinkCheckPassed_PreviousState (s : XHdcp1x_Tx) :
    (countLinkCheckPassed s).PreviousState = s.PreviousState := rfl

@[simp] theorem countLinkCheckPassed_StateHelper (s : XHdcp1x_Tx) :
    (countLinkCheckPassed s).StateHelper = s.StateHelper := rfl

@[simp] theorem countLinkCheckPassed_Flags (s : XHdcp1x_Tx) :
    (countLinkCheckPassed s).Flags = s.Flags := rfl

@[simp] theorem countLinkCheckPassed_PendingEvents (s : XHdcp1x_Tx) :
    (countLinkCheckPassed s).PendingEvents = s.PendingEvents := rfl

@[simp] theorem countLinkCheckPassed_EncryptionMap (s : XHdcp1x_Tx) :
    (countLinkCheckPassed s).EncryptionMap = s.EncryptionMap := rfl

@[simp] theorem countLinkCheckPassed_Stats (s : XHdcp1x_Tx) :
    (countLinkCheckPassed s).Stats = { s.Stats with LinkCheckPassed := s.Stats.LinkCheckPassed + 1 } := rfl

@[simp] theorem countLinkCheckPassed_Calls (s : XHdcp1x_Tx) :
    (countLinkCheckPassed s).Calls = s.Calls := rfl

@[simp] theorem countLinkCheckPassed_Path (s : XHdcp1x_Tx) :
    (countLinkCheckPassed s).Path = s.Path := rfl

@[simp] theorem countLinkCheckFailed_CurrentState (s : XHdcp1x_Tx) :
    (countLinkCheckFailed s).CurrentState = s.CurrentState := rfl

@[simp] theorem countLinkCheckFailed_PreviousState (s : XHdcp1x_Tx) :
    (countLinkCheckFailed s).PreviousState = s.PreviousState := rfl

@[simp] theorem countLinkCheckFailed_StateHelper (s : XHdcp1x_Tx) :
    (countLinkCheckFailed s).StateHelper = s.StateHelper := rfl

@[simp] theorem countLinkCheckFailed_Flags (s : XHdcp1x_Tx) :
    (countLinkCheckFailed s).Flags = s.Flags := rfl

@[simp] theorem countLinkCheckFailed_PendingEvents (s : XHdcp1x_Tx) :
    (countLinkCheckFailed s).PendingEvents = s.PendingEvents := rfl

@[simp] theorem countLinkCheckFailed_EncryptionMap (s : XHdcp1x_Tx) :
    (countLinkCheckFailed s).EncryptionMap = s.EncryptionMap := rfl

@[simp] theorem countLinkCheckFailed_Stats (s : XHdcp1x_Tx) :
    (countLinkCheckFailed s).Stats = { s.Stats with LinkCheckFailed := s.Stats.LinkCheckFailed + 1 } := rfl

@[simp] theorem countLinkCheckFailed_Calls (s : XHdcp1x_Tx) :
    (countLinkCheckFailed s).Calls = s.Calls := rfl

@[simp] theorem countLinkCheckFailed_Path (s : XHdcp1x_Tx) :
    (countLinkCheckFailed s).Path = s.Path := rfl

@[simp] theorem swapState_CurrentState (s : XHdcp1x_Tx) (nx : tState) :
    (swapState s nx).CurrentState = nx := rfl

@[simp] theorem swapState_PreviousState (s : XHdcp1x_Tx) (nx : tState) :
    (swapState s nx).PreviousState = s.CurrentState := rfl

@[simp] theorem swapState_StateHelper (s : XHdcp1x_Tx) (nx : tState) :
    (swapState s nx).StateHelper = s.StateHelper := rfl

@[simp] theorem swapState_Flags (s : XHdcp1x_Tx) (nx : tState) :
    (swapState s nx).Flags = s.Flags := rfl

@[simp] theorem swapState_PendingEvents (s : XHdcp1x_Tx) (nx : tState) :
    (swapState s nx).PendingEvents = s.PendingEvents := rfl

@[simp] theorem swapState_EncryptionMap (s : XHdcp1x_Tx) (nx : tState) :
    (swapState s nx).EncryptionMap = s.EncryptionMap := rfl

@[simp] theorem swapState_Stats (s : XHdcp1x_Tx) (nx : tState) :
    (swapState s nx).Stats = s.Stats := rfl

@[simp] theorem swapState_Calls (s : XHdcp1x_Tx) (nx : tState) :
    (swapState s nx).Calls = s.Calls := rfl

@[simp] theorem swapState_Path (s : XHdcp1x_Tx) (nx : tState) :
    (swapState s nx).Path = s.Path ++ [nx] := rfl

@[simp] theorem StartTimer_CurrentState (s : XHdcp1x_Tx) (t : Nat) :
    (StartTimer s t).CurrentState = s.CurrentState := rfl

@[simp] theorem StartTimer_PreviousState (s : XHdcp1x_Tx) (t : Nat) :
    (StartTimer s t).PreviousState = s.PreviousState := rfl

@[simp] theorem StartTimer_StateHelper (s : XHdcp1x_Tx) (t : Nat) :
    (StartTimer s t).StateHelper = s.StateHelper := rfl

@[simp] theorem StartTimer_Flags (s : XHdcp1x_Tx) (t : Nat) :
    (StartTimer s t).Flags = s.Flags := rfl

@[simp] theorem StartTimer_PendingEvents (s : XHdcp1x_Tx) (t : Nat) :
    (StartTimer s t).PendingEvents = s.PendingEvents := rfl

@[simp] theorem StartTimer_EncryptionMap (s : XHdcp1x_Tx) (t : Nat) :
    (StartTimer s t).EncryptionMap = s.EncryptionMap := rfl

@[simp] theorem StartTimer_Stats (s : XHdcp1x_Tx) (t : Nat) :
    (StartTimer s t).Stats = s.Stats := rfl

@[simp] theorem StartTimer_Calls (s : XHdcp1x_Tx) (t : Nat) :
    (StartTimer s t).Calls = s.Calls ++ [Call.PlatformTimerStart (t % 2 ^ 16)] := rfl

@[simp] theorem StartTimer_Path (s : XHdcp1x_Tx) (t : Nat) :
    (StartTimer s t).Path = s.Path := rfl

@[simp] theorem StopTimer_CurrentState (s : XHdcp1x_Tx) :
    (StopTimer s).CurrentState = s.CurrentState := rfl

@[simp] theorem StopTimer_PreviousState (s : XHdcp1x_Tx) :
    (StopTimer s).PreviousState = s.PreviousState := rfl

@[simp] theorem StopTimer_StateHelper (s : XHdcp1x_Tx) :
    (StopTimer s).StateHelper = s.StateHelper := rfl

@[simp] theorem StopTimer_Flags (s : XHdcp1x_Tx) :
    (StopTimer s).Flags = s.Flags := rfl

@[simp] theorem StopTimer_PendingEvents (s : XHdcp1x_Tx) :
    (StopTimer s).PendingEvents = s.PendingEvents := rfl

@[simp] theorem StopTimer_EncryptionMap (s : XHdcp1x_Tx) :
    (StopTimer s).EncryptionMap = s.EncryptionMap := rfl

@[simp] theorem StopTimer_Stats (s : XHdcp1x_Tx) :
    (StopTimer s).Stats = s.Stats := rfl

@[simp] theorem StopTimer_Calls (s : XHdcp1x_Tx) :
    (StopTimer s).Calls = s.Calls ++ [Call.PlatformTimerStop] := rfl

@[simp] theorem StopTimer_Path (s : XHdcp1x_Tx) :
    (StopTimer s).Path = s.Path := rfl

@[simp] theorem BusyDelay_CurrentState (s : XHdcp1x_Tx) (t : Nat) :
    (BusyDelay s t).CurrentState = s.CurrentState := rfl

@[simp] theorem BusyDelay_PreviousState (s : XHdcp1x_Tx) (t : Nat) :
    (BusyDelay s t).PreviousState = s.PreviousState := rfl

@[simp] theorem BusyDelay_StateHelper (s : XHdcp1x_Tx) (t : Nat) :
    (BusyDelay s t).StateHelper = s.StateHelper := rfl

@[simp] theorem BusyDelay_Flags (s : XHdcp1x_Tx) (t : Nat) :
    (BusyDelay s t).Flags = s.Flags := rfl

@[simp] theorem BusyDelay_PendingEvents (s : XHdcp1x_Tx) (t : Nat) :
    (BusyDelay s t).PendingEvents = s.PendingEvents := rfl

@[simp] theorem BusyDelay_EncryptionMap (s : XHdcp1x_Tx) (t : Nat) :
    (BusyDelay s t).EncryptionMap = s.EncryptionMap := rfl

@[simp] theorem BusyDelay_Stats (s : XHdcp1x_Tx) (t : Nat) :
    (BusyDelay s t).Stats = s.Stats := rfl

@[simp] theorem BusyDelay_Calls (s : XHdcp1x_Tx) (t : Nat) :
    (BusyDelay s t).Calls = s.Calls ++ [Call.PlatformTimerBusy (t % 2 ^ 16)] := rfl

@[simp] theorem BusyDelay_Path (s : XHdcp1x_Tx) (t : Nat) :
    (BusyDelay s t).Path = s.Path := rfl

/-! ## The KSV popcount law -/

theorem count_range_succ (k n : Nat) :
    ((List.range (n + 1)).filter (fun i => k.testBit i)).length
      = (if k &&& 1 ≠ 0 then 1 else 0)
        + ((List.range n).filter (fun i => (k >>> 1).testBit i)).length := by
  rw [List.range_succ_eq_map, List.filter_cons, List.filter_map]
  have h1 : ((fun i => k.testBit i) ∘ Nat.succ) = (fun i => (k >>> 1).testBit i) := by
    funext i
    simp [Nat.testBit_shiftRight, Nat.succ_eq_add_one, Nat.add_comm]
  rw [h1]
  have h2 : k &&& 1 = k % 2 := Nat.and_one_is_mod k
  rcases Nat.mod_two_eq_zero_or_one k with h | h
  · simp [Nat.testBit_zero, h2, h]
  · simp [Nat.testBit_zero, h2, h, Nat.add_comm]

theorem IsKsvValidStep_iterate (n : Nat) : ∀ k c : Nat,
    (IsKsvValidStep^[n] (k, c)).2
      = c + ((List.range n).filter (fun i => k.testBit i)).length := by
  induction n with
  | zero => intro k c; simp
  | succ n ih =>
    intro k c
    rw [Function.iterate_succ_apply]
    by_cases hk : k = 0
    · subst hk
      have : IsKsvValidStep (0, c) = (0, c) := by simp [IsKsvValidStep]
      rw [this, ih]
      simp
    · have : IsKsvValidStep (k, c) = (k >>> 1, if k &&& 1 ≠ 0 then c + 1 else c) := by
        simp [IsKsvValidStep, hk]
      rw [this, ih, count_range_succ]
      split <;> omega

/-- The loop of `IsKsvValid` has emptied its argument when it stops: after 64 rounds
the shifted value is zero, so the guard `Ksv != 0` is closed. -/
theorem IsKsvValidStep_closed (n : Nat) : ∀ k c : Nat, k < 2 ^ n →
    (IsKsvValidStep^[n] (k, c)).1 = 0 := by
  induction n with
  | zero => intro k c hk; simp at hk; simp [hk]
  | succ n ih =>
    intro k c hk
    rw [Function.iterate_succ_apply]
    by_cases h0 : k = 0
    · subst h0
      have : IsKsvValidStep (0, c) = (0, c) := by simp [IsKsvValidStep]
      rw [this]
      exact ih 0 c (Nat.pow_pos (by decide))
    · have : IsKsvValidStep (k, c) = (k >>> 1, if k &&& 1 ≠ 0 then c + 1 else c) := by
        simp [IsKsvValidStep, h0]
      rw [this]
      apply ih
      rw [Nat.shiftRight_eq_div_pow]
      rw [Nat.pow_succ] at hk
      omega

theorem IsKsvValid_eq (v : Nat) : IsKsvValid v = decide (popcount (v % 2 ^ 64) = 20) := by
  unfold IsKsvValid popcount
  simp only [IsKsvValidStep_iterate, Nat.zero_add]
  split <;> simp_all

/-- C1: for every 40-bit value the validity test of a KSV gives TRUE exactly when the
value, masked to 40 bits, has 20 one bits; `0x00000FFFFF` is valid, `0x0000000000` and
`0xFFFFFFFFFF` are not. -/
theorem IsKsvValid_popcount (v : Nat) (hv : v < 2 ^ 40) :
    (IsKsvValid v = true ↔ popcount (v &&& (2 ^ 40 - 1)) = 20)
    ∧ IsKsvValid 0x00000FFFFF = true
    ∧ IsKsvValid 0x0000000000 = false
    ∧ IsKsvValid 0xFFFFFFFFFF = false := by
  refine ⟨?_, ?_, ?_, ?_⟩
  rotate_left
  · rw [IsKsvValid_eq]; decide
  · rw [IsKsvValid_eq]; decide
  · rw [IsKsvValid_eq]; decide
  have h1 : v &&& (2 ^ 40 - 1) = v := by
    rw [Nat.and_pow_two_sub_one_eq_mod]
    exact Nat.mod_eq_of_lt hv
  have h2 : v % 2 ^ 64 = v := Nat.mod_eq_of_lt (by omega)
  rw [h1, IsKsvValid_eq, h2]
  simp

theorem IsKsvValid_popcount_witness :
    (0x00000FFFFF : Nat) < 2 ^ 40
    ∧ ((IsKsvValid 0x00000FFFFF = true ↔ popcount (0x00000FFFFF &&& (2 ^ 40 - 1)) = 20)
      ∧ IsKsvValid 0x00000FFFFF = true
      ∧ IsKsvValid 0x0000000000 = false
      ∧ IsKsvValid 0xFFFFFFFFFF = false) :=
  ⟨by decide, IsKsvValid_popcount 0x00000FFFFF (by decide)⟩

/-! ## An generation -/

theorem AwaitStep_done (env : Env) (s : XHdcp1x_Tx) (n : Nat) :
    (AwaitStep env)^[n] (s, true) = (s, true) := by
  induction n with
  | zero => rfl
  | succ n ih => rw [Function.iterate_succ_apply]; simpa [AwaitStep] using ih

theorem AwaitStep_iterate_done (env : Env) (n : Nat) : ∀ s : XHdcp1x_Tx,
    env.CipherPending s.Calls < n → ((AwaitStep env)^[n] (s, false)).2 = true := by
  induction n with
  | zero => intro s h; omega
  | succ n ih =>
    intro s h
    rw [Function.iterate_succ_apply]
    by_cases hc : env.CipherIsRequestComplete s.Calls = true
    · have : AwaitStep env (s, false) = (issue s Call.CipherIsRequestComplete, true) := by
        simp [AwaitStep, hc]
      rw [this, AwaitStep_done]
    · have hc' : env.CipherIsRequestComplete s.Calls = false := by simpa using hc
      have : AwaitStep env (s, false) = (issue s Call.CipherIsRequestComplete, false) := by
        simp [AwaitStep, hc']
      rw [this]
      apply ih
      have := env.pending_dec s.Calls hc'
      simp only [issue]
      omega

/-- The busy wait of `GenerateAn` ends because the cipher reported completion: the
bound on the number of polls is never what stops it. -/
theorem AwaitRequestComplete_done (env : Env) (s : XHdcp1x_Tx) :
    (AwaitRequestComplete env s).2 = true :=
  AwaitStep_iterate_done env _ s (Nat.lt_succ_self _)

/-- C2, as amended: `GenerateAn` asks the cipher for a random number.  When the cipher
accepts the request, the function waits until the cipher reports completion, reads Mi
and returns `0x0351F7175406A74D` if that Mi is zero and Mi itself otherwise.  When the
cipher refuses the request, the request is the only call the function makes, so no Mi
is read, and the result is the same constant whatever the Mi of the cipher is. -/
theorem GenerateAn_result (env : Env) (s : XHdcp1x_Tx) :
    (AwaitRequestComplete env
        (issue s (Call.CipherDoRequest XHDCP1X_CIPHER_REQUEST_RNG))).2 = true
    ∧ GenerateAn env s
      = (if env.CipherDoRequest s.Calls XHDCP1X_CIPHER_REQUEST_RNG = XST_SUCCESS then
          (issue (AwaitRequestComplete env
              (issue s (Call.CipherDoRequest XHDCP1X_CIPHER_REQUEST_RNG))).1 Call.CipherGetMi,
            if env.CipherGetMi (AwaitRequestComplete env
                (issue s (Call.CipherDoRequest XHDCP1X_CIPHER_REQUEST_RNG))).1.Calls
                % 2 ^ 64 = 0
            then 0x0351F7175406A74D
            else env.CipherGetMi (AwaitRequestComplete env
                (issue s (Call.CipherDoRequest XHDCP1X_CIPHER_REQUEST_RNG))).1.Calls
                % 2 ^ 64)
        else (issue s (Call.CipherDoRequest XHDCP1X_CIPHER_REQUEST_RNG), 0x0351F7175406A74D))
    ∧ (GenerateAn env s).1.Calls
      = (if env.CipherDoRequest s.Calls XHDCP1X_CIPHER_REQUEST_RNG = XST_SUCCESS then
          (AwaitRequestComplete env
              (issue s (Call.CipherDoRequest XHDCP1X_CIPHER_REQUEST_RNG))).1.Calls
            ++ [Call.CipherGetMi]
        else s.Calls ++ [Call.CipherDoRequest XHDCP1X_CIPHER_REQUEST_RNG])
    ∧ (env.CipherDoRequest s.Calls XHDCP1X_CIPHER_REQUEST_RNG ≠ XST_SUCCESS →
        (GenerateAn env s).1.Calls
            = s.Calls ++ [Call.CipherDoRequest XHDCP1X_CIPHER_REQUEST_RNG]
        ∧ Call.CipherGetMi ∉ (GenerateAn env s).1.Calls.drop s.Calls.length
        ∧ (GenerateAn env s).2 = 0x0351F7175406A74D) := by
  have hg : GenerateAn env s
      = (if env.CipherDoRequest s.Calls XHDCP1X_CIPHER_REQUEST_RNG = XST_SUCCESS then
          (issue (AwaitRequestComplete env
              (issue s (Call.CipherDoRequest XHDCP1X_CIPHER_REQUEST_RNG))).1 Call.CipherGetMi,
            if env.CipherGetMi (AwaitRequestComplete env
                (issue s (Call.CipherDoRequest XHDCP1X_CIPHER_REQUEST_RNG))).1.Calls
                % 2 ^ 64 = 0
            then 0x0351F7175406A74D
            else env.CipherGetMi (AwaitRequestComplete env
                (issue s (Call.CipherDoRequest XHDCP1X_CIPHER_REQUEST_RNG))).1.Calls
                % 2 ^ 64)
        else (issue s (Call.CipherDoRequest XHDCP1X_CIPHER_REQUEST_RNG),
          0x0351F7175406A74D)) := by
    unfold GenerateAn
    by_cases h : env.CipherDoRequest s.Calls XHDCP1X_CIPHER_REQUEST_RNG = XST_SUCCESS
    · simp only [h, if_true]
      split_ifs <;> rfl
    · simp [h]
  refine ⟨AwaitRequestComplete_done env _, hg, ?_, ?_⟩
  · rw [hg]
    split_ifs <;> simp
  · intro h
    rw [hg, if_neg h]
    exact ⟨by simp, by simp, rfl⟩

set_option maxRecDepth 100000 in
theorem GenerateAn_result_witness :
    sampleEnv.CipherDoRequest ZeroInstance.Calls XHDCP1X_CIPHER_REQUEST_RNG = XST_SUCCESS
    ∧ GenerateAn sampleEnv ZeroInstance
      = (issue (issue (issue ZeroInstance (Call.CipherDoRequest XHDCP1X_CIPHER_REQUEST_RNG))
            Call.CipherIsRequestComplete) Call.CipherGetMi, 0x0123456789ABCDEF)
    ∧ sampleEnvZeroMi.CipherDoRequest ZeroInstance.Calls XHDCP1X_CIPHER_REQUEST_RNG
        = XST_SUCCESS
    ∧ GenerateAn sampleEnvZeroMi ZeroInstance
      = (issue (issue (issue ZeroInstance (Call.CipherDoRequest XHDCP1X_CIPHER_REQUEST_RNG))
            Call.CipherIsRequestComplete) Call.CipherGetMi, 0x0351F7175406A74D)
    ∧ sampleEnvNoRequest.CipherDoRequest ZeroInstance.Calls XHDCP1X_CIPHER_REQUEST_RNG
        ≠ XST_SUCCESS
    ∧ (GenerateAn sampleEnvNoRequest ZeroInstance).1.Calls
        = [Call.CipherDoRequest XHDCP1X_CIPHER_REQUEST_RNG]
    ∧ (GenerateAn sampleEnvNoRequest ZeroInstance).2 = 0x0351F7175406A74D :=
  ⟨by decide,
    (GenerateAn_result sampleEnv ZeroInstance).2.1.trans (by decide),
    by decide,
    (GenerateAn_result sampleEnvZeroMi ZeroInstance).2.1.trans (by decide),
    by decide,
    ((GenerateAn_result sampleEnvNoRequest ZeroInstance).2.2.2 (by decide)).1,
    ((GenerateAn_result sampleEnvNoRequest ZeroInstance).2.2.2 (by decide)).2.2⟩

/-- C2 fails for a cipher that refuses the request: the Mi of the sample cipher is
never zero, yet `GenerateAn` returns the constant and not that Mi, which it does not
even read. -/
theorem GenerateAn_refused_request :
    sampleEnvNoRequest.CipherDoRequest ZeroInstance.Calls XHDCP1X_CIPHER_REQUEST_RNG
      ≠ XST_SUCCESS
    ∧ (∀ h : List Call, sampleEnvNoRequest.CipherGetMi h % 2 ^ 64 ≠ 0)
    ∧ (GenerateAn sampleEnvNoRequest ZeroInstance).2 = 0x0351F7175406A74D
    ∧ (∀ h : List Call,
        (GenerateAn sampleEnvNoRequest ZeroInstance).2
          ≠ sampleEnvNoRequest.CipherGetMi h % 2 ^ 64)
    ∧ (GenerateAn sampleEnvNoRequest ZeroInstance).1.Calls
        = [Call.CipherDoRequest XHDCP1X_CIPHER_REQUEST_RNG] := by
  have h : GenerateAn sampleEnvNoRequest ZeroInstance
      = (issue ZeroInstance (Call.CipherDoRequest XHDCP1X_CIPHER_REQUEST_RNG),
          0x0351F7175406A74D) := by
    decide
  have hmi : ∀ h : List Call,
      sampleEnvNoRequest.CipherGetMi h % 2 ^ 64 = 0x0123456789ABCDEF := fun _ => rfl
  refine ⟨by decide, fun k => by rw [hmi k]; decide, by rw [h],
    fun k => by rw [h, hmi k]; decide, by rw [h]; rfl⟩

/-! ## Event coalescing -/

theorem testBit_clearBits16 (x k i : Nat) :
    (clearBits16 x (1 <<< k)).testBit i
      = (decide (i < 16) && (x.testBit i && !decide (k = i))) := by
  unfold clearBits16
  have h32 : (0xFFFFFFFF : Nat) = 2 ^ 32 - 1 := by norm_num
  rw [Nat.testBit_mod_two_pow, Nat.testBit_and, Nat.testBit_xor, h32,
    Nat.testBit_two_pow_sub_one, Nat.one_shiftLeft, Nat.testBit_two_pow]
  by_cases h16 : i < 16
  · have : i < 32 := by omega
    simp [h16, this]
  · simp [h16]

theorem testBit_setBits16 (x k i : Nat) :
    (setBits16 x (1 <<< k)).testBit i
      = (decide (i < 16) && (x.testBit i || decide (k = i))) := by
  unfold setBits16
  rw [Nat.testBit_mod_two_pow, Nat.testBit_or, Nat.one_shiftLeft, Nat.testBit_two_pow]

theorem tEvent_toNat_lt (e : tEvent) : e.toNat < 16 := by
  cases e <;> decide

theorem PostEvent_testBit (s : XHdcp1x_Tx) (e : tEvent) (i : Nat) :
    (PostEvent s e).PendingEvents.testBit i
      = (decide (i < 16) &&
          ((s.PendingEvents.testBit i
              && !decide (e = EVENT_DISABLE ∧ i = EVENT_ENABLE.toNat)
              && !decide (e = EVENT_PHYDOWN ∧ i = EVENT_PHYUP.toNat))
            || decide (i = e.toNat))) := by
  unfold PostEvent
  by_cases h1 : e = EVENT_DISABLE
  · subst h1
    simp only [if_true, setPendingEvents_PendingEvents]
    rw [testBit_setBits16, testBit_clearBits16]
    by_cases h16 : i < 16 <;> simp [h16, tEvent.toNat, eq_comm]
  · by_cases h2 : e = EVENT_PHYDOWN
    · subst h2
      simp only [if_true, h1, if_false, setPendingEvents_PendingEvents]
      rw [testBit_setBits16, testBit_clearBits16]
      by_cases h16 : i < 16 <;> simp [h16, tEvent.toNat, eq_comm]
    · simp only [h1, h2, if_false, setPendingEvents_PendingEvents]
      rw [testBit_setBits16]
      by_cases h16 : i < 16 <;> simp [h16, h1, h2, eq_comm]

theorem PostEvent_frame (s : XHdcp1x_Tx) (e : tEvent) :
    PostEvent s e = setPendingEvents s (PostEvent s e).PendingEvents := by
  unfold PostEvent
  split_ifs <;> rfl

theorem testBit_of_lt_16 (P i : Nat) (hP : P < 2 ^ 16) (hi : ¬ i < 16) :
    P.testBit i = false := by
  apply Nat.testBit_lt_two_pow
  calc P < 2 ^ 16 := hP
    _ ≤ 2 ^ i := Nat.pow_le_pow_right (by decide) (by omega)

theorem PostEvent_lt (s : XHdcp1x_Tx) (e : tEvent) : (PostEvent s e).PendingEvents < 2 ^ 16 := by
  unfold PostEvent
  simp only [setPendingEvents_PendingEvents, setBits16]
  exact Nat.mod_lt _ (by decide)

/-- C3: posting an event sets its bit in the pending set; posting Disable clears a
pending Enable and posting PhyDown clears a pending PhyUp; every other bit of the
pending set is unchanged, no other field changes, and posting the same event twice
gives the same instance as posting it once. -/
theorem PostEvent_coalesce (s : XHdcp1x_Tx) (e : tEvent) (hP : s.PendingEvents < 2 ^ 16) :
    (PostEvent s e).PendingEvents.testBit e.toNat = true
    ∧ (e = EVENT_DISABLE →
        (PostEvent s e).PendingEvents.testBit EVENT_ENABLE.toNat = false)
    ∧ (e = EVENT_PHYDOWN →
        (PostEvent s e).PendingEvents.testBit EVENT_PHYUP.toNat = false)
    ∧ (∀ i : Nat, i ≠ e.toNat →
        ¬ (e = EVENT_DISABLE ∧ i = EVENT_ENABLE.toNat) →
        ¬ (e = EVENT_PHYDOWN ∧ i = EVENT_PHYUP.toNat) →
        (PostEvent s e).PendingEvents.testBit i = s.PendingEvents.testBit i)
    ∧ PostEvent s e = setPendingEvents s (PostEvent s e).PendingEvents
    ∧ PostEvent (PostEvent s e) e = PostEvent s e := by
  refine ⟨?_, ?_, ?_, ?_, PostEvent_frame s e, ?_⟩
  · rw [PostEvent_testBit]
    have := tEvent_toNat_lt e
    simp [this]
  · intro h
    subst h
    rw [PostEvent_testBit]
    simp [tEvent.toNat]
  · intro h
    subst h
    rw [PostEvent_testBit]
    simp [tEvent.toNat]
  · intro i h1 h2 h3
    rw [PostEvent_testBit]
    by_cases h16 : i < 16
    · simp [h16, h1, h2, h3]
    · simp [h16, testBit_of_lt_16 _ _ hP h16]
  · rw [PostEvent_frame (PostEvent s e) e]
    have hb : (PostEvent (PostEvent s e) e).PendingEvents = (PostEvent s e).PendingEvents := by
      apply Nat.eq_of_testBit_eq
      intro i
      rw [PostEvent_testBit (PostEvent s e) e i, PostEvent_testBit s e i]
      by_cases h16 : i < 16 <;> by_cases hi : i = e.toNat <;> simp [h16, hi]
      cases s.PendingEvents.testBit i <;>
        cases decide (e = EVENT_DISABLE) <;> cases decide (i = EVENT_ENABLE.toNat) <;>
        cases decide (e = EVENT_PHYDOWN) <;> cases decide (i = EVENT_PHYUP.toNat) <;> rfl
    rw [hb]
    rfl

theorem PostEvent_coalesce_witness :
    (sampleTx STATE_AUTHENTICATED 1 0x0090).PendingEvents < 2 ^ 16
    ∧ ((PostEvent (sampleTx STATE_AUTHENTICATED 1 0x0090) EVENT_DISABLE).PendingEvents.testBit
          EVENT_DISABLE.toNat = true
      ∧ (EVENT_DISABLE = EVENT_DISABLE →
          (PostEvent (sampleTx STATE_AUTHENTICATED 1 0x0090) EVENT_DISABLE).PendingEvents.testBit
            EVENT_ENABLE.toNat = false)
      ∧ (EVENT_DISABLE = EVENT_PHYDOWN →
          (PostEvent (sampleTx STATE_AUTHENTICATED 1 0x0090) EVENT_DISABLE).PendingEvents.testBit
            EVENT_PHYUP.toNat = false)
      ∧ (∀ i : Nat, i ≠ EVENT_DISABLE.toNat →
          ¬ (EVENT_DISABLE = EVENT_DISABLE ∧ i = EVENT_ENABLE.toNat) →
          ¬ (EVENT_DISABLE = EVENT_PHYDOWN ∧ i = EVENT_PHYUP.toNat) →
          (PostEvent (sampleTx STATE_AUTHENTICATED 1 0x0090) EVENT_DISABLE).PendingEvents.testBit i
            = (sampleTx STATE_AUTHENTICATED 1 0x0090).PendingEvents.testBit i)
      ∧ PostEvent (sampleTx STATE_AUTHENTICATED 1 0x0090) EVENT_DISABLE
          = setPendingEvents (sampleTx STATE_AUTHENTICATED 1 0x0090)
              (PostEvent (sampleTx STATE_AUTHENTICATED 1 0x0090) EVENT_DISABLE).PendingEvents
      ∧ PostEvent (PostEvent (sampleTx STATE_AUTHENTICATED 1 0x0090) EVENT_DISABLE)
            EVENT_DISABLE
          = PostEvent (sampleTx STATE_AUTHENTICATED 1 0x0090) EVENT_DISABLE) :=
  ⟨by decide, PostEvent_coalesce (sampleTx STATE_AUTHENTICATED 1 0x0090) EVENT_DISABLE
    (by decide)⟩

/-! ## Steady-state classification -/

/-- C4: `XHdcp1x_TxIsInProgress` is FALSE exactly in the states Disabled,
Unauthenticated, Authenticated and LinkIntegrityCheck, `XHdcp1x_TxIsAuthenticated` is
TRUE exactly in Authenticated and LinkIntegrityCheck, and an authenticated interface
is never in progress. -/
theorem IsInProgress_IsAuthenticated_classes (s : XHdcp1x_Tx) :
    (XHdcp1x_TxIsInProgress s = false ↔
        (s.CurrentState = STATE_DISABLED ∨ s.CurrentState = STATE_UNAUTHENTICATED
          ∨ s.CurrentState = STATE_AUTHENTICATED
          ∨ s.CurrentState = STATE_LINKINTEGRITYCHECK))
    ∧ (XHdcp1x_TxIsAuthenticated s = true ↔
        (s.CurrentState = STATE_AUTHENTICATED ∨ s.CurrentState = STATE_LINKINTEGRITYCHECK))
    ∧ (XHdcp1x_TxIsAuthenticated s = true → XHdcp1x_TxIsInProgress s = false) := by
  rcases s with ⟨cs, ps, sh, fl, pe, em, st, ca, pa⟩
  cases cs <;>
    simp [XHdcp1x_TxIsInProgress, XHdcp1x_TxIsAuthenticated, IsAuthenticated]

/-! ## Frame lemmas: what the actions leave unchanged -/

@[simp] theorem core_issue (s : XHdcp1x_Tx) (c : Call) : (issue s c).core = s.core := rfl

@[simp] theorem core_setFlags (s : XHdcp1x_Tx) (v : Nat) : (setFlags s v).core = s.core := rfl

@[simp] theorem core_setStateHelper (s : XHdcp1x_Tx) (v : Nat) :
    (setStateHelper s v).core = s.core := rfl

@[simp] theorem core_setStats (s : XHdcp1x_Tx) (v : XHdcp1x_TxStats) :
    (setStats s v).core = s.core := rfl

@[simp] theorem core_countAuthFailed (s : XHdcp1x_Tx) : (countAuthFailed s).core = s.core := rfl

@[simp] theorem core_countAuthPassed (s : XHdcp1x_Tx) : (countAuthPassed s).core = s.core := rfl

@[simp] theorem core_countReadFailures (s : XHdcp1x_Tx) :
    (countReadFailures s).core = s.core := rfl

@[simp] theorem core_countLinkCheckPassed (s : XHdcp1x_Tx) :
    (countLinkCheckPassed s).core = s.core := rfl

@[simp] theorem core_countLinkCheckFailed (s : XHdcp1x_Tx) :
    (countLinkCheckFailed s).core = s.core := rfl

@[simp] theorem core_StartTimer (s : XHdcp1x_Tx) (t : Nat) : (StartTimer s t).core = s.core := rfl

@[simp] theorem core_StopTimer (s : XHdcp1x_Tx) : (StopTimer s).core = s.core := rfl

@[simp] theorem core_BusyDelay (s : XHdcp1x_Tx) (t : Nat) : (BusyDelay s t).core = s.core := rfl

@[simp] theorem core_SetCheckLinkState (env : Env) (s : XHdcp1x_Tx) (b : Bool) :
    (SetCheckLinkState env s b).core = s.core := by
  unfold SetCheckLinkState
  split_ifs <;> simp

@[simp] theorem core_EnableEncryption (env : Env) (s : XHdcp1x_Tx) :
    (EnableEncryption env s).core = s.core := by
  unfold EnableEncryption
  dsimp only
  split_ifs <;> simp

@[simp] theorem core_DisableEncryption (env : Env) (s : XHdcp1x_Tx) :
    (DisableEncryption env s).core = s.core := by
  unfold DisableEncryption
  dsimp only
  split_ifs <;> simp

@[simp] theorem core_Enable (s : XHdcp1x_Tx) : (Enable s).core = s.core := rfl

@[simp] theorem core_CheckRxCapable (env : Env) (s : XHdcp1x_Tx) (nx : tState) :
    (CheckRxCapable env s nx).1.core = s.core := by
  unfold CheckRxCapable
  dsimp only
  split_ifs <;> simp

theorem core_AwaitStep_iterate (env : Env) (n : Nat) : ∀ p : XHdcp1x_Tx × Bool,
    ((AwaitStep env)^[n] p).1.core = p.1.core := by
  induction n with
  | zero => intro p; rfl
  | succ n ih =>
    intro p
    rw [Function.iterate_succ_apply, ih]
    unfold AwaitStep
    split_ifs <;> simp

@[simp] theorem core_AwaitRequestComplete (env : Env) (s : XHdcp1x_Tx) :
    (AwaitRequestComplete env s).1.core = s.core :=
  core_AwaitStep_iterate env _ (s, false)

@[simp] theorem core_GenerateAn (env : Env) (s : XHdcp1x_Tx) :
    (GenerateAn env s).1.core = s.core := by
  unfold GenerateAn
  dsimp only
  split_ifs <;> simp

@[simp] theorem core_ExchangeKsvs (env : Env) (s : XHdcp1x_Tx) (nx : tState) :
    (ExchangeKsvs env s nx).1.core = s.core := by
  unfold ExchangeKsvs
  dsimp only
  split_ifs <;> simp

@[simp] theorem core_StartComputations (env : Env) (s : XHdcp1x_Tx) (nx : tState) :
    (StartComputations env s nx).1.core = s.core := by
  unfold StartComputations
  simp

@[simp] theorem core_PollForComputations (env : Env) (s : XHdcp1x_Tx) (nx : tState) :
    (PollForComputations env s nx).1.core = s.core := by
  unfold PollForComputations
  dsimp only
  split_ifs <;> simp

@[simp] theorem core_ValidateRxBody (env : Env) (n : Nat) (p : XHdcp1x_Tx × List Nat × tState) :
    (ValidateRxBody env n p).1.core = p.1.core := by
  unfold ValidateRxBody
  dsimp only
  split_ifs <;> simp

theorem core_ValidateRxLoop (env : Env) (n : Nat) : ∀ p : XHdcp1x_Tx × List Nat × tState,
    (ValidateRxLoop env n p).1.core = p.1.core := by
  induction n with
  | zero => intro p; simp [ValidateRxLoop]
  | succ n ih =>
    intro p
    unfold ValidateRxLoop
    dsimp only
    split_ifs
    · rw [ih]; simp
    · simp

@[simp] theorem core_ValidateRx (env : Env) (s : XHdcp1x_Tx) (nx : tState) :
    (ValidateRx env s nx).1.core = s.core := by
  unfold ValidateRx
  exact core_ValidateRxLoop env 3 _

@[simp] theorem core_CheckLinkIntegrityBody (env : Env) (p : XHdcp1x_Tx × List Nat × tState) :
    (CheckLinkIntegrityBody env p).1.core = p.1.core := by
  unfold CheckLinkIntegrityBody
  dsimp only
  split_ifs <;> simp

theorem core_CheckLinkIntegrityLoop (env : Env) (n : Nat) :
    ∀ p : XHdcp1x_Tx × List Nat × tState,
    (CheckLinkIntegrityLoop env n p).1.core = p.1.core := by
  induction n with
  | zero => intro p; simp [CheckLinkIntegrityLoop]
  | succ n ih =>
    intro p
    unfold CheckLinkIntegrityLoop
    dsimp only
    split_ifs
    · rw [ih]; simp
    · simp

@[simp] theorem core_CheckLinkIntegrity (env : Env) (s : XHdcp1x_Tx) (nx : tState) :
    (CheckLinkIntegrity env s nx).1.core = s.core := by
  unfold CheckLinkIntegrity
  dsimp only
  split_ifs <;> simp [core_CheckLinkIntegrityLoop]

@[simp] theorem core_TestForRepeater (env : Env) (s : XHdcp1x_Tx) (nx : tState) :
    (TestForRepeater env s nx).1.core = s.core := by
  unfold TestForRepeater
  dsimp only
  split_ifs <;> simp

@[simp] theorem core_PollForWaitForReady (env : Env) (s : XHdcp1x_Tx) (nx : tState) :
    (PollForWaitForReady env s nx).1.core = s.core := by
  unfold PollForWaitForReady
  dsimp only
  split_ifs <;> simp

@[simp] theorem core_ReadKsvChunk (env : Env) (p : KsvListState) :
    (ReadKsvChunk env p).Tx.core = p.Tx.core := by
  unfold ReadKsvChunk
  dsimp only
  split_ifs <;> simp

theorem core_ReadKsvChunks (env : Env) (n : Nat) : ∀ p : KsvListState,
    (ReadKsvChunks env n p).Tx.core = p.Tx.core := by
  induction n with
  | zero => intro p; simp [ReadKsvChunks]
  | succ n ih =>
    intro p
    unfold ReadKsvChunks
    dsimp only
    split_ifs
    · rw [ih]; simp
    · simp

@[simp] theorem core_CheckShaChunk (env : Env) (d : List Nat) (p : VCheckState) :
    (CheckShaChunk env d p).Tx.core = p.Tx.core := by
  unfold CheckShaChunk
  dsimp only
  split_ifs <;> simp

theorem core_CheckShaChunks (env : Env) (d : List Nat) (n : Nat) : ∀ p : VCheckState,
    (CheckShaChunks env d n p).Tx.core = p.Tx.core := by
  induction n with
  | zero => intro p; simp [CheckShaChunks]
  | succ n ih =>
    intro p
    unfold CheckShaChunks
    dsimp only
    split_ifs
    · rw [ih]; simp
    · simp

@[simp] theorem core_ValidateKsvList (env : Env) (s : XHdcp1x_Tx) (b : Nat) :
    (ValidateKsvList env s b).1.core = s.core := by
  unfold ValidateKsvList
  dsimp only
  split_ifs <;> simp [core_ReadKsvChunks, core_CheckShaChunks]

theorem core_ReadKsvListLoop (env : Env) (b : Nat) (n : Nat) : ∀ s : XHdcp1x_Tx,
    (ReadKsvListLoop env b n s).1.core = s.core := by
  induction n with
  | zero => intro s; simp [ReadKsvListLoop]
  | succ n ih =>
    intro s
    unfold ReadKsvListLoop
    dsimp only
    split_ifs
    · rw [ih]; simp
    · simp

@[simp] theorem core_ReadKsvList (env : Env) (s : XHdcp1x_Tx) (nx : tState) :
    (ReadKsvList env s nx).1.core = s.core := by
  unfold ReadKsvList
  dsimp only
  split_ifs <;> simp [core_ReadKsvListLoop]

@[simp] theorem core_ExitState (env : Env) (s : XHdcp1x_Tx) (st : tState) :
    (ExitState env s st).core = s.core := by
  cases st <;> simp [ExitState]

theorem CurrentState_of_core {s t : XHdcp1x_Tx} (h : s.core = t.core) :
    s.CurrentState = t.CurrentState := congrArg (fun c => c.1) h

theorem PreviousState_of_core {s t : XHdcp1x_Tx} (h : s.core = t.core) :
    s.PreviousState = t.PreviousState := congrArg (fun c => c.2.1) h

theorem Path_of_core {s t : XHdcp1x_Tx} (h : s.core = t.core) :
    s.Path = t.Path := congrArg (fun c => c.2.2.1) h

theorem PendingEvents_of_core {s t : XHdcp1x_Tx} (h : s.core = t.core) :
    s.PendingEvents = t.PendingEvents := congrArg (fun c => c.2.2.2.1) h

theorem EncryptionMap_of_core {s t : XHdcp1x_Tx} (h : s.core = t.core) :
    s.EncryptionMap = t.EncryptionMap := congrArg (fun c => c.2.2.2.2) h

theorem core_EnterState (env : Env) (s : XHdcp1x_Tx) (st nx : tState)
    (h : st ≠ STATE_DISABLED) : (EnterState env s st nx).1.core = s.core := by
  cases st <;> simp [EnterState] at h ⊢
  split_ifs <;> simp

@[simp] theorem EnterState_CurrentState (env : Env) (s : XHdcp1x_Tx) (st nx : tState) :
    (EnterState env s st nx).1.CurrentState = s.CurrentState := by
  by_cases h : st = STATE_DISABLED
  · subst h; simp [EnterState, Disable]
  · exact CurrentState_of_core (core_EnterState env s st nx h)

@[simp] theorem EnterState_PreviousState (env : Env) (s : XHdcp1x_Tx) (st nx : tState) :
    (EnterState env s st nx).1.PreviousState = s.PreviousState := by
  by_cases h : st = STATE_DISABLED
  · subst h; simp [EnterState, Disable]
  · exact PreviousState_of_core (core_EnterState env s st nx h)

@[simp] theorem EnterState_Path (env : Env) (s : XHdcp1x_Tx) (st nx : tState) :
    (EnterState env s st nx).1.Path = s.Path := by
  by_cases h : st = STATE_DISABLED
  · subst h; simp [EnterState, Disable]
  · exact Path_of_core (core_EnterState env s st nx h)

@[simp] theorem EnterState_PendingEvents (env : Env) (s : XHdcp1x_Tx) (st nx : tState) :
    (EnterState env s st nx).1.PendingEvents = s.PendingEvents := by
  by_cases h : st = STATE_DISABLED
  · subst h; simp [EnterState, Disable]
  · exact PendingEvents_of_core (core_EnterState env s st nx h)

/-! ## Next states chosen by the actions -/

theorem CheckLinkIntegrityLoop_next (env : Env) (n : Nat) :
    ∀ p : XHdcp1x_Tx × List Nat × tState,
    (CheckLinkIntegrityLoop env n p).2.2 = p.2.2
      ∨ (CheckLinkIntegrityLoop env n p).2.2 = STATE_AUTHENTICATED := by
  have hb : ∀ p : XHdcp1x_Tx × List Nat × tState,
      (CheckLinkIntegrityBody env p).2.2 = p.2.2
        ∨ (CheckLinkIntegrityBody env p).2.2 = STATE_AUTHENTICATED := by
    intro p
    unfold CheckLinkIntegrityBody
    dsimp only
    split_ifs <;> simp
  induction n with
  | zero => intro p; simpa [CheckLinkIntegrityLoop] using hb p
  | succ n ih =>
    intro p
    unfold CheckLinkIntegrityLoop
    dsimp only
    split_ifs
    · rcases ih (CheckLinkIntegrityBody env p) with h | h
      · rw [h]; exact hb p
      · exact Or.inr h
    · exact hb p

theorem CheckLinkIntegrity_next (env : Env) (s : XHdcp1x_Tx) (nx : tState) :
    (CheckLinkIntegrity env s nx).2 = STATE_DETERMINERXCAPABLE
      ∨ (CheckLinkIntegrity env s nx).2 = STATE_AUTHENTICATED := by
  unfold CheckLinkIntegrity
  dsimp only
  have := CheckLinkIntegrityLoop_next env 3
    (s, UninitBuf env s.Calls 2, STATE_DETERMINERXCAPABLE)
  split_ifs <;> simpa using this

theorem ValidateRxLoop_next (env : Env) (n : Nat) :
    ∀ p : XHdcp1x_Tx × List Nat × tState,
    (ValidateRxLoop env n p).2.2 = p.2.2
      ∨ (ValidateRxLoop env n p).2.2 = STATE_TESTFORREPEATER := by
  have hb : ∀ (k : Nat) (p : XHdcp1x_Tx × List Nat × tState),
      (ValidateRxBody env k p).2.2 = p.2.2
        ∨ (ValidateRxBody env k p).2.2 = STATE_TESTFORREPEATER := by
    intro k p
    unfold ValidateRxBody
    dsimp only
    split_ifs <;> simp
  induction n with
  | zero => intro p; simpa [ValidateRxLoop] using hb 0 p
  | succ n ih =>
    intro p
    unfold ValidateRxLoop
    dsimp only
    split_ifs
    · rcases ih (ValidateRxBody env (n + 1) p) with h | h
      · rw [h]; exact hb (n + 1) p
      · exact Or.inr h
    · exact hb (n + 1) p

theorem ValidateRx_next (env : Env) (s : XHdcp1x_Tx) (nx : tState) :
    (ValidateRx env s nx).2 = STATE_UNAUTHENTICATED
      ∨ (ValidateRx env s nx).2 = STATE_TESTFORREPEATER := by
  unfold ValidateRx
  dsimp only
  simpa using ValidateRxLoop_next env 3 (s, UninitBuf env s.Calls 2, STATE_UNAUTHENTICATED)

theorem CheckRxCapable_next (env : Env) (s : XHdcp1x_Tx) (nx : tState) :
    (CheckRxCapable env s nx).2 = STATE_EXCHANGEKSVS
      ∨ (CheckRxCapable env s nx).2 = STATE_UNAUTHENTICATED := by
  unfold CheckRxCapable
  dsimp only
  split_ifs <;> simp

theorem ExchangeKsvs_next (env : Env) (s : XHdcp1x_Tx) (nx : tState) :
    (ExchangeKsvs env s nx).2 = STATE_UNAUTHENTICATED
      ∨ (ExchangeKsvs env s nx).2 = STATE_COMPUTATIONS := by
  unfold ExchangeKsvs
  dsimp only
  split_ifs <;> simp

theorem ReadKsvList_next (env : Env) (s : XHdcp1x_Tx) (nx : tState) :
    (ReadKsvList env s nx).2 = STATE_AUTHENTICATED
      ∨ (ReadKsvList env s nx).2 = STATE_UNAUTHENTICATED := by
  unfold ReadKsvList
  dsimp only
  split_ifs <;> simp

/-- The entry action of a state entered with `NextState` equal to that state either
keeps `NextState`, or chooses a state with a shorter chain of entry actions; the
states in which the machine never rests always choose. -/
theorem EnterState_next (env : Env) (s : XHdcp1x_Tx) (st : tState) :
    ((EnterState env s st st).2 = st ∧ ¬ Passing st)
      ∨ (chainRank (EnterState env s st st).2 < chainRank st
          ∧ (EnterState env s st st).2 ≠ st) := by
  cases st
  case STATE_DETERMINERXCAPABLE =>
    right
    rcases CheckRxCapable_next env
      (DisableEncryption env (SetCheckLinkState env
        (setFlags s (setBits16 s.Flags FLAG_PHY_UP)) false)) STATE_DETERMINERXCAPABLE
      with h | h <;> simp [EnterState, h, chainRank]
  case STATE_EXCHANGEKSVS =>
    right
    rcases ExchangeKsvs_next env (setStateHelper s 0) STATE_EXCHANGEKSVS
      with h | h <;> simp [EnterState, h, chainRank]
  case STATE_READKSVLIST =>
    right
    rcases ReadKsvList_next env s STATE_READKSVLIST
      with h | h <;> simp [EnterState, h, chainRank]
  case STATE_LINKINTEGRITYCHECK =>
    right
    rcases CheckLinkIntegrity_next env s STATE_LINKINTEGRITYCHECK
      with h | h <;> simp [EnterState, h, chainRank]
  case STATE_AUTHENTICATED =>
    left
    simp only [EnterState, Passing]
    split_ifs <;> simp
  all_goals
    left
    simp [EnterState, StartComputations, Passing]

/-! ## The loop of state transitions -/

theorem TransitionStep_closed (env : Env) (p : XHdcp1x_Tx × tState) (h : LoopClosed p) :
    TransitionStep env p = p := by
  unfold LoopClosed at h
  simp [TransitionStep, h]

theorem TransitionLoop_of_closed (env : Env) (n : Nat) (p : XHdcp1x_Tx × tState)
    (h : LoopClosed p) : TransitionLoop env n p = p := by
  unfold TransitionLoop
  induction n with
  | zero => rfl
  | succ n ih => rw [Function.iterate_succ_apply, TransitionStep_closed env p h, ih]

theorem TransitionStep_open (env : Env) (p : XHdcp1x_Tx × tState) (h : ¬ LoopClosed p) :
    TransitionStep env p
      = EnterState env (swapState (ExitState env p.1 p.1.CurrentState) p.2) p.2 p.2 := by
  unfold LoopClosed at h
  simp [TransitionStep, h]

theorem TransitionStep_CurrentState (env : Env) (p : XHdcp1x_Tx × tState) :
    (TransitionStep env p).1.CurrentState = p.2 := by
  by_cases h : LoopClosed p
  · rw [TransitionStep_closed env p h]; exact h
  · rw [TransitionStep_open env p h]; simp

/-- A round of the loop either closes the guard or enters a state from which the
chain of entry actions is shorter. -/
theorem TransitionStep_rank (env : Env) (p : XHdcp1x_Tx × tState) :
    LoopClosed (TransitionStep env p)
      ∨ chainRank (TransitionStep env p).2 < chainRank p.2 := by
  by_cases h : LoopClosed p
  · left; rw [TransitionStep_closed env p h]; exact h
  · have hc := TransitionStep_CurrentState env p
    rw [TransitionStep_open env p h] at hc ⊢
    rcases EnterState_next env (swapState (ExitState env p.1 p.1.CurrentState) p.2) p.2
      with ⟨h1, _⟩ | ⟨h1, _⟩
    · left; unfold LoopClosed; rw [hc, h1]
    · right; exact h1

theorem TransitionLoop_closes (env : Env) (n : Nat) : ∀ p : XHdcp1x_Tx × tState,
    chainRank p.2 < n → LoopClosed (TransitionLoop env n p) := by
  induction n with
  | zero => intro p h; omega
  | succ n ih =>
    intro p h
    unfold TransitionLoop
    rw [Function.iterate_succ_apply]
    rcases TransitionStep_rank env p with hc | hr
    · have := TransitionLoop_of_closed env n _ hc
      unfold TransitionLoop at this
      rw [this]; exact hc
    · exact ih _ (by omega)

theorem chainRank_le (st : tState) : chainRank st ≤ 3 := by
  cases st <;> simp [chainRank]

/-- The loop of state transitions of `DoTheState` has left its guard after 4 rounds,
whatever instance and next state it starts from. -/
theorem TransitionLoop_closed (env : Env) (p : XHdcp1x_Tx × tState) :
    LoopClosed (TransitionLoop env 4 p) :=
  TransitionLoop_closes env 4 p (by have := chainRank_le p.2; omega)

/-- Rounds beyond the fourth change nothing. -/
theorem TransitionLoop_stable (env : Env) (n : Nat) (p : XHdcp1x_Tx × tState) :
    TransitionLoop env (n + 4) p = TransitionLoop env 4 p := by
  unfold TransitionLoop
  rw [Function.iterate_add_apply]
  exact TransitionLoop_of_closed env n _ (TransitionLoop_closed env p)

/-! ## The dispatcher -/

theorem RunState_fields (env : Env) (s : XHdcp1x_Tx) (e : tEvent) :
    (RunState env s e).1.CurrentState = s.CurrentState
    ∧ (RunState env s e).1.PreviousState = s.PreviousState
    ∧ (RunState env s e).1.Path = s.Path := by
  have hc : ∀ t : XHdcp1x_Tx, t.core = s.core →
      t.CurrentState = s.CurrentState ∧ t.PreviousState = s.PreviousState
        ∧ t.Path = s.Path :=
    fun t h => ⟨CurrentState_of_core h, PreviousState_of_core h, Path_of_core h⟩
  unfold RunState
  dsimp only
  split
  · cases e <;> simp [RunDisabledState] ; split_ifs <;> simp
  · cases e <;> simp [RunDetermineRxCapableState]
  · cases e <;> simp [RunExchangeKsvsState]
  · cases e <;> simp [RunComputationsState] ; exact hc _ (by simp)
  · cases e <;> simp [RunValidateRxState] ; exact hc _ (by simp)
  · cases e <;> simp [RunAuthenticatedState]
  · cases e <;> simp [RunLinkIntegrityCheckState] ; exact hc _ (by simp)
  · cases e <;> simp [RunTestForRepeaterState] ; exact hc _ (by simp)
  · cases e <;> simp [RunWaitForReadyState]
    · exact hc _ (by simp)
    · split_ifs <;> exact hc _ (by simp)
  · cases e <;> simp [RunReadKsvListState]
  · cases e <;> simp [RunUnauthenticatedState]
  · cases e <;> simp [RunPhysicalLayerDownState] ; split_ifs <;> simp [PostEvent]

theorem TransitionStep_Path (env : Env) (p : XHdcp1x_Tx × tState) :
    (TransitionStep env p).1.Path
      = p.1.Path ++ (if p.1.CurrentState ≠ p.2 then [p.2] else []) := by
  by_cases h : LoopClosed p
  · rw [TransitionStep_closed env p h]
    unfold LoopClosed at h
    simp [h]
  · rw [TransitionStep_open env p h]
    unfold LoopClosed at h
    simp [h, Path_of_core (core_ExitState env p.1 p.1.CurrentState)]

/-- The loop of state transitions only appends to the ghost path, one state for each
transition performed. -/
theorem TransitionLoop_Path (env : Env) (n : Nat) : ∀ p : XHdcp1x_Tx × tState,
    ∃ chain : List tState, (TransitionLoop env n p).1.Path = p.1.Path ++ chain
      ∧ chain.length ≤ n := by
  unfold TransitionLoop
  induction n with
  | zero => intro p; exact ⟨[], by simp⟩
  | succ n ih =>
    intro p
    rw [Function.iterate_succ_apply]
    obtain ⟨chain, h1, h2⟩ := ih (TransitionStep env p)
    rw [h1, TransitionStep_Path, List.append_assoc]
    refine ⟨_, rfl, ?_⟩
    split_ifs <;> simp <;> omega

/-- When the handler leaves `NextState` equal to the current state, `DoTheState`
performs no transition. -/
theorem DoTheState_of_stay (env : Env) (s t : XHdcp1x_Tx) (e : tEvent)
    (h : RunState env s e = (t, s.CurrentState)) : DoTheState env s e = t := by
  unfold DoTheState
  rw [h, TransitionLoop_of_closed]
  have := (RunState_fields env s e).1
  rw [h] at this
  exact this

/-- When the handler asks for another state, `DoTheState` performs that transition
first and goes on from the state entered. -/
theorem DoTheState_of_move (env : Env) (s t : XHdcp1x_Tx) (e : tEvent) (nx : tState)
    (h : RunState env s e = (t, nx)) (hne : s.CurrentState ≠ nx) :
    DoTheState env s e
      = (TransitionLoop env 3
          (EnterState env (swapState (ExitState env t s.CurrentState) nx) nx nx)).1 := by
  have hcs := (RunState_fields env s e).1
  rw [h] at hcs
  simp only at hcs
  unfold DoTheState TransitionLoop
  rw [h, Function.iterate_succ_apply, TransitionStep_open]
  · simp only [hcs]
  · unfold LoopClosed
    simp only [hcs]
    exact hne

/-- When the handler asks for another state whose entry action keeps it,
`DoTheState` performs exactly that transition. -/
theorem DoTheState_of_one (env : Env) (s t : XHdcp1x_Tx) (e : tEvent) (nx : tState)
    (h : RunState env s e = (t, nx)) (hne : s.CurrentState ≠ nx)
    (hkeep : (EnterState env (swapState (ExitState env t s.CurrentState) nx) nx nx).2 = nx) :
    DoTheState env s e
      = (EnterState env (swapState (ExitState env t s.CurrentState) nx) nx nx).1 := by
  rw [DoTheState_of_move env s t e nx h hne, TransitionLoop_of_closed]
  unfold LoopClosed
  rw [hkeep]
  simp

/-! ## Re-authentication -/

/-- C5, as amended: in Computations, ValidateRx, Authenticated, LinkIntegrityCheck,
TestForRepeater, WaitForReady, ReadKsvList and Unauthenticated an Authenticate event
makes the entry action of DetermineRxCapable run as the first transition; in
Disabled, DetermineRxCapable, ExchangeKsvs and PhyDown the event is ignored and the
instance is unchanged. -/
theorem Authenticate_restarts (env : Env) (s : XHdcp1x_Tx) :
    ((s.CurrentState = STATE_COMPUTATIONS ∨ s.CurrentState = STATE_VALIDATERX
        ∨ s.CurrentState = STATE_AUTHENTICATED ∨ s.CurrentState = STATE_LINKINTEGRITYCHECK
        ∨ s.CurrentState = STATE_TESTFORREPEATER ∨ s.CurrentState = STATE_WAITFORREADY
        ∨ s.CurrentState = STATE_READKSVLIST ∨ s.CurrentState = STATE_UNAUTHENTICATED) →
      ∃ rest : List tState,
        (DoTheState env s EVENT_AUTHENTICATE).Path
          = s.Path ++ STATE_DETERMINERXCAPABLE :: rest)
    ∧ ((s.CurrentState = STATE_DISABLED ∨ s.CurrentState = STATE_DETERMINERXCAPABLE
        ∨ s.CurrentState = STATE_EXCHANGEKSVS ∨ s.CurrentState = STATE_PHYDOWN) →
      DoTheState env s EVENT_AUTHENTICATE = s) := by
  constructor
  · intro hs
    have hr : RunState env s EVENT_AUTHENTICATE = (s, STATE_DETERMINERXCAPABLE) := by
      rcases hs with h | h | h | h | h | h | h | h <;>
        simp [RunState, h, RunComputationsState, RunValidateRxState, RunAuthenticatedState,
          RunLinkIntegrityCheckState, RunTestForRepeaterState, RunWaitForReadyState,
          RunReadKsvListState, RunUnauthenticatedState]
    have hne : s.CurrentState ≠ STATE_DETERMINERXCAPABLE := by
      rcases hs with h | h | h | h | h | h | h | h <;> simp [h]
    rw [DoTheState_of_move env s s EVENT_AUTHENTICATE _ hr hne]
    obtain ⟨chain, h1, _⟩ := TransitionLoop_Path env 3
      (EnterState env (swapState (ExitState env s s.CurrentState) STATE_DETERMINERXCAPABLE)
        STATE_DETERMINERXCAPABLE STATE_DETERMINERXCAPABLE)
    refine ⟨chain, ?_⟩
    rw [h1]
    simp [Path_of_core (core_ExitState env s s.CurrentState)]
  · intro hs
    apply DoTheState_of_stay
    rcases hs with h | h | h | h <;>
      simp [RunState, h, RunDisabledState, RunDetermineRxCapableState, RunExchangeKsvsState,
        RunPhysicalLayerDownState]

theorem Authenticate_restarts_witness :
    (((sampleTx STATE_UNAUTHENTICATED 1 0).CurrentState = STATE_COMPUTATIONS
        ∨ (sampleTx STATE_UNAUTHENTICATED 1 0).CurrentState = STATE_VALIDATERX
        ∨ (sampleTx STATE_UNAUTHENTICATED 1 0).CurrentState = STATE_AUTHENTICATED
        ∨ (sampleTx STATE_UNAUTHENTICATED 1 0).CurrentState = STATE_LINKINTEGRITYCHECK
        ∨ (sampleTx STATE_UNAUTHENTICATED 1 0).CurrentState = STATE_TESTFORREPEATER
        ∨ (sampleTx STATE_UNAUTHENTICATED 1 0).CurrentState = STATE_WAITFORREADY
        ∨ (sampleTx STATE_UNAUTHENTICATED 1 0).CurrentState = STATE_READKSVLIST
        ∨ (sampleTx STATE_UNAUTHENTICATED 1 0).CurrentState = STATE_UNAUTHENTICATED))
    ∧ ∃ rest : List tState,
        (DoTheState sampleEnv (sampleTx STATE_UNAUTHENTICATED 1 0) EVENT_AUTHENTICATE).Path
          = (sampleTx STATE_UNAUTHENTICATED 1 0).Path ++ STATE_DETERMINERXCAPABLE :: rest :=
  ⟨by decide, (Authenticate_restarts sampleEnv (sampleTx STATE_UNAUTHENTICATED 1 0)).1
    (by decide)⟩

set_option maxRecDepth 100000 in
/-- C5 fails in PhyDown: an Authenticate event handled there leaves the instance as it
is, in PhyDown, and the entry action of DetermineRxCapable does not run. -/
theorem Authenticate_ignored_in_PhyDown :
    (sampleTx STATE_PHYDOWN 0 0).CurrentState ≠ STATE_DISABLED
    ∧ DoTheState sampleEnv (sampleTx STATE_PHYDOWN 0 0) EVENT_AUTHENTICATE
        = sampleTx STATE_PHYDOWN 0 0
    ∧ ¬ ∃ rest : List tState,
        (DoTheState sampleEnv (sampleTx STATE_PHYDOWN 0 0) EVENT_AUTHENTICATE).Path
          = (sampleTx STATE_PHYDOWN 0 0).Path ++ STATE_DETERMINERXCAPABLE :: rest := by
  have h : DoTheState sampleEnv (sampleTx STATE_PHYDOWN 0 0) EVENT_AUTHENTICATE
      = sampleTx STATE_PHYDOWN 0 0 := by decide
  refine ⟨by decide, h, ?_⟩
  rw [h]
  rintro ⟨rest, hrest⟩
  simp [sampleTx, ZeroInstance] at hrest

/-! ## Enabling from Disabled -/

@[simp] theorem DisableEncryption_Stats (env : Env) (s : XHdcp1x_Tx) :
    (DisableEncryption env s).Stats = s.Stats := by
  unfold DisableEncryption
  dsimp only
  split_ifs <;> simp

@[simp] theorem DisableEncryption_Flags (env : Env) (s : XHdcp1x_Tx) :
    (DisableEncryption env s).Flags = s.Flags := by
  unfold DisableEncryption
  dsimp only
  split_ifs <;> simp

@[simp] theorem DisableEncryption_StateHelper (env : Env) (s : XHdcp1x_Tx) :
    (DisableEncryption env s).StateHelper = s.StateHelper := by
  unfold DisableEncryption
  dsimp only
  split_ifs <;> simp

theorem and_one_eq_zero_iff (x : Nat) : x &&& 1 = 0 ↔ x.testBit 0 = false := by
  rw [Nat.and_one_is_mod, Nat.testBit_zero]
  rcases Nat.mod_two_eq_zero_or_one x with h | h <;> simp [h]

/-- C7: in Disabled an Enable event leads to Unauthenticated when the PhyUp flag is set
and to PhyDown when it is clear, with all six statistics counters zero afterwards; a
PhyUp or PhyDown event only sets or clears the flag and the state stays Disabled. -/
theorem Enable_from_Disabled (env : Env) (s : XHdcp1x_Tx)
    (hs : s.CurrentState = STATE_DISABLED) :
    (s.Flags &&& FLAG_PHY_UP ≠ 0 →
      (DoTheState env s EVENT_ENABLE).CurrentState = STATE_UNAUTHENTICATED)
    ∧ (s.Flags &&& FLAG_PHY_UP = 0 →
      (DoTheState env s EVENT_ENABLE).CurrentState = STATE_PHYDOWN)
    ∧ (DoTheState env s EVENT_ENABLE).Stats = ⟨0, 0, 0, 0, 0, 0⟩
    ∧ DoTheState env s EVENT_PHYUP = setFlags s (setBits16 s.Flags FLAG_PHY_UP)
    ∧ (setBits16 s.Flags FLAG_PHY_UP).testBit 0 = true
    ∧ DoTheState env s EVENT_PHYDOWN = setFlags s (clearBits16 s.Flags FLAG_PHY_UP)
    ∧ (clearBits16 s.Flags FLAG_PHY_UP).testBit 0 = false
    ∧ (DoTheState env s EVENT_PHYUP).CurrentState = STATE_DISABLED
    ∧ (DoTheState env s EVENT_PHYDOWN).CurrentState = STATE_DISABLED := by
  have hup : DoTheState env s EVENT_PHYUP = setFlags s (setBits16 s.Flags FLAG_PHY_UP) := by
    apply DoTheState_of_stay
    simp [RunState, hs, RunDisabledState]
  have hdown : DoTheState env s EVENT_PHYDOWN
      = setFlags s (clearBits16 s.Flags FLAG_PHY_UP) := by
    apply DoTheState_of_stay
    simp [RunState, hs, RunDisabledState]
  have hen : ∀ nx : tState, RunState env s EVENT_ENABLE = (s, nx) → nx ≠ STATE_DISABLED →
      (nx = STATE_UNAUTHENTICATED ∨ nx = STATE_PHYDOWN) →
      (DoTheState env s EVENT_ENABLE).CurrentState = nx
        ∧ (DoTheState env s EVENT_ENABLE).Stats = ⟨0, 0, 0, 0, 0, 0⟩ := by
    intro nx hr hne hnx
    have hne' : s.CurrentState ≠ nx := by rw [hs]; exact fun h => hne h.symm
    have hkeep : (EnterState env (swapState (ExitState env s s.CurrentState) nx) nx nx).2
        = nx := by
      rcases hnx with h | h <;> subst h <;> simp [EnterState]
    rw [DoTheState_of_one env s s EVENT_ENABLE nx hr hne' hkeep]
    refine ⟨by simp, ?_⟩
    rcases hnx with h | h <;> subst h <;> simp [EnterState, hs, ExitState, Enable]
  refine ⟨?_, ?_, ?_, hup, ?_, hdown, ?_, ?_, ?_⟩
  · intro hf
    exact (hen STATE_UNAUTHENTICATED (by simp [RunState, hs, RunDisabledState, hf])
      (by simp) (Or.inl rfl)).1
  · intro hf
    exact (hen STATE_PHYDOWN (by simp [RunState, hs, RunDisabledState, hf])
      (by simp) (Or.inr rfl)).1
  · by_cases hf : s.Flags &&& FLAG_PHY_UP = 0
    · exact (hen STATE_PHYDOWN (by simp [RunState, hs, RunDisabledState, hf])
        (by simp) (Or.inr rfl)).2
    · exact (hen STATE_UNAUTHENTICATED (by simp [RunState, hs, RunDisabledState, hf])
        (by simp) (Or.inl rfl)).2
  · have := testBit_setBits16 s.Flags 0 0
    simpa [FLAG_PHY_UP] using this
  · have := testBit_clearBits16 s.Flags 0 0
    simpa [FLAG_PHY_UP] using this
  · rw [hup]; simpa using hs
  · rw [hdown]; simpa using hs

theorem Enable_from_Disabled_witness :
    (sampleTx STATE_DISABLED 1 0).CurrentState = STATE_DISABLED
    ∧ ((sampleTx STATE_DISABLED 1 0).Flags &&& FLAG_PHY_UP ≠ 0 →
        (DoTheState sampleEnv (sampleTx STATE_DISABLED 1 0) EVENT_ENABLE).CurrentState
          = STATE_UNAUTHENTICATED)
    ∧ (DoTheState sampleEnv (sampleTx STATE_DISABLED 1 0) EVENT_ENABLE).Stats
        = ⟨0, 0, 0, 0, 0, 0⟩ :=
  ⟨by decide,
    (Enable_from_Disabled sampleEnv (sampleTx STATE_DISABLED 1 0) (by decide)).1,
    (Enable_from_Disabled sampleEnv (sampleTx STATE_DISABLED 1 0) (by decide)).2.2.1⟩

/-! ## Run to stable -/

theorem TransitionStep_rest (env : Env) (p : XHdcp1x_Tx × tState)
    (h : LoopClosed p → ¬ Passing p.2) :
    LoopClosed (TransitionStep env p) → ¬ Passing (TransitionStep env p).2 := by
  by_cases hc : LoopClosed p
  · rw [TransitionStep_closed env p hc]; exact h
  · intro hcl
    have hcs := TransitionStep_CurrentState env p
    unfold LoopClosed at hcl
    rw [hcs] at hcl
    rw [TransitionStep_open env p hc] at hcl ⊢
    rcases EnterState_next env (swapState (ExitState env p.1 p.1.CurrentState) p.2) p.2
      with ⟨h1, h2⟩ | ⟨_, h2⟩
    · rw [h1]; exact h2
    · exact absurd hcl.symm h2

theorem TransitionLoop_rest (env : Env) (n : Nat) : ∀ p : XHdcp1x_Tx × tState,
    (LoopClosed p → ¬ Passing p.2) →
    LoopClosed (TransitionLoop env n p) → ¬ Passing (TransitionLoop env n p).2 := by
  unfold TransitionLoop
  induction n with
  | zero => intro p h; exact h
  | succ n ih =>
    intro p h
    rw [Function.iterate_succ_apply]
    exact ih _ (TransitionStep_rest env p h)

theorem not_Passing_iff (c : tState) :
    ¬ Passing c ↔
      (c = STATE_DISABLED ∨ c = STATE_UNAUTHENTICATED ∨ c = STATE_AUTHENTICATED
        ∨ c = STATE_LINKINTEGRITYCHECK ∨ c = STATE_COMPUTATIONS ∨ c = STATE_VALIDATERX
        ∨ c = STATE_TESTFORREPEATER ∨ c = STATE_WAITFORREADY ∨ c = STATE_PHYDOWN) := by
  cases c <;> simp [Passing]

/-- C8: started in a state other than DetermineRxCapable, ExchangeKsvs and ReadKsvList,
`DoTheState` ends, for every event and every behaviour of the collaborators, in one of
Disabled, Unauthenticated, Authenticated, LinkIntegrityCheck, Computations,
ValidateRx, TestForRepeater, WaitForReady and PhyDown, never in DetermineRxCapable,
ExchangeKsvs or ReadKsvList. -/
theorem DoTheState_run_to_stable (env : Env) (s : XHdcp1x_Tx) (e : tEvent)
    (h1 : s.CurrentState ≠ STATE_DETERMINERXCAPABLE)
    (h2 : s.CurrentState ≠ STATE_EXCHANGEKSVS)
    (h3 : s.CurrentState ≠ STATE_READKSVLIST) :
    ((DoTheState env s e).CurrentState = STATE_DISABLED
      ∨ (DoTheState env s e).CurrentState = STATE_UNAUTHENTICATED
      ∨ (DoTheState env s e).CurrentState = STATE_AUTHENTICATED
      ∨ (DoTheState env s e).CurrentState = STATE_LINKINTEGRITYCHECK
      ∨ (DoTheState env s e).CurrentState = STATE_COMPUTATIONS
      ∨ (DoTheState env s e).CurrentState = STATE_VALIDATERX
      ∨ (DoTheState env s e).CurrentState = STATE_TESTFORREPEATER
      ∨ (DoTheState env s e).CurrentState = STATE_WAITFORREADY
      ∨ (DoTheState env s e).CurrentState = STATE_PHYDOWN)
    ∧ (DoTheState env s e).CurrentState ≠ STATE_DETERMINERXCAPABLE
    ∧ (DoTheState env s e).CurrentState ≠ STATE_EXCHANGEKSVS
    ∧ (DoTheState env s e).CurrentState ≠ STATE_READKSVLIST := by
  have hcl := TransitionLoop_closed env (RunState env s e)
  have hstart : LoopClosed (RunState env s e) → ¬ Passing (RunState env s e).2 := by
    intro hc
    unfold LoopClosed at hc
    rw [← hc, (RunState_fields env s e).1]
    unfold Passing
    simp [h1, h2, h3]
  have hrest := TransitionLoop_rest env 4 _ hstart hcl
  unfold LoopClosed at hcl
  rw [← hcl] at hrest
  have hrest' : ¬ Passing (DoTheState env s e).CurrentState := hrest
  refine ⟨(not_Passing_iff _).1 hrest', ?_, ?_, ?_⟩
  · exact fun h => hrest' (Or.inl h)
  · exact fun h => hrest' (Or.inr (Or.inl h))
  · exact fun h => hrest' (Or.inr (Or.inr h))

theorem DoTheState_run_to_stable_witness :
    (sampleTx STATE_UNAUTHENTICATED 1 0).CurrentState ≠ STATE_DETERMINERXCAPABLE
    ∧ (DoTheState sampleEnv (sampleTx STATE_UNAUTHENTICATED 1 0)
        EVENT_AUTHENTICATE).CurrentState ≠ STATE_EXCHANGEKSVS :=
  ⟨by decide,
    (DoTheState_run_to_stable sampleEnv (sampleTx STATE_UNAUTHENTICATED 1 0)
      EVENT_AUTHENTICATE (by decide) (by decide) (by decide)).2.2.1⟩

/-! ## Bounded chains of transitions -/

theorem AwaitStep_stable (env : Env) (m : Nat) (k : Nat) (t : XHdcp1x_Tx)
    (h : env.CipherPending t.Calls < m) :
    (AwaitStep env)^[k + m] (t, false) = (AwaitStep env)^[m] (t, false) := by
  rw [Function.iterate_add_apply]
  have hd := AwaitStep_iterate_done env m t h
  generalize (AwaitStep env)^[m] (t, false) = q at hd
  obtain ⟨q1, q2⟩ := q
  simp only at hd
  subst hd
  exact AwaitStep_done env q1 k

/-- Under the contract of the cipher the busy wait ends: cut off after more polls than
the cipher has pending, it gives the instance of the total model. -/
theorem BusyWaitWithin_ends (env : Env) (n : Nat) : ∀ s : XHdcp1x_Tx,
    env.CipherPending s.Calls < n →
    BusyWaitWithin env.CipherIsRequestComplete n s = some (AwaitRequestComplete env s).1 := by
  induction n with
  | zero => intro s h; omega
  | succ n ih =>
    intro s h
    unfold BusyWaitWithin AwaitRequestComplete
    rw [Function.iterate_succ_apply]
    by_cases hc : env.CipherIsRequestComplete s.Calls = true
    · have e : AwaitStep env (s, false) = (issue s Call.CipherIsRequestComplete, true) := by
        simp [AwaitStep, hc]
      rw [if_pos hc, e, AwaitStep_done]
    · have hc' : env.CipherIsRequestComplete s.Calls = false := by simpa using hc
      have e : AwaitStep env (s, false) = (issue s Call.CipherIsRequestComplete, false) := by
        simp [AwaitStep, hc']
      have hd := env.pending_dec s.Calls hc'
      have hlt : env.CipherPending (issue s Call.CipherIsRequestComplete).Calls < n := by
        simp only [issue]
        omega
      rw [if_neg hc, e, ih _ hlt]
      unfold AwaitRequestComplete
      have hle : env.CipherPending (issue s Call.CipherIsRequestComplete).Calls + 1
          ≤ env.CipherPending s.Calls := by
        simp only [issue]
        omega
      obtain ⟨k, hk⟩ := Nat.exists_eq_add_of_le hle
      rw [hk, Nat.add_comm _ k,
        AwaitStep_stable env _ k _ (Nat.lt_succ_self _)]

/-- With a cipher that never reports completion the busy wait has not ended after any
number of polls. -/
theorem BusyWaitWithin_never (n : Nat) : ∀ s : XHdcp1x_Tx,
    BusyWaitWithin (fun _ => false) n s = none := by
  induction n with
  | zero => intro s; rfl
  | succ n ih =>
    intro s
    unfold BusyWaitWithin
    simp [ih]

/-- C9 fails for a cipher that accepts the request for a random number and never
reports it complete: `GenerateAn`, which the entry action of ExchangeKsvs calls inside
the loop of state transitions of `DoTheState`, called on an instance in ExchangeKsvs,
has not returned after 100 polls of its busy wait, nor after any other number of
polls. -/
theorem GenerateAn_never_returns :
    GenerateAnWithin (fun _ _ => XST_SUCCESS) (fun _ => false)
        (fun _ => 0x0123456789ABCDEF) 100 (sampleTx STATE_EXCHANGEKSVS 1 0) = none
    ∧ (∀ Polls : Nat,
        GenerateAnWithin (fun _ _ => XST_SUCCESS) (fun _ => false)
          (fun _ => 0x0123456789ABCDEF) Polls (sampleTx STATE_EXCHANGEKSVS 1 0) = none) := by
  have h : ∀ Polls : Nat,
      GenerateAnWithin (fun _ _ => XST_SUCCESS) (fun _ => false)
        (fun _ => 0x0123456789ABCDEF) Polls (sampleTx STATE_EXCHANGEKSVS 1 0) = none := by
    intro Polls
    unfold GenerateAnWithin
    simp [BusyWaitWithin_never]
  exact ⟨h 100, h⟩

set_option maxRecDepth 100000 in
/-- C9, as amended: for every state and event, and for every behaviour of the
collaborators in which the cipher reports its request complete after finitely many
polls (the contract `pending_dec` of the collaborators), `GenerateAn` returns, with the
result of the total model, as soon as its busy wait is given more polls than the cipher
has pending; the loop of state transitions of `DoTheState` has left its guard after 4
rounds, further rounds change nothing, and at most 4 states are entered; the chain
Authenticated, LinkIntegrityCheck, DetermineRxCapable, ExchangeKsvs, Computations has 4
transitions. -/
theorem DoTheState_chain_bounded (env : Env) (s : XHdcp1x_Tx) (e : tEvent) :
    (∀ (t : XHdcp1x_Tx) (k : Nat),
      GenerateAnWithin env.CipherDoRequest env.CipherIsRequestComplete env.CipherGetMi
          (env.CipherPending (t.Calls ++ [Call.CipherDoRequest XHDCP1X_CIPHER_REQUEST_RNG])
            + 1 + k) t
        = some (GenerateAn env t))
    ∧ LoopClosed (TransitionLoop env 4 (RunState env s e))
    ∧ (∀ n : Nat, TransitionLoop env (n + 4) (RunState env s e)
        = TransitionLoop env 4 (RunState env s e))
    ∧ (∃ chain : List tState,
        (DoTheState env s e).Path = s.Path ++ chain ∧ chain.length ≤ 4)
    ∧ (DoTheState sampleEnvRiDrift (sampleTx STATE_AUTHENTICATED 1 0) EVENT_CHECK).Path
        = [STATE_LINKINTEGRITYCHECK, STATE_DETERMINERXCAPABLE, STATE_EXCHANGEKSVS,
            STATE_COMPUTATIONS] := by
  refine ⟨?_, TransitionLoop_closed env _, fun n => TransitionLoop_stable env n _, ?_,
    by decide⟩
  · intro t k
    unfold GenerateAnWithin GenerateAn
    dsimp only
    by_cases h : env.CipherDoRequest t.Calls XHDCP1X_CIPHER_REQUEST_RNG = XST_SUCCESS
    · rw [if_pos h, if_pos h, BusyWaitWithin_ends env _ _ (by simp only [issue]; omega)]
      dsimp only
      split_ifs <;> rfl
    · rw [if_neg h, if_neg h]
      simp
  · obtain ⟨chain, h1, h2⟩ := TransitionLoop_Path env 4 (RunState env s e)
    refine ⟨chain, ?_, h2⟩
    unfold DoTheState
    rw [h1, (RunState_fields env s e).2.2]

set_option maxRecDepth 100000 in
theorem DoTheState_chain_bounded_witness :
    GenerateAnWithin sampleEnv.CipherDoRequest sampleEnv.CipherIsRequestComplete
        sampleEnv.CipherGetMi 1 ZeroInstance
      = some (issue (issue (issue ZeroInstance
            (Call.CipherDoRequest XHDCP1X_CIPHER_REQUEST_RNG))
            Call.CipherIsRequestComplete) Call.CipherGetMi, 0x0123456789ABCDEF)
    ∧ LoopClosed (TransitionLoop sampleEnv 4
        (RunState sampleEnv (sampleTx STATE_UNAUTHENTICATED 1 0) EVENT_AUTHENTICATE))
    ∧ (DoTheState sampleEnv (sampleTx STATE_UNAUTHENTICATED 1 0) EVENT_AUTHENTICATE).Path
        = [STATE_DETERMINERXCAPABLE, STATE_EXCHANGEKSVS, STATE_COMPUTATIONS] :=
  ⟨((DoTheState_chain_bounded sampleEnv ZeroInstance EVENT_NULL).1 ZeroInstance 0).trans
      (by decide),
    (DoTheState_chain_bounded sampleEnv (sampleTx STATE_UNAUTHENTICATED 1 0)
      EVENT_AUTHENTICATE).2.1,
    by decide⟩

/-! ## Draining the pending events -/

theorem and_one_ne_zero_iff (x : Nat) : x &&& 1 ≠ 0 ↔ x.testBit 0 = true := by
  rw [Ne, and_one_eq_zero_iff]
  simp

theorem foldl_skip (env : Env) (l : List Nat) (k : Nat) (s : XHdcp1x_Tx) :
    l.foldl (fun t i => if (0 : Nat).testBit i then DoTheStateOrd env t (k + i) else t) s
      = s := by
  induction l generalizing s with
  | nil => rfl
  | cons a l ih => simp [List.foldl_cons, ih]

/-- The loop of `ProcessPending` handles the set bits of `Pending` from the lowest
upwards; the bound on the number of passes is not what stops it while `Pending` fits
the bound. -/
theorem ProcessPendingLoop_eq_foldl (env : Env) (n : Nat) :
    ∀ (s : XHdcp1x_Tx) (P k : Nat), P < 2 ^ (n + 1) →
      (ProcessPendingLoop env n ⟨s, P, k⟩).Tx
        = (List.range (n + 1)).foldl
            (fun t i => if P.testBit i then DoTheStateOrd env t (k + i) else t) s := by
  induction n with
  | zero =>
    intro s P k _
    rw [show List.range (0 + 1) = [0] from rfl]
    simp only [ProcessPendingLoop, ProcessPendingBody, and_one_ne_zero_iff, List.foldl,
      Nat.add_zero]
  | succ n ih =>
    intro s P k hP
    have hP' : P >>> 1 < 2 ^ (n + 1) := by
      rw [Nat.shiftRight_eq_div_pow]
      rw [Nat.pow_succ] at hP
      omega
    have hf : (fun (t : XHdcp1x_Tx) (i : Nat) =>
          if (P >>> 1).testBit i then DoTheStateOrd env t (k + 1 + i) else t)
        = (fun (t : XHdcp1x_Tx) (i : Nat) =>
          if P.testBit (i + 1) then DoTheStateOrd env t (k + (i + 1)) else t) := by
      funext t i
      rw [Nat.testBit_shiftRight, Nat.add_comm 1 i, Nat.add_assoc, Nat.add_comm 1 i]
    rw [List.range_succ_eq_map, List.foldl_cons, List.foldl_map]
    unfold ProcessPendingLoop
    simp only [ProcessPendingBody, and_one_ne_zero_iff, Nat.add_zero, Nat.succ_eq_add_one]
    rw [← hf]
    by_cases h0 : P >>> 1 = 0
    · simp only [h0, ne_eq, not_true_eq_false, if_false]
      rw [foldl_skip]
    · simp only [h0, ne_eq, not_false_eq_true, if_true]
      exact ih _ _ _ hP'

theorem DoTheState_NULL (env : Env) (s : XHdcp1x_Tx) : DoTheState env s EVENT_NULL = s := by
  apply DoTheState_of_stay
  unfold RunState
  dsimp only
  split <;>
    simp [RunDisabledState, RunDetermineRxCapableState, RunExchangeKsvsState,
      RunComputationsState, RunValidateRxState, RunAuthenticatedState,
      RunLinkIntegrityCheckState, RunTestForRepeaterState, RunWaitForReadyState,
      RunReadKsvListState, RunUnauthenticatedState, RunPhysicalLayerDownState, *]

theorem setPendingEvents_self (s : XHdcp1x_Tx) (h : s.PendingEvents = 0) :
    setPendingEvents s 0 = s := by
  rcases s with ⟨cs, ps, sh, fl, pe, em, st, ca, pa⟩
  simp only [setPendingEvents] at h ⊢
  subst h
  rfl

/-- The loop of `ProcessPending` stops because `Pending` is zero: the bound on the
number of passes is not what stops it. -/
theorem ProcessPendingLoop_closed (env : Env) (n : Nat) :
    ∀ p : PendingState, p.Pending < 2 ^ (n + 1) →
      (ProcessPendingLoop env n p).Pending = 0 := by
  induction n with
  | zero =>
    intro p hp
    simp only [ProcessPendingLoop, ProcessPendingBody]
    rw [Nat.shiftRight_eq_div_pow]
    omega
  | succ n ih =>
    intro p hp
    unfold ProcessPendingLoop
    dsimp only
    split_ifs with h
    · apply ih
      simp only [ProcessPendingBody]
      rw [Nat.shiftRight_eq_div_pow]
      rw [Nat.pow_succ] at hp
      omega
    · simpa using h

/-- The loop of `ValidateKsvList` that reads the ksv list stops because its guard
`(NumToRead > 0) && (IsValid)` is false: the bound on the number of passes is not what
stops it. -/
theorem ReadKsvChunks_closed (env : Env) (n : Nat) :
    ∀ p : KsvListState, p.NumToRead ≤ n →
      ¬ (0 < (ReadKsvChunks env n p).NumToRead ∧ (ReadKsvChunks env n p).IsValid = true) := by
  have hdec : ∀ p : KsvListState,
      (ReadKsvChunk env p).NumToRead ≤ p.NumToRead - 1 := by
    intro p
    have hpos := env.size_ksvfifo_pos
    unfold ReadKsvChunk
    dsimp only
    split_ifs <;> simp only <;> omega
  induction n with
  | zero =>
    intro p hp
    have := hdec p
    simp only [ReadKsvChunks]
    omega
  | succ n ih =>
    intro p hp
    have := hdec p
    unfold ReadKsvChunks
    dsimp only
    split_ifs with h
    · exact ih _ (by omega)
    · exact h

/-- The events handled by `ProcessPending`, as a fold over the event alphabet. -/
theorem ProcessPending_eq_foldl (env : Env) (s : XHdcp1x_Tx) (hP : s.PendingEvents < 2 ^ 16) :
    ProcessPending env s
      = DrainOrder.foldl
          (fun t e => if s.PendingEvents.testBit e.toNat then DoTheState env t e else t)
          (setPendingEvents s 0) := by
  unfold ProcessPending
  by_cases h0 : s.PendingEvents = 0
  · simp [h0, DrainOrder, setPendingEvents_self s h0]
  · simp only [h0, ne_eq, not_false_eq_true, if_true]
    rw [Nat.mod_eq_of_lt hP, ProcessPendingLoop_eq_foldl env 15 _ _ _ hP]
    have h16 : List.range 16 = [0, 1, 2, 3, 4, 5, 6, 7, 8, 9, 10, 11, 12, 13, 14, 15] := by
      decide
    rw [h16]
    simp [DrainOrder, List.foldl_cons, DoTheStateOrd, tEvent.ofNat?, tEvent.toNat,
      DoTheState_NULL]

/-! ## Disable wins -/

theorem RunState_DISABLE (env : Env) (s : XHdcp1x_Tx) :
    RunState env s EVENT_DISABLE = (s, STATE_DISABLED) := by
  unfold RunState
  dsimp only
  split <;> rename_i h <;>
    simp [RunDisabledState, RunDetermineRxCapableState, RunExchangeKsvsState,
      RunComputationsState, RunValidateRxState, RunAuthenticatedState,
      RunLinkIntegrityCheckState, RunTestForRepeaterState, RunWaitForReadyState,
      RunReadKsvListState, RunUnauthenticatedState, RunPhysicalLayerDownState, h]

theorem DoTheState_DISABLE (env : Env) (s : XHdcp1x_Tx) :
    (DoTheState env s EVENT_DISABLE).CurrentState = STATE_DISABLED := by
  by_cases h : s.CurrentState = STATE_DISABLED
  · rw [DoTheState_of_stay env s s EVENT_DISABLE (by rw [RunState_DISABLE, h])]
    exact h
  · rw [DoTheState_of_one env s s EVENT_DISABLE STATE_DISABLED (RunState_DISABLE env s) h
      (by simp [EnterState])]
    simp

theorem DoTheState_stays_Disabled (env : Env) (s : XHdcp1x_Tx) (e : tEvent)
    (hs : s.CurrentState = STATE_DISABLED) (he : e ≠ EVENT_ENABLE) :
    (DoTheState env s e).CurrentState = STATE_DISABLED := by
  have h2 : (RunState env s e).2 = s.CurrentState := by
    cases e <;> simp [RunState, hs, RunDisabledState] at he ⊢
  rw [DoTheState_of_stay env s (RunState env s e).1 e (by rw [← h2])]
  rw [(RunState_fields env s e).1]
  exact hs

theorem TransitionStep_PendingEvents (env : Env) (p : XHdcp1x_Tx × tState) :
    (TransitionStep env p).1.PendingEvents = p.1.PendingEvents := by
  by_cases h : LoopClosed p
  · rw [TransitionStep_closed env p h]
  · rw [TransitionStep_open env p h]
    simp [PendingEvents_of_core (core_ExitState env p.1 p.1.CurrentState)]

theorem TransitionLoop_PendingEvents (env : Env) (n : Nat) : ∀ p : XHdcp1x_Tx × tState,
    (TransitionLoop env n p).1.PendingEvents = p.1.PendingEvents := by
  unfold TransitionLoop
  induction n with
  | zero => intro p; rfl
  | succ n ih =>
    intro p
    rw [Function.iterate_succ_apply, ih, TransitionStep_PendingEvents]

/-- The entry action of Disabled, run by a transition from another state: the port and
the cipher are disabled, the timer is stopped, and the IsRepeater flag, the state
helper and the encryption map are cleared. -/
theorem TransitionStep_to_Disabled (env : Env) (p : XHdcp1x_Tx × tState)
    (h2 : p.2 = STATE_DISABLED) (h1 : p.1.CurrentState ≠ STATE_DISABLED) :
    (TransitionStep env p).1.CurrentState = STATE_DISABLED
    ∧ (TransitionStep env p).2 = STATE_DISABLED
    ∧ (TransitionStep env p).1.Calls
        = (ExitState env p.1 p.1.CurrentState).Calls
          ++ [Call.PortDisable, Call.CipherDisable, Call.PlatformTimerStop]
    ∧ (TransitionStep env p).1.Flags.testBit 1 = false
    ∧ (TransitionStep env p).1.StateHelper = 0
    ∧ (TransitionStep env p).1.EncryptionMap = 0 := by
  have ho : ¬ LoopClosed p := by
    unfold LoopClosed
    rw [h2]
    exact h1
  rw [TransitionStep_open env p ho, h2]
  refine ⟨by simp, by simp [EnterState], by simp [EnterState, Disable], ?_,
    by simp [EnterState, Disable], by simp [EnterState, Disable]⟩
  have := testBit_clearBits16
    (swapState (ExitState env p.1 p.1.CurrentState) STATE_DISABLED).Flags 1 1
  simpa [EnterState, Disable, FLAG_IS_REPEATER] using this

/-- A poll whose pending set holds Disable and not Enable ends in Disabled. -/
theorem Poll_of_pending_Disable (env : Env) (t : XHdcp1x_Tx)
    (hlt : t.PendingEvents < 2 ^ 16)
    (hb3 : t.PendingEvents.testBit EVENT_DISABLE.toNat = true)
    (hb4 : t.PendingEvents.testBit EVENT_ENABLE.toNat = false) :
    (XHdcp1x_TxPoll env t).1.CurrentState = STATE_DISABLED := by
  have hstep : ∀ (b : Bool) (u : XHdcp1x_Tx) (e : tEvent), e ≠ EVENT_ENABLE →
      u.CurrentState = STATE_DISABLED →
      (if b = true then DoTheState env u e else u).CurrentState = STATE_DISABLED := by
    intro b u e he hu
    split_ifs
    · exact DoTheState_stays_Disabled env u e hu he
    · exact hu
  simp only [tEvent.toNat] at hb3 hb4
  unfold XHdcp1x_TxPoll
  dsimp only
  apply DoTheState_stays_Disabled _ _ _ _ (by decide)
  rw [ProcessPending_eq_foldl env _ hlt]
  simp only [DrainOrder, List.foldl_cons, List.foldl_nil, tEvent.toNat, hb3, hb4, if_true,
    Bool.false_eq_true, if_false]
  apply hstep _ _ _ (by decide)
  apply hstep _ _ _ (by decide)
  apply hstep _ _ _ (by decide)
  apply hstep _ _ _ (by decide)
  apply hstep _ _ _ (by decide)
  exact DoTheState_DISABLE env _

/-- C6: `XHdcp1x_TxDisable` leaves Disable pending and Enable not pending, posting any
event other than Enable keeps it so, and a poll of such a pending set ends in
Disabled whatever else is pending and however the collaborators behave; hence
`XHdcp1x_TxDisable` followed by `XHdcp1x_TxPoll` ends in Disabled.  A transition into
Disabled from another state disables the port and the cipher, stops the timer and
clears the IsRepeater flag and the state helper. -/
theorem Disable_wins (env : Env) (s : XHdcp1x_Tx) :
    (XHdcp1x_TxPoll env (XHdcp1x_TxDisable s).1).1.CurrentState = STATE_DISABLED
    ∧ ((XHdcp1x_TxDisable s).1.PendingEvents < 2 ^ 16
        ∧ (XHdcp1x_TxDisable s).1.PendingEvents.testBit EVENT_DISABLE.toNat = true
        ∧ (XHdcp1x_TxDisable s).1.PendingEvents.testBit EVENT_ENABLE.toNat = false)
    ∧ (∀ (t : XHdcp1x_Tx) (e : tEvent), e ≠ EVENT_ENABLE →
        t.PendingEvents.testBit EVENT_DISABLE.toNat = true →
        t.PendingEvents.testBit EVENT_ENABLE.toNat = false →
        (PostEvent t e).PendingEvents < 2 ^ 16
        ∧ (PostEvent t e).PendingEvents.testBit EVENT_DISABLE.toNat = true
        ∧ (PostEvent t e).PendingEvents.testBit EVENT_ENABLE.toNat = false)
    ∧ (∀ t : XHdcp1x_Tx, t.PendingEvents < 2 ^ 16 →
        t.PendingEvents.testBit EVENT_DISABLE.toNat = true →
        t.PendingEvents.testBit EVENT_ENABLE.toNat = false →
        (XHdcp1x_TxPoll env t).1.CurrentState = STATE_DISABLED)
    ∧ ∀ p : XHdcp1x_Tx × tState, p.2 = STATE_DISABLED → p.1.CurrentState ≠ STATE_DISABLED →
      (TransitionStep env p).1.CurrentState = STATE_DISABLED
      ∧ (TransitionStep env p).2 = STATE_DISABLED
      ∧ (TransitionStep env p).1.Calls
          = (ExitState env p.1 p.1.CurrentState).Calls
            ++ [Call.PortDisable, Call.CipherDisable, Call.PlatformTimerStop]
      ∧ (TransitionStep env p).1.Flags.testBit 1 = false
      ∧ (TransitionStep env p).1.StateHelper = 0
      ∧ (TransitionStep env p).1.EncryptionMap = 0 := by
  have hdis : (XHdcp1x_TxDisable s).1.PendingEvents < 2 ^ 16
      ∧ (XHdcp1x_TxDisable s).1.PendingEvents.testBit EVENT_DISABLE.toNat = true
      ∧ (XHdcp1x_TxDisable s).1.PendingEvents.testBit EVENT_ENABLE.toNat = false := by
    unfold XHdcp1x_TxDisable
    refine ⟨PostEvent_lt s _, ?_, ?_⟩
    · rw [PostEvent_testBit]; simp [tEvent.toNat]
    · rw [PostEvent_testBit]; simp [tEvent.toNat]
  refine ⟨Poll_of_pending_Disable env _ hdis.1 hdis.2.1 hdis.2.2, hdis, ?_,
    fun t h1 h2 h3 => Poll_of_pending_Disable env t h1 h2 h3,
    fun p h2 h1 => TransitionStep_to_Disabled env p h2 h1⟩
  intro t e he h3 h4
  refine ⟨PostEvent_lt t e, ?_, ?_⟩
  · rw [PostEvent_testBit, h3]
    cases e <;> simp [tEvent.toNat]
  · rw [PostEvent_testBit, h4]
    cases e <;> simp [tEvent.toNat] at he ⊢

theorem Disable_wins_witness :
    (sampleTx STATE_AUTHENTICATED 3 0, STATE_DISABLED).2 = STATE_DISABLED
    ∧ (sampleTx STATE_AUTHENTICATED 3 0, STATE_DISABLED).1.CurrentState ≠ STATE_DISABLED
    ∧ (TransitionStep sampleEnv (sampleTx STATE_AUTHENTICATED 3 0, STATE_DISABLED)).1.Calls
        = (ExitState sampleEnv (sampleTx STATE_AUTHENTICATED 3 0)
            (sampleTx STATE_AUTHENTICATED 3 0).CurrentState).Calls
          ++ [Call.PortDisable, Call.CipherDisable, Call.PlatformTimerStop] :=
  ⟨rfl, by decide,
    ((Disable_wins sampleEnv ZeroInstance).2.2.2.2
      (sampleTx STATE_AUTHENTICATED 3 0, STATE_DISABLED) rfl (by decide)).2.2.1⟩

/-! ## The poll as a sequence of events -/

theorem RunState_PendingEvents (env : Env) (s : XHdcp1x_Tx) (e : tEvent) :
    (RunState env s e).1.PendingEvents
      = if HandlerPosts s e then (PostEvent s EVENT_AUTHENTICATE).PendingEvents
        else s.PendingEvents := by
  have hc : ∀ t : XHdcp1x_Tx, t.core = s.core → t.PendingEvents = s.PendingEvents :=
    fun t h => PendingEvents_of_core h
  unfold RunState HandlerPosts
  dsimp only
  split <;> rename_i hs
  · cases e <;> simp [RunDisabledState, hs] ; split_ifs <;> simp
  · cases e <;> simp [RunDetermineRxCapableState, hs]
  · cases e <;> simp [RunExchangeKsvsState, hs]
  · cases e <;> simp [RunComputationsState, hs] ; exact hc _ (by simp)
  · cases e <;> simp [RunValidateRxState, hs] ; exact hc _ (by simp)
  · cases e <;> simp [RunAuthenticatedState, hs]
  · cases e <;> simp [RunLinkIntegrityCheckState, hs] ; exact hc _ (by simp)
  · cases e <;> simp [RunTestForRepeaterState, hs] ; exact hc _ (by simp)
  · cases e <;> simp [RunWaitForReadyState, hs]
    · exact hc _ (by simp)
    · split_ifs <;> exact hc _ (by simp)
  · cases e <;> simp [RunReadKsvListState, hs]
  · cases e <;> simp [RunUnauthenticatedState, hs]
  · cases e <;> simp [RunPhysicalLayerDownState, hs] ; split_ifs <;> simp_all

/-- The only change `DoTheState` makes to the pending set is the event posted by the
handler. -/
theorem DoTheState_PendingEvents (env : Env) (s : XHdcp1x_Tx) (e : tEvent) :
    (DoTheState env s e).PendingEvents
      = if HandlerPosts s e then (PostEvent s EVENT_AUTHENTICATE).PendingEvents
        else s.PendingEvents := by
  unfold DoTheState
  rw [TransitionLoop_PendingEvents, RunState_PendingEvents]

theorem DoTheState_PendingEvents_lt (env : Env) (s : XHdcp1x_Tx) (e : tEvent)
    (h : s.PendingEvents < 2 ^ 16) : (DoTheState env s e).PendingEvents < 2 ^ 16 := by
  rw [DoTheState_PendingEvents]
  split_ifs
  · exact PostEvent_lt s _
  · exact h

theorem DoTheState_PendingEvents_testBit (env : Env) (s : XHdcp1x_Tx) (e : tEvent)
    (h : s.PendingEvents < 2 ^ 16) (i : Nat) :
    (DoTheState env s e).PendingEvents.testBit i = true
      ↔ (s.PendingEvents.testBit i = true
          ∨ (i = EVENT_AUTHENTICATE.toNat ∧ HandlerPosts s e)) := by
  rw [DoTheState_PendingEvents]
  by_cases hp : HandlerPosts s e
  · simp only [hp, if_true, and_true]
    rw [PostEvent_testBit]
    by_cases h16 : i < 16
    · simp [h16, tEvent.toNat]
    · have hi : i ≠ 1 := by omega
      simp [h16, testBit_of_lt_16 _ _ h h16, tEvent.toNat, hi]
  · simp [hp]

/-- After a sequence of events the pending set holds what it held before and the
events posted by the handlers on the way. -/
theorem foldl_PendingEvents (env : Env) (es : List tEvent) : ∀ t : XHdcp1x_Tx,
    t.PendingEvents < 2 ^ 16 →
    (es.foldl (DoTheState env) t).PendingEvents < 2 ^ 16
    ∧ ∀ i : Nat, (es.foldl (DoTheState env) t).PendingEvents.testBit i = true
      ↔ (t.PendingEvents.testBit i = true
          ∨ (i = EVENT_AUTHENTICATE.toNat
              ∧ ∃ step ∈ StepsFrom env t es, HandlerPosts step.1 step.2)) := by
  induction es with
  | nil => intro t ht; exact ⟨ht, fun i => by simp [StepsFrom]⟩
  | cons e es ih =>
    intro t ht
    obtain ⟨h1, h2⟩ := ih (DoTheState env t e) (DoTheState_PendingEvents_lt env t e ht)
    refine ⟨h1, fun i => ?_⟩
    rw [List.foldl_cons, h2 i, DoTheState_PendingEvents_testBit env t e ht i]
    simp only [StepsFrom, List.mem_cons, exists_eq_or_imp]
    tauto

theorem foldl_filter_events (env : Env) (b : tEvent → Bool) (es : List tEvent) :
    ∀ t : XHdcp1x_Tx, (es.filter b).foldl (DoTheState env) t
      = es.foldl (fun t e => if b e = true then DoTheState env t e else t) t := by
  induction es with
  | nil => intro t; rfl
  | cons e es ih =>
    intro t
    by_cases h : b e = true
    · simp [List.filter_cons, h, ih]
    · simp [List.filter_cons, h, ih]

/-- C10: a poll with a pending set that fits 16 bits is the poll of the spec: the
pending set is cleared, `DoTheState` is applied to each event of the former pending
set in ascending ordinal order, then to Poll.  `DoTheState` changes the pending set
only by the event its handler posts, so the pending set after the poll holds exactly
the events posted by handlers during the poll; it fits 16 bits again, so the next poll
handles them. -/
theorem Poll_drains_in_order (env : Env) (s : XHdcp1x_Tx) (hP : s.PendingEvents < 2 ^ 16) :
    (XHdcp1x_TxPoll env s).1 = PollBySpec env s
    ∧ (∀ (t : XHdcp1x_Tx) (e : tEvent), (DoTheState env t e).PendingEvents
        = if HandlerPosts t e then (PostEvent t EVENT_AUTHENTICATE).PendingEvents
          else t.PendingEvents)
    ∧ (∀ i : Nat, (XHdcp1x_TxPoll env s).1.PendingEvents.testBit i = true
        ↔ (i = EVENT_AUTHENTICATE.toNat
            ∧ ∃ step ∈ StepsFrom env (setPendingEvents s 0) (PolledEvents s),
                HandlerPosts step.1 step.2))
    ∧ (XHdcp1x_TxPoll env s).1.PendingEvents < 2 ^ 16 := by
  have h1 : (XHdcp1x_TxPoll env s).1 = PollBySpec env s := by
    unfold XHdcp1x_TxPoll PollBySpec PolledEvents
    dsimp only
    rw [ProcessPending_eq_foldl env s hP, List.foldl_append, foldl_filter_events]
    simp
  have h0 : (setPendingEvents s 0).PendingEvents < 2 ^ 16 := by simp
  obtain ⟨h2, h3⟩ := foldl_PendingEvents env (PolledEvents s) (setPendingEvents s 0) h0
  refine ⟨h1, DoTheState_PendingEvents env, ?_, ?_⟩
  · intro i
    rw [h1]
    unfold PollBySpec
    rw [h3 i]
    simp
  · rw [h1]
    exact h2

set_option maxRecDepth 100000 in
theorem Poll_drains_in_order_witness :
    (sampleTx STATE_PHYDOWN 0 0x0088).PendingEvents < 2 ^ 16
    ∧ (XHdcp1x_TxPoll sampleEnv (sampleTx STATE_PHYDOWN 0 0x0088)).1
        = PollBySpec sampleEnv (sampleTx STATE_PHYDOWN 0 0x0088) :=
  ⟨by decide, (Poll_drains_in_order sampleEnv (sampleTx STATE_PHYDOWN 0 0x0088) (by decide)).1⟩

/-! ## Starting the computations -/

theorem and_two_eq_zero_iff (x : Nat) : x &&& 2 = 0 ↔ x.testBit 1 = false := by
  constructor
  · intro h
    have h1 := congrArg (fun v => v.testBit 1) h
    simp only [Nat.testBit_and, Nat.zero_testBit] at h1
    have h2 : Nat.testBit 2 1 = true := by decide
    rw [h2] at h1
    simpa using h1
  · intro h
    apply Nat.eq_of_testBit_eq
    intro i
    rw [Nat.testBit_and, show (2 : Nat) = 2 ^ 1 from rfl, Nat.testBit_two_pow]
    by_cases hi : 1 = i
    · subst hi; simp [h]
    · simp [hi]

theorem setB_X (a : Nat) : (a &&& 0x0FFFFFFF) % 2 ^ 32 = a &&& 0x0FFFFFFF := by
  apply Nat.mod_eq_of_lt
  have : a &&& 0x0FFFFFFF ≤ 0x0FFFFFFF := Nat.and_le_right
  omega

theorem setB_Z (a : Nat) : (a &&& 0xFF) % 2 ^ 32 = a &&& 0xFF := by
  apply Nat.mod_eq_of_lt
  have : a &&& 0xFF ≤ 0xFF := Nat.and_le_right
  omega

theorem setB_Z_repeater (a : Nat) :
    ((a &&& 0xFF) ||| (1 <<< 8)) % 2 ^ 32 = (a &&& 0xFF) ||| (1 <<< 8) := by
  apply Nat.mod_eq_of_lt
  have h1 : a &&& 0xFF < 2 ^ 9 := by
    have : a &&& 0xFF ≤ 0xFF := Nat.and_le_right
    omega
  have h2 : (1 <<< 8 : Nat) < 2 ^ 9 := by decide
  have := Nat.or_lt_two_pow h1 h2
  omega

/-- The three pieces passed to the cipher put together give An back. -/
theorem setB_roundtrip (a : Nat) (ha : a < 2 ^ 64) (r : Nat) :
    (a &&& 0x0FFFFFFF) ||| (((a >>> 28) &&& 0x0FFFFFFF) <<< 28)
      ||| (((((a >>> 56) &&& 0xFF) ||| (r <<< 8)) &&& 0xFF) <<< 56) = a := by
  apply Nat.eq_of_testBit_eq
  intro i
  have h28 : (0x0FFFFFFF : Nat) = 2 ^ 28 - 1 := by norm_num
  have h8 : (0xFF : Nat) = 2 ^ 8 - 1 := by norm_num
  have hhi : 64 ≤ i → a.testBit i = false := by
    intro h
    apply Nat.testBit_lt_two_pow
    calc a < 2 ^ 64 := ha
      _ ≤ 2 ^ i := Nat.pow_le_pow_right (by decide) h
  simp only [Nat.testBit_or, Nat.testBit_and, Nat.testBit_shiftLeft, Nat.testBit_shiftRight,
    h28, h8, Nat.testBit_two_pow_sub_one]
  by_cases h1 : i < 28
  · have e1 : ¬ 28 ≤ i := by omega
    have e2 : ¬ 56 ≤ i := by omega
    simp [h1, e1, e2]
  · by_cases h2 : i < 56
    · have e1 : 28 ≤ i := by omega
      have e2 : ¬ 56 ≤ i := by omega
      have e3 : i - 28 < 28 := by omega
      have e4 : 28 + (i - 28) = i := by omega
      simp [h1, e1, e2, e3, e4]
    · by_cases h3 : i < 64
      · have e1 : 28 ≤ i := by omega
        have e2 : 56 ≤ i := by omega
        have e3 : ¬ i - 28 < 28 := by omega
        have e4 : i - 56 < 8 := by omega
        have e5 : 56 + (i - 56) = i := by omega
        have e6 : ¬ 8 ≤ i - 56 := by omega
        simp [h1, e1, e2, e3, e4, e5, e6]
      · have e1 : 28 ≤ i := by omega
        have e2 : 56 ≤ i := by omega
        have e3 : ¬ i - 28 < 28 := by omega
        have e4 : ¬ i - 56 < 8 := by omega
        simp [h1, e1, e2, e3, e4, hhi (by omega)]

/-- C18: the entry action of Computations, with An in the state helper, calls
`XHdcp1x_CipherSetB(X, Y, Z)` with X the low 28 bits of An, Y the next 28 bits and Z
the high 8 bits with the IsRepeater flag as bit 8, and then requests a Block
operation; X, Y and the low byte of Z put together give An back. -/
theorem StartComputations_setB (env : Env) (s : XHdcp1x_Tx) (nx : tState)
    (ha : s.StateHelper < 2 ^ 64) :
    EnterState env s STATE_COMPUTATIONS nx
        = (issue
            (issue s (Call.CipherSetB (s.StateHelper &&& 0x0FFFFFFF)
              ((s.StateHelper >>> 28) &&& 0x0FFFFFFF)
              (((s.StateHelper >>> 56) &&& 0xFF) ||| ((s.Flags.testBit 1).toNat <<< 8))))
            (Call.CipherDoRequest XHDCP1X_CIPHER_REQUEST_BLOCK), nx)
    ∧ (s.StateHelper &&& 0x0FFFFFFF) ||| (((s.StateHelper >>> 28) &&& 0x0FFFFFFF) <<< 28)
        ||| (((((s.StateHelper >>> 56) &&& 0xFF) ||| ((s.Flags.testBit 1).toNat <<< 8))
              &&& 0xFF) <<< 56) = s.StateHelper
    ∧ (((s.StateHelper >>> 56) &&& 0xFF) ||| ((s.Flags.testBit 1).toNat <<< 8)).testBit 8
        = s.Flags.testBit 1 := by
  refine ⟨?_, setB_roundtrip _ ha _, ?_⟩
  · have hsh : s.StateHelper >>> 28 >>> 28 = s.StateHelper >>> 56 := by
      rw [← Nat.shiftRight_add]
    simp only [EnterState, StartComputations, setB_X, setB_Z, hsh, FLAG_IS_REPEATER]
    by_cases hr : s.Flags.testBit 1 = true
    · have h2 : s.Flags &&& (1 <<< 1) ≠ 0 := by
        intro h
        have := (and_two_eq_zero_iff s.Flags).1 h
        simp [hr] at this
      simp only [h2, ne_eq, not_false_eq_true, if_true, setB_Z_repeater, hr, Bool.toNat_true]
    · have hr' : s.Flags.testBit 1 = false := by simpa using hr
      have h2 : s.Flags &&& (1 <<< 1) = 0 := (and_two_eq_zero_iff s.Flags).2 hr'
      simp only [h2, ne_eq, not_true_eq_false, if_false, hr', Bool.toNat_false,
        Nat.zero_shiftLeft, Nat.or_zero]
  · have h8 : (0xFF : Nat) = 2 ^ 8 - 1 := by norm_num
    rw [Nat.testBit_or, Nat.testBit_and, h8, Nat.testBit_two_pow_sub_one,
      Nat.testBit_shiftLeft]
    cases s.Flags.testBit 1 <;> simp

theorem StartComputations_setB_witness :
    (setStateHelper (sampleTx STATE_EXCHANGEKSVS 3 0) 0x0123456789ABCDEF).StateHelper < 2 ^ 64
    ∧ EnterState sampleEnv (setStateHelper (sampleTx STATE_EXCHANGEKSVS 3 0) 0x0123456789ABCDEF)
        STATE_COMPUTATIONS STATE_COMPUTATIONS
      = (issue
          (issue (setStateHelper (sampleTx STATE_EXCHANGEKSVS 3 0) 0x0123456789ABCDEF)
            (Call.CipherSetB
              ((setStateHelper (sampleTx STATE_EXCHANGEKSVS 3 0)
                0x0123456789ABCDEF).StateHelper &&& 0x0FFFFFFF)
              (((setStateHelper (sampleTx STATE_EXCHANGEKSVS 3 0)
                0x0123456789ABCDEF).StateHelper >>> 28) &&& 0x0FFFFFFF)
              ((((setStateHelper (sampleTx STATE_EXCHANGEKSVS 3 0)
                0x0123456789ABCDEF).StateHelper >>> 56) &&& 0xFF)
                ||| (((setStateHelper (sampleTx STATE_EXCHANGEKSVS 3 0)
                  0x0123456789ABCDEF).Flags.testBit 1).toNat <<< 8))))
          (Call.CipherDoRequest XHDCP1X_CIPHER_REQUEST_BLOCK), STATE_COMPUTATIONS) :=
  ⟨by decide,
    (StartComputations_setB sampleEnv
      (setStateHelper (sampleTx STATE_EXCHANGEKSVS 3 0) 0x0123456789ABCDEF)
      STATE_COMPUTATIONS (by decide)).1⟩

/-! ## Waiting for the repeater to be ready -/

theorem TransitionLoop_succ_open (env : Env) (n : Nat) (p : XHdcp1x_Tx × tState)
    (h : ¬ LoopClosed p) :
    TransitionLoop env (n + 1) p
      = TransitionLoop env n
          (EnterState env (swapState (ExitState env p.1 p.1.CurrentState) p.2) p.2 p.2) := by
  unfold TransitionLoop
  rw [Function.iterate_succ_apply, TransitionStep_open env p h]

theorem PollForWaitForReady_fail (env : Env) (s : XHdcp1x_Tx) (nx : tState)
    (hf : (env.PortGetRepeaterInfo s.Calls).1 ≠ XST_SUCCESS) :
    PollForWaitForReady env s nx = (issue s Call.PortGetRepeaterInfo, nx) := by
  unfold PollForWaitForReady
  simp [hf]

/-- C17: in WaitForReady, when the repeater info cannot be read, a Timeout event moves
the state machine to Unauthenticated (the exit action stops the timer), and a Poll
event only issues the read: the state stays WaitForReady and the timer is not
stopped. -/
theorem WaitForReady_unreadable (env : Env) (s : XHdcp1x_Tx)
    (hs : s.CurrentState = STATE_WAITFORREADY)
    (hf : (env.PortGetRepeaterInfo s.Calls).1 ≠ XST_SUCCESS) :
    (DoTheState env s EVENT_TIMEOUT).CurrentState = STATE_UNAUTHENTICATED
    ∧ (DoTheState env s EVENT_TIMEOUT).Path = s.Path ++ [STATE_UNAUTHENTICATED]
    ∧ DoTheState env s EVENT_POLL = issue s Call.PortGetRepeaterInfo
    ∧ (DoTheState env s EVENT_POLL).CurrentState = STATE_WAITFORREADY
    ∧ (DoTheState env s EVENT_POLL).Calls = s.Calls ++ [Call.PortGetRepeaterInfo] := by
  have hpoll : DoTheState env s EVENT_POLL = issue s Call.PortGetRepeaterInfo := by
    apply DoTheState_of_stay
    simp [RunState, hs, RunWaitForReadyState, PollForWaitForReady_fail env s _ hf]
  have hr : RunState env s EVENT_TIMEOUT
      = (issue s Call.PortGetRepeaterInfo, STATE_UNAUTHENTICATED) := by
    simp [RunState, hs, RunWaitForReadyState, PollForWaitForReady_fail env s _ hf]
  have ht := DoTheState_of_one env s _ EVENT_TIMEOUT STATE_UNAUTHENTICATED hr
    (by rw [hs]; decide) (by simp [EnterState])
  refine ⟨?_, ?_, hpoll, ?_, ?_⟩
  · rw [ht]; simp
  · rw [ht]; simp [Path_of_core (core_ExitState env _ _)]
  · rw [hpoll]; simpa using hs
  · rw [hpoll]; simp

theorem WaitForReady_unreadable_witness :
    (sampleTx STATE_WAITFORREADY 3 0).CurrentState = STATE_WAITFORREADY
    ∧ (sampleEnvNoRepeaterInfo.PortGetRepeaterInfo
        (sampleTx STATE_WAITFORREADY 3 0).Calls).1 ≠ XST_SUCCESS
    ∧ (DoTheState sampleEnvNoRepeaterInfo
        (sampleTx STATE_WAITFORREADY 3 0) EVENT_TIMEOUT).CurrentState = STATE_UNAUTHENTICATED :=
  ⟨by decide, by decide,
    (WaitForReady_unreadable sampleEnvNoRepeaterInfo
      (sampleTx STATE_WAITFORREADY 3 0) (by decide) (by decide)).1⟩
theorem PollForWaitForReady_ok (env : Env) (s : XHdcp1x_Tx) (nx : tState) (B : Nat)
    (hok : (env.PortGetRepeaterInfo s.Calls).1 = XST_SUCCESS)
    (hB : (env.PortGetRepeaterInfo s.Calls).2 % 2 ^ 16 = B) :
    PollForWaitForReady env s nx
      = if B &&& 0x0880 = 0 then
          if B &&& 0x007F ≠ 0 then
            (setStateHelper (issue s Call.PortGetRepeaterInfo) B, STATE_READKSVLIST)
          else (issue s Call.PortGetRepeaterInfo, STATE_AUTHENTICATED)
        else (issue s Call.PortGetRepeaterInfo, STATE_UNAUTHENTICATED) := by
  unfold PollForWaitForReady
  simp only [hok, hB, if_true]

theorem RunState_WaitForReady_ok (env : Env) (s : XHdcp1x_Tx) (e : tEvent) (B : Nat)
    (hs : s.CurrentState = STATE_WAITFORREADY)
    (he : e = EVENT_POLL ∨ e = EVENT_TIMEOUT)
    (hok : (env.PortGetRepeaterInfo s.Calls).1 = XST_SUCCESS)
    (hB : (env.PortGetRepeaterInfo s.Calls).2 % 2 ^ 16 = B) :
    RunState env s e
      = if B &&& 0x0880 = 0 then
          if B &&& 0x007F ≠ 0 then
            (setStateHelper (issue s Call.PortGetRepeaterInfo) B, STATE_READKSVLIST)
          else (issue s Call.PortGetRepeaterInfo, STATE_AUTHENTICATED)
        else (issue s Call.PortGetRepeaterInfo, STATE_UNAUTHENTICATED) := by
  rcases he with he | he <;> subst he
  · simp only [RunState, hs, RunWaitForReadyState]
    exact PollForWaitForReady_ok env s _ B hok hB
  · simp only [RunState, hs, RunWaitForReadyState]
    rw [PollForWaitForReady_ok env s _ B hok hB]
    split_ifs <;> simp_all

/-- When the handler asks for another state, whose entry action asks for a third
state, whose entry action keeps it, `DoTheState` performs exactly these two
transitions. -/
theorem DoTheState_of_two (env : Env) (s t u : XHdcp1x_Tx) (e : tEvent) (nx nx2 : tState)
    (h : RunState env s e = (t, nx)) (hne : s.CurrentState ≠ nx)
    (h1 : EnterState env (swapState (ExitState env t s.CurrentState) nx) nx nx = (u, nx2))
    (hne2 : nx ≠ nx2)
    (hkeep : (EnterState env (swapState (ExitState env u nx) nx2) nx2 nx2).2 = nx2) :
    DoTheState env s e = (EnterState env (swapState (ExitState env u nx) nx2) nx2 nx2).1 := by
  have hu : u.CurrentState = nx := by
    have := EnterState_CurrentState env (swapState (ExitState env t s.CurrentState) nx) nx nx
    rw [h1] at this
    simpa using this
  rw [DoTheState_of_move env s t e nx h hne, h1, TransitionLoop_succ_open env 2 (u, nx2)]
  · simp only [hu]
    rw [TransitionLoop_of_closed]
    unfold LoopClosed
    rw [hkeep]
    simp
  · unfold LoopClosed
    simp only [hu]
    exact hne2

theorem and_0FFF_mod (B : Nat) : (B &&& 0x0FFF) % 2 ^ 16 = B &&& 0x0FFF := by
  apply Nat.mod_eq_of_lt
  have : B &&& 0x0FFF ≤ 0x0FFF := Nat.and_le_right
  omega

/-- C16: in WaitForReady, on Poll or Timeout with the repeater info read as B: if bit 7
or bit 11 of B is set the state machine goes to Unauthenticated; else if the device
count `B & 0x7F` is not zero it enters ReadKsvList, whose entry action validates the
ksv list with the low 12 bits of B and goes on to Authenticated or Unauthenticated;
else it goes to Authenticated. -/
theorem WaitForReady_repeater_info (env : Env) (s : XHdcp1x_Tx) (e : tEvent) (B : Nat)
    (hs : s.CurrentState = STATE_WAITFORREADY)
    (he : e = EVENT_POLL ∨ e = EVENT_TIMEOUT)
    (hok : (env.PortGetRepeaterInfo s.Calls).1 = XST_SUCCESS)
    (hB : (env.PortGetRepeaterInfo s.Calls).2 % 2 ^ 16 = B) :
    (B &&& 0x0880 ≠ 0 →
      (DoTheState env s e).CurrentState = STATE_UNAUTHENTICATED
      ∧ (DoTheState env s e).Path = s.Path ++ [STATE_UNAUTHENTICATED])
    ∧ (B &&& 0x0880 = 0 → B &&& 0x007F ≠ 0 →
      (DoTheState env s e).Path
          = s.Path ++ [STATE_READKSVLIST, (DoTheState env s e).CurrentState]
      ∧ (DoTheState env s e).CurrentState
          = (if (ReadKsvListLoop env (B &&& 0x0FFF) 3
                (swapState (StopTimer (setStateHelper (issue s Call.PortGetRepeaterInfo) B))
                  STATE_READKSVLIST)).2 = true
              then STATE_AUTHENTICATED else STATE_UNAUTHENTICATED)
      ∧ EnterState env
            (swapState (StopTimer (setStateHelper (issue s Call.PortGetRepeaterInfo) B))
              STATE_READKSVLIST) STATE_READKSVLIST STATE_READKSVLIST
          = ((ReadKsvListLoop env (B &&& 0x0FFF) 3
                (swapState (StopTimer (setStateHelper (issue s Call.PortGetRepeaterInfo) B))
                  STATE_READKSVLIST)).1,
              if (ReadKsvListLoop env (B &&& 0x0FFF) 3
                (swapState (StopTimer (setStateHelper (issue s Call.PortGetRepeaterInfo) B))
                  STATE_READKSVLIST)).2 = true
              then STATE_AUTHENTICATED else STATE_UNAUTHENTICATED))
    ∧ (B &&& 0x0880 = 0 → B &&& 0x007F = 0 →
      (DoTheState env s e).CurrentState = STATE_AUTHENTICATED
      ∧ (DoTheState env s e).Path = s.Path ++ [STATE_AUTHENTICATED]) := by
  have hrun := RunState_WaitForReady_ok env s e B hs he hok hB
  refine ⟨?_, ?_, ?_⟩
  · intro h1
    rw [if_neg h1] at hrun
    have ht := DoTheState_of_one env s _ e STATE_UNAUTHENTICATED hrun
      (by rw [hs]; decide) (by simp [EnterState])
    rw [ht]
    exact ⟨by simp, by simp [Path_of_core (core_ExitState env _ _)]⟩
  · intro h1 h2
    rw [if_pos h1, if_pos h2] at hrun
    have hexit : ExitState env (setStateHelper (issue s Call.PortGetRepeaterInfo) B)
        s.CurrentState = StopTimer (setStateHelper (issue s Call.PortGetRepeaterInfo) B) := by
      rw [hs]; rfl
    generalize ht : swapState (StopTimer (setStateHelper (issue s Call.PortGetRepeaterInfo) B))
      STATE_READKSVLIST = t
    have htp : t.Path = s.Path ++ [STATE_READKSVLIST] := by rw [← ht]; simp
    have henter : EnterState env t STATE_READKSVLIST STATE_READKSVLIST
        = ((ReadKsvListLoop env (B &&& 0x0FFF) 3 t).1,
            if (ReadKsvListLoop env (B &&& 0x0FFF) 3 t).2 = true
            then STATE_AUTHENTICATED else STATE_UNAUTHENTICATED) := by
      have hsh : t.StateHelper = B := by rw [← ht]; simp
      simp only [EnterState, ReadKsvList, hsh, and_0FFF_mod]
      split_ifs <;> rfl
    generalize hq : ReadKsvListLoop env (B &&& 0x0FFF) 3 t = q at henter
    have hqp : q.1.Path = t.Path := by
      rw [← hq]; exact Path_of_core (core_ReadKsvListLoop env _ 3 _)
    have hfin : ∀ nx2 : tState, nx2 = STATE_AUTHENTICATED ∨ nx2 = STATE_UNAUTHENTICATED →
        (EnterState env (swapState (ExitState env q.1 STATE_READKSVLIST) nx2) nx2 nx2).2
          = nx2 := by
      intro nx2 h
      rcases h with h | h <;> subst h <;> simp only [EnterState]
      split_ifs <;> rfl
    have hnx2 : (if q.2 = true then STATE_AUTHENTICATED else STATE_UNAUTHENTICATED)
          = STATE_AUTHENTICATED
        ∨ (if q.2 = true then STATE_AUTHENTICATED else STATE_UNAUTHENTICATED)
          = STATE_UNAUTHENTICATED := by
      split_ifs <;> simp
    have h2step := DoTheState_of_two env s _ q.1 e STATE_READKSVLIST _ hrun
      (by rw [hs]; decide) (by rw [hexit, ht]; exact henter)
      (by rcases hnx2 with h | h <;> rw [h] <;> decide) (hfin _ hnx2)
    rw [h2step]
    refine ⟨?_, by simp, henter⟩
    simp [hqp, htp, Path_of_core (core_ExitState env _ _)]
  · intro h1 h2
    rw [if_pos h1, if_neg (by simpa using h2)] at hrun
    have hkeep : (EnterState env
        (swapState (ExitState env (issue s Call.PortGetRepeaterInfo) s.CurrentState)
          STATE_AUTHENTICATED) STATE_AUTHENTICATED STATE_AUTHENTICATED).2
        = STATE_AUTHENTICATED := by
      simp only [EnterState]
      split_ifs <;> rfl
    have ht := DoTheState_of_one env s _ e STATE_AUTHENTICATED hrun
      (by rw [hs]; decide) hkeep
    rw [ht]
    exact ⟨by simp, by simp [Path_of_core (core_ExitState env _ _)]⟩

set_option maxRecDepth 100000 in
theorem WaitForReady_repeater_info_witness :
    (sampleTx STATE_WAITFORREADY 3 0).CurrentState = STATE_WAITFORREADY
    ∧ ((sampleEnvRepeater 0x0800).PortGetRepeaterInfo (sampleTx STATE_WAITFORREADY 3 0).Calls).1
        = XST_SUCCESS
    ∧ ((sampleEnvRepeater 0x0800).PortGetRepeaterInfo
        (sampleTx STATE_WAITFORREADY 3 0).Calls).2 % 2 ^ 16 = 0x0800
    ∧ (0x0800 : Nat) &&& 0x0880 ≠ 0
    ∧ (DoTheState (sampleEnvRepeater 0x0800) (sampleTx STATE_WAITFORREADY 3 0)
        EVENT_POLL).CurrentState = STATE_UNAUTHENTICATED :=
  ⟨by decide, by decide, by decide, by decide,
    ((WaitForReady_repeater_info (sampleEnvRepeater 0x0800) (sampleTx STATE_WAITFORREADY 3 0)
      EVENT_POLL 0x0800 (by decide) (Or.inl rfl) (by decide) (by decide)).1 (by decide)).1⟩

/-! ## Exchange of the KSVs -/

theorem BUF_TO_UINT_40 (Buf : List Nat) :
    XHDCP1X_PORT_BUF_TO_UINT Buf 40
      = Buf.getD 0 0 % 256 + Buf.getD 1 0 % 256 * 256 + Buf.getD 2 0 % 256 * 256 ^ 2
        + Buf.getD 3 0 % 256 * 256 ^ 3 + Buf.getD 4 0 % 256 * 256 ^ 4 := by
  have h : List.range (40 / 8) = [0, 1, 2, 3, 4] := by decide
  simp only [XHDCP1X_PORT_BUF_TO_UINT, h, List.map_cons, List.map_nil, List.sum_cons,
    List.sum_nil]
  ring

theorem BUF_TO_UINT_40_lt (Buf : List Nat) : XHDCP1X_PORT_BUF_TO_UINT Buf 40 < 2 ^ 40 := by
  rw [BUF_TO_UINT_40]
  have h0 := Nat.mod_lt (Buf.getD 0 0) (show 0 < 256 by decide)
  have h1 := Nat.mod_lt (Buf.getD 1 0) (show 0 < 256 by decide)
  have h2 := Nat.mod_lt (Buf.getD 2 0) (show 0 < 256 by decide)
  have h3 := Nat.mod_lt (Buf.getD 3 0) (show 0 < 256 by decide)
  have h4 := Nat.mod_lt (Buf.getD 4 0) (show 0 < 256 by decide)
  norm_num
  omega

theorem IsKsvValid_iff_popcount (v : Nat) (hv : v < 2 ^ 40) :
    IsKsvValid v = true ↔ popcount v = 20 := by
  rw [IsKsvValid_eq, Nat.mod_eq_of_lt (by omega)]
  simp

/-- C14: on entering ExchangeKsvs with a BKSV read from the port that does not have
exactly 20 one bits, or that the platform reports revoked, the next state is
Unauthenticated and the instance differs from the one before only by a zero state
helper and by the calls issued, which are the read of BKSV and, for a valid BKSV, the
revocation query: nothing is written to the port, no random number is requested, no
remote KSV is loaded into the cipher, and the statistics are unchanged. -/
theorem ExchangeKsvs_rejects (env : Env) (s : XHdcp1x_Tx) (nx : tState) (Ksv : Nat)
    (hread : 0 < (env.PortRead s.Calls env.XHDCP1X_PORT_OFFSET_BKSV 5).1)
    (hK : XHDCP1X_PORT_BUF_TO_UINT
        (PortReadInto (List.replicate 8 0)
          (env.PortRead s.Calls env.XHDCP1X_PORT_OFFSET_BKSV 5).2 5)
        (XHDCP1X_PORT_SIZE_BKSV * 8) = Ksv) :
    Ksv < 2 ^ 40
    ∧ (popcount Ksv ≠ 20 →
        EnterState env s STATE_EXCHANGEKSVS nx
          = (issue (setStateHelper s 0) (Call.PortRead env.XHDCP1X_PORT_OFFSET_BKSV 5),
              STATE_UNAUTHENTICATED))
    ∧ (popcount Ksv = 20 →
        env.PlatformIsKsvRevoked
          (s.Calls ++ [Call.PortRead env.XHDCP1X_PORT_OFFSET_BKSV 5]) Ksv = true →
        EnterState env s STATE_EXCHANGEKSVS nx
          = (issue (issue (setStateHelper s 0)
                (Call.PortRead env.XHDCP1X_PORT_OFFSET_BKSV 5))
              (Call.PlatformIsKsvRevoked Ksv), STATE_UNAUTHENTICATED))
    ∧ ((popcount Ksv ≠ 20
          ∨ env.PlatformIsKsvRevoked
              (s.Calls ++ [Call.PortRead env.XHDCP1X_PORT_OFFSET_BKSV 5]) Ksv = true) →
        (EnterState env s STATE_EXCHANGEKSVS nx).2 = STATE_UNAUTHENTICATED
        ∧ (EnterState env s STATE_EXCHANGEKSVS nx).1.StateHelper = 0
        ∧ (EnterState env s STATE_EXCHANGEKSVS nx).1.Stats = s.Stats
        ∧ (EnterState env s STATE_EXCHANGEKSVS nx).1.Flags = s.Flags
        ∧ ∃ l : List Call,
            (EnterState env s STATE_EXCHANGEKSVS nx).1.Calls = s.Calls ++ l
            ∧ ∀ c ∈ l, c = Call.PortRead env.XHDCP1X_PORT_OFFSET_BKSV 5
                ∨ c = Call.PlatformIsKsvRevoked Ksv) := by
  have hlt : Ksv < 2 ^ 40 := by
    rw [← hK]
    exact BUF_TO_UINT_40_lt _
  have hinv : popcount Ksv ≠ 20 →
      EnterState env s STATE_EXCHANGEKSVS nx
        = (issue (setStateHelper s 0) (Call.PortRead env.XHDCP1X_PORT_OFFSET_BKSV 5),
            STATE_UNAUTHENTICATED) := by
    intro hp
    have hv : ¬ IsKsvValid Ksv = true := fun h => hp ((IsKsvValid_iff_popcount Ksv hlt).1 h)
    simp only [EnterState, ExchangeKsvs, setStateHelper_Calls, hread, gt_iff_lt, if_true, hK,
      hv, not_false_eq_true, Bool.false_eq_true]
  have hrev : popcount Ksv = 20 →
      env.PlatformIsKsvRevoked
        (s.Calls ++ [Call.PortRead env.XHDCP1X_PORT_OFFSET_BKSV 5]) Ksv = true →
      EnterState env s STATE_EXCHANGEKSVS nx
        = (issue (issue (setStateHelper s 0)
              (Call.PortRead env.XHDCP1X_PORT_OFFSET_BKSV 5))
            (Call.PlatformIsKsvRevoked Ksv), STATE_UNAUTHENTICATED) := by
    intro hp hr
    have hv : IsKsvValid Ksv = true := (IsKsvValid_iff_popcount Ksv hlt).2 hp
    simp only [EnterState, ExchangeKsvs, setStateHelper_Calls, hread, gt_iff_lt, if_true, hK,
      hv, not_true_eq_false, if_false, issue_Calls, hr]
  refine ⟨hlt, hinv, hrev, ?_⟩
  intro h
  by_cases hp : popcount Ksv = 20
  · have hr : env.PlatformIsKsvRevoked
        (s.Calls ++ [Call.PortRead env.XHDCP1X_PORT_OFFSET_BKSV 5]) Ksv = true := by
      rcases h with h | h
      · exact absurd hp h
      · exact h
    rw [hrev hp hr]
    refine ⟨rfl, by simp, by simp, by simp, ⟨[Call.PortRead env.XHDCP1X_PORT_OFFSET_BKSV 5,
      Call.PlatformIsKsvRevoked Ksv], by simp, ?_⟩⟩
    intro c hc
    simpa using hc
  · rw [hinv hp]
    refine ⟨rfl, by simp, by simp, by simp, ⟨[Call.PortRead env.XHDCP1X_PORT_OFFSET_BKSV 5],
      by simp, ?_⟩⟩
    intro c hc
    left
    simpa using hc

set_option maxRecDepth 100000 in
theorem ExchangeKsvs_rejects_witness :
    0 < (sampleEnvRevoked.PortRead ZeroInstance.Calls
          sampleEnvRevoked.XHDCP1X_PORT_OFFSET_BKSV 5).1
    ∧ XHDCP1X_PORT_BUF_TO_UINT
        (PortReadInto (List.replicate 8 0)
          (sampleEnvRevoked.PortRead ZeroInstance.Calls
            sampleEnvRevoked.XHDCP1X_PORT_OFFSET_BKSV 5).2 5)
        (XHDCP1X_PORT_SIZE_BKSV * 8) = 0x00000FFFFF
    ∧ popcount 0x00000FFFFF = 20
    ∧ sampleEnvRevoked.PlatformIsKsvRevoked
        (ZeroInstance.Calls ++ [Call.PortRead sampleEnvRevoked.XHDCP1X_PORT_OFFSET_BKSV 5])
        0x00000FFFFF = true
    ∧ EnterState sampleEnvRevoked ZeroInstance STATE_EXCHANGEKSVS STATE_EXCHANGEKSVS
        = (issue (issue (setStateHelper ZeroInstance 0)
              (Call.PortRead sampleEnvRevoked.XHDCP1X_PORT_OFFSET_BKSV 5))
            (Call.PlatformIsKsvRevoked 0x00000FFFFF), STATE_UNAUTHENTICATED) :=
  ⟨by decide, by decide, by decide, by decide,
    (ExchangeKsvs_rejects sampleEnvRevoked ZeroInstance STATE_EXCHANGEKSVS 0x00000FFFFF
      (by decide) (by decide)).2.2.1 (by decide) (by decide)⟩
/-! ## Validation of the receiver -/

theorem ValidateRxBody_spec (env : Env) (n : Nat) (p : XHdcp1x_Tx × List Nat × tState) :
    (ValidateRxBody env n p).1.Calls
        = (AttemptNext env Call.CipherGetRo (p.1.Calls, p.2.1)).1
    ∧ (ValidateRxBody env n p).2.1
        = (AttemptNext env Call.CipherGetRo (p.1.Calls, p.2.1)).2
    ∧ (AttemptMatches env env.CipherGetRo (p.1.Calls, p.2.1) →
        (ValidateRxBody env n p).2.2 = STATE_TESTFORREPEATER
        ∧ (ValidateRxBody env n p).1.Stats = p.1.Stats)
    ∧ (¬ AttemptMatches env env.CipherGetRo (p.1.Calls, p.2.1) →
        (ValidateRxBody env n p).2.2 = p.2.2)
    ∧ (AttemptMismatches env env.CipherGetRo (p.1.Calls, p.2.1) → n = 1 →
        (ValidateRxBody env n p).1.Stats.AuthFailed = p.1.Stats.AuthFailed + 1)
    ∧ (¬ (AttemptMismatches env env.CipherGetRo (p.1.Calls, p.2.1) ∧ n = 1) →
        (ValidateRxBody env n p).1.Stats.AuthFailed = p.1.Stats.AuthFailed) := by
  unfold ValidateRxBody AttemptNext AttemptMatches AttemptMismatches
  dsimp only
  by_cases hr : (env.PortRead p.1.Calls env.XHDCP1X_PORT_OFFSET_RO 2).1 > 0
  · by_cases hm : env.CipherGetRo (p.1.Calls ++ [Call.PortRead env.XHDCP1X_PORT_OFFSET_RO 2])
        % 65536
        = XHDCP1X_PORT_BUF_TO_UINT
            (PortReadInto p.2.1 (env.PortRead p.1.Calls env.XHDCP1X_PORT_OFFSET_RO 2).2 2) 16
            % 65536
    · simp [hr, hm]
    · by_cases hn : n = 1
      · simp [hr, hm, hn]
      · simp [hr, hm, hn]
  · simp [hr]

theorem readCount_append (l m : List Call) :
    readCount (l ++ m) = readCount l + readCount m := by
  simp [readCount]

theorem readCount_AttemptNext (env : Env) (Get : Call) (a : List Call × List Nat)
    (hg : readCount [Get] = 0) :
    readCount (AttemptNext env Get a).1 = readCount a.1 + 1 := by
  unfold AttemptNext
  dsimp only
  rw [readCount_append, readCount_append]
  split_ifs
  · rw [hg]; simp [readCount]
  · simp [readCount]

theorem readCount_AttemptAt (env : Env) (Get : Call) (s : XHdcp1x_Tx) (k : Nat)
    (hg : readCount [Get] = 0) :
    readCount (AttemptAt env Get s k).1 = readCount s.Calls + k := by
  induction k with
  | zero => simp [AttemptAt]
  | succ k ih =>
    unfold AttemptAt at ih ⊢
    rw [Function.iterate_succ_apply', readCount_AttemptNext env Get _ hg, ih]
    omega

theorem readCount_DisableEncryption (env : Env) (s : XHdcp1x_Tx) :
    readCount (DisableEncryption env s).Calls = readCount s.Calls := by
  unfold DisableEncryption
  dsimp only
  split_ifs <;> simp [readCount_append, readCount]

theorem AttemptAt_succ (env : Env) (Get : Call) (s : XHdcp1x_Tx) (k : Nat) :
    AttemptAt env Get s (k + 1) = AttemptNext env Get (AttemptAt env Get s k) := by
  unfold AttemptAt
  rw [Function.iterate_succ_apply']

theorem ValidateRx_unroll (env : Env) (s : XHdcp1x_Tx) (nx : tState) :
    ValidateRx env s nx
      = if (ValidateRxBody env 3 (s, UninitBuf env s.Calls 2, STATE_UNAUTHENTICATED)).2.2
            = STATE_UNAUTHENTICATED then
          if (ValidateRxBody env 2
                (ValidateRxBody env 3 (s, UninitBuf env s.Calls 2, STATE_UNAUTHENTICATED))).2.2
              = STATE_UNAUTHENTICATED then
            ((ValidateRxBody env 1 (ValidateRxBody env 2
                (ValidateRxBody env 3 (s, UninitBuf env s.Calls 2, STATE_UNAUTHENTICATED)))).1,
             (ValidateRxBody env 1 (ValidateRxBody env 2
                (ValidateRxBody env 3 (s, UninitBuf env s.Calls 2, STATE_UNAUTHENTICATED)))).2.2)
          else
            ((ValidateRxBody env 2
                (ValidateRxBody env 3 (s, UninitBuf env s.Calls 2, STATE_UNAUTHENTICATED))).1,
             (ValidateRxBody env 2
                (ValidateRxBody env 3 (s, UninitBuf env s.Calls 2, STATE_UNAUTHENTICATED))).2.2)
        else
          ((ValidateRxBody env 3 (s, UninitBuf env s.Calls 2, STATE_UNAUTHENTICATED)).1,
           (ValidateRxBody env 3 (s, UninitBuf env s.Calls 2, STATE_UNAUTHENTICATED)).2.2) := by
  unfold ValidateRx
  simp only [ValidateRxLoop]
  split_ifs <;> simp_all

/-- What `ValidateRx` does, by the outcome of its three attempts. -/
theorem ValidateRx_outcome (env : Env) (s : XHdcp1x_Tx) (nx : tState) :
    (AttemptMatches env env.CipherGetRo (AttemptAt env Call.CipherGetRo s 0) →
      (ValidateRx env s nx).2 = STATE_TESTFORREPEATER
      ∧ (ValidateRx env s nx).1.Calls = (AttemptAt env Call.CipherGetRo s 1).1
      ∧ (ValidateRx env s nx).1.Stats.AuthFailed = s.Stats.AuthFailed)
    ∧ (¬ AttemptMatches env env.CipherGetRo (AttemptAt env Call.CipherGetRo s 0) →
      AttemptMatches env env.CipherGetRo (AttemptAt env Call.CipherGetRo s 1) →
      (ValidateRx env s nx).2 = STATE_TESTFORREPEATER
      ∧ (ValidateRx env s nx).1.Calls = (AttemptAt env Call.CipherGetRo s 2).1
      ∧ (ValidateRx env s nx).1.Stats.AuthFailed = s.Stats.AuthFailed)
    ∧ (¬ AttemptMatches env env.CipherGetRo (AttemptAt env Call.CipherGetRo s 0) →
      ¬ AttemptMatches env env.CipherGetRo (AttemptAt env Call.CipherGetRo s 1) →
      AttemptMatches env env.CipherGetRo (AttemptAt env Call.CipherGetRo s 2) →
      (ValidateRx env s nx).2 = STATE_TESTFORREPEATER
      ∧ (ValidateRx env s nx).1.Calls = (AttemptAt env Call.CipherGetRo s 3).1
      ∧ (ValidateRx env s nx).1.Stats.AuthFailed = s.Stats.AuthFailed)
    ∧ (¬ AttemptMatches env env.CipherGetRo (AttemptAt env Call.CipherGetRo s 0) →
      ¬ AttemptMatches env env.CipherGetRo (AttemptAt env Call.CipherGetRo s 1) →
      ¬ AttemptMatches env env.CipherGetRo (AttemptAt env Call.CipherGetRo s 2) →
      (ValidateRx env s nx).2 = STATE_UNAUTHENTICATED
      ∧ (ValidateRx env s nx).1.Calls = (AttemptAt env Call.CipherGetRo s 3).1
      ∧ (AttemptMismatches env env.CipherGetRo (AttemptAt env Call.CipherGetRo s 2) →
          (ValidateRx env s nx).1.Stats.AuthFailed = s.Stats.AuthFailed + 1)
      ∧ (¬ AttemptMismatches env env.CipherGetRo (AttemptAt env Call.CipherGetRo s 2) →
          (ValidateRx env s nx).1.Stats.AuthFailed = s.Stats.AuthFailed)) := by
  have b1 := ValidateRxBody_spec env 3 (s, UninitBuf env s.Calls 2, STATE_UNAUTHENTICATED)
  have b2 := ValidateRxBody_spec env 2
    (ValidateRxBody env 3 (s, UninitBuf env s.Calls 2, STATE_UNAUTHENTICATED))
  have b3 := ValidateRxBody_spec env 1 (ValidateRxBody env 2
    (ValidateRxBody env 3 (s, UninitBuf env s.Calls 2, STATE_UNAUTHENTICATED)))
  rw [ValidateRx_unroll]
  generalize ValidateRxBody env 3 (s, UninitBuf env s.Calls 2, STATE_UNAUTHENTICATED) = q1
    at b1 b2 b3 ⊢
  generalize ValidateRxBody env 2 q1 = q2 at b2 b3 ⊢
  generalize ValidateRxBody env 1 q2 = q3 at b3 ⊢
  have e0 : ((s, UninitBuf env s.Calls 2, STATE_UNAUTHENTICATED) :
        XHdcp1x_Tx × List Nat × tState).1.Calls = s.Calls := rfl
  have a0 : AttemptAt env Call.CipherGetRo s 0 = (s.Calls, UninitBuf env s.Calls 2) := rfl
  have a1 : AttemptAt env Call.CipherGetRo s 1 = (q1.1.Calls, q1.2.1) := by
    rw [AttemptAt_succ, a0]
    exact Prod.ext b1.1.symm b1.2.1.symm
  have a2 : AttemptAt env Call.CipherGetRo s 2 = (q2.1.Calls, q2.2.1) := by
    rw [AttemptAt_succ, a1]
    exact Prod.ext b2.1.symm b2.2.1.symm
  have a3 : AttemptAt env Call.CipherGetRo s 3 = (q3.1.Calls, q3.2.1) := by
    rw [AttemptAt_succ, a2]
    exact Prod.ext b3.1.symm b3.2.1.symm
  rw [a0, a1, a2, a3]
  dsimp only at b1 b2 b3 ⊢
  obtain ⟨-, -, b1m, b1n, -, b1f⟩ := b1
  obtain ⟨-, -, b2m, b2n, -, b2f⟩ := b2
  obtain ⟨-, -, b3m, b3n, b3g, b3f⟩ := b3
  have f1 := b1f (fun h => absurd h.2 (by decide))
  have f2 := b2f (fun h => absurd h.2 (by decide))
  refine ⟨?_, ?_, ?_, ?_⟩
  · intro m1
    have := b1m m1
    simp [this.1, this.2]
  · intro n1 m2
    have h1 := b1n n1
    have h2 := b2m m2
    simp [h1, h2.1, h2.2, f1]
  · intro n1 n2 m3
    have h1 := b1n n1
    have h2 := b2n n2
    have h3 := b3m m3
    simp [h1, h2, h3.1, h3.2, f1, f2]
  · intro n1 n2 n3
    have h1 := b1n n1
    have h2 := b2n n2
    have h3 := b3n n3
    simp only [h1, h2, h3, if_true, true_and]
    refine ⟨fun g => ?_, fun g => ?_⟩
    · rw [b3g g rfl, f2, f1]
    · rw [b3f (fun h => g h.1), f2, f1]

theorem not_matches_of_mismatches (env : Env) (Local : List Call → Nat)
    (a : List Call × List Nat) (h : AttemptMismatches env Local a) :
    ¬ AttemptMatches env Local a :=
  fun m => h.2 m.2

theorem RunState_ValidateRx_timeout (env : Env) (s : XHdcp1x_Tx)
    (hs : s.CurrentState = STATE_VALIDATERX) :
    RunState env s EVENT_TIMEOUT = ValidateRx env s STATE_VALIDATERX := by
  simp only [RunState, hs, RunValidateRxState]

/-- Leaving ValidateRx for TestForRepeater or Unauthenticated stops the timer and runs
the entry action; neither touches the statistics or reads the port. -/
theorem leave_ValidateRx (env : Env) (t : XHdcp1x_Tx) (nx : tState)
    (hnx : nx = STATE_UNAUTHENTICATED ∨ nx = STATE_TESTFORREPEATER) :
    (EnterState env (swapState (ExitState env t STATE_VALIDATERX) nx) nx nx).2 = nx
    ∧ (EnterState env (swapState (ExitState env t STATE_VALIDATERX) nx) nx nx).1.CurrentState
        = nx
    ∧ (EnterState env (swapState (ExitState env t STATE_VALIDATERX) nx) nx nx).1.Stats
        = t.Stats
    ∧ readCount (EnterState env (swapState (ExitState env t STATE_VALIDATERX) nx) nx nx).1.Calls
        = readCount t.Calls := by
  have hstop : readCount [Call.PlatformTimerStop] = 0 := by decide
  rcases hnx with h | h <;> subst h
  · refine ⟨by simp [EnterState], by simp, by simp [EnterState, ExitState], ?_⟩
    simp only [EnterState, ExitState]
    rw [readCount_DisableEncryption]
    simp [readCount_append, hstop]
  · refine ⟨by simp [EnterState], by simp, by simp [EnterState, ExitState], ?_⟩
    simp [EnterState, ExitState, readCount_append, hstop]

theorem DoTheState_ValidateRx_timeout (env : Env) (s : XHdcp1x_Tx)
    (hs : s.CurrentState = STATE_VALIDATERX) :
    (DoTheState env s EVENT_TIMEOUT).CurrentState = (ValidateRx env s STATE_VALIDATERX).2
    ∧ (DoTheState env s EVENT_TIMEOUT).Stats = (ValidateRx env s STATE_VALIDATERX).1.Stats
    ∧ readCount (DoTheState env s EVENT_TIMEOUT).Calls
        = readCount (ValidateRx env s STATE_VALIDATERX).1.Calls := by
  have hnx := ValidateRx_next env s STATE_VALIDATERX
  have hl := leave_ValidateRx env (ValidateRx env s STATE_VALIDATERX).1
    (ValidateRx env s STATE_VALIDATERX).2 hnx
  have hne : s.CurrentState ≠ (ValidateRx env s STATE_VALIDATERX).2 := by
    rw [hs]
    rcases hnx with h | h <;> rw [h] <;> decide
  have hd := DoTheState_of_one env s (ValidateRx env s STATE_VALIDATERX).1 EVENT_TIMEOUT
    (ValidateRx env s STATE_VALIDATERX).2 (RunState_ValidateRx_timeout env s hs) hne
    (by rw [hs]; exact hl.1)
  rw [hd, hs]
  exact hl.2

/-- C15: on a Timeout event in ValidateRx the port is read at most three times.  When
the first, second or third attempt is the first one whose read succeeds with Ro' equal
to the Ro of the cipher, the state machine moves to TestForRepeater after exactly that
many reads, with the count of failed authentications unchanged.  When all three reads
succeed and all differ from Ro, the state machine moves to Unauthenticated and the
count of failed authentications grows by exactly one.  Ro' is the value the code
assembles from its two byte buffer after the read: the buffer is not initialised, so
where a read stores fewer than two bytes the other bytes are what the buffer held
before, indeterminate bytes at the first attempt. -/
theorem ValidateRx_timeout (env : Env) (s : XHdcp1x_Tx)
    (hs : s.CurrentState = STATE_VALIDATERX) :
    readCount (DoTheState env s EVENT_TIMEOUT).Calls ≤ readCount s.Calls + 3
    ∧ (AttemptMatches env env.CipherGetRo (AttemptAt env Call.CipherGetRo s 0) →
        (DoTheState env s EVENT_TIMEOUT).CurrentState = STATE_TESTFORREPEATER
        ∧ (DoTheState env s EVENT_TIMEOUT).Stats.AuthFailed = s.Stats.AuthFailed
        ∧ readCount (DoTheState env s EVENT_TIMEOUT).Calls = readCount s.Calls + 1)
    ∧ (¬ AttemptMatches env env.CipherGetRo (AttemptAt env Call.CipherGetRo s 0) →
        AttemptMatches env env.CipherGetRo (AttemptAt env Call.CipherGetRo s 1) →
        (DoTheState env s EVENT_TIMEOUT).CurrentState = STATE_TESTFORREPEATER
        ∧ (DoTheState env s EVENT_TIMEOUT).Stats.AuthFailed = s.Stats.AuthFailed
        ∧ readCount (DoTheState env s EVENT_TIMEOUT).Calls = readCount s.Calls + 2)
    ∧ (¬ AttemptMatches env env.CipherGetRo (AttemptAt env Call.CipherGetRo s 0) →
        ¬ AttemptMatches env env.CipherGetRo (AttemptAt env Call.CipherGetRo s 1) →
        AttemptMatches env env.CipherGetRo (AttemptAt env Call.CipherGetRo s 2) →
        (DoTheState env s EVENT_TIMEOUT).CurrentState = STATE_TESTFORREPEATER
        ∧ (DoTheState env s EVENT_TIMEOUT).Stats.AuthFailed = s.Stats.AuthFailed
        ∧ readCount (DoTheState env s EVENT_TIMEOUT).Calls = readCount s.Calls + 3)
    ∧ (AttemptMismatches env env.CipherGetRo (AttemptAt env Call.CipherGetRo s 0) →
        AttemptMismatches env env.CipherGetRo (AttemptAt env Call.CipherGetRo s 1) →
        AttemptMismatches env env.CipherGetRo (AttemptAt env Call.CipherGetRo s 2) →
        (DoTheState env s EVENT_TIMEOUT).CurrentState = STATE_UNAUTHENTICATED
        ∧ (DoTheState env s EVENT_TIMEOUT).Stats.AuthFailed = s.Stats.AuthFailed + 1
        ∧ readCount (DoTheState env s EVENT_TIMEOUT).Calls = readCount s.Calls + 3) := by
  obtain ⟨hc, hst, hrc⟩ := DoTheState_ValidateRx_timeout env s hs
  obtain ⟨o1, o2, o3, o4⟩ := ValidateRx_outcome env s STATE_VALIDATERX
  have hg : readCount [Call.CipherGetRo] = 0 := by decide
  have r1 := readCount_AttemptAt env Call.CipherGetRo s 1 hg
  have r2 := readCount_AttemptAt env Call.CipherGetRo s 2 hg
  have r3 := readCount_AttemptAt env Call.CipherGetRo s 3 hg
  rw [hc, hst, hrc]
  refine ⟨?_, ?_, ?_, ?_, ?_⟩
  · by_cases m1 : AttemptMatches env env.CipherGetRo (AttemptAt env Call.CipherGetRo s 0)
    · rw [(o1 m1).2.1, r1]; omega
    · by_cases m2 : AttemptMatches env env.CipherGetRo (AttemptAt env Call.CipherGetRo s 1)
      · rw [(o2 m1 m2).2.1, r2]; omega
      · by_cases m3 : AttemptMatches env env.CipherGetRo (AttemptAt env Call.CipherGetRo s 2)
        · rw [(o3 m1 m2 m3).2.1, r3]
        · rw [(o4 m1 m2 m3).2.1, r3]
  · intro m1
    obtain ⟨h1, h2, h3⟩ := o1 m1
    exact ⟨h1, h3, by rw [h2, r1]⟩
  · intro m1 m2
    obtain ⟨h1, h2, h3⟩ := o2 m1 m2
    exact ⟨h1, h3, by rw [h2, r2]⟩
  · intro m1 m2 m3
    obtain ⟨h1, h2, h3⟩ := o3 m1 m2 m3
    exact ⟨h1, h3, by rw [h2, r3]⟩
  · intro m1 m2 m3
    obtain ⟨h1, h2, h3, -⟩ := o4 (not_matches_of_mismatches _ _ _ m1)
      (not_matches_of_mismatches _ _ _ m2) (not_matches_of_mismatches _ _ _ m3)
    exact ⟨h1, h3 m3, by rw [h2, r3]⟩

set_option maxRecDepth 100000 in
theorem ValidateRx_timeout_witness :
    (sampleTx STATE_VALIDATERX 0 0).CurrentState = STATE_VALIDATERX
    ∧ ((DoTheState sampleEnv (sampleTx STATE_VALIDATERX 0 0) EVENT_TIMEOUT).CurrentState
          = STATE_TESTFORREPEATER
        ∧ (DoTheState sampleEnv (sampleTx STATE_VALIDATERX 0 0) EVENT_TIMEOUT).Stats.AuthFailed
          = (sampleTx STATE_VALIDATERX 0 0).Stats.AuthFailed
        ∧ readCount (DoTheState sampleEnv (sampleTx STATE_VALIDATERX 0 0) EVENT_TIMEOUT).Calls
          = readCount (sampleTx STATE_VALIDATERX 0 0).Calls + 1)
    ∧ ((DoTheState sampleEnvRoMismatch (sampleTx STATE_VALIDATERX 0 0)
            EVENT_TIMEOUT).CurrentState = STATE_UNAUTHENTICATED
        ∧ (DoTheState sampleEnvRoMismatch (sampleTx STATE_VALIDATERX 0 0)
            EVENT_TIMEOUT).Stats.AuthFailed
          = (sampleTx STATE_VALIDATERX 0 0).Stats.AuthFailed + 1
        ∧ readCount (DoTheState sampleEnvRoMismatch (sampleTx STATE_VALIDATERX 0 0)
            EVENT_TIMEOUT).Calls
          = readCount (sampleTx STATE_VALIDATERX 0 0).Calls + 3)
    ∧ ((DoTheState sampleEnvShortRo (sampleTx STATE_VALIDATERX 0 0)
            EVENT_TIMEOUT).CurrentState = STATE_UNAUTHENTICATED
        ∧ (DoTheState sampleEnvShortRo (sampleTx STATE_VALIDATERX 0 0)
            EVENT_TIMEOUT).Stats.AuthFailed
          = (sampleTx STATE_VALIDATERX 0 0).Stats.AuthFailed + 1
        ∧ readCount (DoTheState sampleEnvShortRo (sampleTx STATE_VALIDATERX 0 0)
            EVENT_TIMEOUT).Calls
          = readCount (sampleTx STATE_VALIDATERX 0 0).Calls + 3)
    ∧ ((DoTheState sampleEnvShortRoZero (sampleTx STATE_VALIDATERX 0 0)
            EVENT_TIMEOUT).CurrentState = STATE_TESTFORREPEATER
        ∧ (DoTheState sampleEnvShortRoZero (sampleTx STATE_VALIDATERX 0 0)
            EVENT_TIMEOUT).Stats.AuthFailed
          = (sampleTx STATE_VALIDATERX 0 0).Stats.AuthFailed
        ∧ readCount (DoTheState sampleEnvShortRoZero (sampleTx STATE_VALIDATERX 0 0)
            EVENT_TIMEOUT).Calls
          = readCount (sampleTx STATE_VALIDATERX 0 0).Calls + 1) :=
  ⟨rfl,
    (ValidateRx_timeout sampleEnv (sampleTx STATE_VALIDATERX 0 0) rfl).2.1
      (by unfold AttemptMatches AttemptAt; decide),
    (ValidateRx_timeout sampleEnvRoMismatch (sampleTx STATE_VALIDATERX 0 0) rfl).2.2.2.2
      (by unfold AttemptMismatches AttemptAt; decide)
      (by unfold AttemptMismatches AttemptAt; decide)
      (by unfold AttemptMismatches AttemptAt; decide),
    (ValidateRx_timeout sampleEnvShortRo (sampleTx STATE_VALIDATERX 0 0) rfl).2.2.2.2
      (by unfold AttemptMismatches AttemptAt; decide)
      (by unfold AttemptMismatches AttemptAt; decide)
      (by unfold AttemptMismatches AttemptAt; decide),
    (ValidateRx_timeout sampleEnvShortRoZero (sampleTx STATE_VALIDATERX 0 0) rfl).2.1
      (by unfold AttemptMatches AttemptAt; decide)⟩

/-- After a read that stores two bytes or more the value assembled from the buffer is
that of the two bytes read, whatever the buffer held before. -/
theorem full_read_value (Buf Data : List Nat) (h : 2 ≤ Data.length) :
    XHDCP1X_PORT_BUF_TO_UINT (PortReadInto Buf Data 2) 16
      = Data.getD 0 0 % 256 + Data.getD 1 0 % 256 * 256 := by
  match Data, h with
  | a :: b :: rest, _ =>
    simp [XHDCP1X_PORT_BUF_TO_UINT, PortReadInto, List.range_succ]

/-! ## Link integrity check -/

@[simp] theorem linkStats_issue (s : XHdcp1x_Tx) (c : Call) :
    (issue s c).linkStats = s.linkStats := rfl

@[simp] theorem linkStats_setFlags (s : XHdcp1x_Tx) (v : Nat) :
    (setFlags s v).linkStats = s.linkStats := rfl

@[simp] theorem linkStats_setStateHelper (s : XHdcp1x_Tx) (v : Nat) :
    (setStateHelper s v).linkStats = s.linkStats := rfl

@[simp] theorem linkStats_swapState (s : XHdcp1x_Tx) (nx : tState) :
    (swapState s nx).linkStats = s.linkStats := rfl

@[simp] theorem linkStats_countReadFailures (s : XHdcp1x_Tx) :
    (countReadFailures s).linkStats = s.linkStats := rfl

@[simp] theorem linkStats_BusyDelay (s : XHdcp1x_Tx) (t : Nat) :
    (BusyDelay s t).linkStats = s.linkStats := rfl

@[simp] theorem linkStats_SetCheckLinkState (env : Env) (s : XHdcp1x_Tx) (b : Bool) :
    (SetCheckLinkState env s b).linkStats = s.linkStats := by
  unfold SetCheckLinkState
  split_ifs <;> simp

@[simp] theorem linkStats_EnableEncryption (env : Env) (s : XHdcp1x_Tx) :
    (EnableEncryption env s).linkStats = s.linkStats := by
  unfold EnableEncryption
  dsimp only
  split_ifs <;> simp

@[simp] theorem linkStats_DisableEncryption (env : Env) (s : XHdcp1x_Tx) :
    (DisableEncryption env s).linkStats = s.linkStats := by
  unfold DisableEncryption
  dsimp only
  split_ifs <;> simp

@[simp] theorem linkStats_CheckRxCapable (env : Env) (s : XHdcp1x_Tx) (nx : tState) :
    (CheckRxCapable env s nx).1.linkStats = s.linkStats := by
  unfold CheckRxCapable
  dsimp only
  split_ifs <;> simp

theorem linkStats_AwaitStep_iterate (env : Env) (n : Nat) : ∀ p : XHdcp1x_Tx × Bool,
    ((AwaitStep env)^[n] p).1.linkStats = p.1.linkStats := by
  induction n with
  | zero => intro p; rfl
  | succ n ih =>
    intro p
    rw [Function.iterate_succ_apply, ih]
    unfold AwaitStep
    split_ifs <;> simp

@[simp] theorem linkStats_AwaitRequestComplete (env : Env) (s : XHdcp1x_Tx) :
    (AwaitRequestComplete env s).1.linkStats = s.linkStats :=
  linkStats_AwaitStep_iterate env _ (s, false)

@[simp] theorem linkStats_GenerateAn (env : Env) (s : XHdcp1x_Tx) :
    (GenerateAn env s).1.linkStats = s.linkStats := by
  unfold GenerateAn
  dsimp only
  split_ifs <;> simp

@[simp] theorem linkStats_ExchangeKsvs (env : Env) (s : XHdcp1x_Tx) (nx : tState) :
    (ExchangeKsvs env s nx).1.linkStats = s.linkStats := by
  unfold ExchangeKsvs
  dsimp only
  split_ifs <;> simp

/-- The entry actions of DetermineRxCapable, ExchangeKsvs, Computations and
Unauthenticated leave the counters of passed authentications and of link checks as they
are. -/
theorem linkStats_EnterState (env : Env) (s : XHdcp1x_Tx) (st nx : tState)
    (h : st = STATE_DETERMINERXCAPABLE ∨ st = STATE_EXCHANGEKSVS ∨ st = STATE_COMPUTATIONS
      ∨ st = STATE_UNAUTHENTICATED) :
    (EnterState env s st nx).1.linkStats = s.linkStats := by
  rcases h with h | h | h | h <;> subst h <;> simp [EnterState, StartComputations]

theorem armCount_append (l m : List Call) :
    armCount (l ++ m) = armCount l + armCount m := by
  simp [armCount]

theorem armCount_AttemptNext (env : Env) (Get : Call) (a : List Call × List Nat)
    (hg : armCount [Get] = 0) :
    armCount (AttemptNext env Get a).1 = armCount a.1 := by
  unfold AttemptNext
  dsimp only
  rw [armCount_append, armCount_append]
  split_ifs
  · rw [hg]; simp [armCount]
  · simp [armCount]

theorem armCount_AttemptAt (env : Env) (Get : Call) (s : XHdcp1x_Tx) (k : Nat)
    (hg : armCount [Get] = 0) :
    armCount (AttemptAt env Get s k).1 = armCount s.Calls := by
  induction k with
  | zero => simp [AttemptAt]
  | succ k ih => rw [AttemptAt_succ, armCount_AttemptNext env Get _ hg, ih]

theorem armCount_EnableEncryption (env : Env) (s : XHdcp1x_Tx) :
    armCount (EnableEncryption env s).Calls = armCount s.Calls := by
  unfold EnableEncryption
  dsimp only
  split_ifs <;> simp [armCount_append, armCount]

theorem CheckLinkIntegrityBody_spec (env : Env) (p : XHdcp1x_Tx × List Nat × tState) :
    (CheckLinkIntegrityBody env p).1.Calls
        = (AttemptNext env Call.CipherGetRi (p.1.Calls, p.2.1)).1
    ∧ (CheckLinkIntegrityBody env p).2.1
        = (AttemptNext env Call.CipherGetRi (p.1.Calls, p.2.1)).2
    ∧ (AttemptMatches env env.CipherGetRi (p.1.Calls, p.2.1) →
        (CheckLinkIntegrityBody env p).2.2 = STATE_AUTHENTICATED)
    ∧ (¬ AttemptMatches env env.CipherGetRi (p.1.Calls, p.2.1) →
        (CheckLinkIntegrityBody env p).2.2 = p.2.2)
    ∧ (CheckLinkIntegrityBody env p).1.linkStats = p.1.linkStats
    ∧ (CheckLinkIntegrityBody env p).1.core = p.1.core
    ∧ (CheckLinkIntegrityBody env p).1.StateHelper = p.1.StateHelper := by
  unfold CheckLinkIntegrityBody AttemptNext AttemptMatches
  dsimp only
  by_cases hr : (env.PortRead p.1.Calls env.XHDCP1X_PORT_OFFSET_RO 2).1 > 0
  · by_cases hm : env.CipherGetRi (p.1.Calls ++ [Call.PortRead env.XHDCP1X_PORT_OFFSET_RO 2])
        % 65536
        = XHDCP1X_PORT_BUF_TO_UINT
            (PortReadInto p.2.1 (env.PortRead p.1.Calls env.XHDCP1X_PORT_OFFSET_RO 2).2 2) 16
            % 65536
    · simp [hr, hm]
    · simp [hr, hm]
  · simp [hr]

theorem CheckLinkIntegrity_unroll (env : Env) (s : XHdcp1x_Tx) (nx : tState)
    (q1 q2 q3 : XHdcp1x_Tx × List Nat × tState)
    (h1 : CheckLinkIntegrityBody env (s, UninitBuf env s.Calls 2, STATE_DETERMINERXCAPABLE) = q1)
    (h2 : CheckLinkIntegrityBody env q1 = q2)
    (h3 : CheckLinkIntegrityBody env q2 = q3) :
    CheckLinkIntegrity env s nx
      = if q1.2.2 = STATE_AUTHENTICATED then (countLinkCheckPassed q1.1, STATE_AUTHENTICATED)
        else if q2.2.2 = STATE_AUTHENTICATED then
          (countLinkCheckPassed q2.1, STATE_AUTHENTICATED)
        else if q3.2.2 = STATE_AUTHENTICATED then
          (countLinkCheckPassed q3.1, STATE_AUTHENTICATED)
        else (countLinkCheckFailed q3.1, q3.2.2) := by
  unfold CheckLinkIntegrity
  simp only [CheckLinkIntegrityLoop, h1, h2, h3]
  split_ifs <;> simp_all

/-- What `CheckLinkIntegrity` does, by the outcome of its three attempts: when an
attempt matches, the next state is Authenticated and the count of passed link checks
grows by one; when none does, the next state is DetermineRxCapable and the count of
failed link checks grows by one. -/
theorem CheckLinkIntegrity_outcome (env : Env) (s : XHdcp1x_Tx) (nx : tState) :
    ((AttemptMatches env env.CipherGetRi (AttemptAt env Call.CipherGetRi s 0)
        ∨ AttemptMatches env env.CipherGetRi (AttemptAt env Call.CipherGetRi s 1)
        ∨ AttemptMatches env env.CipherGetRi (AttemptAt env Call.CipherGetRi s 2)) →
      (CheckLinkIntegrity env s nx).2 = STATE_AUTHENTICATED
      ∧ (CheckLinkIntegrity env s nx).1.linkStats
          = (s.Stats.AuthPassed, s.Stats.LinkCheckPassed + 1, s.Stats.LinkCheckFailed)
      ∧ ∃ k : Nat, 1 ≤ k ∧ k ≤ 3
          ∧ (CheckLinkIntegrity env s nx).1.Calls = (AttemptAt env Call.CipherGetRi s k).1)
    ∧ (¬ AttemptMatches env env.CipherGetRi (AttemptAt env Call.CipherGetRi s 0) →
      ¬ AttemptMatches env env.CipherGetRi (AttemptAt env Call.CipherGetRi s 1) →
      ¬ AttemptMatches env env.CipherGetRi (AttemptAt env Call.CipherGetRi s 2) →
      (CheckLinkIntegrity env s nx).2 = STATE_DETERMINERXCAPABLE
      ∧ (CheckLinkIntegrity env s nx).1.linkStats
          = (s.Stats.AuthPassed, s.Stats.LinkCheckPassed, s.Stats.LinkCheckFailed + 1)
      ∧ (CheckLinkIntegrity env s nx).1.Calls = (AttemptAt env Call.CipherGetRi s 3).1) := by
  have b1 := CheckLinkIntegrityBody_spec env (s, UninitBuf env s.Calls 2, STATE_DETERMINERXCAPABLE)
  have b2 := CheckLinkIntegrityBody_spec env
    (CheckLinkIntegrityBody env (s, UninitBuf env s.Calls 2, STATE_DETERMINERXCAPABLE))
  have b3 := CheckLinkIntegrityBody_spec env (CheckLinkIntegrityBody env
    (CheckLinkIntegrityBody env (s, UninitBuf env s.Calls 2, STATE_DETERMINERXCAPABLE)))
  rw [CheckLinkIntegrity_unroll env s nx _ _ _ rfl rfl rfl]
  generalize CheckLinkIntegrityBody env (s, UninitBuf env s.Calls 2, STATE_DETERMINERXCAPABLE) = q1
    at b1 b2 b3 ⊢
  generalize CheckLinkIntegrityBody env q1 = q2 at b2 b3 ⊢
  generalize CheckLinkIntegrityBody env q2 = q3 at b3 ⊢
  have a0 : AttemptAt env Call.CipherGetRi s 0 = (s.Calls, UninitBuf env s.Calls 2) := rfl
  have a1 : AttemptAt env Call.CipherGetRi s 1 = (q1.1.Calls, q1.2.1) := by
    rw [AttemptAt_succ, a0]
    exact Prod.ext b1.1.symm b1.2.1.symm
  have a2 : AttemptAt env Call.CipherGetRi s 2 = (q2.1.Calls, q2.2.1) := by
    rw [AttemptAt_succ, a1]
    exact Prod.ext b2.1.symm b2.2.1.symm
  have a3 : AttemptAt env Call.CipherGetRi s 3 = (q3.1.Calls, q3.2.1) := by
    rw [AttemptAt_succ, a2]
    exact Prod.ext b3.1.symm b3.2.1.symm
  have hs : s.linkStats
      = (s.Stats.AuthPassed, s.Stats.LinkCheckPassed, s.Stats.LinkCheckFailed) := rfl
  have hp : ∀ t : XHdcp1x_Tx, t.linkStats = s.linkStats →
      (countLinkCheckPassed t).linkStats
        = (s.Stats.AuthPassed, s.Stats.LinkCheckPassed + 1, s.Stats.LinkCheckFailed) := by
    intro t ht
    simp only [XHdcp1x_Tx.linkStats, Prod.mk.injEq] at ht ⊢
    simp [ht.1, ht.2.1, ht.2.2]
  have hf : ∀ t : XHdcp1x_Tx, t.linkStats = s.linkStats →
      (countLinkCheckFailed t).linkStats
        = (s.Stats.AuthPassed, s.Stats.LinkCheckPassed, s.Stats.LinkCheckFailed + 1) := by
    intro t ht
    simp only [XHdcp1x_Tx.linkStats, Prod.mk.injEq] at ht ⊢
    simp [ht.1, ht.2.1, ht.2.2]
  rw [a0, a1, a2]
  dsimp only at b1 b2 b3 ⊢
  obtain ⟨-, -, b1m, b1n, b1s, -⟩ := b1
  obtain ⟨-, -, b2m, b2n, b2s, -⟩ := b2
  obtain ⟨-, -, b3m, b3n, b3s, -⟩ := b3
  have s1 : q1.1.linkStats = s.linkStats := b1s
  have s2 : q2.1.linkStats = s.linkStats := b2s.trans s1
  have s3 : q3.1.linkStats = s.linkStats := b3s.trans s2
  constructor
  · intro hm
    by_cases m1 : AttemptMatches env env.CipherGetRi (s.Calls, UninitBuf env s.Calls 2)
    · rw [if_pos (b1m m1)]
      exact ⟨rfl, hp _ s1, 1, le_refl _, by decide, by rw [a1]; rfl⟩
    · have e1 : q1.2.2 = STATE_DETERMINERXCAPABLE := b1n m1
      rw [if_neg (by rw [e1]; decide)]
      by_cases m2 : AttemptMatches env env.CipherGetRi (q1.1.Calls, q1.2.1)
      · rw [if_pos (b2m m2)]
        exact ⟨rfl, hp _ s2, 2, by decide, by decide, by rw [a2]; rfl⟩
      · have e2 : q2.2.2 = STATE_DETERMINERXCAPABLE := (b2n m2).trans e1
        rw [if_neg (by rw [e2]; decide)]
        have m3 : AttemptMatches env env.CipherGetRi (q2.1.Calls, q2.2.1) := by
          rcases hm with h | h | h
          · exact absurd h m1
          · exact absurd h m2
          · exact h
        rw [if_pos (b3m m3)]
        exact ⟨rfl, hp _ s3, 3, by decide, le_refl _, by rw [a3]; rfl⟩
  · intro m1 m2 m3
    have e1 : q1.2.2 = STATE_DETERMINERXCAPABLE := b1n m1
    have e2 : q2.2.2 = STATE_DETERMINERXCAPABLE := (b2n m2).trans e1
    have e3 : q3.2.2 = STATE_DETERMINERXCAPABLE := (b3n m3).trans e2
    rw [if_neg (by rw [e1]; decide), if_neg (by rw [e2]; decide),
      if_neg (by rw [e3]; decide)]
    exact ⟨e3, hf _ s3, by rw [a3]; rfl⟩

theorem RunState_Authenticated_check (env : Env) (s : XHdcp1x_Tx)
    (hs : s.CurrentState = STATE_AUTHENTICATED) :
    RunState env s EVENT_CHECK = (s, STATE_LINKINTEGRITYCHECK) := by
  simp only [RunState, hs, RunAuthenticatedState]

theorem AttemptAt_swapState (env : Env) (Get : Call) (s : XHdcp1x_Tx) (nx : tState)
    (k : Nat) : AttemptAt env Get (swapState s nx) k = AttemptAt env Get s k := rfl

/-- C19: from Authenticated, a Check event for which one of the three attempts reads
Ri' successfully and equal to the Ri of the cipher brings the state machine back to
Authenticated through LinkIntegrityCheck.  The count of passed link checks grows by
exactly one, the counts of passed authentications and of failed link checks stay, and
the entry action of Authenticated only enables encryption: the Ri update callback is
not set again.  Ri' is the value the code assembles from its two byte buffer after the
read: the buffer is not initialised, so where a read stores fewer than two bytes the
other bytes are what the buffer held before, indeterminate bytes at the first
attempt. -/
theorem Check_passes (env : Env) (s : XHdcp1x_Tx)
    (hs : s.CurrentState = STATE_AUTHENTICATED)
    (hm : AttemptMatches env env.CipherGetRi (AttemptAt env Call.CipherGetRi s 0)
        ∨ AttemptMatches env env.CipherGetRi (AttemptAt env Call.CipherGetRi s 1)
        ∨ AttemptMatches env env.CipherGetRi (AttemptAt env Call.CipherGetRi s 2)) :
    DoTheState env s EVENT_CHECK
        = EnableEncryption env (setStateHelper (swapState
            (CheckLinkIntegrity env (swapState s STATE_LINKINTEGRITYCHECK)
              STATE_LINKINTEGRITYCHECK).1 STATE_AUTHENTICATED) 0)
    ∧ (DoTheState env s EVENT_CHECK).CurrentState = STATE_AUTHENTICATED
    ∧ (DoTheState env s EVENT_CHECK).PreviousState = STATE_LINKINTEGRITYCHECK
    ∧ (DoTheState env s EVENT_CHECK).Path
        = s.Path ++ [STATE_LINKINTEGRITYCHECK, STATE_AUTHENTICATED]
    ∧ (DoTheState env s EVENT_CHECK).Stats.LinkCheckPassed = s.Stats.LinkCheckPassed + 1
    ∧ (DoTheState env s EVENT_CHECK).Stats.AuthPassed = s.Stats.AuthPassed
    ∧ (DoTheState env s EVENT_CHECK).Stats.LinkCheckFailed = s.Stats.LinkCheckFailed
    ∧ armCount (DoTheState env s EVENT_CHECK).Calls = armCount s.Calls := by
  obtain ⟨hnx, hst, k, -, -, hcalls⟩ :=
    (CheckLinkIntegrity_outcome env (swapState s STATE_LINKINTEGRITYCHECK)
      STATE_LINKINTEGRITYCHECK).1 hm
  have hcore := core_EnterState env (swapState s STATE_LINKINTEGRITYCHECK)
    STATE_LINKINTEGRITYCHECK STATE_LINKINTEGRITYCHECK (by decide)
  have henter : EnterState env (swapState s STATE_LINKINTEGRITYCHECK)
      STATE_LINKINTEGRITYCHECK STATE_LINKINTEGRITYCHECK
        = CheckLinkIntegrity env (swapState s STATE_LINKINTEGRITYCHECK)
            STATE_LINKINTEGRITYCHECK := rfl
  rw [henter] at hcore
  generalize CheckLinkIntegrity env (swapState s STATE_LINKINTEGRITYCHECK)
    STATE_LINKINTEGRITYCHECK = cl at hnx hst hcalls hcore henter ⊢
  have hcs : cl.1.CurrentState = STATE_LINKINTEGRITYCHECK := by
    rw [CurrentState_of_core hcore]; rfl
  have hpath : cl.1.Path = s.Path ++ [STATE_LINKINTEGRITYCHECK] := by
    rw [Path_of_core hcore]; rfl
  have hfinal : EnterState env (swapState cl.1 STATE_AUTHENTICATED) STATE_AUTHENTICATED
      STATE_AUTHENTICATED
        = (EnableEncryption env (setStateHelper (swapState cl.1 STATE_AUTHENTICATED) 0),
            STATE_AUTHENTICATED) := by
    have hp : (EnableEncryption env
        (setStateHelper (swapState cl.1 STATE_AUTHENTICATED) 0)).PreviousState
          = STATE_LINKINTEGRITYCHECK := by
      rw [PreviousState_of_core (core_EnableEncryption env _)]
      simpa using hcs
    simp only [EnterState, hp, ne_eq, not_true_eq_false, if_false]
  have hd : DoTheState env s EVENT_CHECK
      = EnableEncryption env (setStateHelper (swapState cl.1 STATE_AUTHENTICATED) 0) := by
    have := DoTheState_of_two env s s cl.1 EVENT_CHECK STATE_LINKINTEGRITYCHECK
      STATE_AUTHENTICATED (RunState_Authenticated_check env s hs) (by rw [hs]; decide)
      (by
        rw [hs]
        simp only [ExitState]
        rw [henter]
        exact Prod.ext rfl hnx)
      (by decide)
      (by simp only [ExitState]; rw [hfinal])
    rw [this]
    simp only [ExitState]
    rw [hfinal]
  have hls : (EnableEncryption env
      (setStateHelper (swapState cl.1 STATE_AUTHENTICATED) 0)).linkStats
        = (s.Stats.AuthPassed, s.Stats.LinkCheckPassed + 1, s.Stats.LinkCheckFailed) := by
    rw [linkStats_EnableEncryption]
    exact hst
  simp only [XHdcp1x_Tx.linkStats, Prod.mk.injEq] at hls
  rw [hd]
  refine ⟨rfl, ?_, ?_, ?_, hls.2.1, hls.1, hls.2.2, ?_⟩
  · rw [CurrentState_of_core (core_EnableEncryption env _)]; rfl
  · rw [PreviousState_of_core (core_EnableEncryption env _)]; simpa using hcs
  · rw [Path_of_core (core_EnableEncryption env _)]; simp [hpath]
  · rw [armCount_EnableEncryption]
    simp only [setStateHelper_Calls, swapState_Calls]
    rw [hcalls, AttemptAt_swapState, armCount_AttemptAt env Call.CipherGetRi s k (by decide)]

set_option maxRecDepth 100000 in
theorem Check_passes_witness :
    (sampleTx STATE_AUTHENTICATED 1 0).CurrentState = STATE_AUTHENTICATED
    ∧ AttemptMatches sampleEnv sampleEnv.CipherGetRi
        (AttemptAt sampleEnv Call.CipherGetRi (sampleTx STATE_AUTHENTICATED 1 0) 0)
    ∧ (DoTheState sampleEnv (sampleTx STATE_AUTHENTICATED 1 0) EVENT_CHECK).CurrentState
        = STATE_AUTHENTICATED
    ∧ (DoTheState sampleEnv (sampleTx STATE_AUTHENTICATED 1 0) EVENT_CHECK).Stats.LinkCheckPassed
        = (sampleTx STATE_AUTHENTICATED 1 0).Stats.LinkCheckPassed + 1
    ∧ (DoTheState sampleEnv (sampleTx STATE_AUTHENTICATED 1 0) EVENT_CHECK).Stats.AuthPassed
        = (sampleTx STATE_AUTHENTICATED 1 0).Stats.AuthPassed
    ∧ armCount (DoTheState sampleEnv (sampleTx STATE_AUTHENTICATED 1 0) EVENT_CHECK).Calls
        = armCount (sampleTx STATE_AUTHENTICATED 1 0).Calls
    ∧ AttemptMatches sampleEnvShortRoZero sampleEnvShortRoZero.CipherGetRi
        (AttemptAt sampleEnvShortRoZero Call.CipherGetRi (sampleTx STATE_AUTHENTICATED 1 0) 0)
    ∧ (DoTheState sampleEnvShortRoZero (sampleTx STATE_AUTHENTICATED 1 0)
        EVENT_CHECK).CurrentState = STATE_AUTHENTICATED
    ∧ (DoTheState sampleEnvShortRoZero (sampleTx STATE_AUTHENTICATED 1 0)
        EVENT_CHECK).Stats.LinkCheckPassed
        = (sampleTx STATE_AUTHENTICATED 1 0).Stats.LinkCheckPassed + 1 :=
  have h := Check_passes sampleEnv (sampleTx STATE_AUTHENTICATED 1 0) rfl
    (Or.inl (by unfold AttemptMatches AttemptAt; decide))
  have hz := Check_passes sampleEnvShortRoZero (sampleTx STATE_AUTHENTICATED 1 0) rfl
    (Or.inl (by unfold AttemptMatches AttemptAt; decide))
  ⟨rfl, by unfold AttemptMatches AttemptAt; decide, h.2.1, h.2.2.2.2.1, h.2.2.2.2.2.1,
    h.2.2.2.2.2.2.2, by unfold AttemptMatches AttemptAt; decide, hz.2.1, hz.2.2.2.2.1⟩

theorem linkStats_ExitState (env : Env) (s : XHdcp1x_Tx) (st : tState)
    (h : st ≠ STATE_DISABLED) : (ExitState env s st).linkStats = s.linkStats := by
  cases st <;> first | exact absurd rfl h | rfl

/-- A round of the loop of state transitions that is about to enter ExchangeKsvs,
Computations or Unauthenticated leaves the counters of passed authentications and of
link checks as they are, and the next state it asks for is again one of the three. -/
theorem TransitionStep_reauth (env : Env) (p : XHdcp1x_Tx × tState)
    (hc : p.1.CurrentState ≠ STATE_DISABLED)
    (hn : p.2 = STATE_EXCHANGEKSVS ∨ p.2 = STATE_COMPUTATIONS
      ∨ p.2 = STATE_UNAUTHENTICATED) :
    (TransitionStep env p).1.linkStats = p.1.linkStats
    ∧ (TransitionStep env p).1.CurrentState ≠ STATE_DISABLED
    ∧ ((TransitionStep env p).2 = STATE_EXCHANGEKSVS
        ∨ (TransitionStep env p).2 = STATE_COMPUTATIONS
        ∨ (TransitionStep env p).2 = STATE_UNAUTHENTICATED) := by
  have hcs := TransitionStep_CurrentState env p
  refine ⟨?_, ?_, ?_⟩
  · by_cases h : LoopClosed p
    · rw [TransitionStep_closed env p h]
    · rw [TransitionStep_open env p h, linkStats_EnterState, linkStats_swapState,
        linkStats_ExitState env p.1 _ hc]
      rcases hn with h | h | h <;> simp [h]
  · rw [hcs]
    rcases hn with h | h | h <;> rw [h] <;> decide
  · by_cases h : LoopClosed p
    · rw [TransitionStep_closed env p h]; exact hn
    · rw [TransitionStep_open env p h]
      rcases hn with h | h | h <;> rw [h]
      · rcases ExchangeKsvs_next env
          (setStateHelper (swapState (ExitState env p.1 p.1.CurrentState)
            STATE_EXCHANGEKSVS) 0) STATE_EXCHANGEKSVS with g | g
        · right; right; simpa [EnterState] using g
        · right; left; simpa [EnterState] using g
      · right; left; simp [EnterState, StartComputations]
      · right; right; simp [EnterState]

theorem TransitionLoop_reauth (env : Env) (n : Nat) : ∀ p : XHdcp1x_Tx × tState,
    p.1.CurrentState ≠ STATE_DISABLED →
    (p.2 = STATE_EXCHANGEKSVS ∨ p.2 = STATE_COMPUTATIONS ∨ p.2 = STATE_UNAUTHENTICATED) →
    (TransitionLoop env n p).1.linkStats = p.1.linkStats
    ∧ ((TransitionLoop env n p).2 = STATE_EXCHANGEKSVS
        ∨ (TransitionLoop env n p).2 = STATE_COMPUTATIONS
        ∨ (TransitionLoop env n p).2 = STATE_UNAUTHENTICATED)
    ∧ ∃ chain : List tState, (TransitionLoop env n p).1.Path = p.1.Path ++ chain
        ∧ ∀ st ∈ chain, st = STATE_EXCHANGEKSVS ∨ st = STATE_COMPUTATIONS
            ∨ st = STATE_UNAUTHENTICATED := by
  unfold TransitionLoop
  induction n with
  | zero => intro p _ hn; exact ⟨rfl, hn, [], by simp, by simp⟩
  | succ n ih =>
    intro p hc hn
    obtain ⟨s1, s2, s3⟩ := TransitionStep_reauth env p hc hn
    obtain ⟨i1, i2, chain, i3, i4⟩ := ih (TransitionStep env p) s2 s3
    rw [Function.iterate_succ_apply]
    refine ⟨i1.trans s1, i2, (if p.1.CurrentState ≠ p.2 then [p.2] else []) ++ chain, ?_, ?_⟩
    · rw [i3, TransitionStep_Path, List.append_assoc]
    · intro st hst
      rcases List.mem_append.1 hst with h | h
      · split_ifs at h
        · rw [List.mem_singleton.1 h]; exact hn
        · simp at h
      · exact i4 st h

/-- `ValidateKsvList` in terms of its three phases: reading the ksv list, computing the
digest, and the five passes of the loop over the SHA-1 chunks. -/
theorem ValidateKsvList_phases (env : Env) (s : XHdcp1x_Tx) (B : Nat) :
    ValidateKsvList env s B
      = if (KsvListRead env s B).IsValid = true then
          if (env.SHA1Result (Sha1Fed env s B)).1 = env.shaSuccess then
            ((VhAfter env s B 5).Tx, (VhAfter env s B 5).IsValid)
          else (issue (KsvListRead env s B).Tx Call.CipherGetMo, false)
        else ((KsvListRead env s B).Tx, false) := by
  unfold ValidateKsvList
  dsimp only
  by_cases hv : (KsvListRead env s B).IsValid = true
  · have hv' := hv
    unfold KsvListRead at hv'
    rw [if_pos hv, if_pos hv']
    by_cases hsha : (env.SHA1Result (Sha1Fed env s B)).1 = env.shaSuccess
    · have hsha' := hsha
      unfold Sha1Fed KsvListMoBuf KsvListMo KsvListRead at hsha'
      rw [if_pos hsha, if_pos hsha']
      simp only [hv']
      rfl
    · have hsha' := hsha
      unfold Sha1Fed KsvListMoBuf KsvListMo KsvListRead at hsha'
      rw [if_neg hsha, if_neg hsha']
      rfl
  · have hv' := hv
    unfold KsvListRead at hv'
    rw [if_neg hv, if_neg hv']
    simp only [Bool.not_eq_true] at hv'
    rw [hv']
    rfl

theorem VhAfter_succ (env : Env) (s : XHdcp1x_Tx) (B k : Nat) :
    VhAfter env s B (k + 1) = CheckShaChunk env (KsvListDigest env s B) (VhAfter env s B k) := by
  unfold VhAfter
  rw [Function.iterate_succ_apply']

theorem VhAfter_Index (env : Env) (s : XHdcp1x_Tx) (B k : Nat) :
    (VhAfter env s B k).Index = 4 * k := by
  induction k with
  | zero => rfl
  | succ k ih =>
    rw [VhAfter_succ]
    show (VhAfter env s B k).Index + 4 = 4 * (k + 1)
    rw [ih]
    ring

theorem VhAfter_Offset (env : Env) (s : XHdcp1x_Tx) (B k : Nat) :
    (VhAfter env s B k).Offset = (env.XHDCP1X_PORT_OFFSET_VH0 + 4 * k) % 2 ^ 8 := by
  induction k with
  | zero => rfl
  | succ k ih =>
    rw [VhAfter_succ]
    show ((VhAfter env s B k).Offset + 4) % 2 ^ 8 = _
    rw [ih]
    omega

theorem VhAfter_Buf (env : Env) (s : XHdcp1x_Tx) (B k : Nat) :
    (VhAfter env s B (k + 1)).Buf
      = PortReadInto (VhAfter env s B k).Buf
          (env.PortRead (VhAfter env s B k).Tx.Calls
            ((env.XHDCP1X_PORT_OFFSET_VH0 + 4 * k) % 2 ^ 8) 4).2 4 := by
  rw [VhAfter_succ, ← VhAfter_Offset]
  rfl

theorem VhAfter_Calls (env : Env) (s : XHdcp1x_Tx) (B k : Nat) :
    (VhAfter env s B (k + 1)).Tx.Calls
      = (VhAfter env s B k).Tx.Calls
          ++ [Call.PortRead ((env.XHDCP1X_PORT_OFFSET_VH0 + 4 * k) % 2 ^ 8) 4] := by
  rw [VhAfter_succ, ← VhAfter_Offset env s B k]
  unfold CheckShaChunk
  dsimp only
  split_ifs <;> simp

theorem VhAfter_IsValid_succ (env : Env) (s : XHdcp1x_Tx) (B k : Nat) :
    (VhAfter env s B (k + 1)).IsValid
      = if CalcValueAt (KsvListDigest env s B) (4 * k)
            ≠ (if (env.PortRead (VhAfter env s B k).Tx.Calls
                    ((env.XHDCP1X_PORT_OFFSET_VH0 + 4 * k) % 2 ^ 8) 4).1 > 0
                then XHDCP1X_PORT_BUF_TO_UINT (VhAfter env s B (k + 1)).Buf 32 % 2 ^ 32
                else 0)
        then false else (VhAfter env s B k).IsValid := by
  rw [VhAfter_Buf, VhAfter_succ, ← VhAfter_Offset, ← VhAfter_Index]
  rfl

/-- The flag after `k` passes of the loop over the SHA-1 chunks is still set exactly
when in every pass the value assembled from the digest equalled the value read, a
failed read counting as the value zero. -/
theorem VhAfter_IsValid_iff (env : Env) (s : XHdcp1x_Tx) (B k : Nat) :
    (VhAfter env s B k).IsValid = true ↔
      ∀ j < k, CalcValueAt (KsvListDigest env s B) (4 * j)
        = (if (env.PortRead (VhAfter env s B j).Tx.Calls
                ((env.XHDCP1X_PORT_OFFSET_VH0 + 4 * j) % 2 ^ 8) 4).1 > 0
            then XHDCP1X_PORT_BUF_TO_UINT (VhAfter env s B (j + 1)).Buf 32 % 2 ^ 32
            else 0) := by
  induction k with
  | zero =>
    constructor
    · intro _ j hj; omega
    · intro _; rfl
  | succ k ih =>
    rw [VhAfter_IsValid_succ]
    by_cases hk : CalcValueAt (KsvListDigest env s B) (4 * k)
        = (if (env.PortRead (VhAfter env s B k).Tx.Calls
                ((env.XHDCP1X_PORT_OFFSET_VH0 + 4 * k) % 2 ^ 8) 4).1 > 0
            then XHDCP1X_PORT_BUF_TO_UINT (VhAfter env s B (k + 1)).Buf 32 % 2 ^ 32
            else 0)
    · rw [if_neg (not_not.2 hk)]
      constructor
      · intro h j hj
        rcases Nat.lt_succ_iff_lt_or_eq.1 hj with hlt | heq
        · exact ih.1 h j hlt
        · subst heq
          exact hk
      · intro h
        exact ih.2 (fun j hj => h j (Nat.lt_succ_of_lt hj))
    · rw [if_pos hk]
      constructor
      · intro h
        exact absurd h (by decide)
      · intro h
        exact absurd (h k (Nat.lt_succ_self k)) hk

theorem BUF_TO_UINT_32 (Buf : List Nat) :
    XHDCP1X_PORT_BUF_TO_UINT Buf 32
      = Buf.getD 0 0 % 256 + Buf.getD 1 0 % 256 * 256 + Buf.getD 2 0 % 256 * 65536
        + Buf.getD 3 0 % 256 * 16777216 := by
  have h : List.range (32 / 8) = [0, 1, 2, 3] := by decide
  simp only [XHDCP1X_PORT_BUF_TO_UINT, h, List.map_cons, List.map_nil, List.sum_cons,
    List.sum_nil]
  ring

theorem shiftLeft_8_or (x y : Nat) (hy : y < 256) : (x <<< 8) ||| y = x * 256 + y := by
  have h := Nat.mul_add_lt_is_or (show y < 2 ^ 8 from hy) x
  rw [Nat.shiftLeft_eq]
  rw [show x * 2 ^ 8 = 2 ^ 8 * x from Nat.mul_comm _ _, ← h]
  norm_num
  ring

theorem CalcValueAt_eq (D : List Nat) (Index : Nat) :
    CalcValueAt D Index
      = D.getD (Index + 0) 0 % 256 * 16777216 + D.getD (Index + 1) 0 % 256 * 65536
        + D.getD (Index + 2) 0 % 256 * 256 + D.getD (Index + 3) 0 % 256 := by
  have h0 := Nat.mod_lt (D.getD (Index + 0) 0) (show 0 < 256 by decide)
  have h1 := Nat.mod_lt (D.getD (Index + 1) 0) (show 0 < 256 by decide)
  have h2 := Nat.mod_lt (D.getD (Index + 2) 0) (show 0 < 256 by decide)
  have h3 := Nat.mod_lt (D.getD (Index + 3) 0) (show 0 < 256 by decide)
  unfold CalcValueAt
  dsimp only
  generalize D.getD (Index + 0) 0 % 256 = d0 at h0 ⊢
  generalize D.getD (Index + 1) 0 % 256 = d1 at h1 ⊢
  generalize D.getD (Index + 2) 0 % 256 = d2 at h2 ⊢
  generalize D.getD (Index + 3) 0 % 256 = d3 at h3 ⊢
  have e0 : d0 <<< 8 % 2 ^ 32 = d0 * 256 := by
    rw [Nat.shiftLeft_eq]; omega
  rw [e0]
  have e1 : (d0 * 256 ||| d1) = d0 * 256 + d1 := by
    have := shiftLeft_8_or d0 d1 h1
    rwa [Nat.shiftLeft_eq] at this
  rw [e1]
  have e2 : (d0 * 256 + d1) <<< 8 % 2 ^ 32 = (d0 * 256 + d1) * 256 := by
    rw [Nat.shiftLeft_eq]; omega
  rw [e2]
  have e3 : ((d0 * 256 + d1) * 256 ||| d2) = (d0 * 256 + d1) * 256 + d2 := by
    have := shiftLeft_8_or (d0 * 256 + d1) d2 h2
    rwa [Nat.shiftLeft_eq] at this
  rw [e3]
  have e4 : ((d0 * 256 + d1) * 256 + d2) <<< 8 % 2 ^ 32
      = ((d0 * 256 + d1) * 256 + d2) * 256 := by
    rw [Nat.shiftLeft_eq]; omega
  rw [e4]
  have e5 : (((d0 * 256 + d1) * 256 + d2) * 256 ||| d3)
      = ((d0 * 256 + d1) * 256 + d2) * 256 + d3 := by
    have := shiftLeft_8_or ((d0 * 256 + d1) * 256 + d2) d3 h3
    rwa [Nat.shiftLeft_eq] at this
  rw [e5]
  ring

/-- The value assembled from four digest bytes, high byte first, equals the value that
`XHDCP1X_PORT_BUF_TO_UINT` makes of the buffer exactly when the first four bytes of the
buffer are those digest bytes in reverse order. -/
theorem CalcValueAt_eq_BUF_TO_UINT_iff (D Buf : List Nat) (Index : Nat) :
    CalcValueAt D Index = XHDCP1X_PORT_BUF_TO_UINT Buf 32 % 2 ^ 32 ↔
      ∀ i < 4, Buf.getD i 0 % 256 = D.getD (Index + (3 - i)) 0 % 256 := by
  rw [CalcValueAt_eq, BUF_TO_UINT_32]
  have h0 := Nat.mod_lt (D.getD (Index + 0) 0) (show 0 < 256 by decide)
  have h1 := Nat.mod_lt (D.getD (Index + 1) 0) (show 0 < 256 by decide)
  have h2 := Nat.mod_lt (D.getD (Index + 2) 0) (show 0 < 256 by decide)
  have h3 := Nat.mod_lt (D.getD (Index + 3) 0) (show 0 < 256 by decide)
  have g0 := Nat.mod_lt (Buf.getD 0 0) (show 0 < 256 by decide)
  have g1 := Nat.mod_lt (Buf.getD 1 0) (show 0 < 256 by decide)
  have g2 := Nat.mod_lt (Buf.getD 2 0) (show 0 < 256 by decide)
  have g3 := Nat.mod_lt (Buf.getD 3 0) (show 0 < 256 by decide)
  generalize hd0 : D.getD (Index + 0) 0 % 256 = d0 at h0 ⊢
  generalize hd1 : D.getD (Index + 1) 0 % 256 = d1 at h1 ⊢
  generalize hd2 : D.getD (Index + 2) 0 % 256 = d2 at h2 ⊢
  generalize hd3 : D.getD (Index + 3) 0 % 256 = d3 at h3 ⊢
  generalize hb0 : Buf.getD 0 0 % 256 = b0 at g0 ⊢
  generalize hb1 : Buf.getD 1 0 % 256 = b1 at g1 ⊢
  generalize hb2 : Buf.getD 2 0 % 256 = b2 at g2 ⊢
  generalize hb3 : Buf.getD 3 0 % 256 = b3 at g3 ⊢
  constructor
  · intro h i hi
    have hh : b0 = d3 ∧ b1 = d2 ∧ b2 = d1 ∧ b3 = d0 := by omega
    rcases (show i = 0 ∨ i = 1 ∨ i = 2 ∨ i = 3 by omega) with r | r | r | r <;> subst r
    · rw [hb0, show Index + (3 - 0) = Index + 3 from rfl, hd3]; exact hh.1
    · rw [hb1, show Index + (3 - 1) = Index + 2 from rfl, hd2]; exact hh.2.1
    · rw [hb2, show Index + (3 - 2) = Index + 1 from rfl, hd1]; exact hh.2.2.1
    · rw [hb3, show Index + (3 - 3) = Index + 0 from rfl, hd0]; exact hh.2.2.2
  · intro h
    have q0 := h 0 (by decide)
    have q1 := h 1 (by decide)
    have q2 := h 2 (by decide)
    have q3 := h 3 (by decide)
    rw [hb0, show Index + (3 - 0) = Index + 3 from rfl, hd3] at q0
    rw [hb1, show Index + (3 - 1) = Index + 2 from rfl, hd2] at q1
    rw [hb2, show Index + (3 - 2) = Index + 1 from rfl, hd1] at q2
    rw [hb3, show Index + (3 - 3) = Index + 0 from rfl, hd0] at q3
    omega

theorem ReadKsvChunk_IsValid (env : Env)
    (hread : ∀ (h : List Call) (n : Nat),
      0 < (env.PortRead h env.XHDCP1X_PORT_OFFSET_KSVFIFO n).1)
    (p : KsvListState) : (ReadKsvChunk env p).IsValid = p.IsValid := by
  unfold ReadKsvChunk
  dsimp only
  rw [if_pos (hread _ _)]

theorem ReadKsvChunks_IsValid (env : Env)
    (hread : ∀ (h : List Call) (n : Nat),
      0 < (env.PortRead h env.XHDCP1X_PORT_OFFSET_KSVFIFO n).1)
    (n : Nat) : ∀ p : KsvListState, (ReadKsvChunks env n p).IsValid = p.IsValid := by
  induction n with
  | zero => intro p; exact ReadKsvChunk_IsValid env hread p
  | succ n ih =>
    intro p
    unfold ReadKsvChunks
    dsimp only
    split_ifs
    · rw [ih, ReadKsvChunk_IsValid env hread p]
    · exact ReadKsvChunk_IsValid env hread p

theorem KsvListRead_IsValid (env : Env) (s : XHdcp1x_Tx) (B : Nat)
    (hread : ∀ (h : List Call) (n : Nat),
      0 < (env.PortRead h env.XHDCP1X_PORT_OFFSET_KSVFIFO n).1) :
    (KsvListRead env s B).IsValid = true := by
  unfold KsvListRead
  rw [ReadKsvChunks_IsValid env hread]

theorem xor_bit_ne (x j : Nat) : x ^^^ (1 <<< j) ≠ x := by
  intro h
  have := congrArg (fun y => Nat.testBit y j) h
  simp [Nat.testBit_xor, Nat.testBit_shiftLeft] at this

/-- The check of the digest, relative to the little-endian model of the macro
`XHDCP1X_PORT_BUF_TO_UINT`, whose definition is not part of the sources: when every
read of the port succeeds and SHA-1 succeeds, `ValidateKsvList` returns TRUE exactly
when for each of the five words read from VH0 to
VH4 the four bytes in the buffer after the read are, low byte first, the corresponding
four bytes of the digest taken high byte first: byte `i` of word `k` equals byte
`4 k + 3 - i` of the digest.  So the list validates when the far end returns the
digest in that form, and does not when any single bit of any of the 20 bytes is
flipped. -/
theorem ValidateKsvList_digest_check (env : Env) (s : XHdcp1x_Tx) (B : Nat)
    (hread : ∀ (h : List Call) (Offset n : Nat), 0 < (env.PortRead h Offset n).1)
    (hsha : (env.SHA1Result (Sha1Fed env s B)).1 = env.shaSuccess) :
    ((ValidateKsvList env s B).2 = true ↔
      ∀ k < 5, ∀ i < 4, (VhAfter env s B (k + 1)).Buf.getD i 0 % 256
        = (KsvListDigest env s B).getD (4 * k + (3 - i)) 0 % 256)
    ∧ (∀ k : Nat, (VhAfter env s B (k + 1)).Buf
        = PortReadInto (VhAfter env s B k).Buf
            (env.PortRead (VhAfter env s B k).Tx.Calls
              ((env.XHDCP1X_PORT_OFFSET_VH0 + 4 * k) % 2 ^ 8) 4).2 4)
    ∧ (∀ k < 5, ∀ i < 4, ∀ j < 8,
        (VhAfter env s B (k + 1)).Buf.getD i 0 % 256
          = ((KsvListDigest env s B).getD (4 * k + (3 - i)) 0 % 256) ^^^ (1 <<< j) →
        (ValidateKsvList env s B).2 = false) := by
  have hiff : (ValidateKsvList env s B).2 = true ↔
      ∀ k < 5, ∀ i < 4, (VhAfter env s B (k + 1)).Buf.getD i 0 % 256
        = (KsvListDigest env s B).getD (4 * k + (3 - i)) 0 % 256 := by
    rw [ValidateKsvList_phases,
      if_pos (KsvListRead_IsValid env s B (fun h n => hread h _ n)), if_pos hsha]
    show (VhAfter env s B 5).IsValid = true ↔ _
    rw [VhAfter_IsValid_iff]
    constructor
    · intro h k hk
      have := h k hk
      rw [if_pos (hread _ _ _)] at this
      exact (CalcValueAt_eq_BUF_TO_UINT_iff _ _ _).1 this
    · intro h k hk
      rw [if_pos (hread _ _ _)]
      exact (CalcValueAt_eq_BUF_TO_UINT_iff _ _ _).2 (h k hk)
  refine ⟨hiff, fun k => VhAfter_Buf env s B k, ?_⟩
  intro k hk i hi j _ hflip
  cases hv : (ValidateKsvList env s B).2
  · rfl
  · have := hiff.1 hv k hk i hi
    rw [this] at hflip
    exact absurd hflip.symm (xor_bit_ne _ j)

theorem sampleEnvVh_reads (b : Bool) (h : List Call) (Offset n : Nat) :
    0 < ((sampleEnvVh b).PortRead h Offset n).1 := by
  simp only [sampleEnvVh]
  split_ifs <;> simp

set_option maxRecDepth 100000 in
theorem ValidateKsvList_digest_check_witness :
    (∀ (h : List Call) (Offset n : Nat), 0 < ((sampleEnvVh true).PortRead h Offset n).1)
    ∧ ((sampleEnvVh true).SHA1Result (Sha1Fed (sampleEnvVh true) ZeroInstance 1)).1
        = (sampleEnvVh true).shaSuccess
    ∧ (∀ k < 5, ∀ i < 4, (VhAfter (sampleEnvVh true) ZeroInstance 1 (k + 1)).Buf.getD i 0 % 256
        = (KsvListDigest (sampleEnvVh true) ZeroInstance 1).getD (4 * k + (3 - i)) 0 % 256)
    ∧ (ValidateKsvList (sampleEnvVh true) ZeroInstance 1).2 = true :=
  ⟨sampleEnvVh_reads true, rfl, by decide,
    (ValidateKsvList_digest_check (sampleEnvVh true) ZeroInstance 1 (sampleEnvVh_reads true)
      rfl).1.2 (by decide)⟩

set_option maxRecDepth 100000 in
/-- Relative to the little-endian model of the macro `XHDCP1X_PORT_BUF_TO_UINT`, whose
definition is not part of the sources: with every read succeeding, SHA-1 succeeding
and each of the five words at VH0 to VH4 holding, in port order, the four bytes of its slice of the
digest high byte first, `ValidateKsvList` returns FALSE. -/
theorem ValidateKsvList_high_byte_first_rejected :
    (∀ (h : List Call) (Offset n : Nat), 0 < ((sampleEnvVh false).PortRead h Offset n).1)
    ∧ ((sampleEnvVh false).SHA1Result (Sha1Fed (sampleEnvVh false) ZeroInstance 1)).1
        = (sampleEnvVh false).shaSuccess
    ∧ (∀ k < 5, ∀ i < 4, (VhAfter (sampleEnvVh false) ZeroInstance 1 (k + 1)).Buf.getD i 0
        = (KsvListDigest (sampleEnvVh false) ZeroInstance 1).getD (4 * k + i) 0)
    ∧ (ValidateKsvList (sampleEnvVh false) ZeroInstance 1).2 = false :=
  ⟨sampleEnvVh_reads false, rfl, by decide, by decide⟩

theorem PortReadInto_length (Buf Data : List Nat) (n : Nat) (h : n ≤ Buf.length) :
    (PortReadInto Buf Data n).length = Buf.length := by
  unfold PortReadInto
  simp only [List.length_append, List.length_map, List.length_take, List.length_drop]
  omega

theorem ReadKsvChunk_fields (env : Env)
    (hread : ∀ (h : List Call) (n : Nat),
      0 < (env.PortRead h env.XHDCP1X_PORT_OFFSET_KSVFIFO n).1)
    (p : KsvListState) :
    (ReadKsvChunk env p).Tx.Calls
        = p.Tx.Calls ++ [Call.PortRead env.XHDCP1X_PORT_OFFSET_KSVFIFO
            (min env.XHDCP1X_PORT_SIZE_KSVFIFO p.NumToRead)]
    ∧ (ReadKsvChunk env p).Buf
        = PortReadInto p.Buf (env.PortRead p.Tx.Calls env.XHDCP1X_PORT_OFFSET_KSVFIFO
            (min env.XHDCP1X_PORT_SIZE_KSVFIFO p.NumToRead)).2
            (min env.XHDCP1X_PORT_SIZE_KSVFIFO p.NumToRead)
    ∧ (ReadKsvChunk env p).Sha1Context
        = p.Sha1Context ++ (ReadKsvChunk env p).Buf.take
            (min env.XHDCP1X_PORT_SIZE_KSVFIFO p.NumToRead)
    ∧ (ReadKsvChunk env p).NumToRead
        = p.NumToRead - min env.XHDCP1X_PORT_SIZE_KSVFIFO p.NumToRead := by
  have hn : (if env.XHDCP1X_PORT_SIZE_KSVFIFO > p.NumToRead then p.NumToRead
      else env.XHDCP1X_PORT_SIZE_KSVFIFO) = min env.XHDCP1X_PORT_SIZE_KSVFIFO p.NumToRead := by
    split_ifs <;> omega
  unfold ReadKsvChunk
  dsimp only
  rw [hn, if_pos (hread _ _)]
  simp

/-- With every read of the KSV FIFO succeeding, the loop of `ValidateKsvList` that
reads the ksv list puts into SHA-1 the bytes of the list in the order read. -/
theorem ReadKsvChunks_Sha1Context (env : Env)
    (hread : ∀ (h : List Call) (n : Nat),
      0 < (env.PortRead h env.XHDCP1X_PORT_OFFSET_KSVFIFO n).1)
    (f : Nat) : ∀ p : KsvListState, p.IsValid = true →
      (ReadKsvChunks env f p).Sha1Context
        = p.Sha1Context ++ KsvFifoBytes env (f + 1) p.Tx.Calls p.Buf p.NumToRead := by
  induction f with
  | zero =>
    intro p _
    obtain ⟨h1, h2, h3, h4⟩ := ReadKsvChunk_fields env hread p
    show (ReadKsvChunk env p).Sha1Context = _
    rw [h3, h2]
    unfold KsvFifoBytes
    by_cases h0 : p.NumToRead = 0
    · simp [h0]
    · simp [h0, KsvFifoBytes]
  | succ f ih =>
    intro p hv
    obtain ⟨h1, h2, h3, h4⟩ := ReadKsvChunk_fields env hread p
    have hq := ReadKsvChunk_IsValid env hread p
    unfold ReadKsvChunks
    dsimp only
    by_cases h0 : p.NumToRead = 0
    · have : ¬ (0 < (ReadKsvChunk env p).NumToRead ∧ (ReadKsvChunk env p).IsValid = true) := by
        rw [h4, h0]; simp
      rw [if_neg this, h3, h2]
      unfold KsvFifoBytes
      simp [h0]
    · by_cases hc : 0 < (ReadKsvChunk env p).NumToRead
      · rw [if_pos ⟨hc, by rw [hq]; exact hv⟩, ih _ (by rw [hq]; exact hv), h3, h1, h4, h2]
        conv_rhs => unfold KsvFifoBytes
        simp [h0, List.append_assoc]
      · have : ¬ (0 < (ReadKsvChunk env p).NumToRead ∧ (ReadKsvChunk env p).IsValid = true) :=
          fun h => hc h.1
        rw [if_neg this, h3, h2]
        have hz : p.NumToRead - min env.XHDCP1X_PORT_SIZE_KSVFIFO p.NumToRead = 0 := by
          rw [← h4]; omega
        conv_rhs => unfold KsvFifoBytes
        simp only [h0, if_false, hz]
        unfold KsvFifoBytes
        simp

theorem ReadKsvChunks_Buf_length (env : Env)
    (hread : ∀ (h : List Call) (n : Nat),
      0 < (env.PortRead h env.XHDCP1X_PORT_OFFSET_KSVFIFO n).1)
    (hsize : env.XHDCP1X_PORT_SIZE_KSVFIFO ≤ 24)
    (f : Nat) : ∀ p : KsvListState, p.Buf.length = 24 →
      (ReadKsvChunks env f p).Buf.length = 24 := by
  have hb : ∀ p : KsvListState, p.Buf.length = 24 → (ReadKsvChunk env p).Buf.length = 24 := by
    intro p hp
    rw [(ReadKsvChunk_fields env hread p).2.1, PortReadInto_length _ _ _ (by omega), hp]
  induction f with
  | zero => intro p hp; exact hb p hp
  | succ f ih =>
    intro p hp
    unfold ReadKsvChunks
    dsimp only
    split_ifs
    · exact ih _ (hb p hp)
    · exact hb p hp

theorem KsvFifoBytes_length (env : Env) (hsize : env.XHDCP1X_PORT_SIZE_KSVFIFO ≤ 24)
    (f : Nat) : ∀ (h : List Call) (Buf : List Nat) (N : Nat),
      Buf.length = 24 → N ≤ f → (KsvFifoBytes env f h Buf N).length = N := by
  have hpos := env.size_ksvfifo_pos
  induction f with
  | zero =>
    intro h Buf N _ hN
    have : N = 0 := by omega
    subst this
    rfl
  | succ f ih =>
    intro h Buf N hB hN
    unfold KsvFifoBytes
    by_cases h0 : N = 0
    · simp [h0]
    · simp only [h0, if_false]
      have hl := PortReadInto_length Buf
        (env.PortRead h env.XHDCP1X_PORT_OFFSET_KSVFIFO
          (min env.XHDCP1X_PORT_SIZE_KSVFIFO N)).2
        (min env.XHDCP1X_PORT_SIZE_KSVFIFO N) (by omega)
      rw [List.length_append, List.length_take, hl, hB,
        ih _ _ _ (by rw [hl, hB]) (by omega)]
      omega

theorem and_0xFF_mod (x : Nat) : (x &&& 0xFF) % 2 ^ 8 = x &&& 0xFF := by
  apply Nat.mod_eq_of_lt
  have : x &&& 0xFF ≤ 0xFF := Nat.and_le_right
  omega

/-- The bytes put into SHA-1, relative to the little-endian model of the macro
`XHDCP1X_PORT_UINT_TO_BUF`, whose definition is not part of the sources: with every
read of the KSV FIFO succeeding (and a chunk fitting into the buffer), the digest that
`ValidateKsvList` computes for the repeater
information `B` and the device count `N = B & 0x7F` is that of exactly this byte
string: the `N * 5` bytes of the ksv list in the order read from the KSV FIFO, then the
low byte of `B`, then the high byte of `B`, then the 64 bit Mo of the cipher as 8
bytes, least significant byte first. -/
theorem Sha1Fed_bytes (env : Env) (s : XHdcp1x_Tx) (B : Nat)
    (hread : ∀ (h : List Call) (n : Nat),
      0 < (env.PortRead h env.XHDCP1X_PORT_OFFSET_KSVFIFO n).1)
    (hsize : env.XHDCP1X_PORT_SIZE_KSVFIFO ≤ 24) :
    Sha1Fed env s B
        = KsvFifoBytes env ((B &&& 0x7F) * 5 + 1) s.Calls (List.replicate 24 0)
            ((B &&& 0x7F) * 5)
          ++ [B &&& 0xFF, (B >>> 8) &&& 0xFF]
          ++ (List.range 8).map (fun i => KsvListMo env s B / 256 ^ i % 256)
    ∧ (KsvFifoBytes env ((B &&& 0x7F) * 5 + 1) s.Calls (List.replicate 24 0)
          ((B &&& 0x7F) * 5)).length = (B &&& 0x7F) * 5
    ∧ KsvListDigest env s B = (env.SHA1Result (Sha1Fed env s B)).2
    ∧ ((env.SHA1Result (Sha1Fed env s B)).1 = env.shaSuccess →
        ValidateKsvList env s B
          = ((VhAfter env s B 5).Tx, (VhAfter env s B 5).IsValid)) := by
  have hctx : (KsvListRead env s B).Sha1Context
      = KsvFifoBytes env ((B &&& 0x7F) * 5 + 1) s.Calls (List.replicate 24 0)
          ((B &&& 0x7F) * 5) := by
    unfold KsvListRead
    rw [ReadKsvChunks_Sha1Context env hread _ _ rfl]
    rfl
  have hlen : (KsvListRead env s B).Buf.length = 24 := by
    unfold KsvListRead
    exact ReadKsvChunks_Buf_length env hread hsize _ _ (by simp)
  refine ⟨?_, KsvFifoBytes_length env hsize _ _ _ _ (by simp) (by omega), rfl, ?_⟩
  · unfold Sha1Fed KsvListMoBuf
    rw [hctx, and_0xFF_mod, and_0xFF_mod]
    generalize (KsvListRead env s B).Buf = Buf at hlen
    generalize KsvListMo env s B = Mo
    have h2 : ((Buf.set 0 (B &&& 0xFF)).set 1 ((B >>> 8) &&& 0xFF)).take 2
        = [B &&& 0xFF, (B >>> 8) &&& 0xFF] := by
      match Buf, hlen with
      | b0 :: b1 :: rest, _ => rfl
    have h8 : (XHDCP1X_PORT_UINT_TO_BUF
        ((Buf.set 0 (B &&& 0xFF)).set 1 ((B >>> 8) &&& 0xFF)) Mo 64).take 8
          = (List.range 8).map (fun i => Mo / 256 ^ i % 256) := by
      unfold XHDCP1X_PORT_UINT_TO_BUF
      rw [show 64 / 8 = 8 from rfl, List.take_append_of_le_length (by simp)]
      exact List.take_of_length_le (by simp)
    rw [h2, h8]
  · intro hsha
    rw [ValidateKsvList_phases, if_pos (KsvListRead_IsValid env s B hread), if_pos hsha]

theorem sampleEnvMo_reads (h : List Call) (n : Nat) :
    0 < (sampleEnvMo.PortRead h sampleEnvMo.XHDCP1X_PORT_OFFSET_KSVFIFO n).1 := by
  simp [sampleEnvMo]

set_option maxRecDepth 100000 in
theorem Sha1Fed_bytes_witness :
    (∀ (h : List Call) (n : Nat),
      0 < (sampleEnvMo.PortRead h sampleEnvMo.XHDCP1X_PORT_OFFSET_KSVFIFO n).1)
    ∧ sampleEnvMo.XHDCP1X_PORT_SIZE_KSVFIFO ≤ 24
    ∧ Sha1Fed sampleEnvMo ZeroInstance 1
        = [0, 0, 0, 0, 0, 1, 0, 0x08, 0x07, 0x06, 0x05, 0x04, 0x03, 0x02, 0x01] :=
  ⟨sampleEnvMo_reads, by decide,
    (Sha1Fed_bytes sampleEnvMo ZeroInstance 1 (sampleEnvMo_reads) (by decide)).1.trans
      (by decide)⟩

set_option maxRecDepth 100000 in
/-- Relative to the little-endian model of the macro `XHDCP1X_PORT_UINT_TO_BUF`, whose
definition is not part of the sources: for one device, repeater information 1 and Mo
`0x0102030405060708`, the bytes of Mo are put into SHA-1 least significant byte first,
so the byte string differs from the one with Mo most significant byte first, and for a
SHA-1 that tells the two strings apart the digest computed is not that of the string
with Mo most significant byte first. -/
theorem Sha1Fed_Mo_low_byte_first :
    (∀ (h : List Call) (n : Nat),
      0 < (sampleEnvMo.PortRead h sampleEnvMo.XHDCP1X_PORT_OFFSET_KSVFIFO n).1)
    ∧ Sha1Fed sampleEnvMo ZeroInstance 1
        = [0, 0, 0, 0, 0, 1, 0, 0x08, 0x07, 0x06, 0x05, 0x04, 0x03, 0x02, 0x01]
    ∧ Sha1FedBySpec sampleEnvMo ZeroInstance 1
        = [0, 0, 0, 0, 0, 1, 0, 0x01, 0x02, 0x03, 0x04, 0x05, 0x06, 0x07, 0x08]
    ∧ KsvListDigest sampleEnvMo ZeroInstance 1
        ≠ (sampleEnvMo.SHA1Result (Sha1FedBySpec sampleEnvMo ZeroInstance 1)).2 :=
  ⟨sampleEnvMo_reads, by decide, by decide, by decide⟩

set_option maxRecDepth 100000 in
/-- C13 does not hold for the reads of VH0 to VH4: with a digest whose first word is
zero, a ksv list of one device whose read of VH0 fails is still reported valid.  The
failed read is counted as a read failure, the value read is taken as zero, and zero
equals the word of the digest. -/
theorem ValidateKsvList_failed_read_accepted :
    ¬ 0 < (sampleEnvVh0Fails.PortRead (VhAfter sampleEnvVh0Fails ZeroInstance 1 0).Tx.Calls
            ((sampleEnvVh0Fails.XHDCP1X_PORT_OFFSET_VH0 + 4 * 0) % 2 ^ 8) 4).1
    ∧ KsvListDigest sampleEnvVh0Fails ZeroInstance 1 = List.replicate 20 0
    ∧ (ValidateKsvList sampleEnvVh0Fails ZeroInstance 1).2 = true
    ∧ (ValidateKsvList sampleEnvVh0Fails ZeroInstance 1).1.Stats.ReadFailures = 1
    ∧ (ValidateKsvList sampleEnvVh0Fails ZeroInstance 1).1.Calls
        = [Call.PortRead 0x43 5, Call.CipherGetMo, Call.PortRead 0x20 4,
            Call.PortRead 0x24 4, Call.PortRead 0x28 4, Call.PortRead 0x2C 4,
            Call.PortRead 0x30 4] :=
  ⟨by decide, by decide, by decide, by decide, by decide⟩

/-! ## Physical layer down -/

@[simp] theorem PostEvent_Calls (s : XHdcp1x_Tx) (e : tEvent) :
    (PostEvent s e).Calls = s.Calls := by
  rw [PostEvent_frame]; rfl

@[simp] theorem PostEvent_Flags (s : XHdcp1x_Tx) (e : tEvent) :
    (PostEvent s e).Flags = s.Flags := by
  rw [PostEvent_frame]; rfl

@[simp] theorem PostEvent_Stats (s : XHdcp1x_Tx) (e : tEvent) :
    (PostEvent s e).Stats = s.Stats := by
  rw [PostEvent_frame]; rfl

@[simp] theorem PostEvent_StateHelper (s : XHdcp1x_Tx) (e : tEvent) :
    (PostEvent s e).StateHelper = s.StateHelper := by
  rw [PostEvent_frame]; rfl

@[simp] theorem PostEvent_EncryptionMap (s : XHdcp1x_Tx) (e : tEvent) :
    (PostEvent s e).EncryptionMap = s.EncryptionMap := by
  rw [PostEvent_frame]; rfl

@[simp] theorem PostEvent_CurrentState (s : XHdcp1x_Tx) (e : tEvent) :
    (PostEvent s e).CurrentState = s.CurrentState := by
  rw [PostEvent_frame]; rfl

@[simp] theorem PostEvent_PreviousState (s : XHdcp1x_Tx) (e : tEvent) :
    (PostEvent s e).PreviousState = s.PreviousState := by
  rw [PostEvent_frame]; rfl

@[simp] theorem PostEvent_Path (s : XHdcp1x_Tx) (e : tEvent) :
    (PostEvent s e).Path = s.Path := by
  rw [PostEvent_frame]; rfl

theorem DisableEncryption_Calls_ext (env : Env) (s : XHdcp1x_Tx) :
    ∃ l : List Call, (DisableEncryption env s).Calls = s.Calls ++ l := by
  unfold DisableEncryption
  dsimp only
  split_ifs
  · exact ⟨[Call.CipherGetEncryption, Call.CipherDisableEncryption (2 ^ 64 - 1),
      Call.PlatformTimerBusy (TMO_5MS % 2 ^ 16)], by simp⟩
  · exact ⟨[Call.CipherGetEncryption], by simp⟩

theorem RunState_PhyDown_stay (env : Env) (s : XHdcp1x_Tx) (e : tEvent)
    (hs : s.CurrentState = STATE_PHYDOWN) (h1 : e ≠ EVENT_PHYUP) (h2 : e ≠ EVENT_DISABLE) :
    RunState env s e = (s, s.CurrentState) := by
  cases e <;> simp [RunState, hs, RunPhysicalLayerDownState] at h1 h2 ⊢

/-- C21: in PhyDown, a PhyUp event moves the state machine to Unauthenticated: the exit
action enables the cipher, the entry action sets the PhyUp flag, and the handler has
posted an Authenticate event exactly when the encryption map is not zero.  A Disable
event moves it to Disabled.  Every other event leaves the instance as it is, in
PhyDown. -/
theorem PhyDown_events (env : Env) (s : XHdcp1x_Tx) (hs : s.CurrentState = STATE_PHYDOWN) :
    DoTheState env s EVENT_PHYUP
        = (EnterState env
            (swapState
              (issue (if s.EncryptionMap ≠ 0 then PostEvent s EVENT_AUTHENTICATE else s)
                Call.CipherEnable)
              STATE_UNAUTHENTICATED)
            STATE_UNAUTHENTICATED STATE_UNAUTHENTICATED).1
    ∧ (DoTheState env s EVENT_PHYUP).CurrentState = STATE_UNAUTHENTICATED
    ∧ (DoTheState env s EVENT_PHYUP).Flags.testBit 0 = true
    ∧ (∃ l : List Call,
        (DoTheState env s EVENT_PHYUP).Calls = s.Calls ++ Call.CipherEnable :: l)
    ∧ (DoTheState env s EVENT_PHYUP).PendingEvents
        = (if s.EncryptionMap ≠ 0 then (PostEvent s EVENT_AUTHENTICATE).PendingEvents
            else s.PendingEvents)
    ∧ (DoTheState env s EVENT_DISABLE).CurrentState = STATE_DISABLED
    ∧ ∀ e : tEvent, e ≠ EVENT_PHYUP → e ≠ EVENT_DISABLE → DoTheState env s e = s := by
  have hr : RunState env s EVENT_PHYUP
      = (if s.EncryptionMap ≠ 0 then PostEvent s EVENT_AUTHENTICATE else s,
          STATE_UNAUTHENTICATED) := by
    simp only [RunState, hs, RunPhysicalLayerDownState]
    split_ifs <;> rfl
  have hd := DoTheState_of_one env s _ EVENT_PHYUP STATE_UNAUTHENTICATED hr
    (by rw [hs]; decide) (by simp [EnterState])
  rw [hs] at hd
  simp only [ExitState] at hd
  refine ⟨hd, ?_, ?_, ?_, ?_, DoTheState_DISABLE env s, ?_⟩
  · rw [hd]; simp
  · rw [hd]
    simp only [EnterState, DisableEncryption_Flags, setFlags_Flags]
    rw [show FLAG_PHY_UP = 1 <<< 0 from rfl, testBit_setBits16]
    simp
  · rw [hd]
    simp only [EnterState]
    obtain ⟨l, hl⟩ := DisableEncryption_Calls_ext env
      (setFlags
        (setFlags
          (swapState
            (issue (if s.EncryptionMap ≠ 0 then PostEvent s EVENT_AUTHENTICATE else s)
              Call.CipherEnable) STATE_UNAUTHENTICATED)
          (clearBits16
            (swapState
              (issue (if s.EncryptionMap ≠ 0 then PostEvent s EVENT_AUTHENTICATE else s)
                Call.CipherEnable) STATE_UNAUTHENTICATED).Flags FLAG_IS_REPEATER))
        (setBits16
          (setFlags
            (swapState
              (issue (if s.EncryptionMap ≠ 0 then PostEvent s EVENT_AUTHENTICATE else s)
                Call.CipherEnable) STATE_UNAUTHENTICATED)
            (clearBits16
              (swapState
                (issue (if s.EncryptionMap ≠ 0 then PostEvent s EVENT_AUTHENTICATE else s)
                  Call.CipherEnable) STATE_UNAUTHENTICATED).Flags
              FLAG_IS_REPEATER)).Flags FLAG_PHY_UP))
    refine ⟨l, ?_⟩
    rw [hl]
    split_ifs <;> simp
  · rw [hd]
    simp only [EnterState_PendingEvents, swapState_PendingEvents, issue_PendingEvents]
    split_ifs <;> rfl
  · intro e h1 h2
    exact DoTheState_of_stay env s s e (RunState_PhyDown_stay env s e hs h1 h2)

theorem PhyDown_events_witness :
    (sampleTx STATE_PHYDOWN 0 0).CurrentState = STATE_PHYDOWN
    ∧ (DoTheState sampleEnv (sampleTx STATE_PHYDOWN 0 0) EVENT_PHYUP).CurrentState
        = STATE_UNAUTHENTICATED
    ∧ (DoTheState sampleEnv (sampleTx STATE_PHYDOWN 0 0) EVENT_PHYUP).Flags.testBit 0 = true :=
  ⟨rfl, (PhyDown_events sampleEnv (sampleTx STATE_PHYDOWN 0 0) rfl).2.1,
    (PhyDown_events sampleEnv (sampleTx STATE_PHYDOWN 0 0) rfl).2.2.1⟩

/-! ## The encryption map -/

theorem testBit_andNot64 (x m i : Nat) :
    ((x &&& ((2 ^ 64 - 1) ^^^ (m % 2 ^ 64))) % 2 ^ 64).testBit i
      = (decide (i < 64) && (x.testBit i && !m.testBit i)) := by
  rw [Nat.testBit_mod_two_pow, Nat.testBit_and, Nat.testBit_xor, Nat.testBit_two_pow_sub_one,
    Nat.testBit_mod_two_pow]
  by_cases h : i < 64 <;> simp [h]

theorem testBit_or64 (x m i : Nat) :
    ((x ||| (m % 2 ^ 64)) % 2 ^ 64).testBit i
      = (decide (i < 64) && (x.testBit i || m.testBit i)) := by
  rw [Nat.testBit_mod_two_pow, Nat.testBit_or, Nat.testBit_mod_two_pow]
  by_cases h : i < 64 <;> simp [h]

/-- C28: `XHdcp1x_TxDisableEncryption` issues one disable-encryption request to the
cipher for the given stream map and returns its status.  When that status is
`XST_SUCCESS`, the encryption map becomes the old map with the bits of the stream map
cleared (as a 64 bit value); otherwise the encryption map, like every other field of
the instance, is left unchanged. -/
theorem TxDisableEncryption_result (env : Env) (s : XHdcp1x_Tx) (m : Nat) :
    (XHdcp1x_TxDisableEncryption env s m).2 = env.CipherDisableEncryption s.Calls (m % 2 ^ 64)
    ∧ (XHdcp1x_TxDisableEncryption env s m).1.Calls
        = s.Calls ++ [Call.CipherDisableEncryption (m % 2 ^ 64)]
    ∧ (env.CipherDisableEncryption s.Calls (m % 2 ^ 64) = XST_SUCCESS →
        (∀ i : Nat, (XHdcp1x_TxDisableEncryption env s m).1.EncryptionMap.testBit i
          = (decide (i < 64) && (s.EncryptionMap.testBit i && !m.testBit i)))
        ∧ (XHdcp1x_TxDisableEncryption env s m).1
            = setEncryptionMap (issue s (Call.CipherDisableEncryption (m % 2 ^ 64)))
                (XHdcp1x_TxDisableEncryption env s m).1.EncryptionMap)
    ∧ (env.CipherDisableEncryption s.Calls (m % 2 ^ 64) ≠ XST_SUCCESS →
        (XHdcp1x_TxDisableEncryption env s m).1.EncryptionMap = s.EncryptionMap
        ∧ (XHdcp1x_TxDisableEncryption env s m).1
            = issue s (Call.CipherDisableEncryption (m % 2 ^ 64))) := by
  unfold XHdcp1x_TxDisableEncryption
  dsimp only
  by_cases h : env.CipherDisableEncryption s.Calls (m % 2 ^ 64) = XST_SUCCESS
  · rw [if_pos h]
    refine ⟨rfl, by simp, fun _ => ⟨fun i => ?_, rfl⟩, fun h' => absurd h h'⟩
    simp only [setEncryptionMap_EncryptionMap, issue_EncryptionMap]
    exact testBit_andNot64 _ _ _
  · rw [if_neg h]
    exact ⟨rfl, by simp, fun h' => absurd h' h, fun _ => ⟨rfl, rfl⟩⟩

theorem EnableEncryption_frame (env : Env) (s : XHdcp1x_Tx) :
    EnableEncryption env s = { s with Calls := (EnableEncryption env s).Calls } := by
  unfold EnableEncryption
  dsimp only
  split_ifs <;> rfl

theorem or64_idem (x m : Nat) :
    (((x ||| (m % 2 ^ 64)) % 2 ^ 64) ||| (m % 2 ^ 64)) % 2 ^ 64 = (x ||| (m % 2 ^ 64)) % 2 ^ 64 := by
  apply Nat.eq_of_testBit_eq
  intro i
  rw [testBit_or64, testBit_or64]
  by_cases h : i < 64 <;> simp [h]

/-- C29: `XHdcp1x_TxEnableEncryption` returns `XST_SUCCESS` and sets the encryption map
to the old map or-ed with the stream map (as a 64 bit value) in every state, so that
`XHdcp1x_TxGetEncryption` returns that value.  Calling it a second time with the same
stream map leaves the map and every field other than the record of calls as after the
first call.  Outside Authenticated and LinkIntegrityCheck no request is issued: the
instance changes in the encryption map only; in these two states the instance is the
one `EnableEncryption` yields for the new map. -/
theorem TxEnableEncryption_result (env : Env) (s : XHdcp1x_Tx) (m : Nat) :
    (XHdcp1x_TxEnableEncryption env s m).2 = XST_SUCCESS
    ∧ (∀ i : Nat, (XHdcp1x_TxGetEncryption (XHdcp1x_TxEnableEncryption env s m).1).testBit i
        = (decide (i < 64) && (s.EncryptionMap.testBit i || m.testBit i)))
    ∧ (XHdcp1x_TxEnableEncryption env (XHdcp1x_TxEnableEncryption env s m).1 m).1
        = { (XHdcp1x_TxEnableEncryption env s m).1 with
            Calls := (XHdcp1x_TxEnableEncryption env
              (XHdcp1x_TxEnableEncryption env s m).1 m).1.Calls }
    ∧ (s.CurrentState ≠ STATE_AUTHENTICATED → s.CurrentState ≠ STATE_LINKINTEGRITYCHECK →
        (XHdcp1x_TxEnableEncryption env s m).1
          = setEncryptionMap s ((s.EncryptionMap ||| (m % 2 ^ 64)) % 2 ^ 64)
        ∧ (XHdcp1x_TxEnableEncryption env s m).1.Calls = s.Calls
        ∧ (XHdcp1x_TxEnableEncryption env (XHdcp1x_TxEnableEncryption env s m).1 m).1
            = (XHdcp1x_TxEnableEncryption env s m).1)
    ∧ ((s.CurrentState = STATE_AUTHENTICATED ∨ s.CurrentState = STATE_LINKINTEGRITYCHECK) →
        (XHdcp1x_TxEnableEncryption env s m).1
          = EnableEncryption env
              (setEncryptionMap s ((s.EncryptionMap ||| (m % 2 ^ 64)) % 2 ^ 64))) := by
  have hmap : ∀ t : XHdcp1x_Tx, (XHdcp1x_TxEnableEncryption env t m).1.EncryptionMap
      = (t.EncryptionMap ||| (m % 2 ^ 64)) % 2 ^ 64 := by
    intro t
    unfold XHdcp1x_TxEnableEncryption
    dsimp only
    split_ifs
    · rw [EncryptionMap_of_core (core_EnableEncryption env _)]; rfl
    · rfl
  have hframe : ∀ t : XHdcp1x_Tx, (XHdcp1x_TxEnableEncryption env t m).1
      = { setEncryptionMap t ((t.EncryptionMap ||| (m % 2 ^ 64)) % 2 ^ 64) with
          Calls := (XHdcp1x_TxEnableEncryption env t m).1.Calls } := by
    intro t
    unfold XHdcp1x_TxEnableEncryption
    dsimp only
    split_ifs
    · exact EnableEncryption_frame env _
    · rfl
  have hauth : ∀ t : XHdcp1x_Tx, IsAuthenticated t = true
      ↔ (t.CurrentState = STATE_AUTHENTICATED ∨ t.CurrentState = STATE_LINKINTEGRITYCHECK) := by
    intro t
    rcases t with ⟨cs, ps, sh, fl, pe, em, st, ca, pa⟩
    cases cs <;> simp [IsAuthenticated]
  have hnot : s.CurrentState ≠ STATE_AUTHENTICATED → s.CurrentState ≠ STATE_LINKINTEGRITYCHECK →
      ∀ v : Nat, (XHdcp1x_TxEnableEncryption env (setEncryptionMap s v) m).1
        = setEncryptionMap (setEncryptionMap s v) (((setEncryptionMap s v).EncryptionMap
            ||| (m % 2 ^ 64)) % 2 ^ 64) := by
    intro h1 h2 v
    have : ¬ IsAuthenticated (setEncryptionMap (setEncryptionMap s v)
        (((setEncryptionMap s v).EncryptionMap ||| (m % 2 ^ 64)) % 2 ^ 64)) = true := by
      rw [hauth]
      simp [h1, h2]
    unfold XHdcp1x_TxEnableEncryption
    dsimp only
    rw [if_neg this]
  refine ⟨?_, ?_, ?_, ?_, ?_⟩
  · unfold XHdcp1x_TxEnableEncryption
    dsimp only
    split_ifs <;> rfl
  · intro i
    unfold XHdcp1x_TxGetEncryption
    rw [hmap]
    exact testBit_or64 _ _ _
  · have e := hmap s
    have h1 := hframe (XHdcp1x_TxEnableEncryption env s m).1
    generalize (XHdcp1x_TxEnableEncryption env s m).1 = r1 at e h1 ⊢
    have h2 : (r1.EncryptionMap ||| (m % 2 ^ 64)) % 2 ^ 64 = r1.EncryptionMap := by
      rw [e, or64_idem]
    rw [h2] at h1
    exact h1
  · intro h1 h2
    have e1 : (XHdcp1x_TxEnableEncryption env s m).1
        = setEncryptionMap s ((s.EncryptionMap ||| (m % 2 ^ 64)) % 2 ^ 64) := by
      have := hnot h1 h2 s.EncryptionMap
      have hs : setEncryptionMap s s.EncryptionMap = s := rfl
      rw [hs] at this
      rw [this]
    refine ⟨e1, by rw [e1]; rfl, ?_⟩
    rw [e1, hnot h1 h2]
    simp only [setEncryptionMap_EncryptionMap, or64_idem]
    rfl
  · intro h
    have : IsAuthenticated (setEncryptionMap s ((s.EncryptionMap ||| (m % 2 ^ 64)) % 2 ^ 64))
        = true := by
      rw [hauth]
      simpa using h
    unfold XHdcp1x_TxEnableEncryption
    dsimp only
    rw [if_pos this]

theorem TxDisableEncryption_result_witness :
    sampleEnv.CipherDisableEncryption (sampleTxMap STATE_AUTHENTICATED 3).Calls (1 % 2 ^ 64)
        = XST_SUCCESS
    ∧ (∀ i : Nat,
        (XHdcp1x_TxDisableEncryption sampleEnv (sampleTxMap STATE_AUTHENTICATED 3)
            1).1.EncryptionMap.testBit i
          = (decide (i < 64)
              && ((sampleTxMap STATE_AUTHENTICATED 3).EncryptionMap.testBit i
                && !Nat.testBit 1 i))) :=
  ⟨rfl, ((TxDisableEncryption_result sampleEnv (sampleTxMap STATE_AUTHENTICATED 3) 1).2.2.1
    rfl).1⟩

theorem TxEnableEncryption_result_witness :
    (sampleTxMap STATE_UNAUTHENTICATED 1).CurrentState ≠ STATE_AUTHENTICATED
    ∧ (sampleTxMap STATE_UNAUTHENTICATED 1).CurrentState ≠ STATE_LINKINTEGRITYCHECK
    ∧ (XHdcp1x_TxEnableEncryption sampleEnv (sampleTxMap STATE_UNAUTHENTICATED 1) 2).1.Calls
        = (sampleTxMap STATE_UNAUTHENTICATED 1).Calls :=
  ⟨by decide, by decide,
    ((TxEnableEncryption_result sampleEnv (sampleTxMap STATE_UNAUTHENTICATED 1) 2).2.2.2.1
      (by decide) (by decide)).2.1⟩

/-! ## The PhyUp flag and the watched requests -/

@[simp] theorem view_issue (s : XHdcp1x_Tx) (c : Call) :
    (issue s c).view = (s.view.1, s.view.2 ++ (if c.watched = true then [c] else [])) := by
  simp only [XHdcp1x_Tx.view, issue_Flags, issue_Calls, List.filter_append]
  by_cases h : c.watched = true <;> simp [List.filter_cons, h]

@[simp] theorem view_setFlags (s : XHdcp1x_Tx) (v : Nat) :
    (setFlags s v).view = (phyBit v, s.view.2) := rfl

@[simp] theorem view_setStateHelper (s : XHdcp1x_Tx) (v : Nat) :
    (setStateHelper s v).view = s.view := rfl

@[simp] theorem view_setPendingEvents (s : XHdcp1x_Tx) (v : Nat) :
    (setPendingEvents s v).view = s.view := rfl

@[simp] theorem view_setEncryptionMap (s : XHdcp1x_Tx) (v : Nat) :
    (setEncryptionMap s v).view = s.view := rfl

@[simp] theorem view_setStats (s : XHdcp1x_Tx) (v : XHdcp1x_TxStats) :
    (setStats s v).view = s.view := rfl

@[simp] theorem view_countAuthFailed (s : XHdcp1x_Tx) : (countAuthFailed s).view = s.view := rfl

@[simp] theorem view_countAuthPassed (s : XHdcp1x_Tx) : (countAuthPassed s).view = s.view := rfl

@[simp] theorem view_countReauthRequested (s : XHdcp1x_Tx) :
    (countReauthRequested s).view = s.view := rfl

@[simp] theorem view_countReadFailures (s : XHdcp1x_Tx) :
    (countReadFailures s).view = s.view := rfl

@[simp] theorem view_countLinkCheckPassed (s : XHdcp1x_Tx) :
    (countLinkCheckPassed s).view = s.view := rfl

@[simp] theorem view_countLinkCheckFailed (s : XHdcp1x_Tx) :
    (countLinkCheckFailed s).view = s.view := rfl

@[simp] theorem view_swapState (s : XHdcp1x_Tx) (nx : tState) : (swapState s nx).view = s.view :=
  rfl

@[simp] theorem view_PostEvent (s : XHdcp1x_Tx) (e : tEvent) : (PostEvent s e).view = s.view := by
  rw [PostEvent_frame]; rfl

@[simp] theorem phyBit_Flags (s : XHdcp1x_Tx) : phyBit s.Flags = s.view.1 := rfl

@[simp] theorem phyBit_set_repeater (x : Nat) :
    phyBit (setBits16 x FLAG_IS_REPEATER) = phyBit x := by
  unfold phyBit
  rw [show FLAG_IS_REPEATER = 1 <<< 1 from rfl, testBit_setBits16]
  simp

@[simp] theorem phyBit_clear_repeater (x : Nat) :
    phyBit (clearBits16 x FLAG_IS_REPEATER) = phyBit x := by
  unfold phyBit
  rw [show FLAG_IS_REPEATER = 1 <<< 1 from rfl, testBit_clearBits16]
  simp

@[simp] theorem phyBit_set_phy (x : Nat) : phyBit (setBits16 x FLAG_PHY_UP) = true := by
  unfold phyBit
  rw [show FLAG_PHY_UP = 1 <<< 0 from rfl, testBit_setBits16]
  simp

@[simp] theorem phyBit_clear_phy (x : Nat) : phyBit (clearBits16 x FLAG_PHY_UP) = false := by
  unfold phyBit
  rw [show FLAG_PHY_UP = 1 <<< 0 from rfl, testBit_clearBits16]
  simp

@[simp] theorem view_StartTimer (s : XHdcp1x_Tx) (t : Nat) :
    (StartTimer s t).view = (s.view.1, s.view.2 ++ [Call.PlatformTimerStart (t % 2 ^ 16)]) := by
  simp [StartTimer, Call.watched]

@[simp] theorem view_StopTimer (s : XHdcp1x_Tx) :
    (StopTimer s).view = (s.view.1, s.view.2 ++ [Call.PlatformTimerStop]) := by
  simp [StopTimer, Call.watched]

@[simp] theorem view_BusyDelay (s : XHdcp1x_Tx) (t : Nat) : (BusyDelay s t).view = s.view := by
  simp [BusyDelay, Call.watched]

@[simp] theorem view_SetCheckLinkState (env : Env) (s : XHdcp1x_Tx) (b : Bool) :
    (SetCheckLinkState env s b).view = s.view := by
  unfold SetCheckLinkState
  split_ifs <;> simp [Call.watched]

@[simp] theorem view_EnableEncryption (env : Env) (s : XHdcp1x_Tx) :
    (EnableEncryption env s).view
      = (s.view.1, s.view.2 ++ EncLog env s.Calls s.EncryptionMap) := by
  unfold EnableEncryption EncLog
  dsimp only
  split_ifs <;> simp_all [Call.watched]

@[simp] theorem view_DisableEncryption (env : Env) (s : XHdcp1x_Tx) :
    (DisableEncryption env s).view = s.view := by
  unfold DisableEncryption
  dsimp only
  split_ifs <;> simp [Call.watched]

@[simp] theorem view_Enable (s : XHdcp1x_Tx) :
    (Enable s).view = (s.view.1, s.view.2 ++ [Call.CipherEnable, Call.PortEnable]) := by
  simp [Enable, Call.watched]

@[simp] theorem view_Disable (s : XHdcp1x_Tx) :
    (Disable s).view
      = (s.view.1, s.view.2 ++ [Call.PortDisable, Call.CipherDisable, Call.PlatformTimerStop]) := by
  simp [Disable, Call.watched]

@[simp] theorem view_CheckRxCapable (env : Env) (s : XHdcp1x_Tx) (nx : tState) :
    (CheckRxCapable env s nx).1.view = s.view := by
  unfold CheckRxCapable
  dsimp only
  split_ifs <;> simp [Call.watched]

theorem view_AwaitStep_iterate (env : Env) (n : Nat) : ∀ p : XHdcp1x_Tx × Bool,
    ((AwaitStep env)^[n] p).1.view = p.1.view := by
  induction n with
  | zero => intro p; rfl
  | succ n ih =>
    intro p
    rw [Function.iterate_succ_apply, ih]
    unfold AwaitStep
    split_ifs <;> simp [Call.watched]

@[simp] theorem view_AwaitRequestComplete (env : Env) (s : XHdcp1x_Tx) :
    (AwaitRequestComplete env s).1.view = s.view :=
  view_AwaitStep_iterate env _ (s, false)

@[simp] theorem view_GenerateAn (env : Env) (s : XHdcp1x_Tx) :
    (GenerateAn env s).1.view = s.view := by
  unfold GenerateAn
  dsimp only
  split_ifs <;> simp [Call.watched]

@[simp] theorem view_ExchangeKsvs (env : Env) (s : XHdcp1x_Tx) (nx : tState) :
    (ExchangeKsvs env s nx).1.view = s.view := by
  unfold ExchangeKsvs
  dsimp only
  split_ifs <;> simp [Call.watched]

@[simp] theorem view_StartComputations (env : Env) (s : XHdcp1x_Tx) (nx : tState) :
    (StartComputations env s nx).1.view = s.view := by
  unfold StartComputations
  simp [Call.watched]

@[simp] theorem view_PollForComputations (env : Env) (s : XHdcp1x_Tx) (nx : tState) :
    (PollForComputations env s nx).1.view = s.view := by
  unfold PollForComputations
  dsimp only
  split_ifs <;> simp [Call.watched]

@[simp] theorem view_ValidateRxBody (env : Env) (n : Nat) (p : XHdcp1x_Tx × List Nat × tState) :
    (ValidateRxBody env n p).1.view = p.1.view := by
  unfold ValidateRxBody
  dsimp only
  split_ifs <;> simp [Call.watched]

theorem view_ValidateRxLoop (env : Env) (n : Nat) : ∀ p : XHdcp1x_Tx × List Nat × tState,
    (ValidateRxLoop env n p).1.view = p.1.view := by
  induction n with
  | zero => intro p; simp [ValidateRxLoop]
  | succ n ih =>
    intro p
    unfold ValidateRxLoop
    dsimp only
    split_ifs
    · rw [ih]; simp
    · simp

@[simp] theorem view_ValidateRx (env : Env) (s : XHdcp1x_Tx) (nx : tState) :
    (ValidateRx env s nx).1.view = s.view := by
  unfold ValidateRx
  simp [view_ValidateRxLoop]

@[simp] theorem view_CheckLinkIntegrityBody (env : Env) (p : XHdcp1x_Tx × List Nat × tState) :
    (CheckLinkIntegrityBody env p).1.view = p.1.view := by
  unfold CheckLinkIntegrityBody
  dsimp only
  split_ifs <;> simp [Call.watched]

theorem view_CheckLinkIntegrityLoop (env : Env) (n : Nat) :
    ∀ p : XHdcp1x_Tx × List Nat × tState,
    (CheckLinkIntegrityLoop env n p).1.view = p.1.view := by
  induction n with
  | zero => intro p; simp [CheckLinkIntegrityLoop]
  | succ n ih =>
    intro p
    unfold CheckLinkIntegrityLoop
    dsimp only
    split_ifs
    · rw [ih]; simp
    · simp

@[simp] theorem view_CheckLinkIntegrity (env : Env) (s : XHdcp1x_Tx) (nx : tState) :
    (CheckLinkIntegrity env s nx).1.view = s.view := by
  unfold CheckLinkIntegrity
  dsimp only
  split_ifs <;> simp [view_CheckLinkIntegrityLoop]

theorem view_TestForRepeater (env : Env) (s : XHdcp1x_Tx) (nx : tState) :
    (TestForRepeater env s nx).1.view
      = (s.view.1, s.view.2 ++
          (if env.PortIsRepeater s.Calls = true then
            EncLog env
              (s.Calls ++ [Call.PortIsRepeater,
                Call.PortWrite env.XHDCP1X_PORT_OFFSET_AINFO
                  (List.replicate XHDCP1X_PORT_SIZE_AINFO 0)])
              s.EncryptionMap
          else [])) := by
  unfold TestForRepeater
  dsimp only
  split_ifs <;> simp [Call.watched, XHDCP1X_PORT_SIZE_AINFO]

@[simp] theorem view_PollForWaitForReady (env : Env) (s : XHdcp1x_Tx) (nx : tState) :
    (PollForWaitForReady env s nx).1.view = s.view := by
  unfold PollForWaitForReady
  dsimp only
  split_ifs <;> simp [Call.watched]

@[simp] theorem view_ReadKsvChunk (env : Env) (p : KsvListState) :
    (ReadKsvChunk env p).Tx.view = p.Tx.view := by
  unfold ReadKsvChunk
  dsimp only
  split_ifs <;> simp [Call.watched]

theorem view_ReadKsvChunks (env : Env) (n : Nat) : ∀ p : KsvListState,
    (ReadKsvChunks env n p).Tx.view = p.Tx.view := by
  induction n with
  | zero => intro p; simp [ReadKsvChunks]
  | succ n ih =>
    intro p
    unfold ReadKsvChunks
    dsimp only
    split_ifs
    · rw [ih]; simp
    · simp

@[simp] theorem view_CheckShaChunk (env : Env) (d : List Nat) (p : VCheckState) :
    (CheckShaChunk env d p).Tx.view = p.Tx.view := by
  unfold CheckShaChunk
  dsimp only
  split_ifs <;> simp [Call.watched]

theorem view_CheckShaChunks (env : Env) (d : List Nat) (n : Nat) : ∀ p : VCheckState,
    (CheckShaChunks env d n p).Tx.view = p.Tx.view := by
  induction n with
  | zero => intro p; simp [CheckShaChunks]
  | succ n ih =>
    intro p
    unfold CheckShaChunks
    dsimp only
    split_ifs
    · rw [ih]; simp
    · simp

@[simp] theorem view_ValidateKsvList (env : Env) (s : XHdcp1x_Tx) (b : Nat) :
    (ValidateKsvList env s b).1.view = s.view := by
  unfold ValidateKsvList
  dsimp only
  split_ifs <;> simp [view_ReadKsvChunks, view_CheckShaChunks, Call.watched]

theorem view_ReadKsvListLoop (env : Env) (b : Nat) (n : Nat) : ∀ s : XHdcp1x_Tx,
    (ReadKsvListLoop env b n s).1.view = s.view := by
  induction n with
  | zero => intro s; simp [ReadKsvListLoop]
  | succ n ih =>
    intro s
    unfold ReadKsvListLoop
    dsimp only
    split_ifs
    · rw [ih]; simp
    · simp

@[simp] theorem view_ReadKsvList (env : Env) (s : XHdcp1x_Tx) (nx : tState) :
    (ReadKsvList env s nx).1.view = s.view := by
  unfold ReadKsvList
  dsimp only
  split_ifs <;> simp [view_ReadKsvListLoop]


theorem view_ExitState (env : Env) (s : XHdcp1x_Tx) (st : tState) :
    (ExitState env s st).view = (s.view.1, s.view.2 ++ ExitLog st) := by
  cases st <;> simp [ExitState, ExitLog, Call.watched]

theorem view_EnterState (env : Env) (s : XHdcp1x_Tx) (st nx : tState) :
    (EnterState env s st nx).1.view
      = (EntryPhy st s.view.1, s.view.2 ++ EntryLog env s st) := by
  cases st <;> simp [EnterState, EntryLog, EntryPhy, Call.watched, TMO_100MS, TMO_1SECOND]
  split_ifs <;> simp

theorem view_RunState (env : Env) (s : XHdcp1x_Tx) (e : tEvent) :
    (RunState env s e).1.view = (HandlerPhy s e, s.view.2 ++ HandlerLog env s e) := by
  unfold RunState HandlerPhy HandlerLog
  dsimp only
  split <;> rename_i hs
  · cases e <;> simp [RunDisabledState, hs] ; split_ifs <;> simp
  · cases e <;> simp [RunDetermineRxCapableState, hs]
  · cases e <;> simp [RunExchangeKsvsState, hs]
  · cases e <;> simp [RunComputationsState, hs]
  · cases e <;> simp [RunValidateRxState, hs]
  · cases e <;> simp [RunAuthenticatedState, hs]
  · cases e <;> simp [RunLinkIntegrityCheckState, hs]
  · cases e <;> simp [RunTestForRepeaterState, hs, view_TestForRepeater]
  · cases e <;> simp [RunWaitForReadyState, hs]
    split_ifs <;> simp
  · cases e <;> simp [RunReadKsvListState, hs]
  · cases e <;> simp [RunUnauthenticatedState, hs]
  · cases e <;> simp [RunPhysicalLayerDownState, hs] ; split_ifs <;> simp

/-! ## The invariant of the reachable states -/

@[simp] theorem cipherHeld_append (l m : List Call) :
    cipherHeld (l ++ m) = m.foldl cipherStep (cipherHeld l) := by
  simp [cipherHeld]

@[simp] theorem portHeld_append (l m : List Call) :
    portHeld (l ++ m) = m.foldl portStep (portHeld l) := by
  simp [portHeld]

@[simp] theorem encryptionRequested_append (l m : List Call) :
    encryptionRequested (l ++ m) = m.foldl encryptionStep (encryptionRequested l) := by
  simp [encryptionRequested]

theorem foldl_filter_watched {β : Type} (g : β → Call → β)
    (hg : ∀ (b : β) (c : Call), c.watched = false → g b c = b) (l : List Call) :
    ∀ b : β, (l.filter Call.watched).foldl g b = l.foldl g b := by
  induction l with
  | nil => intro b; rfl
  | cons c l ih =>
    intro b
    by_cases hc : c.watched = true
    · simp [List.filter_cons, hc, ih]
    · simp only [Bool.not_eq_true] at hc
      simp [List.filter_cons, hc, ih, hg b c hc]

theorem cipherHeld_watched (l : List Call) :
    cipherHeld (l.filter Call.watched) = cipherHeld l :=
  foldl_filter_watched cipherStep
    (fun b c h => by cases c <;> simp [Call.watched, cipherStep] at h ⊢) l none

theorem portHeld_watched (l : List Call) : portHeld (l.filter Call.watched) = portHeld l :=
  foldl_filter_watched portStep
    (fun b c h => by cases c <;> simp [Call.watched, portStep] at h ⊢) l none

theorem encryptionRequested_watched (l : List Call) :
    encryptionRequested (l.filter Call.watched) = encryptionRequested l :=
  foldl_filter_watched encryptionStep
    (fun b c h => by cases c <;> simp [Call.watched, encryptionStep] at h ⊢) l false

@[simp] theorem foldl_cipherStep_EncLog (env : Env) (h : List Call) (Map : Nat)
    (b : Option Bool) : (EncLog env h Map).foldl cipherStep b = b := by
  unfold EncLog
  split_ifs <;> simp [cipherStep]

@[simp] theorem foldl_portStep_EncLog (env : Env) (h : List Call) (Map : Nat)
    (b : Option Bool) : (EncLog env h Map).foldl portStep b = b := by
  unfold EncLog
  split_ifs <;> simp [portStep]

/-- A state transition carries the invariant from the state left to the state
entered. -/
theorem Held_transition (env : Env) (t : XHdcp1x_Tx) (c nx : tState) (v : Bool × List Call)
    (hv : Held c v) (hl : Legal c nx) (hne : c ≠ nx) :
    Held nx (EntryPhy nx v.1, v.2 ++ ExitLog c ++ EntryLog env t nx) := by
  unfold Legal at hl
  cases c <;> cases nx <;>
    simp [Held, ExitLog, EntryLog, EntryPhy, cipherStep, portStep, encryptionStep] at hv hl hne ⊢ <;>
    simp [hv]

theorem Held_handler (env : Env) (s : XHdcp1x_Tx) (e : tEvent)
    (h : Held s.CurrentState s.view) :
    Held s.CurrentState (RunState env s e).1.view
      ∧ Legal s.CurrentState (RunState env s e).2 := by
  rw [view_RunState]
  constructor
  · unfold HandlerPhy HandlerLog
    by_cases hd : s.CurrentState = STATE_DISABLED
    · rw [hd] at h ⊢
      simp [Held] at h ⊢
      exact h
    · have hphy : (if s.CurrentState = STATE_DISABLED ∧ e = EVENT_PHYDOWN then false
          else if s.CurrentState = STATE_DISABLED ∧ e = EVENT_PHYUP then true
          else phyBit s.Flags) = s.view.1 := by
        simp [hd]
      rw [hphy]
      by_cases ht : s.CurrentState = STATE_TESTFORREPEATER ∧ e = EVENT_POLL
          ∧ env.PortIsRepeater s.Calls = true
      · rw [if_pos ht]
        rw [ht.1] at h ⊢
        simp [Held] at h ⊢
        exact h
      · rw [if_neg ht]
        simpa using h
  · unfold Legal
    intro hs
    rcases hs with hs | hs
    · cases e <;> simp [RunState, hs, RunDisabledState]
      split_ifs <;> simp
    · cases e <;> simp [RunState, hs, RunPhysicalLayerDownState]
      split_ifs <;> simp


theorem Held_TransitionStep (env : Env) (p : XHdcp1x_Tx × tState)
    (h : Held p.1.CurrentState p.1.view) (hl : Legal p.1.CurrentState p.2) :
    Held (TransitionStep env p).1.CurrentState (TransitionStep env p).1.view
      ∧ Legal (TransitionStep env p).1.CurrentState (TransitionStep env p).2 := by
  by_cases hc : LoopClosed p
  · rw [TransitionStep_closed env p hc]
    exact ⟨h, hl⟩
  · have hne : p.1.CurrentState ≠ p.2 := hc
    rw [TransitionStep_open env p hc]
    constructor
    · rw [view_EnterState, view_swapState, view_ExitState, EnterState_CurrentState,
        swapState_CurrentState]
      exact Held_transition env _ _ _ _ h hl hne
    · rw [EnterState_CurrentState, swapState_CurrentState]
      unfold Legal
      intro h2
      rcases h2 with h2 | h2 <;> rw [h2] <;> simp [EnterState]

theorem Held_TransitionLoop (env : Env) (n : Nat) : ∀ p : XHdcp1x_Tx × tState,
    Held p.1.CurrentState p.1.view → Legal p.1.CurrentState p.2 →
    Held (TransitionLoop env n p).1.CurrentState (TransitionLoop env n p).1.view := by
  unfold TransitionLoop
  induction n with
  | zero => intro p h _; exact h
  | succ n ih =>
    intro p h hl
    rw [Function.iterate_succ_apply]
    obtain ⟨h1, h2⟩ := Held_TransitionStep env p h hl
    exact ih _ h1 h2

/-- Handling an event keeps the invariant of the reachable states. -/
theorem Held_DoTheState (env : Env) (s : XHdcp1x_Tx) (e : tEvent)
    (h : Held s.CurrentState s.view) :
    Held (DoTheState env s e).CurrentState (DoTheState env s e).view := by
  obtain ⟨h1, h2⟩ := Held_handler env s e h
  unfold DoTheState
  apply Held_TransitionLoop
  · rw [(RunState_fields env s e).1]; exact h1
  · rw [(RunState_fields env s e).1]; exact h2

theorem ProcessPendingLoop_keeps (env : Env) (P : XHdcp1x_Tx → Prop)
    (hP : ∀ (t : XHdcp1x_Tx) (e : tEvent), P t → P (DoTheState env t e)) (n : Nat) :
    ∀ p : PendingState, P p.Tx → P (ProcessPendingLoop env n p).Tx := by
  have hb : ∀ p : PendingState, P p.Tx → P (ProcessPendingBody env p).Tx := by
    intro p hp
    unfold ProcessPendingBody
    dsimp only
    split_ifs
    · unfold DoTheStateOrd
      split
      · exact hP _ _ hp
      · exact hp
    · exact hp
  induction n with
  | zero => intro p hp; exact hb p hp
  | succ n ih =>
    intro p hp
    unfold ProcessPendingLoop
    dsimp only
    split_ifs
    · exact ih _ (hb p hp)
    · exact hb p hp

/-- A property of the instance that handling an event keeps and that does not depend
on the pending events is kept by a poll. -/
theorem Poll_keeps (env : Env) (P : XHdcp1x_Tx → Prop)
    (hP : ∀ (t : XHdcp1x_Tx) (e : tEvent), P t → P (DoTheState env t e))
    (h0 : ∀ t : XHdcp1x_Tx, P t → P (setPendingEvents t 0))
    (s : XHdcp1x_Tx) (hs : P s) : P (XHdcp1x_TxPoll env s).1 := by
  unfold XHdcp1x_TxPoll
  dsimp only
  apply hP
  unfold ProcessPending
  split_ifs
  · exact ProcessPendingLoop_keeps env P hP 15 _ (h0 s hs)
  · exact hs

theorem Held_apply (env : Env) (s : XHdcp1x_Tx) (op : TxOp)
    (h : Held s.CurrentState s.view) :
    Held (op.apply env s).CurrentState (op.apply env s).view := by
  cases op with
  | Poll =>
    exact Poll_keeps env (fun t => Held t.CurrentState t.view)
      (fun t e ht => Held_DoTheState env t e ht) (fun t ht => ht) s h
  | Reset => simpa [TxOp.apply, XHdcp1x_TxReset] using h
  | Enable => simpa [TxOp.apply, XHdcp1x_TxEnable] using h
  | Disable => simpa [TxOp.apply, XHdcp1x_TxDisable] using h
  | SetPhysicalState b => simpa [TxOp.apply, XHdcp1x_TxSetPhysicalState] using h
  | SetLaneCount n =>
    simp only [TxOp.apply, XHdcp1x_TxSetLaneCount]
    split_ifs
    · simpa [Call.watched] using h
    · exact h
  | Authenticate => simpa [TxOp.apply, XHdcp1x_TxAuthenticate] using h
  | EnableEncryption m =>
    simp only [TxOp.apply, XHdcp1x_TxEnableEncryption]
    split_ifs with ha
    · have hc : (EnableEncryption env (setEncryptionMap s
          ((s.EncryptionMap ||| m % 2 ^ 64) % 2 ^ 64))).CurrentState = s.CurrentState := by
        rw [CurrentState_of_core (core_EnableEncryption env _)]; rfl
      rw [hc, view_EnableEncryption, view_setEncryptionMap]
      have hs : s.CurrentState = STATE_AUTHENTICATED
          ∨ s.CurrentState = STATE_LINKINTEGRITYCHECK := by
        rcases s with ⟨cs, ps, sh, fl, pe, em, st, ca, pa⟩
        cases cs <;> simp [IsAuthenticated, setEncryptionMap] at ha ⊢
      rcases hs with hs | hs <;> rw [hs] at h ⊢ <;> simp [Held] at h ⊢ <;> exact h
    · exact h
  | DisableEncryption m =>
    simp only [TxOp.apply, XHdcp1x_TxDisableEncryption]
    split_ifs <;> simpa [Call.watched] using h
  | HandleTimeout => simpa [TxOp.apply, XHdcp1x_TxHandleTimeout] using h
  | ReauthenticateCallback => simpa [TxOp.apply, ReauthenticateCallback] using h
  | CheckLinkCallback => simpa [TxOp.apply, CheckLinkCallback] using h

theorem Held_init (env : Env) (hinit : (XHdcp1x_TxCfgInitialize env).2 = XST_SUCCESS) :
    Held (XHdcp1x_TxCfgInitialize env).1.CurrentState (XHdcp1x_TxCfgInitialize env).1.view := by
  unfold XHdcp1x_TxCfgInitialize at hinit ⊢
  dsimp only at hinit ⊢
  by_cases h1 : env.PortCfgInitialize ZeroInstance.Calls = XST_SUCCESS
  · rw [if_pos h1] at hinit ⊢
    by_cases h2 : env.CipherCfgInitialize (issue ZeroInstance Call.PortCfgInitialize).Calls
        = XST_SUCCESS
    · rw [if_pos h2]
      simp only [Init]
      rw [EnterState_CurrentState, view_EnterState]
      simp [Held, EntryLog, Call.watched, XHdcp1x_Tx.view, ZeroInstance, cipherHeld, portHeld,
        encryptionRequested, cipherStep, portStep, encryptionStep]
    · rw [if_neg h2] at hinit
      exact absurd hinit h2
  · rw [if_neg h1] at hinit
    exact absurd hinit h1

/-- Every instance reached from a successful initialisation satisfies the invariant. -/
theorem Held_Run (env : Env) (hinit : (XHdcp1x_TxCfgInitialize env).2 = XST_SUCCESS)
    (ops : List TxOp) : Held (Run env ops).CurrentState (Run env ops).view := by
  unfold Run
  induction ops using List.reverseRecOn with
  | nil => exact Held_init env hinit
  | append_singleton ops op ih =>
    rw [List.foldl_append]
    exact Held_apply env _ op ih


theorem PollForComputations_next (env : Env) (s : XHdcp1x_Tx) (nx : tState) :
    (PollForComputations env s nx).2 = STATE_VALIDATERX
      ∨ (PollForComputations env s nx).2 = nx := by
  unfold PollForComputations
  dsimp only
  split_ifs <;> simp

theorem TestForRepeater_next (env : Env) (s : XHdcp1x_Tx) (nx : tState) :
    (TestForRepeater env s nx).2 = STATE_WAITFORREADY
      ∨ (TestForRepeater env s nx).2 = STATE_AUTHENTICATED := by
  unfold TestForRepeater
  dsimp only
  split_ifs <;> simp

theorem PollForWaitForReady_next (env : Env) (s : XHdcp1x_Tx) (nx : tState) :
    (PollForWaitForReady env s nx).2 = STATE_READKSVLIST
      ∨ (PollForWaitForReady env s nx).2 = STATE_AUTHENTICATED
      ∨ (PollForWaitForReady env s nx).2 = STATE_UNAUTHENTICATED
      ∨ (PollForWaitForReady env s nx).2 = nx := by
  unfold PollForWaitForReady
  dsimp only
  split_ifs <;> simp

/-- Outside Disabled and PhyDown, no handler asks for Disabled or PhyDown on an event
other than Disable and PhyDown. -/
theorem RunState_next_enabled (env : Env) (s : XHdcp1x_Tx) (e : tEvent)
    (h1 : s.CurrentState ≠ STATE_DISABLED) (h2 : s.CurrentState ≠ STATE_PHYDOWN)
    (he1 : e ≠ EVENT_DISABLE) (he2 : e ≠ EVENT_PHYDOWN) :
    (RunState env s e).2 ≠ STATE_DISABLED ∧ (RunState env s e).2 ≠ STATE_PHYDOWN := by
  have k1 := PollForComputations_next env s s.CurrentState
  have k2 := ValidateRx_next env s s.CurrentState
  have k3 := CheckLinkIntegrity_next env s s.CurrentState
  have k4 := TestForRepeater_next env s s.CurrentState
  have k5 := PollForWaitForReady_next env s s.CurrentState
  cases hs : s.CurrentState
  case STATE_DISABLED => exact absurd hs h1
  case STATE_PHYDOWN => exact absurd hs h2
  case STATE_DETERMINERXCAPABLE =>
    cases e <;> simp [RunState, hs, RunDetermineRxCapableState] at he1 he2 ⊢
  case STATE_EXCHANGEKSVS =>
    cases e <;> simp [RunState, hs, RunExchangeKsvsState] at he1 he2 ⊢
  case STATE_COMPUTATIONS =>
    rw [hs] at k1
    cases e <;> simp [RunState, hs, RunComputationsState] at he1 he2 ⊢
    rcases k1 with k | k <;> rw [k] <;> decide
  case STATE_VALIDATERX =>
    rw [hs] at k2
    cases e <;> simp [RunState, hs, RunValidateRxState] at he1 he2 ⊢
    rcases k2 with k | k <;> rw [k] <;> decide
  case STATE_AUTHENTICATED =>
    cases e <;> simp [RunState, hs, RunAuthenticatedState] at he1 he2 ⊢
  case STATE_LINKINTEGRITYCHECK =>
    rw [hs] at k3
    cases e <;> simp [RunState, hs, RunLinkIntegrityCheckState] at he1 he2 ⊢
    rcases k3 with k | k <;> rw [k] <;> decide
  case STATE_TESTFORREPEATER =>
    rw [hs] at k4
    cases e <;> simp [RunState, hs, RunTestForRepeaterState] at he1 he2 ⊢
    rcases k4 with k | k <;> rw [k] <;> decide
  case STATE_WAITFORREADY =>
    rw [hs] at k5
    cases e <;> simp only [RunState, hs, RunWaitForReadyState] at he1 he2 ⊢
    case EVENT_POLL => rcases k5 with k | k | k | k <;> rw [k] <;> decide
    case EVENT_TIMEOUT =>
      split_ifs
      · simp
      · rcases k5 with k | k | k | k <;> rw [k] <;> decide
    all_goals first | decide | exact absurd rfl he1 | exact absurd rfl he2
  case STATE_READKSVLIST =>
    cases e <;> simp [RunState, hs, RunReadKsvListState] at he1 he2 ⊢
  case STATE_UNAUTHENTICATED =>
    cases e <;> simp [RunState, hs, RunUnauthenticatedState] at he1 he2 ⊢

/-- No entry action chooses Disabled or PhyDown as the next state. -/
theorem EnterState_next_enabled (env : Env) (s : XHdcp1x_Tx) (st : tState)
    (h1 : st ≠ STATE_DISABLED) (h2 : st ≠ STATE_PHYDOWN) :
    (EnterState env s st st).2 ≠ STATE_DISABLED ∧ (EnterState env s st st).2 ≠ STATE_PHYDOWN := by
  cases st
  case STATE_DISABLED => exact absurd rfl h1
  case STATE_PHYDOWN => exact absurd rfl h2
  case STATE_DETERMINERXCAPABLE =>
    rcases CheckRxCapable_next env
      (DisableEncryption env (SetCheckLinkState env
        (setFlags s (setBits16 s.Flags FLAG_PHY_UP)) false)) STATE_DETERMINERXCAPABLE
      with h | h <;> simp [EnterState, h]
  case STATE_EXCHANGEKSVS =>
    rcases ExchangeKsvs_next env (setStateHelper s 0) STATE_EXCHANGEKSVS
      with h | h <;> simp [EnterState, h]
  case STATE_READKSVLIST =>
    rcases ReadKsvList_next env s STATE_READKSVLIST
      with h | h <;> simp [EnterState, h]
  case STATE_LINKINTEGRITYCHECK =>
    rcases CheckLinkIntegrity_next env s STATE_LINKINTEGRITYCHECK
      with h | h <;> simp [EnterState, h]
  case STATE_AUTHENTICATED =>
    simp only [EnterState]
    split_ifs <;> simp
  all_goals simp [EnterState, StartComputations]

theorem TransitionLoop_enabled (env : Env) (n : Nat) : ∀ p : XHdcp1x_Tx × tState,
    (p.2 ≠ STATE_DISABLED ∧ p.2 ≠ STATE_PHYDOWN) →
    (TransitionLoop env n p).2 ≠ STATE_DISABLED ∧ (TransitionLoop env n p).2 ≠ STATE_PHYDOWN := by
  unfold TransitionLoop
  induction n with
  | zero => intro p h; exact h
  | succ n ih =>
    intro p h
    rw [Function.iterate_succ_apply]
    apply ih
    by_cases hc : LoopClosed p
    · rw [TransitionStep_closed env p hc]; exact h
    · rw [TransitionStep_open env p hc]
      exact EnterState_next_enabled env _ _ h.1 h.2

/-- Outside Disabled and PhyDown, an event other than Disable and PhyDown does not lead
to Disabled or PhyDown. -/
theorem DoTheState_enabled (env : Env) (s : XHdcp1x_Tx) (e : tEvent)
    (h1 : s.CurrentState ≠ STATE_DISABLED) (h2 : s.CurrentState ≠ STATE_PHYDOWN)
    (he1 : e ≠ EVENT_DISABLE) (he2 : e ≠ EVENT_PHYDOWN) :
    (DoTheState env s e).CurrentState ≠ STATE_DISABLED
      ∧ (DoTheState env s e).CurrentState ≠ STATE_PHYDOWN := by
  have hcl := TransitionLoop_closed env (RunState env s e)
  unfold LoopClosed at hcl
  unfold DoTheState
  rw [hcl]
  exact TransitionLoop_enabled env 4 _ (RunState_next_enabled env s e h1 h2 he1 he2)

/-! ## What the reachable states hold -/

/-- C24: in every instance reached from a successful initialisation by calls of the
public interface and of the callbacks, the current state is Disabled exactly when the
most recent enable or disable request issued to the cipher and the most recent one
issued to the port were both disable requests. -/
theorem Disabled_iff_held_disabled (env : Env)
    (hinit : (XHdcp1x_TxCfgInitialize env).2 = XST_SUCCESS) (ops : List TxOp) :
    (Run env ops).CurrentState = STATE_DISABLED
      ↔ (cipherHeld (Run env ops).Calls = some false
          ∧ portHeld (Run env ops).Calls = some false) := by
  have h := Held_Run env hinit ops
  rw [← cipherHeld_watched, ← portHeld_watched]
  change Held _ (_, (Run env ops).Calls.filter Call.watched) at h
  generalize (Run env ops).Calls.filter Call.watched = w at h ⊢
  generalize phyBit (Run env ops).Flags = b at h
  cases hs : (Run env ops).CurrentState <;> rw [hs] at h <;> simp [Held] at h ⊢ <;>
    simp [h]

theorem Disabled_iff_held_disabled_witness :
    (XHdcp1x_TxCfgInitialize sampleEnv).2 = XST_SUCCESS
    ∧ ((Run sampleEnv [TxOp.Enable, TxOp.Poll]).CurrentState = STATE_DISABLED
      ↔ (cipherHeld (Run sampleEnv [TxOp.Enable, TxOp.Poll]).Calls = some false
          ∧ portHeld (Run sampleEnv [TxOp.Enable, TxOp.Poll]).Calls = some false)) :=
  ⟨rfl, Disabled_iff_held_disabled sampleEnv rfl [TxOp.Enable, TxOp.Poll]⟩

/-- C22, as amended: in every instance reached from a successful initialisation by
calls of the public interface and of the callbacks, while the PhyUp flag is clear the
state machine is in PhyDown or in Disabled, the cipher is held disabled, and no request
to enable encryption has been issued to the cipher since it was last disabled; and in
PhyDown the PhyUp flag is clear. -/
theorem PhyUp_clear (env : Env)
    (hinit : (XHdcp1x_TxCfgInitialize env).2 = XST_SUCCESS) (ops : List TxOp) :
    ((Run env ops).Flags.testBit 0 = false →
      ((Run env ops).CurrentState = STATE_PHYDOWN
        ∨ (Run env ops).CurrentState = STATE_DISABLED)
      ∧ cipherHeld (Run env ops).Calls = some false
      ∧ encryptionRequested (Run env ops).Calls = false)
    ∧ ((Run env ops).CurrentState = STATE_PHYDOWN → (Run env ops).Flags.testBit 0 = false) := by
  have h := Held_Run env hinit ops
  rw [← cipherHeld_watched, ← encryptionRequested_watched]
  change Held _ ((Run env ops).Flags.testBit 0, (Run env ops).Calls.filter Call.watched) at h
  generalize (Run env ops).Calls.filter Call.watched = w at h ⊢
  generalize (Run env ops).Flags.testBit 0 = b at h ⊢
  cases hs : (Run env ops).CurrentState <;> rw [hs] at h <;> simp [Held] at h ⊢ <;>
    simp [h]

set_option maxRecDepth 100000 in
theorem PhyUp_clear_witness :
    (XHdcp1x_TxCfgInitialize sampleEnv).2 = XST_SUCCESS
    ∧ (Run sampleEnv [TxOp.Enable, TxOp.Poll]).Flags.testBit 0 = false
    ∧ ((Run sampleEnv [TxOp.Enable, TxOp.Poll]).CurrentState = STATE_PHYDOWN
        ∨ (Run sampleEnv [TxOp.Enable, TxOp.Poll]).CurrentState = STATE_DISABLED)
    ∧ cipherHeld (Run sampleEnv [TxOp.Enable, TxOp.Poll]).Calls = some false
    ∧ encryptionRequested (Run sampleEnv [TxOp.Enable, TxOp.Poll]).Calls = false :=
  ⟨rfl, by decide, (PhyUp_clear sampleEnv rfl [TxOp.Enable, TxOp.Poll]).1 (by decide)⟩

set_option maxRecDepth 100000 in
/-- C22 fails as stated: right after a successful initialisation, and still after a
PhyDown report has been polled, the PhyUp flag is clear and the state machine is in
Disabled, not in PhyDown. -/
theorem PhyUp_clear_in_Disabled :
    (XHdcp1x_TxCfgInitialize sampleEnv).2 = XST_SUCCESS
    ∧ (Run sampleEnv []).Flags.testBit 0 = false
    ∧ (Run sampleEnv []).CurrentState = STATE_DISABLED
    ∧ (Run sampleEnv []).CurrentState ≠ STATE_PHYDOWN
    ∧ (Run sampleEnv [TxOp.SetPhysicalState false, TxOp.Poll]).Flags.testBit 0 = false
    ∧ (Run sampleEnv [TxOp.SetPhysicalState false, TxOp.Poll]).CurrentState = STATE_DISABLED :=
  ⟨rfl, by decide, by decide, by decide, by decide, by decide⟩


theorem Held_enabled_phy (st : tState) (v : Bool × List Call) (h : Held st v)
    (h1 : st ≠ STATE_DISABLED) (h2 : st ≠ STATE_PHYDOWN) : v.1 = true := by
  cases st <;> simp [Held] at h h1 h2 ⊢ <;> exact h.1

theorem Held_phy_clear (st : tState) (v : Bool × List Call) (h : Held st v)
    (hv : v.1 = false) : st = STATE_DISABLED ∨ st = STATE_PHYDOWN := by
  cases st <;> simp [Held, hv] at h ⊢

theorem RunState_PHYDOWN (env : Env) (s : XHdcp1x_Tx)
    (h1 : s.CurrentState ≠ STATE_DISABLED) (h2 : s.CurrentState ≠ STATE_PHYDOWN) :
    RunState env s EVENT_PHYDOWN = (s, STATE_PHYDOWN) := by
  cases hs : s.CurrentState <;>
    simp [RunState, hs, RunDetermineRxCapableState, RunExchangeKsvsState,
      RunComputationsState, RunValidateRxState, RunAuthenticatedState,
      RunLinkIntegrityCheckState, RunTestForRepeaterState, RunWaitForReadyState,
      RunReadKsvListState, RunUnauthenticatedState] at h1 h2 ⊢

theorem RunState_idle (env : Env) (s : XHdcp1x_Tx) (e : tEvent)
    (hs : s.CurrentState = STATE_DISABLED ∨ s.CurrentState = STATE_PHYDOWN)
    (he : e = EVENT_POLL ∨ e = EVENT_TIMEOUT) : RunState env s e = (s, s.CurrentState) := by
  rcases hs with hs | hs <;> rcases he with he | he <;> subst he <;>
    simp [RunState, hs, RunDisabledState, RunPhysicalLayerDownState]

/-- After a PhyUp event the PhyUp flag is set. -/
theorem DoTheState_PHYUP_phy (env : Env) (s : XHdcp1x_Tx) (h : Held s.CurrentState s.view) :
    (DoTheState env s EVENT_PHYUP).view.1 = true := by
  by_cases h1 : s.CurrentState = STATE_DISABLED
  · have hr : RunState env s EVENT_PHYUP
        = (setFlags s (setBits16 s.Flags FLAG_PHY_UP), s.CurrentState) := by
      simp [RunState, h1, RunDisabledState]
    rw [DoTheState_of_stay env s _ EVENT_PHYUP hr]
    simp
  · have hf := Held_DoTheState env s EVENT_PHYUP h
    by_cases h2 : s.CurrentState = STATE_PHYDOWN
    · have hr : (RunState env s EVENT_PHYUP).2 = STATE_UNAUTHENTICATED := by
        simp only [RunState, h2, RunPhysicalLayerDownState]
        split_ifs <;> rfl
      have hd := DoTheState_of_one env s (RunState env s EVENT_PHYUP).1 EVENT_PHYUP
        STATE_UNAUTHENTICATED (by rw [← hr]) (by rw [h2]; decide) (by simp [EnterState])
      have hc : (DoTheState env s EVENT_PHYUP).CurrentState = STATE_UNAUTHENTICATED := by
        rw [hd]; simp
      exact Held_enabled_phy _ _ hf (by rw [hc]; decide) (by rw [hc]; decide)
    · obtain ⟨k1, k2⟩ := DoTheState_enabled env s EVENT_PHYUP h1 h2 (by decide) (by decide)
      exact Held_enabled_phy _ _ hf k1 k2

/-- After a PhyDown event the PhyUp flag is clear. -/
theorem DoTheState_PHYDOWN_phy (env : Env) (s : XHdcp1x_Tx) (h : Held s.CurrentState s.view) :
    (DoTheState env s EVENT_PHYDOWN).view.1 = false := by
  by_cases h1 : s.CurrentState = STATE_DISABLED
  · have hr : RunState env s EVENT_PHYDOWN
        = (setFlags s (clearBits16 s.Flags FLAG_PHY_UP), s.CurrentState) := by
      simp [RunState, h1, RunDisabledState]
    rw [DoTheState_of_stay env s _ EVENT_PHYDOWN hr]
    simp
  · by_cases h2 : s.CurrentState = STATE_PHYDOWN
    · rw [DoTheState_of_stay env s s EVENT_PHYDOWN
        (RunState_PhyDown_stay env s _ h2 (by decide) (by decide))]
      rw [h2] at h
      exact h.1
    · have hf := Held_DoTheState env s EVENT_PHYDOWN h
      have hd := DoTheState_of_one env s s EVENT_PHYDOWN STATE_PHYDOWN
        (RunState_PHYDOWN env s h1 h2) h2 (by simp [EnterState])
      have hc : (DoTheState env s EVENT_PHYDOWN).CurrentState = STATE_PHYDOWN := by
        rw [hd]; simp
      rw [hc] at hf
      exact hf.1

/-- A Poll or Timeout event keeps a set PhyUp flag set. -/
theorem DoTheState_idle_phy_set (env : Env) (s : XHdcp1x_Tx) (e : tEvent)
    (h : Held s.CurrentState s.view) (hp : s.view.1 = true)
    (he : e = EVENT_POLL ∨ e = EVENT_TIMEOUT) : (DoTheState env s e).view.1 = true := by
  by_cases h1 : s.CurrentState = STATE_DISABLED
  · rw [DoTheState_of_stay env s s e (RunState_idle env s e (Or.inl h1) he)]
    exact hp
  · by_cases h2 : s.CurrentState = STATE_PHYDOWN
    · rw [h2] at h
      rw [h.1] at hp
      exact absurd hp (by decide)
    · obtain ⟨k1, k2⟩ := DoTheState_enabled env s e h1 h2
        (by rcases he with he | he <;> rw [he] <;> decide)
        (by rcases he with he | he <;> rw [he] <;> decide)
      exact Held_enabled_phy _ _ (Held_DoTheState env s e h) k1 k2

/-- With the PhyUp flag clear, a Poll or Timeout event changes nothing. -/
theorem DoTheState_idle_phy_clear (env : Env) (s : XHdcp1x_Tx) (e : tEvent)
    (h : Held s.CurrentState s.view) (hp : s.view.1 = false)
    (he : e = EVENT_POLL ∨ e = EVENT_TIMEOUT) : DoTheState env s e = s :=
  DoTheState_of_stay env s s e (RunState_idle env s e (Held_phy_clear _ _ h hp) he)

theorem Held_foldl_cond (env : Env) (c : tEvent → Bool) (es : List tEvent) :
    ∀ t : XHdcp1x_Tx, Held t.CurrentState t.view →
      Held (es.foldl (fun u e => if c e = true then DoTheState env u e else u) t).CurrentState
        (es.foldl (fun u e => if c e = true then DoTheState env u e else u) t).view := by
  induction es with
  | nil => intro t h; exact h
  | cons e es ih =>
    intro t h
    rw [List.foldl_cons]
    apply ih
    split_ifs
    · exact Held_DoTheState env t e h
    · exact h

/-- After a report of the physical state and a poll, the PhyUp flag is what was
reported. -/
theorem Poll_after_report (env : Env) (s : XHdcp1x_Tx) (h : Held s.CurrentState s.view)
    (IsUp : Bool) :
    (XHdcp1x_TxPoll env (XHdcp1x_TxSetPhysicalState s IsUp).1).1.Flags.testBit 0 = IsUp := by
  have hsplit : DrainOrder
      = [EVENT_AUTHENTICATE, EVENT_CHECK, EVENT_DISABLE, EVENT_ENABLE, EVENT_LINKDOWN]
        ++ [EVENT_PHYDOWN, EVENT_PHYUP, EVENT_POLL, EVENT_TIMEOUT] := rfl
  change (XHdcp1x_TxPoll env (XHdcp1x_TxSetPhysicalState s IsUp).1).1.view.1 = IsUp
  unfold XHdcp1x_TxPoll XHdcp1x_TxSetPhysicalState
  dsimp only
  generalize hE : (if IsUp = true then EVENT_PHYUP else EVENT_PHYDOWN) = E
  have hb6 : IsUp = false → (PostEvent s E).PendingEvents.testBit EVENT_PHYDOWN.toNat = true := by
    intro hu
    rw [PostEvent_testBit]
    subst hu
    simp at hE
    subst hE
    simp [tEvent.toNat]
  rw [ProcessPending_eq_foldl env _ (PostEvent_lt s E), hsplit, List.foldl_append]
  have h5 := Held_foldl_cond env (fun e => (PostEvent s E).PendingEvents.testBit e.toNat)
    [EVENT_AUTHENTICATE, EVENT_CHECK, EVENT_DISABLE, EVENT_ENABLE, EVENT_LINKDOWN]
    (setPendingEvents (PostEvent s E) 0) (by simpa using h)
  dsimp only at h5
  generalize List.foldl
    (fun t e => if (PostEvent s E).PendingEvents.testBit e.toNat = true then DoTheState env t e
      else t)
    (setPendingEvents (PostEvent s E) 0)
    [EVENT_AUTHENTICATE, EVENT_CHECK, EVENT_DISABLE, EVENT_ENABLE, EVENT_LINKDOWN] = x5 at h5 ⊢
  simp only [List.foldl_cons, List.foldl_nil]
  have hb7 : (PostEvent s E).PendingEvents.testBit EVENT_PHYUP.toNat = IsUp := by
    rw [PostEvent_testBit]
    cases IsUp <;> simp at hE <;> subst hE <;> simp [tEvent.toNat]
  rw [hb7]
  generalize (PostEvent s E).PendingEvents.testBit EVENT_POLL.toNat = b8
  generalize (PostEvent s E).PendingEvents.testBit EVENT_TIMEOUT.toNat = b9
  cases IsUp
  · -- the last report was "down"
    have h6 : (PostEvent s E).PendingEvents.testBit EVENT_PHYDOWN.toNat = true := hb6 rfl
    rw [h6]
    simp only [if_true, Bool.false_eq_true, if_false]
    have hx6 := Held_DoTheState env x5 EVENT_PHYDOWN h5
    have hp6 := DoTheState_PHYDOWN_phy env x5 h5
    generalize DoTheState env x5 EVENT_PHYDOWN = x6 at hx6 hp6 ⊢
    have e8 : (if b8 = true then DoTheState env x6 EVENT_POLL else x6) = x6 := by
      split_ifs
      · exact DoTheState_idle_phy_clear env x6 _ hx6 hp6 (Or.inl rfl)
      · rfl
    rw [e8]
    have e9 : (if b9 = true then DoTheState env x6 EVENT_TIMEOUT else x6) = x6 := by
      split_ifs
      · exact DoTheState_idle_phy_clear env x6 _ hx6 hp6 (Or.inr rfl)
      · rfl
    rw [e9, DoTheState_idle_phy_clear env x6 _ hx6 hp6 (Or.inl rfl)]
    exact hp6
  · -- the last report was "up"
    simp only [if_true]
    have hx6 : Held
        (if (PostEvent s E).PendingEvents.testBit EVENT_PHYDOWN.toNat = true then
          DoTheState env x5 EVENT_PHYDOWN else x5).CurrentState
        (if (PostEvent s E).PendingEvents.testBit EVENT_PHYDOWN.toNat = true then
          DoTheState env x5 EVENT_PHYDOWN else x5).view := by
      split_ifs
      · exact Held_DoTheState env x5 _ h5
      · exact h5
    generalize (if (PostEvent s E).PendingEvents.testBit EVENT_PHYDOWN.toNat = true then
      DoTheState env x5 EVENT_PHYDOWN else x5) = x6 at hx6 ⊢
    have hx7 := Held_DoTheState env x6 EVENT_PHYUP hx6
    have hp7 := DoTheState_PHYUP_phy env x6 hx6
    generalize DoTheState env x6 EVENT_PHYUP = x7 at hx7 hp7 ⊢
    have hx8 : Held (if b8 = true then DoTheState env x7 EVENT_POLL else x7).CurrentState
        (if b8 = true then DoTheState env x7 EVENT_POLL else x7).view
        ∧ (if b8 = true then DoTheState env x7 EVENT_POLL else x7).view.1 = true := by
      split_ifs
      · exact ⟨Held_DoTheState env x7 _ hx7,
          DoTheState_idle_phy_set env x7 _ hx7 hp7 (Or.inl rfl)⟩
      · exact ⟨hx7, hp7⟩
    generalize (if b8 = true then DoTheState env x7 EVENT_POLL else x7) = x8 at hx8 ⊢
    have hx9 : Held (if b9 = true then DoTheState env x8 EVENT_TIMEOUT else x8).CurrentState
        (if b9 = true then DoTheState env x8 EVENT_TIMEOUT else x8).view
        ∧ (if b9 = true then DoTheState env x8 EVENT_TIMEOUT else x8).view.1 = true := by
      split_ifs
      · exact ⟨Held_DoTheState env x8 _ hx8.1,
          DoTheState_idle_phy_set env x8 _ hx8.1 hx8.2 (Or.inr rfl)⟩
      · exact hx8
    generalize (if b9 = true then DoTheState env x8 EVENT_TIMEOUT else x8) = x9 at hx9 ⊢
    exact DoTheState_idle_phy_set env x9 _ hx9.1 hx9.2 (Or.inl rfl)

/-- C23: the PhyUp flag reflects the most recent report of the physical state: from
every instance reached from a successful initialisation, after any non-empty sequence
of calls of XHdcp1x_TxSetPhysicalState followed by XHdcp1x_TxPoll, the PhyUp flag is
set exactly when the last call reported up. -/
theorem PhyUp_reflects_last_report (env : Env)
    (hinit : (XHdcp1x_TxCfgInitialize env).2 = XST_SUCCESS) (ops : List TxOp)
    (reports : List Bool) (last : Bool) :
    (Run env (ops ++ (reports ++ [last]).map TxOp.SetPhysicalState ++ [TxOp.Poll])).Flags.testBit 0
      = last := by
  have h := Held_Run env hinit (ops ++ reports.map TxOp.SetPhysicalState)
  have e : Run env (ops ++ (reports ++ [last]).map TxOp.SetPhysicalState ++ [TxOp.Poll])
      = (XHdcp1x_TxPoll env (XHdcp1x_TxSetPhysicalState
          (Run env (ops ++ reports.map TxOp.SetPhysicalState)) last).1).1 := by
    simp [Run, List.foldl_append, TxOp.apply]
  rw [e]
  exact Poll_after_report env _ h last

set_option maxRecDepth 100000 in
theorem PhyUp_reflects_last_report_witness :
    (XHdcp1x_TxCfgInitialize sampleEnv).2 = XST_SUCCESS
    ∧ (Run sampleEnv ([TxOp.Enable, TxOp.Poll]
        ++ ([false, true, false] ++ [true]).map TxOp.SetPhysicalState
        ++ [TxOp.Poll])).Flags.testBit 0 = true
    ∧ (Run sampleEnv ([TxOp.Enable, TxOp.Poll]
        ++ ([false, true, false] ++ [true]).map TxOp.SetPhysicalState
        ++ [TxOp.Poll])).CurrentState = STATE_UNAUTHENTICATED :=
  ⟨rfl, PhyUp_reflects_last_report sampleEnv rfl [TxOp.Enable, TxOp.Poll]
    [false, true, false] true, by decide⟩

/-! ## The encryption map across the transitions -/

theorem RunState_EncryptionMap (env : Env) (s : XHdcp1x_Tx) (e : tEvent) :
    (RunState env s e).1.EncryptionMap = s.EncryptionMap := by
  have hc : ∀ t : XHdcp1x_Tx, t.core = s.core → t.EncryptionMap = s.EncryptionMap :=
    fun t h => EncryptionMap_of_core h
  unfold RunState
  dsimp only
  split
  · cases e <;> simp [RunDisabledState] ; split_ifs <;> simp
  · cases e <;> simp [RunDetermineRxCapableState]
  · cases e <;> simp [RunExchangeKsvsState]
  · cases e <;> simp [RunComputationsState] ; exact hc _ (by simp)
  · cases e <;> simp [RunValidateRxState] ; exact hc _ (by simp)
  · cases e <;> simp [RunAuthenticatedState]
  · cases e <;> simp [RunLinkIntegrityCheckState] ; exact hc _ (by simp)
  · cases e <;> simp [RunTestForRepeaterState] ; exact hc _ (by simp)
  · cases e <;> simp [RunWaitForReadyState]
    · exact hc _ (by simp)
    · split_ifs <;> exact hc _ (by simp)
  · cases e <;> simp [RunReadKsvListState]
  · cases e <;> simp [RunUnauthenticatedState]
  · cases e <;> simp [RunPhysicalLayerDownState] ; split_ifs <;> simp

/-- A round of the loop of state transitions keeps the encryption map unless it has
entered Disabled, where the loop ends. -/
theorem TransitionStep_EncryptionMap (env : Env) (M : Nat) (p : XHdcp1x_Tx × tState)
    (h : p.1.EncryptionMap = M ∨ (p.1.CurrentState = STATE_DISABLED ∧ p.2 = STATE_DISABLED)) :
    (TransitionStep env p).1.EncryptionMap = M
      ∨ ((TransitionStep env p).1.CurrentState = STATE_DISABLED
          ∧ (TransitionStep env p).2 = STATE_DISABLED) := by
  by_cases hc : LoopClosed p
  · rw [TransitionStep_closed env p hc]; exact h
  · by_cases h2 : p.2 = STATE_DISABLED
    · have h1 : p.1.CurrentState ≠ STATE_DISABLED := by
        unfold LoopClosed at hc
        rw [h2] at hc
        exact hc
      obtain ⟨k1, k2, -⟩ := TransitionStep_to_Disabled env p h2 h1
      exact Or.inr ⟨k1, k2⟩
    · left
      rcases h with h | h
      · rw [TransitionStep_open env p hc,
          EncryptionMap_of_core (core_EnterState env _ p.2 p.2 h2)]
        simpa [EncryptionMap_of_core (core_ExitState env p.1 p.1.CurrentState)] using h
      · exact absurd h.2 h2

theorem TransitionLoop_EncryptionMap (env : Env) (M : Nat) (n : Nat) :
    ∀ p : XHdcp1x_Tx × tState,
    (p.1.EncryptionMap = M ∨ (p.1.CurrentState = STATE_DISABLED ∧ p.2 = STATE_DISABLED)) →
    ((TransitionLoop env n p).1.EncryptionMap = M
      ∨ ((TransitionLoop env n p).1.CurrentState = STATE_DISABLED
          ∧ (TransitionLoop env n p).2 = STATE_DISABLED)) := by
  unfold TransitionLoop
  induction n with
  | zero => intro p h; exact h
  | succ n ih =>
    intro p h
    rw [Function.iterate_succ_apply]
    exact ih _ (TransitionStep_EncryptionMap env M p h)

theorem DoTheState_EncryptionMap (env : Env) (s : XHdcp1x_Tx) (e : tEvent)
    (h : (DoTheState env s e).CurrentState ≠ STATE_DISABLED) :
    (DoTheState env s e).EncryptionMap = s.EncryptionMap := by
  unfold DoTheState at h ⊢
  rcases TransitionLoop_EncryptionMap env s.EncryptionMap 4 (RunState env s e)
    (Or.inl (RunState_EncryptionMap env s e)) with k | k
  · exact k
  · exact absurd k.1 h

theorem DoTheState_DISABLE_EncryptionMap (env : Env) (s : XHdcp1x_Tx)
    (h : s.CurrentState ≠ STATE_DISABLED) :
    (DoTheState env s EVENT_DISABLE).EncryptionMap = 0 := by
  rw [DoTheState_of_one env s s EVENT_DISABLE STATE_DISABLED (RunState_DISABLE env s) h
    (by simp [EnterState])]
  simp [EnterState, Disable]

/-- C26, as amended: the encryption map persists across re-authentication and is
cleared by a Disable event outside Disabled: an event step that does not end in
Disabled leaves the encryption map unchanged; a Disable event processed in any state
other than Disabled ends in Disabled with the encryption map zero; in Disabled a
Disable event is ignored and the instance, with its encryption map, is unchanged. -/
theorem EncryptionMap_persists (env : Env) (s : XHdcp1x_Tx) (e : tEvent) :
    ((DoTheState env s e).CurrentState ≠ STATE_DISABLED →
      (DoTheState env s e).EncryptionMap = s.EncryptionMap)
    ∧ (s.CurrentState ≠ STATE_DISABLED →
        (DoTheState env s EVENT_DISABLE).CurrentState = STATE_DISABLED
        ∧ (DoTheState env s EVENT_DISABLE).EncryptionMap = 0)
    ∧ (s.CurrentState = STATE_DISABLED → DoTheState env s EVENT_DISABLE = s) := by
  refine ⟨DoTheState_EncryptionMap env s e,
    fun h => ⟨DoTheState_DISABLE env s, DoTheState_DISABLE_EncryptionMap env s h⟩, ?_⟩
  intro h
  apply DoTheState_of_stay env s s EVENT_DISABLE
  rw [RunState_DISABLE, h]

set_option maxRecDepth 100000 in
theorem EncryptionMap_persists_witness :
    ((DoTheState sampleEnv (sampleTxMap STATE_AUTHENTICATED 5) EVENT_AUTHENTICATE).CurrentState
        ≠ STATE_DISABLED
      ∧ (DoTheState sampleEnv (sampleTxMap STATE_AUTHENTICATED 5) EVENT_AUTHENTICATE).EncryptionMap
        = 5)
    ∧ ((sampleTxMap STATE_AUTHENTICATED 5).CurrentState ≠ STATE_DISABLED
      ∧ (DoTheState sampleEnv (sampleTxMap STATE_AUTHENTICATED 5) EVENT_DISABLE).CurrentState
          = STATE_DISABLED
      ∧ (DoTheState sampleEnv (sampleTxMap STATE_AUTHENTICATED 5) EVENT_DISABLE).EncryptionMap
          = 0)
    ∧ ((sampleTxMap STATE_DISABLED 5).CurrentState = STATE_DISABLED
      ∧ DoTheState sampleEnv (sampleTxMap STATE_DISABLED 5) EVENT_DISABLE
          = sampleTxMap STATE_DISABLED 5) :=
  ⟨⟨by decide,
      (EncryptionMap_persists sampleEnv (sampleTxMap STATE_AUTHENTICATED 5)
        EVENT_AUTHENTICATE).1 (by decide)⟩,
    ⟨by decide,
      (EncryptionMap_persists sampleEnv (sampleTxMap STATE_AUTHENTICATED 5)
        EVENT_AUTHENTICATE).2.1 (by decide)⟩,
    ⟨rfl, (EncryptionMap_persists sampleEnv (sampleTxMap STATE_DISABLED 5)
        EVENT_DISABLE).2.2 rfl⟩⟩

set_option maxRecDepth 100000 in
/-- C26 fails as stated: a host that enables encryption of stream 0 while the interface
is disabled leaves a state machine in Disabled with encryption map 1, and a Disable
event processed there, directly or by XHdcp1x_TxDisable followed by XHdcp1x_TxPoll,
leaves the encryption map 1. -/
theorem Disable_in_Disabled_keeps_map :
    (XHdcp1x_TxCfgInitialize sampleEnv).2 = XST_SUCCESS
    ∧ (Run sampleEnv [TxOp.EnableEncryption 1]).CurrentState = STATE_DISABLED
    ∧ (DoTheState sampleEnv (Run sampleEnv [TxOp.EnableEncryption 1])
        EVENT_DISABLE).EncryptionMap = 1
    ∧ (Run sampleEnv [TxOp.EnableEncryption 1, TxOp.Disable, TxOp.Poll]).CurrentState
        = STATE_DISABLED
    ∧ (Run sampleEnv [TxOp.EnableEncryption 1, TxOp.Disable, TxOp.Poll]).EncryptionMap = 1 := by
  decide

/-! ## The platform timer -/

@[simp] theorem timerStarts_append (a b : List Call) :
    timerStarts (a ++ b) = timerStarts a ++ timerStarts b := by
  simp [timerStarts, List.filterMap_append]

@[simp] theorem timerStarts_nil : timerStarts [] = [] := rfl

theorem timerStarts_watched (l : List Call) :
    timerStarts (l.filter Call.watched) = timerStarts l := by
  induction l with
  | nil => rfl
  | cons c l ih =>
    have e : ∀ m : List Call, timerStarts (c :: m) = timerStarts [c] ++ timerStarts m :=
      fun m => timerStarts_append [c] m
    by_cases hc : c.watched = true
    · rw [List.filter_cons_of_pos hc, e, e l, ih]
    · rw [List.filter_cons_of_neg hc, e l, ih]
      cases c <;> simp [Call.watched] at hc <;> simp [timerStarts]

@[simp] theorem timerStarts_EncLog (env : Env) (h : List Call) (Map : Nat) :
    timerStarts (EncLog env h Map) = [] := by
  unfold EncLog
  split_ifs <;> simp [timerStarts]

/-- The timer starts of an instance are read off its watched requests. -/
theorem timerStarts_of_view (s t : XHdcp1x_Tx) (b : Bool) (L : List Call)
    (h : t.view = (b, s.view.2 ++ L)) :
    timerStarts t.Calls = timerStarts s.Calls ++ timerStarts L := by
  have h2 : t.Calls.filter Call.watched = s.Calls.filter Call.watched ++ L :=
    congrArg Prod.snd h
  rw [← timerStarts_watched t.Calls, h2, timerStarts_append, timerStarts_watched]

theorem timerStarts_EntryLog (env : Env) (s : XHdcp1x_Tx) (st : tState) :
    timerStarts (EntryLog env s st) = (EntryTimeout st).toList := by
  cases st <;> simp [EntryLog, EntryTimeout] <;> simp [timerStarts]

theorem timerStarts_ExitLog (st : tState) : timerStarts (ExitLog st) = [] := by
  cases st <;> simp [ExitLog, timerStarts]

theorem timerStarts_HandlerLog (env : Env) (s : XHdcp1x_Tx) (e : tEvent) :
    timerStarts (HandlerLog env s e) = [] := by
  unfold HandlerLog
  split_ifs <;> simp

theorem timerStarts_EnterState (env : Env) (s : XHdcp1x_Tx) (st nx : tState) :
    timerStarts (EnterState env s st nx).1.Calls
      = timerStarts s.Calls ++ (EntryTimeout st).toList := by
  rw [timerStarts_of_view s _ _ _ (view_EnterState env s st nx), timerStarts_EntryLog]

theorem timerStarts_ExitState (env : Env) (s : XHdcp1x_Tx) (st : tState) :
    timerStarts (ExitState env s st).Calls = timerStarts s.Calls := by
  rw [timerStarts_of_view s _ _ _ (view_ExitState env s st), timerStarts_ExitLog]
  simp

theorem timerStarts_RunState (env : Env) (s : XHdcp1x_Tx) (e : tEvent) :
    timerStarts (RunState env s e).1.Calls = timerStarts s.Calls := by
  rw [timerStarts_of_view s _ _ _ (view_RunState env s e), timerStarts_HandlerLog]
  simp

theorem TimerFollows_refl (s : XHdcp1x_Tx) : TimerFollows s s := ⟨[], by simp, by simp⟩

theorem TimerFollows_of_eq (s t : XHdcp1x_Tx) (h1 : t.Path = s.Path)
    (h2 : timerStarts t.Calls = timerStarts s.Calls) : TimerFollows s t :=
  ⟨[], by simp [h1], by simp [h2]⟩

theorem TimerFollows_trans (s t u : XHdcp1x_Tx) (h1 : TimerFollows s t)
    (h2 : TimerFollows t u) : TimerFollows s u := by
  obtain ⟨c1, p1, q1⟩ := h1
  obtain ⟨c2, p2, q2⟩ := h2
  exact ⟨c1 ++ c2, by rw [p2, p1, List.append_assoc],
    by rw [q2, q1, List.append_assoc, List.filterMap_append]⟩

theorem TimerFollows_TransitionStep (env : Env) (p : XHdcp1x_Tx × tState) :
    TimerFollows p.1 (TransitionStep env p).1 := by
  by_cases hc : LoopClosed p
  · rw [TransitionStep_closed env p hc]
    exact TimerFollows_refl _
  · refine ⟨[p.2], ?_, ?_⟩
    · rw [TransitionStep_Path]
      unfold LoopClosed at hc
      simp [hc]
    · rw [TransitionStep_open env p hc, timerStarts_EnterState]
      have e : timerStarts (swapState (ExitState env p.1 p.1.CurrentState) p.2).Calls
          = timerStarts p.1.Calls := by
        simp [timerStarts_ExitState]
      rw [e]
      cases p.2 <;> simp [EntryTimeout]

theorem TimerFollows_TransitionLoop (env : Env) (n : Nat) : ∀ p : XHdcp1x_Tx × tState,
    TimerFollows p.1 (TransitionLoop env n p).1 := by
  unfold TransitionLoop
  induction n with
  | zero => intro p; exact TimerFollows_refl _
  | succ n ih =>
    intro p
    rw [Function.iterate_succ_apply]
    exact TimerFollows_trans _ _ _ (TimerFollows_TransitionStep env p) (ih _)

theorem TimerFollows_DoTheState (env : Env) (s : XHdcp1x_Tx) (e : tEvent) :
    TimerFollows s (DoTheState env s e) := by
  unfold DoTheState
  exact TimerFollows_trans _ _ _
    (TimerFollows_of_eq s _ (RunState_fields env s e).2.2 (timerStarts_RunState env s e))
    (TimerFollows_TransitionLoop env 4 _)

theorem TimerFollows_Poll (env : Env) (s : XHdcp1x_Tx) :
    TimerFollows s (XHdcp1x_TxPoll env s).1 :=
  Poll_keeps env (fun t => TimerFollows s t)
    (fun t e ht => TimerFollows_trans _ _ _ ht (TimerFollows_DoTheState env t e))
    (fun t ht => TimerFollows_trans _ _ _ ht (TimerFollows_of_eq t _ rfl rfl))
    s (TimerFollows_refl s)

/-- A call of the public interface other than the poll, and a callback, starts no timer
and enters no state. -/
theorem apply_no_timer (env : Env) (s : XHdcp1x_Tx) (op : TxOp) (h : op ≠ TxOp.Poll) :
    (op.apply env s).Path = s.Path
      ∧ timerStarts (op.apply env s).Calls = timerStarts s.Calls := by
  cases op with
  | Poll => exact absurd rfl h
  | Reset => simp [TxOp.apply, XHdcp1x_TxReset]
  | Enable => simp [TxOp.apply, XHdcp1x_TxEnable]
  | Disable => simp [TxOp.apply, XHdcp1x_TxDisable]
  | SetPhysicalState b => simp [TxOp.apply, XHdcp1x_TxSetPhysicalState]
  | SetLaneCount n =>
    simp only [TxOp.apply, XHdcp1x_TxSetLaneCount]
    split_ifs <;> simp [timerStarts]
  | Authenticate => simp [TxOp.apply, XHdcp1x_TxAuthenticate]
  | EnableEncryption m =>
    simp only [TxOp.apply, XHdcp1x_TxEnableEncryption]
    split_ifs
    · refine ⟨(Path_of_core (core_EnableEncryption env _)).trans (by simp), ?_⟩
      rw [← timerStarts_watched, ← timerStarts_watched s.Calls]
      have hv := congrArg Prod.snd (view_EnableEncryption env
        (setEncryptionMap s ((s.EncryptionMap ||| (m % 2 ^ 64)) % 2 ^ 64)))
      simp only [XHdcp1x_Tx.view] at hv
      rw [hv]
      simp
    · simp
  | DisableEncryption m =>
    simp only [TxOp.apply, XHdcp1x_TxDisableEncryption]
    split_ifs <;> simp [timerStarts]
  | HandleTimeout => simp [TxOp.apply, XHdcp1x_TxHandleTimeout]
  | ReauthenticateCallback => simp [TxOp.apply, ReauthenticateCallback]
  | CheckLinkCallback => simp [TxOp.apply, CheckLinkCallback]

theorem TimerFollows_apply (env : Env) (s : XHdcp1x_Tx) (op : TxOp) :
    TimerFollows s (op.apply env s) := by
  by_cases h : op = TxOp.Poll
  · subst h
    exact TimerFollows_Poll env s
  · exact TimerFollows_of_eq s _ (apply_no_timer env s op h).1 (apply_no_timer env s op h).2

theorem TimerFollows_Run (env : Env) (ops : List TxOp) :
    TimerFollows (XHdcp1x_TxCfgInitialize env).1 (Run env ops) := by
  unfold Run
  induction ops using List.reverseRecOn with
  | nil => exact TimerFollows_refl _
  | append_singleton ops op ih =>
    rw [List.foldl_append]
    exact TimerFollows_trans _ _ _ ih (TimerFollows_apply env _ op)

theorem init_no_timer (env : Env) :
    (XHdcp1x_TxCfgInitialize env).1.Path = []
      ∧ timerStarts (XHdcp1x_TxCfgInitialize env).1.Calls = [] := by
  unfold XHdcp1x_TxCfgInitialize
  dsimp only
  split_ifs <;> simp [Init, EnterState, Disable, ZeroInstance, timerStarts]

/-- C27: the platform timer is started only by the entry actions of ValidateRx, with
100 ms, and of WaitForReady, with 5000 ms: in every instance reached from
initialisation the timer starts issued are, in order, those of the ValidateRx and
WaitForReady states entered; the entry action of any other state, every handler, every
exit action and every call of the public interface or callback other than the poll
start no timer, and the poll starts it only through the states it enters; and every
transition out of ValidateRx or WaitForReady runs the exit action that stops the
timer. -/
theorem Timer_armed_only_on_entry (env : Env) :
    (∀ ops : List TxOp,
      timerStarts (Run env ops).Calls = (Run env ops).Path.filterMap EntryTimeout)
    ∧ (EntryTimeout STATE_VALIDATERX = some 100 ∧ EntryTimeout STATE_WAITFORREADY = some 5000
        ∧ ∀ st : tState, st ≠ STATE_VALIDATERX → st ≠ STATE_WAITFORREADY →
            EntryTimeout st = none)
    ∧ (∀ (s : XHdcp1x_Tx) (st nx : tState),
        timerStarts (EnterState env s st nx).1.Calls
          = timerStarts s.Calls ++ (EntryTimeout st).toList)
    ∧ (∀ (s : XHdcp1x_Tx) (e : tEvent),
        timerStarts (RunState env s e).1.Calls = timerStarts s.Calls)
    ∧ (∀ (s : XHdcp1x_Tx) (st : tState),
        timerStarts (ExitState env s st).Calls = timerStarts s.Calls)
    ∧ (∀ (s : XHdcp1x_Tx) (op : TxOp), op ≠ TxOp.Poll →
        timerStarts (op.apply env s).Calls = timerStarts s.Calls)
    ∧ (∀ s : XHdcp1x_Tx, TimerFollows s (XHdcp1x_TxPoll env s).1)
    ∧ (∀ p : XHdcp1x_Tx × tState,
        (p.1.CurrentState = STATE_VALIDATERX ∨ p.1.CurrentState = STATE_WAITFORREADY) →
        p.1.CurrentState ≠ p.2 →
        TransitionStep env p = EnterState env (swapState (StopTimer p.1) p.2) p.2 p.2
        ∧ (StopTimer p.1).Calls = p.1.Calls ++ [Call.PlatformTimerStop]) := by
  refine ⟨?_, ⟨rfl, rfl, ?_⟩, timerStarts_EnterState env, timerStarts_RunState env,
    timerStarts_ExitState env, fun s op h => (apply_no_timer env s op h).2,
    TimerFollows_Poll env, ?_⟩
  · intro ops
    obtain ⟨chain, h1, h2⟩ := TimerFollows_Run env ops
    rw [h1, h2, (init_no_timer env).1, (init_no_timer env).2]
    rfl
  · intro st h1 h2
    cases st <;> simp [EntryTimeout] at h1 h2 ⊢
  · intro p hs hne
    have ho : ¬ LoopClosed p := hne
    rw [TransitionStep_open env p ho]
    rcases hs with hs | hs <;> rw [hs] <;> simp [ExitState, StopTimer]

set_option maxRecDepth 100000 in
theorem Timer_armed_only_on_entry_witness :
    TxOp.Authenticate ≠ TxOp.Poll
    ∧ timerStarts (TxOp.Authenticate.apply sampleEnv (sampleTxMap STATE_VALIDATERX 0)).Calls
        = timerStarts (sampleTxMap STATE_VALIDATERX 0).Calls
    ∧ ((sampleTxMap STATE_VALIDATERX 0, STATE_UNAUTHENTICATED).1.CurrentState = STATE_VALIDATERX
        ∨ (sampleTxMap STATE_VALIDATERX 0, STATE_UNAUTHENTICATED).1.CurrentState
            = STATE_WAITFORREADY)
    ∧ (sampleTxMap STATE_VALIDATERX 0, STATE_UNAUTHENTICATED).1.CurrentState
        ≠ (sampleTxMap STATE_VALIDATERX 0, STATE_UNAUTHENTICATED).2
    ∧ TransitionStep sampleEnv (sampleTxMap STATE_VALIDATERX 0, STATE_UNAUTHENTICATED)
        = EnterState sampleEnv
            (swapState (StopTimer (sampleTxMap STATE_VALIDATERX 0)) STATE_UNAUTHENTICATED)
            STATE_UNAUTHENTICATED STATE_UNAUTHENTICATED
    ∧ timerStarts (Run sampleEnv [TxOp.Enable, TxOp.SetPhysicalState true, TxOp.Poll,
        TxOp.Authenticate, TxOp.Poll, TxOp.Poll]).Calls = [100] :=
  ⟨by decide,
    (Timer_armed_only_on_entry sampleEnv).2.2.2.2.2.1 (sampleTxMap STATE_VALIDATERX 0)
      TxOp.Authenticate (by decide),
    Or.inl rfl, by decide,
    ((Timer_armed_only_on_entry sampleEnv).2.2.2.2.2.2.2
      (sampleTxMap STATE_VALIDATERX 0, STATE_UNAUTHENTICATED) (Or.inl rfl) (by decide)).1,
    by decide⟩

/-! ## The requests to enable encryption -/

@[simp] theorem encRequests_append (a b : List Call) :
    encRequests (a ++ b) = encRequests a ++ encRequests b := by
  simp [encRequests, List.filterMap_append]

@[simp] theorem encRequests_nil : encRequests [] = [] := rfl

theorem encRequests_watched (l : List Call) :
    encRequests (l.filter Call.watched) = encRequests l := by
  induction l with
  | nil => rfl
  | cons c l ih =>
    have e : ∀ m : List Call, encRequests (c :: m) = encRequests [c] ++ encRequests m :=
      fun m => encRequests_append [c] m
    by_cases hc : c.watched = true
    · rw [List.filter_cons_of_pos hc, e, e l, ih]
    · rw [List.filter_cons_of_neg hc, e l, ih]
      cases c <;> simp [Call.watched] at hc <;> simp [encRequests]

theorem encRequests_EncLog (env : Env) (h : List Call) (Map : Nat) :
    encRequests (EncLog env h Map)
      = if Map ≠ 0 ∧ env.CipherGetEncryption h % 2 ^ 64 ≠ Map then [Map] else [] := by
  unfold EncLog
  split_ifs <;> simp [encRequests]

theorem encRequests_EncLog_mem (env : Env) (h : List Call) (Map : Nat) :
    ∀ m ∈ encRequests (EncLog env h Map), m = Map ∧ m ≠ 0 := by
  intro m hm
  rw [encRequests_EncLog] at hm
  split_ifs at hm with hc
  · simp at hm
    subst hm
    exact ⟨rfl, hc.1⟩
  · simp at hm

/-- The requests to enable encryption of an instance are read off its watched
requests. -/
theorem encRequests_of_view (s t : XHdcp1x_Tx) (b : Bool) (L : List Call)
    (h : t.view = (b, s.view.2 ++ L)) :
    encRequests t.Calls = encRequests s.Calls ++ encRequests L := by
  have h2 : t.Calls.filter Call.watched = s.Calls.filter Call.watched ++ L :=
    congrArg Prod.snd h
  rw [← encRequests_watched t.Calls, h2, encRequests_append, encRequests_watched]

theorem encRequests_ExitLog (st : tState) : encRequests (ExitLog st) = [] := by
  cases st <;> simp [ExitLog, encRequests]

theorem encRequests_EntryLog (env : Env) (s : XHdcp1x_Tx) (st : tState) :
    encRequests (EntryLog env s st)
      = if st = STATE_AUTHENTICATED then encRequests (EncLog env s.Calls s.EncryptionMap)
        else [] := by
  cases st <;> simp [EntryLog, encRequests]

theorem encRequests_HandlerLog_mem (env : Env) (s : XHdcp1x_Tx) (e : tEvent) :
    ∀ m ∈ encRequests (HandlerLog env s e), m = s.EncryptionMap ∧ m ≠ 0 := by
  unfold HandlerLog
  split_ifs
  · exact encRequests_EncLog_mem env _ _
  · simp

theorem encRequests_ExitState (env : Env) (s : XHdcp1x_Tx) (st : tState) :
    encRequests (ExitState env s st).Calls = encRequests s.Calls := by
  rw [encRequests_of_view s _ _ _ (view_ExitState env s st), encRequests_ExitLog]
  simp

theorem EncFollows_refl (s : XHdcp1x_Tx) : EncFollows s s :=
  ⟨Or.inl rfl, [], by simp, by simp⟩

theorem EncFollows_of_eq (s t : XHdcp1x_Tx) (h1 : t.EncryptionMap = s.EncryptionMap)
    (h2 : encRequests t.Calls = encRequests s.Calls) : EncFollows s t :=
  ⟨Or.inl h1, [], by simp [h2], by simp⟩

theorem EncFollows_trans (s t u : XHdcp1x_Tx) (h1 : EncFollows s t)
    (h2 : EncFollows t u) : EncFollows s u := by
  obtain ⟨m1, R1, p1, q1⟩ := h1
  obtain ⟨m2, R2, p2, q2⟩ := h2
  refine ⟨?_, R1 ++ R2, by rw [p2, p1, List.append_assoc], ?_⟩
  · rcases m2 with m2 | m2
    · rw [m2]; exact m1
    · exact Or.inr m2
  · intro m hm
    rcases List.mem_append.1 hm with hm | hm
    · exact q1 m hm
    · obtain ⟨e1, e2⟩ := q2 m hm
      rcases m1 with m1 | m1
      · exact ⟨e1.trans m1, e2⟩
      · rw [m1] at e1
        exact absurd e1 e2

theorem EncFollows_RunState (env : Env) (s : XHdcp1x_Tx) (e : tEvent) :
    EncFollows s (RunState env s e).1 :=
  ⟨Or.inl (RunState_EncryptionMap env s e), encRequests (HandlerLog env s e),
    encRequests_of_view s _ _ _ (view_RunState env s e), encRequests_HandlerLog_mem env s e⟩

/-- The requests to enable encryption issued by a state transition: one, for the
encryption map, when the state entered is Authenticated, the encryption map is not zero
and the cipher reports another map; none otherwise. -/
theorem TransitionStep_encRequests (env : Env) (p : XHdcp1x_Tx × tState)
    (h : p.1.CurrentState ≠ p.2) :
    encRequests (TransitionStep env p).1.Calls
      = encRequests p.1.Calls
        ++ (if p.2 = STATE_AUTHENTICATED ∧ p.1.EncryptionMap ≠ 0
              ∧ env.CipherGetEncryption (ExitState env p.1 p.1.CurrentState).Calls % 2 ^ 64
                  ≠ p.1.EncryptionMap
            then [p.1.EncryptionMap] else []) := by
  have ho : ¬ LoopClosed p := h
  rw [TransitionStep_open env p ho,
    encRequests_of_view _ _ _ _ (view_EnterState env _ p.2 p.2), encRequests_EntryLog]
  have e1 : encRequests (swapState (ExitState env p.1 p.1.CurrentState) p.2).Calls
      = encRequests p.1.Calls := by
    simp [encRequests_ExitState]
  have e2 : (swapState (ExitState env p.1 p.1.CurrentState) p.2).EncryptionMap
      = p.1.EncryptionMap := by
    simp [EncryptionMap_of_core (core_ExitState env p.1 p.1.CurrentState)]
  rw [e1, e2, encRequests_EncLog]
  by_cases ha : p.2 = STATE_AUTHENTICATED
  · simp [ha]
  · simp [ha]

theorem EncFollows_TransitionStep (env : Env) (p : XHdcp1x_Tx × tState) :
    EncFollows p.1 (TransitionStep env p).1 := by
  by_cases hc : LoopClosed p
  · rw [TransitionStep_closed env p hc]
    exact EncFollows_refl _
  · refine ⟨?_, _, TransitionStep_encRequests env p hc, ?_⟩
    · by_cases h2 : p.2 = STATE_DISABLED
      · exact Or.inr (TransitionStep_to_Disabled env p h2
          (by unfold LoopClosed at hc; rw [h2] at hc; exact hc)).2.2.2.2.2
      · left
        rw [TransitionStep_open env p hc,
          EncryptionMap_of_core (core_EnterState env _ p.2 p.2 h2)]
        simp [EncryptionMap_of_core (core_ExitState env p.1 p.1.CurrentState)]
    · intro m hm
      split_ifs at hm with hh
      · simp at hm
        subst hm
        exact ⟨rfl, hh.2.1⟩
      · simp at hm

theorem EncFollows_TransitionLoop (env : Env) (n : Nat) : ∀ p : XHdcp1x_Tx × tState,
    EncFollows p.1 (TransitionLoop env n p).1 := by
  unfold TransitionLoop
  induction n with
  | zero => intro p; exact EncFollows_refl _
  | succ n ih =>
    intro p
    rw [Function.iterate_succ_apply]
    exact EncFollows_trans _ _ _ (EncFollows_TransitionStep env p) (ih _)

theorem EncFollows_DoTheState (env : Env) (s : XHdcp1x_Tx) (e : tEvent) :
    EncFollows s (DoTheState env s e) := by
  unfold DoTheState
  exact EncFollows_trans _ _ _ (EncFollows_RunState env s e)
    (EncFollows_TransitionLoop env 4 _)

theorem EncFollows_Poll (env : Env) (s : XHdcp1x_Tx) :
    EncFollows s (XHdcp1x_TxPoll env s).1 :=
  Poll_keeps env (fun t => EncFollows s t)
    (fun t e ht => EncFollows_trans _ _ _ ht (EncFollows_DoTheState env t e))
    (fun t ht => EncFollows_trans _ _ _ ht (EncFollows_of_eq t _ rfl rfl))
    s (EncFollows_refl s)

/-- A call of the public interface other than the poll and the two calls that change
the encryption map, and a callback, issues no request to enable encryption and leaves
the encryption map as it is. -/
theorem apply_no_encRequest (env : Env) (s : XHdcp1x_Tx) (op : TxOp) (h : op ≠ TxOp.Poll)
    (h2 : ∀ m : Nat, op ≠ TxOp.EnableEncryption m) :
    encRequests (op.apply env s).Calls = encRequests s.Calls := by
  cases op with
  | Poll => exact absurd rfl h
  | Reset => simp [TxOp.apply, XHdcp1x_TxReset]
  | Enable => simp [TxOp.apply, XHdcp1x_TxEnable]
  | Disable => simp [TxOp.apply, XHdcp1x_TxDisable]
  | SetPhysicalState b => simp [TxOp.apply, XHdcp1x_TxSetPhysicalState]
  | SetLaneCount n =>
    simp only [TxOp.apply, XHdcp1x_TxSetLaneCount]
    split_ifs <;> simp [encRequests]
  | Authenticate => simp [TxOp.apply, XHdcp1x_TxAuthenticate]
  | EnableEncryption m => exact absurd rfl (h2 m)
  | DisableEncryption m =>
    simp only [TxOp.apply, XHdcp1x_TxDisableEncryption]
    split_ifs <;> simp [encRequests]
  | HandleTimeout => simp [TxOp.apply, XHdcp1x_TxHandleTimeout]
  | ReauthenticateCallback => simp [TxOp.apply, ReauthenticateCallback]
  | CheckLinkCallback => simp [TxOp.apply, CheckLinkCallback]

/-- The requests of `XHdcp1x_TxEnableEncryption`: the stream map is merged into the
encryption map first, and when the state machine is authenticated one request is issued
for the merged map if that is not zero and the cipher reports another map. -/
theorem TxEnableEncryption_encRequests (env : Env) (s : XHdcp1x_Tx) (StreamMap : Nat) :
    encRequests (XHdcp1x_TxEnableEncryption env s StreamMap).1.Calls
      = encRequests s.Calls
        ++ (if IsAuthenticated s = true
              ∧ (s.EncryptionMap ||| (StreamMap % 2 ^ 64)) % 2 ^ 64 ≠ 0
              ∧ env.CipherGetEncryption s.Calls % 2 ^ 64
                  ≠ (s.EncryptionMap ||| (StreamMap % 2 ^ 64)) % 2 ^ 64
            then [(s.EncryptionMap ||| (StreamMap % 2 ^ 64)) % 2 ^ 64] else []) := by
  unfold XHdcp1x_TxEnableEncryption
  dsimp only
  have ha : IsAuthenticated (setEncryptionMap s
      ((s.EncryptionMap ||| (StreamMap % 2 ^ 64)) % 2 ^ 64)) = IsAuthenticated s := rfl
  rw [ha]
  by_cases hauth : IsAuthenticated s = true
  · rw [if_pos hauth]
    rw [encRequests_of_view (setEncryptionMap s
      ((s.EncryptionMap ||| (StreamMap % 2 ^ 64)) % 2 ^ 64)) _ _ _ (view_EnableEncryption env _),
      encRequests_EncLog]
    simp [hauth]
  · rw [if_neg hauth]
    simp [hauth]

/-- C25, as amended: encryption is only ever requested for the encryption map held at
the time of the request, which is then not zero.  Every request issued by an event step
or by a poll is for the encryption map the instance had before, which is not zero; with
the encryption map zero an event step issues none; the other calls of the public
interface and the callbacks issue none, except XHdcp1x_TxEnableEncryption, which merges
its stream map into the encryption map first and, when authenticated, issues one
request for the merged map if that is not zero and the cipher reports another map; and
a transition issues a request exactly when it enters Authenticated with an encryption
map that is not zero and that the cipher does not report already, and the request is
for that map. -/
theorem Encryption_requested_for_map (env : Env) :
    (∀ (s : XHdcp1x_Tx) (e : tEvent), EncFollows s (DoTheState env s e))
    ∧ (∀ (s : XHdcp1x_Tx) (e : tEvent), s.EncryptionMap = 0 →
        encRequests (DoTheState env s e).Calls = encRequests s.Calls)
    ∧ (∀ s : XHdcp1x_Tx, EncFollows s (XHdcp1x_TxPoll env s).1)
    ∧ (∀ (s : XHdcp1x_Tx) (op : TxOp), op ≠ TxOp.Poll →
        (∀ m : Nat, op ≠ TxOp.EnableEncryption m) →
        encRequests (op.apply env s).Calls = encRequests s.Calls)
    ∧ (∀ (s : XHdcp1x_Tx) (StreamMap : Nat),
        encRequests (XHdcp1x_TxEnableEncryption env s StreamMap).1.Calls
          = encRequests s.Calls
            ++ (if IsAuthenticated s = true
                  ∧ (s.EncryptionMap ||| (StreamMap % 2 ^ 64)) % 2 ^ 64 ≠ 0
                  ∧ env.CipherGetEncryption s.Calls % 2 ^ 64
                      ≠ (s.EncryptionMap ||| (StreamMap % 2 ^ 64)) % 2 ^ 64
                then [(s.EncryptionMap ||| (StreamMap % 2 ^ 64)) % 2 ^ 64] else []))
    ∧ (∀ p : XHdcp1x_Tx × tState, p.1.CurrentState ≠ p.2 →
        encRequests (TransitionStep env p).1.Calls
          = encRequests p.1.Calls
            ++ (if p.2 = STATE_AUTHENTICATED ∧ p.1.EncryptionMap ≠ 0
                  ∧ env.CipherGetEncryption (ExitState env p.1 p.1.CurrentState).Calls % 2 ^ 64
                      ≠ p.1.EncryptionMap
                then [p.1.EncryptionMap] else [])) := by
  refine ⟨EncFollows_DoTheState env, ?_, EncFollows_Poll env, apply_no_encRequest env,
    TxEnableEncryption_encRequests env, TransitionStep_encRequests env⟩
  intro s e h0
  obtain ⟨-, R, h1, h2⟩ := EncFollows_DoTheState env s e
  have hR : R = [] := by
    cases R with
    | nil => rfl
    | cons m R =>
      obtain ⟨e1, e2⟩ := h2 m (List.mem_cons_self m R)
      rw [h0] at e1
      exact absurd e1 e2
  rw [h1, hR, List.append_nil]

set_option maxRecDepth 100000 in
theorem Encryption_requested_for_map_witness :
    ((sampleTxMap STATE_AUTHENTICATED 0).EncryptionMap = 0
      ∧ encRequests (DoTheState sampleEnv (sampleTxMap STATE_AUTHENTICATED 0) EVENT_CHECK).Calls
          = encRequests (sampleTxMap STATE_AUTHENTICATED 0).Calls)
    ∧ (TxOp.Authenticate ≠ TxOp.Poll
      ∧ (∀ m : Nat, TxOp.Authenticate ≠ TxOp.EnableEncryption m)
      ∧ encRequests (TxOp.Authenticate.apply sampleEnv (sampleTxMap STATE_AUTHENTICATED 1)).Calls
          = encRequests (sampleTxMap STATE_AUTHENTICATED 1).Calls)
    ∧ ((sampleTxMap STATE_TESTFORREPEATER 1, STATE_AUTHENTICATED).1.CurrentState
          ≠ (sampleTxMap STATE_TESTFORREPEATER 1, STATE_AUTHENTICATED).2
      ∧ encRequests (TransitionStep sampleEnv
          (sampleTxMap STATE_TESTFORREPEATER 1, STATE_AUTHENTICATED)).1.Calls = [1]) :=
  ⟨⟨rfl, (Encryption_requested_for_map sampleEnv).2.1 (sampleTxMap STATE_AUTHENTICATED 0)
      EVENT_CHECK rfl⟩,
    ⟨by decide, fun m => by simp,
      (Encryption_requested_for_map sampleEnv).2.2.2.1 (sampleTxMap STATE_AUTHENTICATED 1)
        TxOp.Authenticate (by decide) (fun m => by simp)⟩,
    ⟨by decide,
      ((Encryption_requested_for_map sampleEnv).2.2.2.2.2
        (sampleTxMap STATE_TESTFORREPEATER 1, STATE_AUTHENTICATED) (by decide)).trans
        (by decide)⟩⟩

set_option maxRecDepth 100000 in
/-- C25 fails as stated: with a cipher that already reports stream 0 as encrypted, a
state machine with encryption map 1 reaches Authenticated, from a passed link check as
well as from TestForRepeater, without any request to enable encryption being issued. -/
theorem Authenticated_without_request :
    (sampleTxMap STATE_AUTHENTICATED 1).EncryptionMap = 1
    ∧ (DoTheState sampleEnvEncrypting (sampleTxMap STATE_AUTHENTICATED 1) EVENT_CHECK).Path
        = [STATE_LINKINTEGRITYCHECK, STATE_AUTHENTICATED]
    ∧ (DoTheState sampleEnvEncrypting (sampleTxMap STATE_AUTHENTICATED 1)
        EVENT_CHECK).CurrentState = STATE_AUTHENTICATED
    ∧ (DoTheState sampleEnvEncrypting (sampleTxMap STATE_AUTHENTICATED 1)
        EVENT_CHECK).EncryptionMap = 1
    ∧ encRequests (DoTheState sampleEnvEncrypting (sampleTxMap STATE_AUTHENTICATED 1)
        EVENT_CHECK).Calls = []
    ∧ (DoTheState sampleEnvEncrypting (sampleTxMap STATE_TESTFORREPEATER 1) EVENT_POLL).Path
        = [STATE_AUTHENTICATED]
    ∧ (DoTheState sampleEnvEncrypting (sampleTxMap STATE_TESTFORREPEATER 1)
        EVENT_POLL).EncryptionMap = 1
    ∧ encRequests (DoTheState sampleEnvEncrypting (sampleTxMap STATE_TESTFORREPEATER 1)
        EVENT_POLL).Calls = [] := by
  decide

/-! ## Reset -/

theorem RunState_POLL_rest (env : Env) (s : XHdcp1x_Tx)
    (hs : s.CurrentState = STATE_UNAUTHENTICATED ∨ s.CurrentState = STATE_PHYDOWN) :
    RunState env s EVENT_POLL = (s, s.CurrentState) := by
  rcases hs with hs | hs <;>
    simp [RunState, hs, RunUnauthenticatedState, RunPhysicalLayerDownState]

/-- A Disable event leaves the PhyUp flag as it is. -/
theorem DoTheState_DISABLE_phy (env : Env) (s : XHdcp1x_Tx) :
    (DoTheState env s EVENT_DISABLE).view.1 = s.view.1 := by
  by_cases h : s.CurrentState = STATE_DISABLED
  · rw [DoTheState_of_stay env s s EVENT_DISABLE (by rw [RunState_DISABLE, h])]
  · rw [DoTheState_of_one env s s EVENT_DISABLE STATE_DISABLED (RunState_DISABLE env s) h
      (by simp [EnterState]), view_EnterState, view_swapState, view_ExitState]
    rfl

/-- In Disabled an Enable event leads to Unauthenticated when the PhyUp flag is set and
to PhyDown when it is clear, and zeroes the statistics counters. -/
theorem DoTheState_ENABLE_of_Disabled (env : Env) (s : XHdcp1x_Tx)
    (hs : s.CurrentState = STATE_DISABLED) :
    (DoTheState env s EVENT_ENABLE).CurrentState
        = (if s.Flags.testBit 0 = true then STATE_UNAUTHENTICATED else STATE_PHYDOWN)
    ∧ (DoTheState env s EVENT_ENABLE).Stats = ⟨0, 0, 0, 0, 0, 0⟩ := by
  have hen : ∀ nx : tState, RunState env s EVENT_ENABLE = (s, nx) → nx ≠ STATE_DISABLED →
      (nx = STATE_UNAUTHENTICATED ∨ nx = STATE_PHYDOWN) →
      (DoTheState env s EVENT_ENABLE).CurrentState = nx
        ∧ (DoTheState env s EVENT_ENABLE).Stats = ⟨0, 0, 0, 0, 0, 0⟩ := by
    intro nx hr hne hnx
    have hne2 : s.CurrentState ≠ nx := by rw [hs]; exact fun h => hne h.symm
    have hkeep : (EnterState env (swapState (ExitState env s s.CurrentState) nx) nx nx).2
        = nx := by
      rcases hnx with h | h <;> subst h <;> simp [EnterState]
    rw [DoTheState_of_one env s s EVENT_ENABLE nx hr hne2 hkeep]
    refine ⟨by simp, ?_⟩
    rcases hnx with h | h <;> subst h <;> simp [EnterState, hs, ExitState, Enable]
  by_cases hb : s.Flags.testBit 0 = true
  · rw [if_pos hb]
    have hf : s.Flags &&& FLAG_PHY_UP ≠ 0 := by
      intro h0
      rw [show FLAG_PHY_UP = 1 from rfl, and_one_eq_zero_iff] at h0
      rw [h0] at hb
      exact absurd hb (by decide)
    exact hen STATE_UNAUTHENTICATED (by simp [RunState, hs, RunDisabledState, hf])
      (by simp) (Or.inl rfl)
  · rw [if_neg hb]
    have hf : s.Flags &&& FLAG_PHY_UP = 0 := by
      rw [show FLAG_PHY_UP = 1 from rfl, and_one_eq_zero_iff]
      simpa using hb
    exact hen STATE_PHYDOWN (by simp [RunState, hs, RunDisabledState, hf])
      (by simp) (Or.inr rfl)

/-- The pending set after a reset, when at most Disable and Enable were pending before:
exactly Disable and Enable. -/
theorem Reset_pending (s : XHdcp1x_Tx)
    (hp : ∀ i : Nat, s.PendingEvents.testBit i = true → i = 3 ∨ i = 4) (i : Nat) :
    (XHdcp1x_TxReset s).1.PendingEvents.testBit i = decide (i = 3 ∨ i = 4) := by
  unfold XHdcp1x_TxReset
  dsimp only
  rw [PostEvent_testBit, PostEvent_testBit]
  by_cases h3 : i = 3
  · subst h3; simp [tEvent.toNat]
  · by_cases h4 : i = 4
    · subst h4; simp [tEvent.toNat]
    · have hf : s.PendingEvents.testBit i = false := by
        cases hb : s.PendingEvents.testBit i
        · rfl
        · rcases hp i hb with h | h
          · exact absurd h h3
          · exact absurd h h4
      simp [hf, h3, h4, tEvent.toNat]

/-- C30: `XHdcp1x_TxReset` leaves Disable and Enable pending, and, when no other event
is pending, the following `XHdcp1x_TxPoll` handles Disable, then Enable, then Poll: from
every state the instance ends in Unauthenticated if the PhyUp flag is set and in
PhyDown otherwise, with all six statistics counters zero. -/
theorem Reset_then_Poll (env : Env) (s : XHdcp1x_Tx)
    (hp : ∀ i : Nat, s.PendingEvents.testBit i = true → i = 3 ∨ i = 4) :
    (XHdcp1x_TxReset s).1 = PostEvent (PostEvent s EVENT_DISABLE) EVENT_ENABLE
    ∧ (∀ i : Nat, (XHdcp1x_TxReset s).1.PendingEvents.testBit i = true
        ↔ (i = EVENT_DISABLE.toNat ∨ i = EVENT_ENABLE.toNat))
    ∧ (XHdcp1x_TxPoll env (XHdcp1x_TxReset s).1).1
        = DoTheState env
            (DoTheState env
              (DoTheState env (setPendingEvents (XHdcp1x_TxReset s).1 0) EVENT_DISABLE)
              EVENT_ENABLE)
            EVENT_POLL
    ∧ (XHdcp1x_TxPoll env (XHdcp1x_TxReset s).1).1.CurrentState
        = (if s.Flags.testBit 0 = true then STATE_UNAUTHENTICATED else STATE_PHYDOWN)
    ∧ (XHdcp1x_TxPoll env (XHdcp1x_TxReset s).1).1.Stats = ⟨0, 0, 0, 0, 0, 0⟩ := by
  have hb := Reset_pending s hp
  have hlt : (XHdcp1x_TxReset s).1.PendingEvents < 2 ^ 16 := PostEvent_lt _ _
  have hpoll : (XHdcp1x_TxPoll env (XHdcp1x_TxReset s).1).1
      = DoTheState env
          (DoTheState env
            (DoTheState env (setPendingEvents (XHdcp1x_TxReset s).1 0) EVENT_DISABLE)
            EVENT_ENABLE)
          EVENT_POLL := by
    unfold XHdcp1x_TxPoll
    dsimp only
    rw [ProcessPending_eq_foldl env _ hlt]
    simp [DrainOrder, hb, tEvent.toNat]
  refine ⟨rfl, ?_, hpoll, ?_⟩
  · intro i
    rw [hb]
    simp [tEvent.toNat]
  · have h0f : (setPendingEvents (XHdcp1x_TxReset s).1 0).view.1 = s.Flags.testBit 0 := by
      simp [XHdcp1x_TxReset, XHdcp1x_Tx.view, phyBit]
    have h1s := DoTheState_DISABLE env (setPendingEvents (XHdcp1x_TxReset s).1 0)
    have h1f := DoTheState_DISABLE_phy env (setPendingEvents (XHdcp1x_TxReset s).1 0)
    rw [h0f] at h1f
    generalize DoTheState env (setPendingEvents (XHdcp1x_TxReset s).1 0) EVENT_DISABLE = t1
      at hpoll h1s h1f
    have h1f2 : t1.Flags.testBit 0 = s.Flags.testBit 0 := h1f
    obtain ⟨h2s, h2t⟩ := DoTheState_ENABLE_of_Disabled env t1 h1s
    rw [h1f2] at h2s
    generalize DoTheState env t1 EVENT_ENABLE = t2 at hpoll h2s h2t
    have h3 : DoTheState env t2 EVENT_POLL = t2 := by
      apply DoTheState_of_stay
      apply RunState_POLL_rest
      rw [h2s]
      split_ifs
      · exact Or.inl rfl
      · exact Or.inr rfl
    rw [hpoll, h3]
    exact ⟨h2s, h2t⟩

set_option maxRecDepth 100000 in
theorem Reset_then_Poll_witness :
    (∀ i : Nat, (sampleTxMap STATE_AUTHENTICATED 1).PendingEvents.testBit i = true →
        i = 3 ∨ i = 4)
    ∧ (sampleTxMap STATE_AUTHENTICATED 1).Flags.testBit 0 = true
    ∧ (XHdcp1x_TxPoll sampleEnv
        (XHdcp1x_TxReset (sampleTxMap STATE_AUTHENTICATED 1)).1).1.CurrentState
          = STATE_UNAUTHENTICATED
    ∧ (XHdcp1x_TxPoll sampleEnv
        (XHdcp1x_TxReset (sampleTxMap STATE_AUTHENTICATED 1)).1).1.Stats
          = ⟨0, 0, 0, 0, 0, 0⟩ :=
  ⟨fun i h => by simp [sampleTxMap, ZeroInstance] at h, by decide,
    (Reset_then_Poll sampleEnv (sampleTxMap STATE_AUTHENTICATED 1)
      (fun i h => by simp [sampleTxMap, ZeroInstance] at h)).2.2.2.1.trans (by decide),
    (Reset_then_Poll sampleEnv (sampleTxMap STATE_AUTHENTICATED 1)
      (fun i h => by simp [sampleTxMap, ZeroInstance] at h)).2.2.2.2⟩

/-! ## The reachable instances -/

/-- The instance that `XHdcp1x_TxCfgInitialize` leaves, whatever its status: Disabled,
nothing pending, the state helper and the flags zero. -/
theorem init_fields (env : Env) :
    (XHdcp1x_TxCfgInitialize env).1.CurrentState = STATE_DISABLED
    ∧ (XHdcp1x_TxCfgInitialize env).1.PendingEvents = 0
    ∧ (XHdcp1x_TxCfgInitialize env).1.StateHelper = 0
    ∧ (XHdcp1x_TxCfgInitialize env).1.Flags = 0 := by
  unfold XHdcp1x_TxCfgInitialize
  dsimp only
  split_ifs <;> simp [Init, EnterState, Disable, ZeroInstance, clearBits16]

/-- A poll in Disabled with only a PhyUp event pending stays in Disabled. -/
theorem Poll_PhyUp_in_Disabled (env : Env) (s : XHdcp1x_Tx)
    (hs : s.CurrentState = STATE_DISABLED) (hp : s.PendingEvents = 0) :
    (XHdcp1x_TxPoll env (XHdcp1x_TxSetPhysicalState s true).1).1.CurrentState
      = STATE_DISABLED := by
  have hb : ∀ i : Nat, (XHdcp1x_TxSetPhysicalState s true).1.PendingEvents.testBit i
      = decide (i = 7) := by
    intro i
    unfold XHdcp1x_TxSetPhysicalState
    dsimp only
    rw [if_pos rfl, PostEvent_testBit, hp]
    by_cases h7 : i = 7
    · subst h7; simp [tEvent.toNat]
    · simp [h7, tEvent.toNat]
  have hlt : (XHdcp1x_TxSetPhysicalState s true).1.PendingEvents < 2 ^ 16 := PostEvent_lt _ _
  have h0 : (setPendingEvents (XHdcp1x_TxSetPhysicalState s true).1 0).CurrentState
      = STATE_DISABLED := by
    simpa [XHdcp1x_TxSetPhysicalState] using hs
  unfold XHdcp1x_TxPoll
  dsimp only
  rw [ProcessPending_eq_foldl env _ hlt]
  simp only [DrainOrder, List.foldl_cons, List.foldl_nil, hb, tEvent.toNat]
  simp only [Nat.reduceEqDiff, decide_False, decide_True, Bool.false_eq_true, if_false, if_true]
  exact DoTheState_stays_Disabled env _ _
    (DoTheState_stays_Disabled env _ _ h0 (by decide)) (by decide)

/-- C39: in every instance reached from a successful initialisation by calls of the
public interface and of the callbacks, PhyDown implies that the PhyUp flag is clear,
and a state other than Disabled and PhyDown implies that it is set.  Disabled is
reached with either value of the flag: clear right after the initialisation, set after
a report that the physical layer is up has been polled. -/
theorem PhyUp_flag_by_state (env : Env)
    (hinit : (XHdcp1x_TxCfgInitialize env).2 = XST_SUCCESS) (ops : List TxOp) :
    ((Run env ops).CurrentState = STATE_PHYDOWN → (Run env ops).Flags.testBit 0 = false)
    ∧ ((Run env ops).CurrentState ≠ STATE_DISABLED →
        (Run env ops).CurrentState ≠ STATE_PHYDOWN → (Run env ops).Flags.testBit 0 = true)
    ∧ ((Run env []).CurrentState = STATE_DISABLED ∧ (Run env []).Flags.testBit 0 = false)
    ∧ ((Run env [TxOp.SetPhysicalState true, TxOp.Poll]).CurrentState = STATE_DISABLED
        ∧ (Run env [TxOp.SetPhysicalState true, TxOp.Poll]).Flags.testBit 0 = true) := by
  have h := Held_Run env hinit ops
  refine ⟨?_, ?_, ⟨(init_fields env).1, ?_⟩, ?_, ?_⟩
  · intro hs
    rw [hs] at h
    exact h.1
  · intro h1 h2
    exact Held_enabled_phy _ _ h h1 h2
  · change (XHdcp1x_TxCfgInitialize env).1.Flags.testBit 0 = false
    rw [(init_fields env).2.2.2]
    rfl
  · exact Poll_PhyUp_in_Disabled env _ (init_fields env).1 (init_fields env).2.1
  · exact Poll_after_report env _ (Held_init env hinit) true

set_option maxRecDepth 100000 in
theorem PhyUp_flag_by_state_witness :
    (XHdcp1x_TxCfgInitialize sampleEnv).2 = XST_SUCCESS
    ∧ ((Run sampleEnv [TxOp.Enable, TxOp.Poll]).CurrentState = STATE_PHYDOWN
        ∧ (Run sampleEnv [TxOp.Enable, TxOp.Poll]).Flags.testBit 0 = false)
    ∧ ((Run sampleEnv [TxOp.SetPhysicalState true, TxOp.Enable, TxOp.Poll]).CurrentState
          ≠ STATE_DISABLED
        ∧ (Run sampleEnv [TxOp.SetPhysicalState true, TxOp.Enable, TxOp.Poll]).CurrentState
          ≠ STATE_PHYDOWN
        ∧ (Run sampleEnv [TxOp.SetPhysicalState true, TxOp.Enable, TxOp.Poll]).Flags.testBit 0
          = true) :=
  ⟨rfl,
    ⟨by decide, (PhyUp_flag_by_state sampleEnv rfl [TxOp.Enable, TxOp.Poll]).1 (by decide)⟩,
    ⟨by decide, by decide,
      (PhyUp_flag_by_state sampleEnv rfl
        [TxOp.SetPhysicalState true, TxOp.Enable, TxOp.Poll]).2.1 (by decide) (by decide)⟩⟩


/-- A call of the public interface other than the poll, and a callback, leaves the
state and the state helper as they are. -/
theorem apply_state (env : Env) (s : XHdcp1x_Tx) (op : TxOp) (h : op ≠ TxOp.Poll) :
    (op.apply env s).CurrentState = s.CurrentState
      ∧ (op.apply env s).StateHelper = s.StateHelper := by
  cases op with
  | Poll => exact absurd rfl h
  | Reset => simp [TxOp.apply, XHdcp1x_TxReset]
  | Enable => simp [TxOp.apply, XHdcp1x_TxEnable]
  | Disable => simp [TxOp.apply, XHdcp1x_TxDisable]
  | SetPhysicalState b => simp [TxOp.apply, XHdcp1x_TxSetPhysicalState]
  | SetLaneCount n =>
    simp only [TxOp.apply, XHdcp1x_TxSetLaneCount]
    split_ifs <;> simp
  | Authenticate => simp [TxOp.apply, XHdcp1x_TxAuthenticate]
  | EnableEncryption m =>
    simp only [TxOp.apply, XHdcp1x_TxEnableEncryption]
    split_ifs
    · rw [EnableEncryption_frame]
      exact ⟨rfl, rfl⟩
    · exact ⟨rfl, rfl⟩
  | DisableEncryption m =>
    simp only [TxOp.apply, XHdcp1x_TxDisableEncryption]
    split_ifs <;> simp
  | HandleTimeout => simp [TxOp.apply, XHdcp1x_TxHandleTimeout]
  | ReauthenticateCallback => simp [TxOp.apply, ReauthenticateCallback]
  | CheckLinkCallback => simp [TxOp.apply, CheckLinkCallback]

/-- A property of the state and the state helper that every event step keeps holds in
every instance reached from initialisation, once it holds after the initialisation. -/
theorem Run_keeps (env : Env) (P : tState → Nat → Prop)
    (hP : ∀ (t : XHdcp1x_Tx) (e : tEvent), P t.CurrentState t.StateHelper →
      P (DoTheState env t e).CurrentState (DoTheState env t e).StateHelper)
    (h0 : P STATE_DISABLED 0) (ops : List TxOp) :
    P (Run env ops).CurrentState (Run env ops).StateHelper := by
  unfold Run
  induction ops using List.reverseRecOn with
  | nil =>
    rw [List.foldl_nil, (init_fields env).1, (init_fields env).2.2.1]
    exact h0
  | append_singleton ops op ih =>
    rw [List.foldl_append]
    simp only [List.foldl_cons, List.foldl_nil]
    by_cases hop : op = TxOp.Poll
    · subst hop
      exact Poll_keeps env (fun t => P t.CurrentState t.StateHelper) hP (fun t ht => ht) _ ih
    · rw [(apply_state env _ op hop).1, (apply_state env _ op hop).2]
      exact ih

theorem apply_PendingEvents_lt (env : Env) (s : XHdcp1x_Tx) (op : TxOp)
    (h : s.PendingEvents < 2 ^ 16) : (op.apply env s).PendingEvents < 2 ^ 16 := by
  cases op with
  | Poll =>
    exact Poll_keeps env (fun t => t.PendingEvents < 2 ^ 16)
      (fun t e ht => DoTheState_PendingEvents_lt env t e ht) (fun t _ => by simp) s h
  | Reset => exact PostEvent_lt _ _
  | Enable => exact PostEvent_lt _ _
  | Disable => exact PostEvent_lt _ _
  | SetPhysicalState b => exact PostEvent_lt _ _
  | SetLaneCount n =>
    simp only [TxOp.apply, XHdcp1x_TxSetLaneCount]
    split_ifs <;> simpa using h
  | Authenticate => exact PostEvent_lt _ _
  | EnableEncryption m =>
    simp only [TxOp.apply, XHdcp1x_TxEnableEncryption]
    split_ifs
    · rw [EnableEncryption_frame]
      exact h
    · exact h
  | DisableEncryption m =>
    simp only [TxOp.apply, XHdcp1x_TxDisableEncryption]
    split_ifs <;> simpa using h
  | HandleTimeout => exact PostEvent_lt _ _
  | ReauthenticateCallback => exact PostEvent_lt _ _
  | CheckLinkCallback => exact PostEvent_lt _ _

/-- The pending set of every instance reached from initialisation fits 16 bits. -/
theorem Run_PendingEvents_lt (env : Env) (ops : List TxOp) :
    (Run env ops).PendingEvents < 2 ^ 16 := by
  unfold Run
  induction ops using List.reverseRecOn with
  | nil => rw [List.foldl_nil, (init_fields env).2.1]; decide
  | append_singleton ops op ih =>
    rw [List.foldl_append]
    exact apply_PendingEvents_lt env _ op ih

theorem StepsFrom_keeps (env : Env) (P : XHdcp1x_Tx → Prop)
    (hP : ∀ (t : XHdcp1x_Tx) (e : tEvent), P t → P (DoTheState env t e))
    (es : List tEvent) : ∀ t : XHdcp1x_Tx, P t → ∀ step ∈ StepsFrom env t es, P step.1 := by
  induction es with
  | nil => intro t _ step hstep; simp [StepsFrom] at hstep
  | cons e es ih =>
    intro t ht step hstep
    simp only [StepsFrom, List.mem_cons] at hstep
    rcases hstep with h | h
    · rw [h]; exact ht
    · exact ih _ (hP t e ht) step h

/-! ## LinkIntegrityCheck never rests -/

theorem EnterState_LinkIntegrityCheck_next (env : Env) (s : XHdcp1x_Tx) (nx : tState) :
    (EnterState env s STATE_LINKINTEGRITYCHECK nx).2 = STATE_AUTHENTICATED
      ∨ (EnterState env s STATE_LINKINTEGRITYCHECK nx).2 = STATE_DETERMINERXCAPABLE := by
  rcases CheckLinkIntegrity_next env s nx with h | h
  · exact Or.inr h
  · exact Or.inl h

theorem TransitionStep_noLIC (env : Env) (p : XHdcp1x_Tx × tState)
    (h : LoopClosed p → p.2 ≠ STATE_LINKINTEGRITYCHECK) :
    LoopClosed (TransitionStep env p) →
      (TransitionStep env p).2 ≠ STATE_LINKINTEGRITYCHECK := by
  by_cases hc : LoopClosed p
  · rw [TransitionStep_closed env p hc]; exact h
  · intro hcl hl
    have hcs := TransitionStep_CurrentState env p
    unfold LoopClosed at hcl
    rw [hcs] at hcl
    rw [TransitionStep_open env p hc] at hcl hl
    rw [hl] at hcl
    rw [hcl] at hl
    rcases EnterState_LinkIntegrityCheck_next env
      (swapState (ExitState env p.1 p.1.CurrentState) STATE_LINKINTEGRITYCHECK)
      STATE_LINKINTEGRITYCHECK with k | k <;> rw [k] at hl <;> exact absurd hl (by decide)

theorem TransitionLoop_noLIC (env : Env) (n : Nat) : ∀ p : XHdcp1x_Tx × tState,
    (LoopClosed p → p.2 ≠ STATE_LINKINTEGRITYCHECK) →
    LoopClosed (TransitionLoop env n p) →
      (TransitionLoop env n p).2 ≠ STATE_LINKINTEGRITYCHECK := by
  unfold TransitionLoop
  induction n with
  | zero => intro p h; exact h
  | succ n ih =>
    intro p h
    rw [Function.iterate_succ_apply]
    exact ih _ (TransitionStep_noLIC env p h)

theorem DoTheState_noLIC (env : Env) (s : XHdcp1x_Tx) (e : tEvent)
    (hs : s.CurrentState ≠ STATE_LINKINTEGRITYCHECK) :
    (DoTheState env s e).CurrentState ≠ STATE_LINKINTEGRITYCHECK := by
  have hcl := TransitionLoop_closed env (RunState env s e)
  have hstart : LoopClosed (RunState env s e) →
      (RunState env s e).2 ≠ STATE_LINKINTEGRITYCHECK := by
    intro hc
    unfold LoopClosed at hc
    rw [← hc, (RunState_fields env s e).1]
    exact hs
  have hrest := TransitionLoop_noLIC env 4 _ hstart hcl
  unfold LoopClosed at hcl
  unfold DoTheState
  rw [hcl]
  exact hrest

/-- C36: LinkIntegrityCheck is never a resting state.  Its entry action always asks for
Authenticated or DetermineRxCapable, so an event step and a poll that start in another
state end in another state, and no instance reached from initialisation by calls of the
public interface and of the callbacks is in LinkIntegrityCheck.  Hence every event step
of a poll of such an instance starts outside LinkIntegrityCheck, so that the handler of
LinkIntegrityCheck never runs, and `XHdcp1x_TxIsAuthenticated` holds of such an instance
exactly when it is in Authenticated. -/
theorem LinkIntegrityCheck_never_rests (env : Env) (ops : List TxOp) :
    (∀ (s : XHdcp1x_Tx) (nx : tState),
      (EnterState env s STATE_LINKINTEGRITYCHECK nx).2 = STATE_AUTHENTICATED
        ∨ (EnterState env s STATE_LINKINTEGRITYCHECK nx).2 = STATE_DETERMINERXCAPABLE)
    ∧ (∀ (s : XHdcp1x_Tx) (e : tEvent), s.CurrentState ≠ STATE_LINKINTEGRITYCHECK →
        (DoTheState env s e).CurrentState ≠ STATE_LINKINTEGRITYCHECK)
    ∧ (∀ s : XHdcp1x_Tx, s.CurrentState ≠ STATE_LINKINTEGRITYCHECK →
        (XHdcp1x_TxPoll env s).1.CurrentState ≠ STATE_LINKINTEGRITYCHECK)
    ∧ (Run env ops).CurrentState ≠ STATE_LINKINTEGRITYCHECK
    ∧ (XHdcp1x_TxPoll env (Run env ops)).1 = PollBySpec env (Run env ops)
    ∧ (∀ step ∈ StepsFrom env (setPendingEvents (Run env ops) 0) (PolledEvents (Run env ops)),
        step.1.CurrentState ≠ STATE_LINKINTEGRITYCHECK)
    ∧ (XHdcp1x_TxIsAuthenticated (Run env ops) = true
        ↔ (Run env ops).CurrentState = STATE_AUTHENTICATED) := by
  have hrun : (Run env ops).CurrentState ≠ STATE_LINKINTEGRITYCHECK :=
    Run_keeps env (fun st _ => st ≠ STATE_LINKINTEGRITYCHECK)
      (fun t e ht => DoTheState_noLIC env t e ht) (by decide) ops
  refine ⟨EnterState_LinkIntegrityCheck_next env, DoTheState_noLIC env, ?_, hrun, ?_, ?_, ?_⟩
  · intro s hs
    exact Poll_keeps env (fun t => t.CurrentState ≠ STATE_LINKINTEGRITYCHECK)
      (fun t e ht => DoTheState_noLIC env t e ht) (fun t ht => ht) s hs
  · unfold XHdcp1x_TxPoll PollBySpec PolledEvents
    dsimp only
    rw [ProcessPending_eq_foldl env _ (Run_PendingEvents_lt env ops), List.foldl_append,
      foldl_filter_events]
    simp
  · exact StepsFrom_keeps env (fun t => t.CurrentState ≠ STATE_LINKINTEGRITYCHECK)
      (fun t e ht => DoTheState_noLIC env t e ht) _ _ (by simpa using hrun)
  · unfold XHdcp1x_TxIsAuthenticated IsAuthenticated
    cases hs : (Run env ops).CurrentState <;> simp [hs] at hrun ⊢

set_option maxRecDepth 100000 in
theorem LinkIntegrityCheck_never_rests_witness :
    (sampleTx STATE_AUTHENTICATED 1 0).CurrentState ≠ STATE_LINKINTEGRITYCHECK
    ∧ (DoTheState sampleEnv (sampleTx STATE_AUTHENTICATED 1 0) EVENT_CHECK).Path
        = [STATE_LINKINTEGRITYCHECK, STATE_AUTHENTICATED]
    ∧ (DoTheState sampleEnv (sampleTx STATE_AUTHENTICATED 1 0) EVENT_CHECK).CurrentState
        ≠ STATE_LINKINTEGRITYCHECK
    ∧ (XHdcp1x_TxPoll sampleEnv (sampleTx STATE_AUTHENTICATED 1 4)).1.CurrentState
        ≠ STATE_LINKINTEGRITYCHECK :=
  ⟨by decide, by decide,
    (LinkIntegrityCheck_never_rests sampleEnv []).2.1 (sampleTx STATE_AUTHENTICATED 1 0)
      EVENT_CHECK (by decide),
    (LinkIntegrityCheck_never_rests sampleEnv []).2.2.1 (sampleTx STATE_AUTHENTICATED 1 4)
      (by decide)⟩

/-! ## Transport errors in ExchangeKsvs -/

set_option maxRecDepth 100000 in
/-- C33 fails for the writes: with a port whose writes of AN and AKSV both return the
count `-1`, while the read of BKSV succeeds with a valid BKSV that is not revoked,
`ExchangeKsvs` still chooses Computations and counts no read failure, and an
Authenticate event in Unauthenticated brings the state machine to rest in Computations
with the block request issued to the cipher. -/
theorem ExchangeKsvs_write_failure_ignored :
    (∀ (h : List Call) (Offset : Nat) (Data : List Nat),
      sampleEnvWriteFails.PortWrite h Offset Data = -1)
    ∧ (ExchangeKsvs sampleEnvWriteFails (sampleTx STATE_EXCHANGEKSVS 1 0)
        STATE_EXCHANGEKSVS).2 = STATE_COMPUTATIONS
    ∧ (ExchangeKsvs sampleEnvWriteFails (sampleTx STATE_EXCHANGEKSVS 1 0)
        STATE_EXCHANGEKSVS).1.Stats.ReadFailures = 0
    ∧ (ExchangeKsvs sampleEnvWriteFails (sampleTx STATE_EXCHANGEKSVS 1 0)
        STATE_EXCHANGEKSVS).1.Calls
      = [Call.PortRead 0x00 5, Call.PlatformIsKsvRevoked 0x00000FFFFF, Call.PortIsRepeater,
          Call.CipherDoRequest XHDCP1X_CIPHER_REQUEST_RNG, Call.CipherIsRequestComplete,
          Call.CipherGetMi, Call.CipherGetLocalKsv, Call.CipherSetRemoteKsv 0x00000FFFFF,
          Call.PortWrite 0x18 [0xEF, 0xCD, 0xAB, 0x89, 0x67, 0x45, 0x23, 0x01],
          Call.PortWrite 0x10 [0xFF, 0xFF, 0x0F, 0x00, 0x00]]
    ∧ (DoTheState sampleEnvWriteFails (sampleTx STATE_UNAUTHENTICATED 1 0)
        EVENT_AUTHENTICATE).CurrentState = STATE_COMPUTATIONS
    ∧ (DoTheState sampleEnvWriteFails (sampleTx STATE_UNAUTHENTICATED 1 0)
        EVENT_AUTHENTICATE).Stats.ReadFailures = 0
    ∧ (DoTheState sampleEnvWriteFails (sampleTx STATE_UNAUTHENTICATED 1 0)
        EVENT_AUTHENTICATE).Path
      = [STATE_DETERMINERXCAPABLE, STATE_EXCHANGEKSVS, STATE_COMPUTATIONS] := by
  refine ⟨fun _ _ _ => rfl, ?_, ?_, ?_, ?_, ?_, ?_⟩ <;> decide

/-! ## The test for a repeater -/

theorem Flags_EnableEncryption (env : Env) (s : XHdcp1x_Tx) :
    (EnableEncryption env s).Flags = s.Flags := by
  rw [EnableEncryption_frame]

theorem Calls_EnableEncryption (env : Env) (s : XHdcp1x_Tx) :
    (EnableEncryption env s).Calls
      = s.Calls ++ (if s.EncryptionMap ≠ 0 then
          Call.CipherGetEncryption
            :: (if env.CipherGetEncryption s.Calls % 2 ^ 64 ≠ s.EncryptionMap then
                  [Call.PlatformTimerBusy 5, Call.CipherEnableEncryption s.EncryptionMap]
                else [])
          else []) := by
  unfold EnableEncryption
  dsimp only
  split_ifs <;> simp_all [TMO_5MS]

/-- C35: a Poll event in TestForRepeater asks the port whether the receiver is a
repeater.  If it is, the IsRepeater flag is set, one zero byte is written to the AINFO
register, `EnableEncryption` runs (for an encryption map that is not zero it asks the
cipher for the map it encrypts and, unless that is the encryption map already, requests
encryption of the encryption map), no register of the port is read, and the state
machine moves to WaitForReady and rests there, so all this happens before any
validation of the ksv list.  If it is not, the IsRepeater flag is cleared and the state
machine moves to Authenticated. -/
theorem TestForRepeater_poll (env : Env) (s : XHdcp1x_Tx)
    (hs : s.CurrentState = STATE_TESTFORREPEATER) :
    (env.PortIsRepeater s.Calls = true →
      RunState env s EVENT_POLL
        = (EnableEncryption env
            (issue (setFlags (issue s Call.PortIsRepeater)
                (setBits16 s.Flags FLAG_IS_REPEATER))
              (Call.PortWrite env.XHDCP1X_PORT_OFFSET_AINFO [0])),
            STATE_WAITFORREADY)
      ∧ (RunState env s EVENT_POLL).1.Flags.testBit 1 = true
      ∧ (RunState env s EVENT_POLL).1.Calls
          = s.Calls ++ [Call.PortIsRepeater, Call.PortWrite env.XHDCP1X_PORT_OFFSET_AINFO [0]]
            ++ (if s.EncryptionMap ≠ 0 then
                Call.CipherGetEncryption
                  :: (if env.CipherGetEncryption
                          (s.Calls ++ [Call.PortIsRepeater,
                            Call.PortWrite env.XHDCP1X_PORT_OFFSET_AINFO [0]]) % 2 ^ 64
                        ≠ s.EncryptionMap then
                        [Call.PlatformTimerBusy 5, Call.CipherEnableEncryption s.EncryptionMap]
                      else [])
                else [])
      ∧ readCount (RunState env s EVENT_POLL).1.Calls = readCount s.Calls
      ∧ (DoTheState env s EVENT_POLL).CurrentState = STATE_WAITFORREADY
      ∧ (DoTheState env s EVENT_POLL).Path = s.Path ++ [STATE_WAITFORREADY])
    ∧ (env.PortIsRepeater s.Calls = false →
        RunState env s EVENT_POLL
          = (setFlags (issue s Call.PortIsRepeater) (clearBits16 s.Flags FLAG_IS_REPEATER),
              STATE_AUTHENTICATED)
        ∧ (RunState env s EVENT_POLL).1.Flags.testBit 1 = false
        ∧ (DoTheState env s EVENT_POLL).CurrentState = STATE_AUTHENTICATED
        ∧ (DoTheState env s EVENT_POLL).Path = s.Path ++ [STATE_AUTHENTICATED]) := by
  constructor
  · intro hr
    have e : RunState env s EVENT_POLL
        = (EnableEncryption env
            (issue (setFlags (issue s Call.PortIsRepeater)
                (setBits16 s.Flags FLAG_IS_REPEATER))
              (Call.PortWrite env.XHDCP1X_PORT_OFFSET_AINFO [0])),
            STATE_WAITFORREADY) := by
      simp [RunState, hs, RunTestForRepeaterState, TestForRepeater, hr, XHDCP1X_PORT_SIZE_AINFO]
    have hd := DoTheState_of_one env s _ EVENT_POLL STATE_WAITFORREADY e
      (by rw [hs]; decide) (by simp [EnterState])
    refine ⟨e, ?_, ?_, ?_, ?_, ?_⟩
    · rw [e]
      simp only [Flags_EnableEncryption, issue_Flags, setFlags_Flags]
      rw [show FLAG_IS_REPEATER = 1 <<< 1 from rfl, testBit_setBits16]
      simp
    · rw [e]
      simp only [Calls_EnableEncryption, issue_Calls, setFlags_Calls, issue_EncryptionMap,
        setFlags_EncryptionMap, List.append_assoc, List.singleton_append]
    · rw [e]
      simp only [Calls_EnableEncryption, issue_Calls, setFlags_Calls, issue_EncryptionMap,
        setFlags_EncryptionMap]
      simp only [readCount_append]
      split_ifs <;> simp [readCount]
    · rw [hd]; simp
    · rw [hd]
      simp [EnterState, hs, ExitState, Path_of_core (core_EnableEncryption env _)]
  · intro hr
    have e : RunState env s EVENT_POLL
        = (setFlags (issue s Call.PortIsRepeater) (clearBits16 s.Flags FLAG_IS_REPEATER),
            STATE_AUTHENTICATED) := by
      simp [RunState, hs, RunTestForRepeaterState, TestForRepeater, hr]
    have hd := DoTheState_of_one env s _ EVENT_POLL STATE_AUTHENTICATED e
      (by rw [hs]; decide) (by simp only [EnterState]; split_ifs <;> rfl)
    refine ⟨e, ?_, ?_, ?_⟩
    · rw [e]
      simp only [setFlags_Flags]
      rw [show FLAG_IS_REPEATER = 1 <<< 1 from rfl, testBit_clearBits16]
      simp
    · rw [hd]; simp
    · rw [hd, EnterState_Path]
      simp [hs, ExitState]

set_option maxRecDepth 100000 in
theorem TestForRepeater_poll_witness :
    (sampleTxMap STATE_TESTFORREPEATER 1).CurrentState = STATE_TESTFORREPEATER
    ∧ (sampleEnvRepeater 1).PortIsRepeater (sampleTxMap STATE_TESTFORREPEATER 1).Calls = true
    ∧ (RunState (sampleEnvRepeater 1) (sampleTxMap STATE_TESTFORREPEATER 1) EVENT_POLL).1.Calls
        = [Call.PortIsRepeater, Call.PortWrite 0x15 [0], Call.CipherGetEncryption,
            Call.PlatformTimerBusy 5, Call.CipherEnableEncryption 1]
    ∧ (DoTheState (sampleEnvRepeater 1) (sampleTxMap STATE_TESTFORREPEATER 1)
        EVENT_POLL).CurrentState = STATE_WAITFORREADY
    ∧ sampleEnv.PortIsRepeater (sampleTxMap STATE_TESTFORREPEATER 1).Calls = false
    ∧ (DoTheState sampleEnv (sampleTxMap STATE_TESTFORREPEATER 1) EVENT_POLL).CurrentState
        = STATE_AUTHENTICATED :=
  ⟨rfl, rfl,
    ((TestForRepeater_poll (sampleEnvRepeater 1) (sampleTxMap STATE_TESTFORREPEATER 1) rfl).1
      rfl).2.2.1.trans (by decide),
    ((TestForRepeater_poll (sampleEnvRepeater 1) (sampleTxMap STATE_TESTFORREPEATER 1) rfl).1
      rfl).2.2.2.2.1,
    rfl,
    ((TestForRepeater_poll sampleEnv (sampleTxMap STATE_TESTFORREPEATER 1) rfl).2 rfl).2.2.1⟩

/-! ## Frame lemmas for the state helper -/

@[simp] theorem StateHelper_SetCheckLinkState (env : Env) (s : XHdcp1x_Tx) (b : Bool) :
    (SetCheckLinkState env s b).StateHelper = s.StateHelper := by
  unfold SetCheckLinkState
  split_ifs <;> simp

@[simp] theorem StateHelper_EnableEncryption (env : Env) (s : XHdcp1x_Tx) :
    (EnableEncryption env s).StateHelper = s.StateHelper := by
  unfold EnableEncryption
  dsimp only
  split_ifs <;> simp

@[simp] theorem StateHelper_DisableEncryption (env : Env) (s : XHdcp1x_Tx) :
    (DisableEncryption env s).StateHelper = s.StateHelper := by
  unfold DisableEncryption
  dsimp only
  split_ifs <;> simp

@[simp] theorem StateHelper_CheckRxCapable (env : Env) (s : XHdcp1x_Tx) (nx : tState) :
    (CheckRxCapable env s nx).1.StateHelper = s.StateHelper := by
  unfold CheckRxCapable
  dsimp only
  split_ifs <;> simp

theorem StateHelper_AwaitStep_iterate (env : Env) (n : Nat) : ∀ p : XHdcp1x_Tx × Bool,
    ((AwaitStep env)^[n] p).1.StateHelper = p.1.StateHelper := by
  induction n with
  | zero => intro p; rfl
  | succ n ih =>
    intro p
    rw [Function.iterate_succ_apply, ih]
    unfold AwaitStep
    split_ifs <;> simp

@[simp] theorem StateHelper_AwaitRequestComplete (env : Env) (s : XHdcp1x_Tx) :
    (AwaitRequestComplete env s).1.StateHelper = s.StateHelper :=
  StateHelper_AwaitStep_iterate env _ (s, false)

@[simp] theorem StateHelper_GenerateAn (env : Env) (s : XHdcp1x_Tx) :
    (GenerateAn env s).1.StateHelper = s.StateHelper := by
  unfold GenerateAn
  dsimp only
  split_ifs <;> simp

@[simp] theorem StateHelper_StartComputations (env : Env) (s : XHdcp1x_Tx) (nx : tState) :
    (StartComputations env s nx).1.StateHelper = s.StateHelper := by
  unfold StartComputations
  simp

@[simp] theorem StateHelper_PollForComputations (env : Env) (s : XHdcp1x_Tx) (nx : tState) :
    (PollForComputations env s nx).1.StateHelper = s.StateHelper := by
  unfold PollForComputations
  dsimp only
  split_ifs <;> simp

@[simp] theorem StateHelper_ValidateRxBody (env : Env) (n : Nat) (p : XHdcp1x_Tx × List Nat × tState) :
    (ValidateRxBody env n p).1.StateHelper = p.1.StateHelper := by
  unfold ValidateRxBody
  dsimp only
  split_ifs <;> simp

theorem StateHelper_ValidateRxLoop (env : Env) (n : Nat) : ∀ p : XHdcp1x_Tx × List Nat × tState,
    (ValidateRxLoop env n p).1.StateHelper = p.1.StateHelper := by
  induction n with
  | zero => intro p; simp [ValidateRxLoop]
  | succ n ih =>
    intro p
    unfold ValidateRxLoop
    dsimp only
    split_ifs
    · rw [ih]; simp
    · simp

@[simp] theorem StateHelper_ValidateRx (env : Env) (s : XHdcp1x_Tx) (nx : tState) :
    (ValidateRx env s nx).1.StateHelper = s.StateHelper := by
  unfold ValidateRx
  exact StateHelper_ValidateRxLoop env 3 _

@[simp] theorem StateHelper_CheckLinkIntegrityBody (env : Env) (p : XHdcp1x_Tx × List Nat × tState) :
    (CheckLinkIntegrityBody env p).1.StateHelper = p.1.StateHelper := by
  unfold CheckLinkIntegrityBody
  dsimp only
  split_ifs <;> simp

theorem StateHelper_CheckLinkIntegrityLoop (env : Env) (n : Nat) :
    ∀ p : XHdcp1x_Tx × List Nat × tState,
    (CheckLinkIntegrityLoop env n p).1.StateHelper = p.1.StateHelper := by
  induction n with
  | zero => intro p; simp [CheckLinkIntegrityLoop]
  | succ n ih =>
    intro p
    unfold CheckLinkIntegrityLoop
    dsimp only
    split_ifs
    · rw [ih]; simp
    · simp

@[simp] theorem StateHelper_CheckLinkIntegrity (env : Env) (s : XHdcp1x_Tx) (nx : tState) :
    (CheckLinkIntegrity env s nx).1.StateHelper = s.StateHelper := by
  unfold CheckLinkIntegrity
  dsimp only
  split_ifs <;> simp [StateHelper_CheckLinkIntegrityLoop]

@[simp] theorem StateHelper_TestForRepeater (env : Env) (s : XHdcp1x_Tx) (nx : tState) :
    (TestForRepeater env s nx).1.StateHelper = s.StateHelper := by
  unfold TestForRepeater
  dsimp only
  split_ifs <;> simp

@[simp] theorem StateHelper_ReadKsvChunk (env : Env) (p : KsvListState) :
    (ReadKsvChunk env p).Tx.StateHelper = p.Tx.StateHelper := by
  unfold ReadKsvChunk
  dsimp only
  split_ifs <;> simp

theorem StateHelper_ReadKsvChunks (env : Env) (n : Nat) : ∀ p : KsvListState,
    (ReadKsvChunks env n p).Tx.StateHelper = p.Tx.StateHelper := by
  induction n with
  | zero => intro p; simp [ReadKsvChunks]
  | succ n ih =>
    intro p
    unfold ReadKsvChunks
    dsimp only
    split_ifs
    · rw [ih]; simp
    · simp

@[simp] theorem StateHelper_CheckShaChunk (env : Env) (d : List Nat) (p : VCheckState) :
    (CheckShaChunk env d p).Tx.StateHelper = p.Tx.StateHelper := by
  unfold CheckShaChunk
  dsimp only
  split_ifs <;> simp

theorem StateHelper_CheckShaChunks (env : Env) (d : List Nat) (n : Nat) : ∀ p : VCheckState,
    (CheckShaChunks env d n p).Tx.StateHelper = p.Tx.StateHelper := by
  induction n with
  | zero => intro p; simp [CheckShaChunks]
  | succ n ih =>
    intro p
    unfold CheckShaChunks
    dsimp only
    split_ifs
    · rw [ih]; simp
    · simp

@[simp] theorem StateHelper_ValidateKsvList (env : Env) (s : XHdcp1x_Tx) (b : Nat) :
    (ValidateKsvList env s b).1.StateHelper = s.StateHelper := by
  unfold ValidateKsvList
  dsimp only
  split_ifs <;> simp [StateHelper_ReadKsvChunks, StateHelper_CheckShaChunks]

theorem StateHelper_ReadKsvListLoop (env : Env) (b : Nat) (n : Nat) : ∀ s : XHdcp1x_Tx,
    (ReadKsvListLoop env b n s).1.StateHelper = s.StateHelper := by
  induction n with
  | zero => intro s; simp [ReadKsvListLoop]
  | succ n ih =>
    intro s
    unfold ReadKsvListLoop
    dsimp only
    split_ifs
    · rw [ih]; simp
    · simp

@[simp] theorem StateHelper_ReadKsvList (env : Env) (s : XHdcp1x_Tx) (nx : tState) :
    (ReadKsvList env s nx).1.StateHelper = s.StateHelper := by
  unfold ReadKsvList
  dsimp only
  split_ifs <;> simp [StateHelper_ReadKsvListLoop]
/-! ## Frame lemmas for the counter of failed authentications -/

@[simp] theorem AuthFailed_SetCheckLinkState (env : Env) (s : XHdcp1x_Tx) (b : Bool) :
    (SetCheckLinkState env s b).Stats.AuthFailed = s.Stats.AuthFailed := by
  unfold SetCheckLinkState
  split_ifs <;> simp

@[simp] theorem AuthFailed_EnableEncryption (env : Env) (s : XHdcp1x_Tx) :
    (EnableEncryption env s).Stats.AuthFailed = s.Stats.AuthFailed := by
  unfold EnableEncryption
  dsimp only
  split_ifs <;> simp

@[simp] theorem AuthFailed_DisableEncryption (env : Env) (s : XHdcp1x_Tx) :
    (DisableEncryption env s).Stats.AuthFailed = s.Stats.AuthFailed := by
  unfold DisableEncryption
  dsimp only
  split_ifs <;> simp

@[simp] theorem AuthFailed_CheckRxCapable (env : Env) (s : XHdcp1x_Tx) (nx : tState) :
    (CheckRxCapable env s nx).1.Stats.AuthFailed = s.Stats.AuthFailed := by
  unfold CheckRxCapable
  dsimp only
  split_ifs <;> simp

theorem AuthFailed_AwaitStep_iterate (env : Env) (n : Nat) : ∀ p : XHdcp1x_Tx × Bool,
    ((AwaitStep env)^[n] p).1.Stats.AuthFailed = p.1.Stats.AuthFailed := by
  induction n with
  | zero => intro p; rfl
  | succ n ih =>
    intro p
    rw [Function.iterate_succ_apply, ih]
    unfold AwaitStep
    split_ifs <;> simp

@[simp] theorem AuthFailed_AwaitRequestComplete (env : Env) (s : XHdcp1x_Tx) :
    (AwaitRequestComplete env s).1.Stats.AuthFailed = s.Stats.AuthFailed :=
  AuthFailed_AwaitStep_iterate env _ (s, false)

@[simp] theorem AuthFailed_GenerateAn (env : Env) (s : XHdcp1x_Tx) :
    (GenerateAn env s).1.Stats.AuthFailed = s.Stats.AuthFailed := by
  unfold GenerateAn
  dsimp only
  split_ifs <;> simp

@[simp] theorem AuthFailed_ExchangeKsvs (env : Env) (s : XHdcp1x_Tx) (nx : tState) :
    (ExchangeKsvs env s nx).1.Stats.AuthFailed = s.Stats.AuthFailed := by
  unfold ExchangeKsvs
  dsimp only
  split_ifs <;> simp

@[simp] theorem AuthFailed_StartComputations (env : Env) (s : XHdcp1x_Tx) (nx : tState) :
    (StartComputations env s nx).1.Stats.AuthFailed = s.Stats.AuthFailed := by
  unfold StartComputations
  simp

@[simp] theorem AuthFailed_PollForComputations (env : Env) (s : XHdcp1x_Tx) (nx : tState) :
    (PollForComputations env s nx).1.Stats.AuthFailed = s.Stats.AuthFailed := by
  unfold PollForComputations
  dsimp only
  split_ifs <;> simp

@[simp] theorem AuthFailed_CheckLinkIntegrityBody (env : Env) (p : XHdcp1x_Tx × List Nat × tState) :
    (CheckLinkIntegrityBody env p).1.Stats.AuthFailed = p.1.Stats.AuthFailed := by
  unfold CheckLinkIntegrityBody
  dsimp only
  split_ifs <;> simp

theorem AuthFailed_CheckLinkIntegrityLoop (env : Env) (n : Nat) :
    ∀ p : XHdcp1x_Tx × List Nat × tState,
    (CheckLinkIntegrityLoop env n p).1.Stats.AuthFailed = p.1.Stats.AuthFailed := by
  induction n with
  | zero => intro p; simp [CheckLinkIntegrityLoop]
  | succ n ih =>
    intro p
    unfold CheckLinkIntegrityLoop
    dsimp only
    split_ifs
    · rw [ih]; simp
    · simp

@[simp] theorem AuthFailed_CheckLinkIntegrity (env : Env) (s : XHdcp1x_Tx) (nx : tState) :
    (CheckLinkIntegrity env s nx).1.Stats.AuthFailed = s.Stats.AuthFailed := by
  unfold CheckLinkIntegrity
  dsimp only
  split_ifs <;> simp [AuthFailed_CheckLinkIntegrityLoop]

@[simp] theorem AuthFailed_TestForRepeater (env : Env) (s : XHdcp1x_Tx) (nx : tState) :
    (TestForRepeater env s nx).1.Stats.AuthFailed = s.Stats.AuthFailed := by
  unfold TestForRepeater
  dsimp only
  split_ifs <;> simp

@[simp] theorem AuthFailed_PollForWaitForReady (env : Env) (s : XHdcp1x_Tx) (nx : tState) :
    (PollForWaitForReady env s nx).1.Stats.AuthFailed = s.Stats.AuthFailed := by
  unfold PollForWaitForReady
  dsimp only
  split_ifs <;> simp

@[simp] theorem AuthFailed_ReadKsvChunk (env : Env) (p : KsvListState) :
    (ReadKsvChunk env p).Tx.Stats.AuthFailed = p.Tx.Stats.AuthFailed := by
  unfold ReadKsvChunk
  dsimp only
  split_ifs <;> simp

theorem AuthFailed_ReadKsvChunks (env : Env) (n : Nat) : ∀ p : KsvListState,
    (ReadKsvChunks env n p).Tx.Stats.AuthFailed = p.Tx.Stats.AuthFailed := by
  induction n with
  | zero => intro p; simp [ReadKsvChunks]
  | succ n ih =>
    intro p
    unfold ReadKsvChunks
    dsimp only
    split_ifs
    · rw [ih]; simp
    · simp

@[simp] theorem AuthFailed_CheckShaChunk (env : Env) (d : List Nat) (p : VCheckState) :
    (CheckShaChunk env d p).Tx.Stats.AuthFailed = p.Tx.Stats.AuthFailed := by
  unfold CheckShaChunk
  dsimp only
  split_ifs <;> simp

theorem AuthFailed_CheckShaChunks (env : Env) (d : List Nat) (n : Nat) : ∀ p : VCheckState,
    (CheckShaChunks env d n p).Tx.Stats.AuthFailed = p.Tx.Stats.AuthFailed := by
  induction n with
  | zero => intro p; simp [CheckShaChunks]
  | succ n ih =>
    intro p
    unfold CheckShaChunks
    dsimp only
    split_ifs
    · rw [ih]; simp
    · simp

@[simp] theorem AuthFailed_ValidateKsvList (env : Env) (s : XHdcp1x_Tx) (b : Nat) :
    (ValidateKsvList env s b).1.Stats.AuthFailed = s.Stats.AuthFailed := by
  unfold ValidateKsvList
  dsimp only
  split_ifs <;> simp [AuthFailed_ReadKsvChunks, AuthFailed_CheckShaChunks]

theorem AuthFailed_ReadKsvListLoop (env : Env) (b : Nat) (n : Nat) : ∀ s : XHdcp1x_Tx,
    (ReadKsvListLoop env b n s).1.Stats.AuthFailed = s.Stats.AuthFailed := by
  induction n with
  | zero => intro s; simp [ReadKsvListLoop]
  | succ n ih =>
    intro s
    unfold ReadKsvListLoop
    dsimp only
    split_ifs
    · rw [ih]; simp
    · simp

@[simp] theorem AuthFailed_ReadKsvList (env : Env) (s : XHdcp1x_Tx) (nx : tState) :
    (ReadKsvList env s nx).1.Stats.AuthFailed = s.Stats.AuthFailed := by
  unfold ReadKsvList
  dsimp only
  split_ifs <;> simp [AuthFailed_ReadKsvListLoop]

/-! ## Reading the ksv list -/

theorem KsvAttemptAt_succ (env : Env) (RepeaterInfo : Nat) (s : XHdcp1x_Tx) (k : Nat) :
    KsvAttemptAt env RepeaterInfo s (k + 1)
      = (ValidateKsvList env (KsvAttemptAt env RepeaterInfo s k) RepeaterInfo).1 := by
  unfold KsvAttemptAt
  rw [Function.iterate_succ_apply']

/-- The attempts of `ReadKsvList`, unrolled: the first attempt that validates ends the
loop, and the third attempt ends it in any case. -/
theorem ReadKsvListLoop_unroll (env : Env) (RepeaterInfo : Nat) (s : XHdcp1x_Tx) :
    ReadKsvListLoop env RepeaterInfo 3 s
      = if KsvAttemptValid env RepeaterInfo s 0 = true then
          (KsvAttemptAt env RepeaterInfo s 1, true)
        else if KsvAttemptValid env RepeaterInfo s 1 = true then
          (KsvAttemptAt env RepeaterInfo s 2, true)
        else (KsvAttemptAt env RepeaterInfo s 3, KsvAttemptValid env RepeaterInfo s 2) := by
  have e0 : KsvAttemptAt env RepeaterInfo s 0 = s := rfl
  have e1 := KsvAttemptAt_succ env RepeaterInfo s 0
  have e2 := KsvAttemptAt_succ env RepeaterInfo s 1
  have e3 := KsvAttemptAt_succ env RepeaterInfo s 2
  rw [e0] at e1
  simp only [KsvAttemptValid, e0]
  rw [e3, e2, e1]
  simp only [ReadKsvListLoop]
  generalize ValidateKsvList env s RepeaterInfo = q1
  obtain ⟨t1, v1⟩ := q1
  cases v1
  · simp only [Bool.false_eq_true, not_false_eq_true, and_true, if_false]
    rw [if_pos (by decide)]
    generalize ValidateKsvList env t1 RepeaterInfo = q2
    obtain ⟨t2, v2⟩ := q2
    cases v2
    · simp
    · simp
  · simp

/-- C32: the entry action of ReadKsvList validates the ksv list, for the repeater
information in the low 12 bits of the state helper, at most 3 times, each attempt on
the instance the one before has left: the first attempt that validates ends the loop.
The next state is Authenticated exactly when one of the attempts made validated, and
Unauthenticated otherwise.  The transition out of ReadKsvList clears the state helper,
and it is zero when the next state has been entered. -/
theorem ReadKsvList_attempts (env : Env) (s : XHdcp1x_Tx) (nx : tState) :
    EnterState env s STATE_READKSVLIST nx = ReadKsvList env s nx
    ∧ ReadKsvList env s nx
      = (if KsvAttemptValid env ((s.StateHelper &&& 0x0FFF) % 2 ^ 16) s 0 = true then
          (KsvAttemptAt env ((s.StateHelper &&& 0x0FFF) % 2 ^ 16) s 1, STATE_AUTHENTICATED)
        else if KsvAttemptValid env ((s.StateHelper &&& 0x0FFF) % 2 ^ 16) s 1 = true then
          (KsvAttemptAt env ((s.StateHelper &&& 0x0FFF) % 2 ^ 16) s 2, STATE_AUTHENTICATED)
        else if KsvAttemptValid env ((s.StateHelper &&& 0x0FFF) % 2 ^ 16) s 2 = true then
          (KsvAttemptAt env ((s.StateHelper &&& 0x0FFF) % 2 ^ 16) s 3, STATE_AUTHENTICATED)
        else
          (KsvAttemptAt env ((s.StateHelper &&& 0x0FFF) % 2 ^ 16) s 3, STATE_UNAUTHENTICATED))
    ∧ ((ReadKsvList env s nx).2 = STATE_AUTHENTICATED
        ↔ ∃ k : Nat, k < 3 ∧ KsvAttemptValid env ((s.StateHelper &&& 0x0FFF) % 2 ^ 16) s k = true)
    ∧ ((ReadKsvList env s nx).2 = STATE_UNAUTHENTICATED
        ↔ ∀ k : Nat, k < 3 →
            KsvAttemptValid env ((s.StateHelper &&& 0x0FFF) % 2 ^ 16) s k = false)
    ∧ (∀ p : XHdcp1x_Tx × tState, p.1.CurrentState = STATE_READKSVLIST →
        p.2 ≠ STATE_READKSVLIST →
        TransitionStep env p = EnterState env (swapState (setStateHelper p.1 0) p.2) p.2 p.2
        ∧ (setStateHelper p.1 0).StateHelper = 0
        ∧ (p.2 = STATE_AUTHENTICATED ∨ p.2 = STATE_UNAUTHENTICATED →
            (TransitionStep env p).1.CurrentState = p.2
            ∧ (TransitionStep env p).2 = p.2
            ∧ (TransitionStep env p).1.StateHelper = 0)) := by
  have hu : ReadKsvList env s nx
      = (if KsvAttemptValid env ((s.StateHelper &&& 0x0FFF) % 2 ^ 16) s 0 = true then
          (KsvAttemptAt env ((s.StateHelper &&& 0x0FFF) % 2 ^ 16) s 1, STATE_AUTHENTICATED)
        else if KsvAttemptValid env ((s.StateHelper &&& 0x0FFF) % 2 ^ 16) s 1 = true then
          (KsvAttemptAt env ((s.StateHelper &&& 0x0FFF) % 2 ^ 16) s 2, STATE_AUTHENTICATED)
        else if KsvAttemptValid env ((s.StateHelper &&& 0x0FFF) % 2 ^ 16) s 2 = true then
          (KsvAttemptAt env ((s.StateHelper &&& 0x0FFF) % 2 ^ 16) s 3, STATE_AUTHENTICATED)
        else
          (KsvAttemptAt env ((s.StateHelper &&& 0x0FFF) % 2 ^ 16) s 3,
            STATE_UNAUTHENTICATED)) := by
    unfold ReadKsvList
    dsimp only
    rw [ReadKsvListLoop_unroll]
    split_ifs <;> simp_all
  have h3 : ∀ P : Nat → Prop, (∀ k : Nat, k < 3 → P k) ↔ (P 0 ∧ P 1 ∧ P 2) := by
    intro P
    constructor
    · intro h
      exact ⟨h 0 (by omega), h 1 (by omega), h 2 (by omega)⟩
    · rintro ⟨a, b, c⟩ k hk
      have : k = 0 ∨ k = 1 ∨ k = 2 := by omega
      rcases this with h | h | h <;> subst h <;> assumption
  have e3 : ∀ P : Nat → Prop, (∃ k : Nat, k < 3 ∧ P k) ↔ (P 0 ∨ P 1 ∨ P 2) := by
    intro P
    constructor
    · rintro ⟨k, hk, hp⟩
      have : k = 0 ∨ k = 1 ∨ k = 2 := by omega
      rcases this with h | h | h <;> subst h <;> simp [hp]
    · rintro (h | h | h)
      · exact ⟨0, by omega, h⟩
      · exact ⟨1, by omega, h⟩
      · exact ⟨2, by omega, h⟩
  refine ⟨rfl, hu, ?_, ?_, ?_⟩
  · rw [hu, e3]
    split_ifs <;> simp_all
  · rw [hu, h3]
    split_ifs <;> simp_all
  · intro p hs hne
    have ho : ¬ LoopClosed p := by
      unfold LoopClosed
      rw [hs]
      exact fun h => hne h.symm
    have e : TransitionStep env p
        = EnterState env (swapState (setStateHelper p.1 0) p.2) p.2 p.2 := by
      rw [TransitionStep_open env p ho, hs]
      rfl
    refine ⟨e, rfl, ?_⟩
    intro h2
    rw [e]
    rcases h2 with h2 | h2 <;> rw [h2]
    · refine ⟨by simp, ?_, ?_⟩
      · simp only [EnterState]
        split_ifs <;> rfl
      · simp only [EnterState]
        split_ifs <;> simp
    · refine ⟨by simp, by simp [EnterState], ?_⟩
      simp [EnterState]

set_option maxRecDepth 100000 in
theorem ReadKsvList_attempts_witness :
    (sampleTxHelper STATE_READKSVLIST 1, STATE_UNAUTHENTICATED).1.CurrentState
        = STATE_READKSVLIST
    ∧ (sampleTxHelper STATE_READKSVLIST 1, STATE_UNAUTHENTICATED).2 ≠ STATE_READKSVLIST
    ∧ (TransitionStep sampleEnv
        (sampleTxHelper STATE_READKSVLIST 1, STATE_UNAUTHENTICATED)).1.StateHelper = 0
    ∧ (ReadKsvList (sampleEnvVh true) (sampleTxHelper STATE_WAITFORREADY 1)
        STATE_READKSVLIST).2 = STATE_AUTHENTICATED
    ∧ readCount (ReadKsvList (sampleEnvVh true) (sampleTxHelper STATE_WAITFORREADY 1)
        STATE_READKSVLIST).1.Calls = 6
    ∧ (ReadKsvList (sampleEnvVh false) (sampleTxHelper STATE_WAITFORREADY 1)
        STATE_READKSVLIST).2 = STATE_UNAUTHENTICATED
    ∧ readCount (ReadKsvList (sampleEnvVh false) (sampleTxHelper STATE_WAITFORREADY 1)
        STATE_READKSVLIST).1.Calls = 18 :=
  ⟨rfl, by decide,
    ((ReadKsvList_attempts sampleEnv (sampleTxHelper STATE_READKSVLIST 1)
        STATE_READKSVLIST).2.2.2.2
      (sampleTxHelper STATE_READKSVLIST 1, STATE_UNAUTHENTICATED) rfl (by decide)).2.2
      (Or.inr rfl) |>.2.2,
    by decide, by decide, by decide, by decide⟩

/-! ## An from ExchangeKsvs to Computations -/

theorem GenerateAn_bounds (env : Env) (s : XHdcp1x_Tx) :
    (GenerateAn env s).2 < 2 ^ 64 ∧ (GenerateAn env s).2 ≠ 0 := by
  unfold GenerateAn
  dsimp only
  split_ifs with h1 h2 h3
  · exact ⟨by norm_num, by norm_num⟩
  · exact ⟨Nat.mod_lt _ (by norm_num), h2⟩
  · exact ⟨by norm_num, by norm_num⟩
  · exact absurd rfl h3

theorem UINT_TO_BUF_take (Buf : List Nat) (v n : Nat) :
    (XHDCP1X_PORT_UINT_TO_BUF Buf v (n * 8)).take n = LittleEndianBytes v n := by
  unfold XHDCP1X_PORT_UINT_TO_BUF LittleEndianBytes
  rw [Nat.mul_div_cancel n (by norm_num : 0 < 8)]
  rw [List.take_append_of_le_length (by simp)]
  rw [List.take_of_length_le (by simp)]

/-- The successful run of `ExchangeKsvs`. -/
theorem ExchangeKsvs_success (env : Env) (s : XHdcp1x_Tx) (nx : tState) (Ksv : Nat)
    (hread : 0 < (env.PortRead s.Calls env.XHDCP1X_PORT_OFFSET_BKSV 5).1)
    (hK : XHDCP1X_PORT_BUF_TO_UINT
        (PortReadInto (List.replicate 8 0)
          (env.PortRead s.Calls env.XHDCP1X_PORT_OFFSET_BKSV 5).2 5)
        (XHDCP1X_PORT_SIZE_BKSV * 8) = Ksv)
    (hval : IsKsvValid Ksv = true)
    (hrev : env.PlatformIsKsvRevoked
        (s.Calls ++ [Call.PortRead env.XHDCP1X_PORT_OFFSET_BKSV 5]) Ksv = false) :
    ExchangeKsvs env s nx
      = (issue (issue (issue (issue
            (setStateHelper (GenerateAn env (ExchangeKsvsBeforeAn env s Ksv)).1
              (GenerateAn env (ExchangeKsvsBeforeAn env s Ksv)).2)
            Call.CipherGetLocalKsv)
            (Call.CipherSetRemoteKsv Ksv))
            (Call.PortWrite env.XHDCP1X_PORT_OFFSET_AN
              (LittleEndianBytes (GenerateAn env (ExchangeKsvsBeforeAn env s Ksv)).2 8)))
            (Call.PortWrite env.XHDCP1X_PORT_OFFSET_AKSV
              (LittleEndianBytes
                (env.CipherGetLocalKsv
                  (GenerateAn env (ExchangeKsvsBeforeAn env s Ksv)).1.Calls % 2 ^ 64) 5)),
          STATE_COMPUTATIONS) := by
  have h8 : XHDCP1X_PORT_SIZE_AN * 8 = 8 * 8 := rfl
  have h5 : XHDCP1X_PORT_SIZE_AKSV * 8 = 5 * 8 := rfl
  unfold ExchangeKsvs
  dsimp only
  rw [if_pos (by omega), hK]
  simp only [hval, not_true_eq_false, if_false, issue_Calls, hrev, Bool.false_eq_true]
  rw [h8, h5, show XHDCP1X_PORT_SIZE_AN = 8 from rfl, show XHDCP1X_PORT_SIZE_AKSV = 5 from rfl,
    UINT_TO_BUF_take, UINT_TO_BUF_take]
  simp only [setStateHelper_Calls]
  rfl

theorem StartComputations_eq (env : Env) (s : XHdcp1x_Tx) (nx : tState) :
    StartComputations env s nx
      = (issue
          (issue s (Call.CipherSetB (s.StateHelper &&& 0x0FFFFFFF)
            ((s.StateHelper >>> 28) &&& 0x0FFFFFFF)
            (((s.StateHelper >>> 56) &&& 0xFF) ||| ((s.Flags.testBit 1).toNat <<< 8))))
          (Call.CipherDoRequest XHDCP1X_CIPHER_REQUEST_BLOCK), nx) := by
  have hsh : s.StateHelper >>> 28 >>> 28 = s.StateHelper >>> 56 := by
    rw [← Nat.shiftRight_add]
  simp only [StartComputations, setB_X, setB_Z, hsh, FLAG_IS_REPEATER]
  by_cases hr : s.Flags.testBit 1 = true
  · have h2 : s.Flags &&& (1 <<< 1) ≠ 0 := by
      intro h
      have := (and_two_eq_zero_iff s.Flags).1 h
      simp [hr] at this
    simp only [h2, ne_eq, not_false_eq_true, if_true, setB_Z_repeater, hr, Bool.toNat_true]
  · have hr2 : s.Flags.testBit 1 = false := by simpa using hr
    have h2 : s.Flags &&& (1 <<< 1) = 0 := (and_two_eq_zero_iff s.Flags).2 hr2
    simp only [h2, ne_eq, not_true_eq_false, if_false, hr2, Bool.toNat_false,
      Nat.zero_shiftLeft, Nat.or_zero]

theorem LittleEndianBytes_decode (v : Nat) (hv : v < 2 ^ 64) :
    XHDCP1X_PORT_BUF_TO_UINT (LittleEndianBytes v 8) 64 = v := by
  have h : List.range (64 / 8) = [0, 1, 2, 3, 4, 5, 6, 7] := by decide
  have h2 : List.range 8 = [0, 1, 2, 3, 4, 5, 6, 7] := by decide
  simp only [XHDCP1X_PORT_BUF_TO_UINT, LittleEndianBytes, h, h2, List.map_cons, List.map_nil,
    List.sum_cons, List.sum_nil, List.getD_cons_zero, List.getD_cons_succ, Nat.mod_mod]
  norm_num
  omega

/-- C34: when `ExchangeKsvs`, run by the entry action of ExchangeKsvs, reads a valid
BKSV that is not revoked, it generates An, stores it in the state helper, loads the
cipher with the BKSV read, and writes to the AN register the 8 bytes of the
little-endian encoding of that An (byte 0 is the least significant byte, so decoding
the bytes gives An back) and to the AKSV register the 5 bytes of the little-endian
encoding of the local KSV of the cipher; the next state is Computations, and the
transition to Computations, made in the same event step, passes to
`XHdcp1x_CipherSetB` the X, Y and Z split off the same An. -/
theorem An_from_ExchangeKsvs (env : Env) (s : XHdcp1x_Tx) (nx : tState) (Ksv : Nat)
    (hs : s.CurrentState = STATE_EXCHANGEKSVS)
    (hread : 0 < (env.PortRead s.Calls env.XHDCP1X_PORT_OFFSET_BKSV 5).1)
    (hK : XHDCP1X_PORT_BUF_TO_UINT
        (PortReadInto (List.replicate 8 0)
          (env.PortRead s.Calls env.XHDCP1X_PORT_OFFSET_BKSV 5).2 5)
        (XHDCP1X_PORT_SIZE_BKSV * 8) = Ksv)
    (hval : IsKsvValid Ksv = true)
    (hrev : env.PlatformIsKsvRevoked
        (s.Calls ++ [Call.PortRead env.XHDCP1X_PORT_OFFSET_BKSV 5]) Ksv = false) :
    (EnterState env s STATE_EXCHANGEKSVS nx).2 = STATE_COMPUTATIONS
    ∧ (EnterState env s STATE_EXCHANGEKSVS nx).1.StateHelper
        = (GenerateAn env (ExchangeKsvsBeforeAn env (setStateHelper s 0) Ksv)).2
    ∧ (GenerateAn env (ExchangeKsvsBeforeAn env (setStateHelper s 0) Ksv)).2 < 2 ^ 64
    ∧ (EnterState env s STATE_EXCHANGEKSVS nx).1.Calls
        = (GenerateAn env (ExchangeKsvsBeforeAn env (setStateHelper s 0) Ksv)).1.Calls
          ++ [Call.CipherGetLocalKsv, Call.CipherSetRemoteKsv Ksv,
              Call.PortWrite env.XHDCP1X_PORT_OFFSET_AN
                (LittleEndianBytes
                  (GenerateAn env (ExchangeKsvsBeforeAn env (setStateHelper s 0) Ksv)).2 8),
              Call.PortWrite env.XHDCP1X_PORT_OFFSET_AKSV
                (LittleEndianBytes
                  (env.CipherGetLocalKsv
                    (GenerateAn env
                      (ExchangeKsvsBeforeAn env (setStateHelper s 0) Ksv)).1.Calls % 2 ^ 64) 5)]
    ∧ XHDCP1X_PORT_BUF_TO_UINT
        (LittleEndianBytes
          (GenerateAn env (ExchangeKsvsBeforeAn env (setStateHelper s 0) Ksv)).2 8) 64
        = (GenerateAn env (ExchangeKsvsBeforeAn env (setStateHelper s 0) Ksv)).2
    ∧ (TransitionStep env (EnterState env s STATE_EXCHANGEKSVS nx)).1.Calls
        = (EnterState env s STATE_EXCHANGEKSVS nx).1.Calls
          ++ [Call.CipherSetB
                ((GenerateAn env (ExchangeKsvsBeforeAn env (setStateHelper s 0) Ksv)).2
                  &&& 0x0FFFFFFF)
                (((GenerateAn env (ExchangeKsvsBeforeAn env (setStateHelper s 0) Ksv)).2 >>> 28)
                  &&& 0x0FFFFFFF)
                ((((GenerateAn env (ExchangeKsvsBeforeAn env (setStateHelper s 0) Ksv)).2 >>> 56)
                  &&& 0xFF)
                  ||| (((EnterState env s STATE_EXCHANGEKSVS nx).1.Flags.testBit 1).toNat <<< 8)),
              Call.CipherDoRequest XHDCP1X_CIPHER_REQUEST_BLOCK]
    ∧ (TransitionStep env (EnterState env s STATE_EXCHANGEKSVS nx)).1.CurrentState
        = STATE_COMPUTATIONS
    ∧ (TransitionStep env (EnterState env s STATE_EXCHANGEKSVS nx)).1.StateHelper
        = (GenerateAn env (ExchangeKsvsBeforeAn env (setStateHelper s 0) Ksv)).2 := by
  have hb := GenerateAn_bounds env (ExchangeKsvsBeforeAn env (setStateHelper s 0) Ksv)
  have he : EnterState env s STATE_EXCHANGEKSVS nx = ExchangeKsvs env (setStateHelper s 0) nx :=
    rfl
  have hx := ExchangeKsvs_success env (setStateHelper s 0) nx Ksv hread hK hval hrev
  rw [← he] at hx
  generalize GenerateAn env (ExchangeKsvsBeforeAn env (setStateHelper s 0) Ksv) = g at hb hx ⊢
  have hcs : (EnterState env s STATE_EXCHANGEKSVS nx).1.CurrentState = STATE_EXCHANGEKSVS := by
    rw [EnterState_CurrentState]; exact hs
  have h2 : (EnterState env s STATE_EXCHANGEKSVS nx).2 = STATE_COMPUTATIONS := by rw [hx]
  have hsh : (EnterState env s STATE_EXCHANGEKSVS nx).1.StateHelper = g.2 := by
    rw [hx]; simp
  have hcalls : (EnterState env s STATE_EXCHANGEKSVS nx).1.Calls
      = g.1.Calls
        ++ [Call.CipherGetLocalKsv, Call.CipherSetRemoteKsv Ksv,
            Call.PortWrite env.XHDCP1X_PORT_OFFSET_AN (LittleEndianBytes g.2 8),
            Call.PortWrite env.XHDCP1X_PORT_OFFSET_AKSV
              (LittleEndianBytes (env.CipherGetLocalKsv g.1.Calls % 2 ^ 64) 5)] := by
    rw [hx]; simp
  clear hx he
  generalize EnterState env s STATE_EXCHANGEKSVS nx = E at hcs h2 hsh hcalls ⊢
  have hopen : ¬ LoopClosed E := by
    unfold LoopClosed
    rw [hcs, h2]
    decide
  have hstep := TransitionStep_open env E hopen
  rw [hcs, h2] at hstep
  simp only [ExitState, EnterState] at hstep
  rw [StartComputations_eq] at hstep
  simp only [swapState_StateHelper, swapState_Flags, hsh] at hstep
  refine ⟨h2, hsh, hb.1, hcalls, LittleEndianBytes_decode _ hb.1, ?_, ?_, ?_⟩
  · rw [hstep]; simp
  · rw [hstep]; simp
  · rw [hstep]; simp [hsh]

set_option maxRecDepth 100000 in
theorem An_from_ExchangeKsvs_witness :
    (sampleTx STATE_EXCHANGEKSVS 1 0).CurrentState = STATE_EXCHANGEKSVS
    ∧ 0 < (sampleEnv.PortRead (sampleTx STATE_EXCHANGEKSVS 1 0).Calls
        sampleEnv.XHDCP1X_PORT_OFFSET_BKSV 5).1
    ∧ XHDCP1X_PORT_BUF_TO_UINT
        (PortReadInto (List.replicate 8 0)
          (sampleEnv.PortRead (sampleTx STATE_EXCHANGEKSVS 1 0).Calls
            sampleEnv.XHDCP1X_PORT_OFFSET_BKSV 5).2 5)
        (XHDCP1X_PORT_SIZE_BKSV * 8) = 0x00000FFFFF
    ∧ IsKsvValid 0x00000FFFFF = true
    ∧ sampleEnv.PlatformIsKsvRevoked
        ((sampleTx STATE_EXCHANGEKSVS 1 0).Calls
          ++ [Call.PortRead sampleEnv.XHDCP1X_PORT_OFFSET_BKSV 5]) 0x00000FFFFF = false
    ∧ (EnterState sampleEnv (sampleTx STATE_EXCHANGEKSVS 1 0) STATE_EXCHANGEKSVS
        STATE_EXCHANGEKSVS).1.StateHelper = 0x0123456789ABCDEF
    ∧ (EnterState sampleEnv (sampleTx STATE_EXCHANGEKSVS 1 0) STATE_EXCHANGEKSVS
        STATE_EXCHANGEKSVS).1.Calls
      = [Call.PortRead 0x00 5, Call.PlatformIsKsvRevoked 0x00000FFFFF, Call.PortIsRepeater,
          Call.CipherDoRequest XHDCP1X_CIPHER_REQUEST_RNG, Call.CipherIsRequestComplete,
          Call.CipherGetMi, Call.CipherGetLocalKsv, Call.CipherSetRemoteKsv 0x00000FFFFF,
          Call.PortWrite 0x18 [0xEF, 0xCD, 0xAB, 0x89, 0x67, 0x45, 0x23, 0x01],
          Call.PortWrite 0x10 [0xFF, 0xFF, 0x0F, 0x00, 0x00]] :=
  ⟨rfl, by decide, by decide, by decide, rfl,
    (An_from_ExchangeKsvs sampleEnv (sampleTx STATE_EXCHANGEKSVS 1 0) STATE_EXCHANGEKSVS
      0x00000FFFFF rfl (by decide) (by decide) (by decide) rfl).2.1.trans (by decide),
    (An_from_ExchangeKsvs sampleEnv (sampleTx STATE_EXCHANGEKSVS 1 0) STATE_EXCHANGEKSVS
      0x00000FFFFF rfl (by decide) (by decide) (by decide) rfl).2.2.2.1.trans (by decide)⟩

/-! ## The state helper -/

theorem StateHelper_ExitState (env : Env) (s : XHdcp1x_Tx) (st : tState) :
    (ExitState env s st).StateHelper
      = if st = STATE_COMPUTATIONS ∨ st = STATE_READKSVLIST then 0 else s.StateHelper := by
  cases st <;> simp [ExitState, Enable]

/-- The poll of WaitForReady either asks for ReadKsvList, with the repeater information
in the state helper, or leaves the state helper as it is. -/
theorem PollForWaitForReady_cases (env : Env) (s : XHdcp1x_Tx) :
    ((PollForWaitForReady env s STATE_WAITFORREADY).2 = STATE_READKSVLIST
        ∧ ReadyInfo (PollForWaitForReady env s STATE_WAITFORREADY).1.StateHelper)
      ∨ ((PollForWaitForReady env s STATE_WAITFORREADY).2 ≠ STATE_READKSVLIST
        ∧ (PollForWaitForReady env s STATE_WAITFORREADY).1.StateHelper = s.StateHelper) := by
  unfold PollForWaitForReady
  dsimp only
  split_ifs with h1 h2 h3
  · left
    refine ⟨rfl, ?_⟩
    simp only [setStateHelper_StateHelper]
    exact ⟨Nat.mod_lt _ (by norm_num), h2, h3⟩
  · right; simp
  · right; simp
  · right; simp

/-- What a handler does to the state helper: nothing, unless it is the handler of
WaitForReady asking for ReadKsvList. -/
theorem RunState_helper (env : Env) (s : XHdcp1x_Tx) (e : tEvent) :
    (RunState env s e).1.StateHelper = s.StateHelper
      ∨ ((RunState env s e).2 = STATE_READKSVLIST ∧ s.CurrentState = STATE_WAITFORREADY
          ∧ ReadyInfo (RunState env s e).1.StateHelper) := by
  cases hs : s.CurrentState
  case STATE_WAITFORREADY =>
    have k := PollForWaitForReady_cases env s
    cases e <;> simp only [RunState, hs, RunWaitForReadyState]
    case EVENT_POLL =>
      rcases k with k | k
      · exact Or.inr ⟨k.1, trivial, k.2⟩
      · exact Or.inl k.2
    case EVENT_TIMEOUT =>
      split_ifs with hw
      · rcases k with k | k
        · rw [k.1] at hw
          exact absurd hw (by decide)
        · exact Or.inl k.2
      · rcases k with k | k
        · exact Or.inr ⟨k.1, trivial, k.2⟩
        · exact Or.inl k.2
    all_goals simp
  case STATE_DISABLED =>
    left
    cases e <;> simp [RunState, hs, RunDisabledState]
    split_ifs <;> rfl
  case STATE_PHYDOWN =>
    left
    cases e <;> simp [RunState, hs, RunPhysicalLayerDownState]
    split_ifs <;> simp
  all_goals
    left
    cases e <;>
      simp [RunState, hs, RunDetermineRxCapableState, RunExchangeKsvsState,
        RunComputationsState, RunValidateRxState, RunAuthenticatedState,
        RunLinkIntegrityCheckState, RunTestForRepeaterState, RunReadKsvListState,
        RunUnauthenticatedState]

/-- No handler but that of Computations asks for Computations. -/
theorem RunState_next_Computations (env : Env) (s : XHdcp1x_Tx) (e : tEvent)
    (h : (RunState env s e).2 = STATE_COMPUTATIONS) : s.CurrentState = STATE_COMPUTATIONS := by
  have k1 := PollForComputations_next env s s.CurrentState
  have k2 := ValidateRx_next env s s.CurrentState
  have k3 := CheckLinkIntegrity_next env s s.CurrentState
  have k4 := TestForRepeater_next env s s.CurrentState
  have k5 := PollForWaitForReady_next env s s.CurrentState
  by_contra hc
  cases hs : s.CurrentState
  case STATE_COMPUTATIONS => exact hc hs
  case STATE_DISABLED =>
    cases e <;> simp [RunState, hs, RunDisabledState] at h
    split_ifs at h
  case STATE_PHYDOWN =>
    cases e <;> simp [RunState, hs, RunPhysicalLayerDownState] at h
    split_ifs at h
  case STATE_VALIDATERX =>
    rw [hs] at k2
    cases e <;> simp [RunState, hs, RunValidateRxState] at h
    rcases k2 with k | k <;> rw [k] at h <;> exact absurd h (by decide)
  case STATE_LINKINTEGRITYCHECK =>
    rw [hs] at k3
    cases e <;> simp [RunState, hs, RunLinkIntegrityCheckState] at h
    rcases k3 with k | k <;> rw [k] at h <;> exact absurd h (by decide)
  case STATE_TESTFORREPEATER =>
    rw [hs] at k4
    cases e <;> simp [RunState, hs, RunTestForRepeaterState] at h
    rcases k4 with k | k <;> rw [k] at h <;> exact absurd h (by decide)
  case STATE_WAITFORREADY =>
    rw [hs] at k5
    cases e <;> simp only [RunState, hs, RunWaitForReadyState] at h
    case EVENT_POLL => rcases k5 with k | k | k | k <;> rw [k] at h <;> exact absurd h (by decide)
    case EVENT_TIMEOUT =>
      split_ifs at h
      rcases k5 with k | k | k | k <;> rw [k] at h <;> exact absurd h (by decide)
    all_goals exact absurd h (by decide)
  all_goals
    cases e <;>
      simp [RunState, hs, RunDetermineRxCapableState, RunExchangeKsvsState,
        RunAuthenticatedState, RunReadKsvListState, RunUnauthenticatedState] at h

/-- The handler keeps the state helper as it should be. -/
theorem HelperOk_handler (env : Env) (s : XHdcp1x_Tx) (e : tEvent)
    (h : s.StateHelper ≠ 0 ↔ s.CurrentState = STATE_COMPUTATIONS) :
    HelperOk s.CurrentState (RunState env s e).2 (RunState env s e).1.StateHelper := by
  have hc := RunState_next_Computations env s e
  unfold HelperOk
  rcases RunState_helper env s e with k | ⟨k1, k2, -⟩
  · rw [k]
    split_ifs with h1 h2
    · rw [← h1]; exact h
    · intro _
      constructor
      · intro h0; exact absurd rfl h0
      · intro h3
        rcases h2 with h2 | h2
        · rw [h2, h3] at h1; exact absurd rfl h1
        · rw [hc h3] at h2; exact absurd h2 (by decide)
    · intro _
      constructor
      · intro h0
        exact absurd (h.1 h0) (fun h4 => h2 (Or.inl h4))
      · intro h3
        exact absurd (hc h3) (fun h4 => h2 (Or.inl h4))
  · rw [k1, k2]
    rw [if_neg (by decide)]
    intro h0
    exact absurd rfl h0

theorem ExchangeKsvs_helper (env : Env) (s : XHdcp1x_Tx) (nx : tState) :
    ((ExchangeKsvs env s nx).2 = STATE_COMPUTATIONS ∧ (ExchangeKsvs env s nx).1.StateHelper ≠ 0)
      ∨ ((ExchangeKsvs env s nx).2 = STATE_UNAUTHENTICATED
        ∧ (ExchangeKsvs env s nx).1.StateHelper = s.StateHelper) := by
  unfold ExchangeKsvs
  dsimp only
  split_ifs <;>
    first
    | exact Or.inl ⟨rfl, by
        simp only [issue_StateHelper, setStateHelper_StateHelper]
        exact (GenerateAn_bounds env _).2⟩
    | exact Or.inr ⟨rfl, by simp⟩

/-- The entry action of a state keeps the state helper as it should be. -/
theorem HelperOk_EnterState (env : Env) (u : XHdcp1x_Tx) (nx : tState)
    (h : nx ≠ STATE_READKSVLIST → (u.StateHelper ≠ 0 ↔ nx = STATE_COMPUTATIONS)) :
    HelperOk nx (EnterState env u nx nx).2 (EnterState env u nx nx).1.StateHelper := by
  unfold HelperOk
  cases nx
  case STATE_DISABLED => simp [EnterState, Disable]
  case STATE_DETERMINERXCAPABLE =>
    have h0 : u.StateHelper = 0 := by simpa using h (by decide)
    rcases CheckRxCapable_next env
      (DisableEncryption env (SetCheckLinkState env
        (setFlags u (setBits16 u.Flags FLAG_PHY_UP)) false)) STATE_DETERMINERXCAPABLE
      with k | k <;> simp [EnterState, k, h0]
  case STATE_EXCHANGEKSVS =>
    rcases ExchangeKsvs_helper env (setStateHelper u 0) STATE_EXCHANGEKSVS
      with ⟨k1, k2⟩ | ⟨k1, k2⟩
    · simp [EnterState, k1, k2]
    · simp [EnterState, k1, k2]
  case STATE_COMPUTATIONS =>
    have h0 : u.StateHelper ≠ 0 := (h (by decide)).2 rfl
    simp [EnterState, StartComputations, h0]
  case STATE_VALIDATERX => simp [EnterState]
  case STATE_WAITFORREADY => simp [EnterState]
  case STATE_AUTHENTICATED =>
    simp only [EnterState]
    split_ifs <;> simp
  case STATE_READKSVLIST =>
    rcases ReadKsvList_next env u STATE_READKSVLIST with k | k <;> simp [EnterState, k]
  case STATE_LINKINTEGRITYCHECK =>
    have h0 : u.StateHelper = 0 := by simpa using h (by decide)
    rcases CheckLinkIntegrity_next env u STATE_LINKINTEGRITYCHECK
      with k | k <;> simp [EnterState, k, h0]
  case STATE_TESTFORREPEATER =>
    have h0 : u.StateHelper = 0 := by simpa using h (by decide)
    simp [EnterState, h0]
  case STATE_UNAUTHENTICATED =>
    have h0 : u.StateHelper = 0 := by simpa using h (by decide)
    simp [EnterState, h0]
  case STATE_PHYDOWN =>
    have h0 : u.StateHelper = 0 := by simpa using h (by decide)
    simp [EnterState, h0]

theorem HelperOk_TransitionStep (env : Env) (p : XHdcp1x_Tx × tState)
    (h : HelperOk p.1.CurrentState p.2 p.1.StateHelper) :
    HelperOk (TransitionStep env p).1.CurrentState (TransitionStep env p).2
      (TransitionStep env p).1.StateHelper := by
  by_cases hc : LoopClosed p
  · rw [TransitionStep_closed env p hc]; exact h
  · have hne : p.1.CurrentState ≠ p.2 := hc
    rw [TransitionStep_open env p hc, EnterState_CurrentState, swapState_CurrentState]
    apply HelperOk_EnterState
    unfold HelperOk at h
    rw [if_neg hne] at h
    rw [swapState_StateHelper, StateHelper_ExitState]
    exact h

theorem HelperOk_TransitionLoop (env : Env) (n : Nat) : ∀ p : XHdcp1x_Tx × tState,
    HelperOk p.1.CurrentState p.2 p.1.StateHelper →
    HelperOk (TransitionLoop env n p).1.CurrentState (TransitionLoop env n p).2
      (TransitionLoop env n p).1.StateHelper := by
  unfold TransitionLoop
  induction n with
  | zero => intro p h; exact h
  | succ n ih =>
    intro p h
    rw [Function.iterate_succ_apply]
    exact ih _ (HelperOk_TransitionStep env p h)

/-- An event step keeps the state helper not zero exactly in Computations. -/
theorem DoTheState_helper (env : Env) (s : XHdcp1x_Tx) (e : tEvent)
    (h : s.StateHelper ≠ 0 ↔ s.CurrentState = STATE_COMPUTATIONS) :
    (DoTheState env s e).StateHelper ≠ 0
      ↔ (DoTheState env s e).CurrentState = STATE_COMPUTATIONS := by
  have hcl := TransitionLoop_closed env (RunState env s e)
  have h1 := HelperOk_handler env s e h
  rw [← (RunState_fields env s e).1] at h1
  have h2 := HelperOk_TransitionLoop env 4 _ h1
  unfold LoopClosed at hcl
  unfold HelperOk at h2
  rw [if_pos hcl] at h2
  unfold DoTheState
  rw [hcl]
  exact h2

/-- C37: in every instance reached from initialisation by calls of the public interface
and of the callbacks, the state helper is not zero exactly when the current state is
Computations: the An resting in Computations is never zero, and An and the repeater
information are cleared before the state machine comes to rest in any other state.
Every event step keeps it so. -/
theorem StateHelper_iff_Computations (env : Env) (ops : List TxOp) :
    ((Run env ops).StateHelper ≠ 0 ↔ (Run env ops).CurrentState = STATE_COMPUTATIONS)
    ∧ (∀ (s : XHdcp1x_Tx) (e : tEvent),
        (s.StateHelper ≠ 0 ↔ s.CurrentState = STATE_COMPUTATIONS) →
        ((DoTheState env s e).StateHelper ≠ 0
          ↔ (DoTheState env s e).CurrentState = STATE_COMPUTATIONS))
    ∧ (∀ (s : XHdcp1x_Tx) (nx : tState),
        (EnterState env s STATE_EXCHANGEKSVS nx).2 = STATE_COMPUTATIONS →
        (EnterState env s STATE_EXCHANGEKSVS nx).1.StateHelper ≠ 0) := by
  refine ⟨?_, DoTheState_helper env, ?_⟩
  · exact Run_keeps env (fun st h => h ≠ 0 ↔ st = STATE_COMPUTATIONS)
      (fun t e ht => DoTheState_helper env t e ht) (by simp) ops
  · intro s nx h
    rcases ExchangeKsvs_helper env (setStateHelper s 0) nx with ⟨-, k2⟩ | ⟨k1, -⟩
    · exact k2
    · have h2 : (ExchangeKsvs env (setStateHelper s 0) nx).2 = STATE_COMPUTATIONS := h
      rw [k1] at h2
      exact absurd h2 (by decide)

set_option maxRecDepth 100000 in
theorem StateHelper_iff_Computations_witness :
    ((sampleTx STATE_UNAUTHENTICATED 1 0).StateHelper ≠ 0
        ↔ (sampleTx STATE_UNAUTHENTICATED 1 0).CurrentState = STATE_COMPUTATIONS)
    ∧ (DoTheState sampleEnv (sampleTx STATE_UNAUTHENTICATED 1 0)
        EVENT_AUTHENTICATE).CurrentState = STATE_COMPUTATIONS
    ∧ (DoTheState sampleEnv (sampleTx STATE_UNAUTHENTICATED 1 0)
        EVENT_AUTHENTICATE).StateHelper ≠ 0
    ∧ (EnterState sampleEnv (sampleTx STATE_EXCHANGEKSVS 1 0) STATE_EXCHANGEKSVS
        STATE_EXCHANGEKSVS).2 = STATE_COMPUTATIONS
    ∧ (EnterState sampleEnv (sampleTx STATE_EXCHANGEKSVS 1 0) STATE_EXCHANGEKSVS
        STATE_EXCHANGEKSVS).1.StateHelper ≠ 0
    ∧ (Run sampleEnv [TxOp.SetPhysicalState true, TxOp.Enable, TxOp.Poll,
        TxOp.Authenticate, TxOp.Poll]).StateHelper = 0
    ∧ (Run sampleEnv [TxOp.SetPhysicalState true, TxOp.Enable, TxOp.Poll,
        TxOp.Authenticate, TxOp.Poll]).CurrentState = STATE_VALIDATERX :=
  ⟨by decide, by decide,
    ((StateHelper_iff_Computations sampleEnv []).2.1 (sampleTx STATE_UNAUTHENTICATED 1 0)
      EVENT_AUTHENTICATE (by decide)).2 (by decide),
    by decide,
    (StateHelper_iff_Computations sampleEnv []).2.2 (sampleTx STATE_EXCHANGEKSVS 1 0)
      STATE_EXCHANGEKSVS (by decide),
    by decide, by decide⟩

/-! ## The counter of failed authentications -/

theorem ValidateRx_AuthFailed (env : Env) (s : XHdcp1x_Tx) (nx : tState) :
    (ThirdAttemptMismatch env s →
      (ValidateRx env s nx).1.Stats.AuthFailed = s.Stats.AuthFailed + 1)
    ∧ (¬ ThirdAttemptMismatch env s →
      (ValidateRx env s nx).1.Stats.AuthFailed = s.Stats.AuthFailed) := by
  obtain ⟨o1, o2, o3, o4⟩ := ValidateRx_outcome env s nx
  unfold ThirdAttemptMismatch
  constructor
  · rintro ⟨m1, m2, m3⟩
    exact (o4 m1 m2 (not_matches_of_mismatches env _ _ m3)).2.2.1 m3
  · intro h
    by_cases m1 : AttemptMatches env env.CipherGetRo (AttemptAt env Call.CipherGetRo s 0)
    · exact (o1 m1).2.2
    · by_cases m2 : AttemptMatches env env.CipherGetRo (AttemptAt env Call.CipherGetRo s 1)
      · exact (o2 m1 m2).2.2
      · by_cases m3 : AttemptMatches env env.CipherGetRo (AttemptAt env Call.CipherGetRo s 2)
        · exact (o3 m1 m2 m3).2.2
        · exact (o4 m1 m2 m3).2.2.2 (fun g => h ⟨m1, m2, g⟩)

theorem AuthFailed_EnterState (env : Env) (s : XHdcp1x_Tx) (st nx : tState) :
    (EnterState env s st nx).1.Stats.AuthFailed = s.Stats.AuthFailed := by
  cases st <;> simp [EnterState, Disable, StartComputations]
  split_ifs <;> simp [countAuthPassed]

/-- Every handler but the timeout of ValidateRx leaves the counter as it is. -/
theorem AuthFailed_RunState (env : Env) (s : XHdcp1x_Tx) (e : tEvent)
    (h : ¬ (s.CurrentState = STATE_VALIDATERX ∧ e = EVENT_TIMEOUT)) :
    (RunState env s e).1.Stats.AuthFailed = s.Stats.AuthFailed := by
  cases hs : s.CurrentState
  case STATE_DISABLED =>
    cases e <;> simp [RunState, hs, RunDisabledState]
    split_ifs <;> rfl
  case STATE_PHYDOWN =>
    cases e <;> simp [RunState, hs, RunPhysicalLayerDownState]
    split_ifs <;> simp
  case STATE_WAITFORREADY =>
    cases e <;> simp [RunState, hs, RunWaitForReadyState]
    split_ifs <;> simp
  case STATE_VALIDATERX =>
    cases e <;> simp [RunState, hs, RunValidateRxState] at h ⊢
  all_goals
    cases e <;>
      simp [RunState, hs, RunDetermineRxCapableState, RunExchangeKsvsState,
        RunComputationsState, RunAuthenticatedState,
        RunLinkIntegrityCheckState, RunTestForRepeaterState, RunReadKsvListState,
        RunUnauthenticatedState]

theorem AuthFailed_TransitionStep (env : Env) (A : Nat) (p : XHdcp1x_Tx × tState)
    (h : p.1.Stats.AuthFailed = A ∧ (p.1.CurrentState = STATE_DISABLED → LoopClosed p)) :
    (TransitionStep env p).1.Stats.AuthFailed = A
      ∧ ((TransitionStep env p).1.CurrentState = STATE_DISABLED →
          LoopClosed (TransitionStep env p)) := by
  by_cases hc : LoopClosed p
  · rw [TransitionStep_closed env p hc]; exact h
  · have hd : p.1.CurrentState ≠ STATE_DISABLED := fun k => hc (h.2 k)
    constructor
    · rw [TransitionStep_open env p hc, AuthFailed_EnterState]
      simp only [swapState_Stats]
      rw [← h.1]
      cases hs : p.1.CurrentState <;> simp [ExitState, hs] at hd ⊢
    · intro k
      have hcs := TransitionStep_CurrentState env p
      rw [k] at hcs
      exact (TransitionStep_to_Disabled env p hcs.symm hd).1.trans
        (TransitionStep_to_Disabled env p hcs.symm hd).2.1.symm

theorem AuthFailed_TransitionLoop (env : Env) (A : Nat) (n : Nat) :
    ∀ p : XHdcp1x_Tx × tState,
    (p.1.Stats.AuthFailed = A ∧ (p.1.CurrentState = STATE_DISABLED → LoopClosed p)) →
    (TransitionLoop env n p).1.Stats.AuthFailed = A
      ∧ ((TransitionLoop env n p).1.CurrentState = STATE_DISABLED →
          LoopClosed (TransitionLoop env n p)) := by
  unfold TransitionLoop
  induction n with
  | zero => intro p h; exact h
  | succ n ih =>
    intro p h
    rw [Function.iterate_succ_apply]
    exact ih _ (AuthFailed_TransitionStep env A p h)

/-- Outside Disabled the transitions of an event step leave the counter as the handler
has left it. -/
theorem DoTheState_AuthFailed (env : Env) (s : XHdcp1x_Tx) (e : tEvent)
    (h : s.CurrentState ≠ STATE_DISABLED) :
    (DoTheState env s e).Stats.AuthFailed = (RunState env s e).1.Stats.AuthFailed := by
  unfold DoTheState
  refine (AuthFailed_TransitionLoop env _ 4 (RunState env s e) ⟨rfl, ?_⟩).1
  intro k
  rw [(RunState_fields env s e).1] at k
  exact absurd k h

theorem DoTheState_AuthFailed_Disabled (env : Env) (s : XHdcp1x_Tx) (e : tEvent)
    (h : s.CurrentState = STATE_DISABLED) :
    (DoTheState env s e).Stats.AuthFailed
      = if e = EVENT_ENABLE then 0 else s.Stats.AuthFailed := by
  by_cases he : e = EVENT_ENABLE
  · subst he
    rw [if_pos rfl]
    have := (DoTheState_ENABLE_of_Disabled env s h).2
    rw [this]
  · rw [if_neg he]
    have h2 : (RunState env s e).2 = s.CurrentState := by
      cases e <;> simp [RunState, h, RunDisabledState] at he ⊢
    rw [DoTheState_of_stay env s (RunState env s e).1 e (by rw [← h2])]
    exact AuthFailed_RunState env s e (by rw [h]; simp)

theorem apply_AuthFailed (env : Env) (s : XHdcp1x_Tx) (op : TxOp) (h : op ≠ TxOp.Poll) :
    (op.apply env s).Stats.AuthFailed = s.Stats.AuthFailed := by
  cases op with
  | Poll => exact absurd rfl h
  | Reset => simp [TxOp.apply, XHdcp1x_TxReset]
  | Enable => simp [TxOp.apply, XHdcp1x_TxEnable]
  | Disable => simp [TxOp.apply, XHdcp1x_TxDisable]
  | SetPhysicalState b => simp [TxOp.apply, XHdcp1x_TxSetPhysicalState]
  | SetLaneCount n =>
    simp only [TxOp.apply, XHdcp1x_TxSetLaneCount]
    split_ifs <;> simp
  | Authenticate => simp [TxOp.apply, XHdcp1x_TxAuthenticate]
  | EnableEncryption m =>
    simp only [TxOp.apply, XHdcp1x_TxEnableEncryption]
    split_ifs <;> simp
  | DisableEncryption m =>
    simp only [TxOp.apply, XHdcp1x_TxDisableEncryption]
    split_ifs <;> simp
  | HandleTimeout => simp [TxOp.apply, XHdcp1x_TxHandleTimeout]
  | ReauthenticateCallback => simp [TxOp.apply, ReauthenticateCallback, countReauthRequested]
  | CheckLinkCallback => simp [TxOp.apply, CheckLinkCallback]

/-- C38: the counter of failed authentications grows only in `ValidateRx`, by exactly
one, and exactly when the third attempt is reached and reads the port successfully a
value that differs from the Ro of the cipher.  The value read is the one the code
assembles from its two byte buffer after the read; the buffer is not initialised, so
bytes that a read does not store are indeterminate.  An event step started outside
Disabled
adds one in that case and leaves the counter as it is in every other case; an event
step started in Disabled leaves it as it is or, on Enable, sets it to zero.  In
particular a `ValidateRx` whose third read fails, every entry action (among them the
check of the capability of the receiver, the exchange of the ksvs with an invalid or
revoked BKSV, and the reading of an invalid ksv list), every other handler (among them
the poll and the timeout of WaitForReady), and every call of the public interface or
callback other than the poll leave the counter as it is. -/
theorem AuthFailed_only_in_ValidateRx (env : Env) (s : XHdcp1x_Tx) (e : tEvent) :
    (s.CurrentState = STATE_VALIDATERX → e = EVENT_TIMEOUT → ThirdAttemptMismatch env s →
      (DoTheState env s e).Stats.AuthFailed = s.Stats.AuthFailed + 1)
    ∧ (s.CurrentState ≠ STATE_DISABLED →
        ¬ (s.CurrentState = STATE_VALIDATERX ∧ e = EVENT_TIMEOUT ∧ ThirdAttemptMismatch env s) →
        (DoTheState env s e).Stats.AuthFailed = s.Stats.AuthFailed)
    ∧ (s.CurrentState = STATE_DISABLED →
        (DoTheState env s e).Stats.AuthFailed
          = if e = EVENT_ENABLE then 0 else s.Stats.AuthFailed)
    ∧ (∀ nx : tState,
        (ThirdAttemptMismatch env s →
          (ValidateRx env s nx).1.Stats.AuthFailed = s.Stats.AuthFailed + 1)
        ∧ (¬ ThirdAttemptMismatch env s →
          (ValidateRx env s nx).1.Stats.AuthFailed = s.Stats.AuthFailed)
        ∧ ((env.PortRead (AttemptAt env Call.CipherGetRo s 2).1
              env.XHDCP1X_PORT_OFFSET_RO 2).1 ≤ 0 →
          (ValidateRx env s nx).1.Stats.AuthFailed = s.Stats.AuthFailed))
    ∧ (∀ st nx : tState, (EnterState env s st nx).1.Stats.AuthFailed = s.Stats.AuthFailed)
    ∧ (¬ (s.CurrentState = STATE_VALIDATERX ∧ e = EVENT_TIMEOUT) →
        (RunState env s e).1.Stats.AuthFailed = s.Stats.AuthFailed)
    ∧ (∀ op : TxOp, op ≠ TxOp.Poll →
        (op.apply env s).Stats.AuthFailed = s.Stats.AuthFailed) := by
  refine ⟨?_, ?_, DoTheState_AuthFailed_Disabled env s e, ?_, AuthFailed_EnterState env s,
    AuthFailed_RunState env s e, apply_AuthFailed env s⟩
  · intro hs he hm
    have hd : s.CurrentState ≠ STATE_DISABLED := by rw [hs]; decide
    rw [DoTheState_AuthFailed env s e hd, he, RunState_ValidateRx_timeout env s hs]
    exact (ValidateRx_AuthFailed env s _).1 hm
  · intro hd hn
    rw [DoTheState_AuthFailed env s e hd]
    by_cases hv : s.CurrentState = STATE_VALIDATERX ∧ e = EVENT_TIMEOUT
    · rw [hv.2, RunState_ValidateRx_timeout env s hv.1]
      exact (ValidateRx_AuthFailed env s _).2 (fun hm => hn ⟨hv.1, hv.2, hm⟩)
    · exact AuthFailed_RunState env s e hv
  · intro nx
    refine ⟨(ValidateRx_AuthFailed env s nx).1, (ValidateRx_AuthFailed env s nx).2, ?_⟩
    intro hr
    apply (ValidateRx_AuthFailed env s nx).2
    intro hm
    have := hm.2.2.1
    omega

set_option maxRecDepth 100000 in
theorem AuthFailed_only_in_ValidateRx_witness :
    ((sampleTx STATE_VALIDATERX 1 0).CurrentState = STATE_VALIDATERX
      ∧ ThirdAttemptMismatch sampleEnvRoMismatch (sampleTx STATE_VALIDATERX 1 0)
      ∧ (DoTheState sampleEnvRoMismatch (sampleTx STATE_VALIDATERX 1 0)
          EVENT_TIMEOUT).Stats.AuthFailed = 1)
    ∧ ((sampleTx STATE_VALIDATERX 1 0).CurrentState ≠ STATE_DISABLED
      ∧ ¬ ThirdAttemptMismatch sampleEnv (sampleTx STATE_VALIDATERX 1 0)
      ∧ (DoTheState sampleEnv (sampleTx STATE_VALIDATERX 1 0)
          EVENT_TIMEOUT).Stats.AuthFailed = 0)
    ∧ ((sampleTx STATE_DISABLED 1 0).CurrentState = STATE_DISABLED
      ∧ (DoTheState sampleEnv (sampleTx STATE_DISABLED 1 0) EVENT_ENABLE).Stats.AuthFailed = 0)
    ∧ ((sampleEnvRoThirdFails.PortRead
          (AttemptAt sampleEnvRoThirdFails Call.CipherGetRo (sampleTx STATE_VALIDATERX 1 0) 2).1
          sampleEnvRoThirdFails.XHDCP1X_PORT_OFFSET_RO 2).1 ≤ 0
      ∧ AttemptMismatches sampleEnvRoThirdFails sampleEnvRoThirdFails.CipherGetRo
          (AttemptAt sampleEnvRoThirdFails Call.CipherGetRo (sampleTx STATE_VALIDATERX 1 0) 0)
      ∧ AttemptMismatches sampleEnvRoThirdFails sampleEnvRoThirdFails.CipherGetRo
          (AttemptAt sampleEnvRoThirdFails Call.CipherGetRo (sampleTx STATE_VALIDATERX 1 0) 1)
      ∧ (ValidateRx sampleEnvRoThirdFails (sampleTx STATE_VALIDATERX 1 0)
          STATE_VALIDATERX).1.Stats.AuthFailed = 0
      ∧ (ValidateRx sampleEnvRoThirdFails (sampleTx STATE_VALIDATERX 1 0)
          STATE_VALIDATERX).1.Stats.ReadFailures = 1)
    ∧ (TxOp.Authenticate ≠ TxOp.Poll
      ∧ (TxOp.Authenticate.apply sampleEnv (sampleTx STATE_VALIDATERX 1 0)).Stats.AuthFailed
          = 0)
    ∧ (ThirdAttemptMismatch sampleEnvShortRo (sampleTx STATE_VALIDATERX 1 0)
      ∧ (DoTheState sampleEnvShortRo (sampleTx STATE_VALIDATERX 1 0)
          EVENT_TIMEOUT).Stats.AuthFailed = 1)
    ∧ (¬ ThirdAttemptMismatch sampleEnvShortRoZero (sampleTx STATE_VALIDATERX 1 0)
      ∧ (DoTheState sampleEnvShortRoZero (sampleTx STATE_VALIDATERX 1 0)
          EVENT_TIMEOUT).Stats.AuthFailed = 0) :=
  ⟨⟨rfl, by unfold ThirdAttemptMismatch AttemptMatches AttemptMismatches AttemptAt; decide,
      (AuthFailed_only_in_ValidateRx sampleEnvRoMismatch (sampleTx STATE_VALIDATERX 1 0)
        EVENT_TIMEOUT).1 rfl rfl
        (by unfold ThirdAttemptMismatch AttemptMatches AttemptMismatches AttemptAt; decide)⟩,
    ⟨by decide, by unfold ThirdAttemptMismatch AttemptMatches AttemptMismatches AttemptAt; decide,
      (AuthFailed_only_in_ValidateRx sampleEnv (sampleTx STATE_VALIDATERX 1 0)
        EVENT_TIMEOUT).2.1 (by decide)
        (fun h => absurd h.2.2
          (by unfold ThirdAttemptMismatch AttemptMatches AttemptMismatches AttemptAt; decide))⟩,
    ⟨rfl, ((AuthFailed_only_in_ValidateRx sampleEnv (sampleTx STATE_DISABLED 1 0)
        EVENT_ENABLE).2.2.1 rfl).trans (by decide)⟩,
    ⟨by unfold AttemptAt; decide, by unfold AttemptMismatches AttemptAt; decide,
      by unfold AttemptMismatches AttemptAt; decide,
      ((AuthFailed_only_in_ValidateRx sampleEnvRoThirdFails (sampleTx STATE_VALIDATERX 1 0)
        EVENT_TIMEOUT).2.2.2.1 STATE_VALIDATERX).2.2 (by unfold AttemptAt; decide),
      by decide⟩,
    ⟨by decide, (AuthFailed_only_in_ValidateRx sampleEnv (sampleTx STATE_VALIDATERX 1 0)
        EVENT_TIMEOUT).2.2.2.2.2.2 TxOp.Authenticate (by decide)⟩,
    ⟨by unfold ThirdAttemptMismatch AttemptMatches AttemptMismatches AttemptAt; decide,
      (AuthFailed_only_in_ValidateRx sampleEnvShortRo (sampleTx STATE_VALIDATERX 1 0)
        EVENT_TIMEOUT).1 rfl rfl
        (by unfold ThirdAttemptMismatch AttemptMatches AttemptMismatches AttemptAt; decide)⟩,
    ⟨by unfold ThirdAttemptMismatch AttemptMatches AttemptMismatches AttemptAt; decide,
      (AuthFailed_only_in_ValidateRx sampleEnvShortRoZero (sampleTx STATE_VALIDATERX 1 0)
        EVENT_TIMEOUT).2.1 (by decide)
        (fun h => absurd h.2.2
          (by unfold ThirdAttemptMismatch AttemptMatches AttemptMismatches AttemptAt;
              decide))⟩⟩

/-! ## The repeater information and the reading of the ksv list -/

theorem ReadKsvChunk_step (env : Env) (p : KsvListState) :
    (ReadKsvChunk env p).Tx.Calls
        = p.Tx.Calls ++ [Call.PortRead env.XHDCP1X_PORT_OFFSET_KSVFIFO
            (min env.XHDCP1X_PORT_SIZE_KSVFIFO p.NumToRead)]
    ∧ (ReadKsvChunk env p).NumToRead
        = p.NumToRead - min env.XHDCP1X_PORT_SIZE_KSVFIFO p.NumToRead
    ∧ (ReadKsvChunk env p).IsValid
        = (if (env.PortRead p.Tx.Calls env.XHDCP1X_PORT_OFFSET_KSVFIFO
              (min env.XHDCP1X_PORT_SIZE_KSVFIFO p.NumToRead)).1 > 0 then p.IsValid
            else false) := by
  have hn : (if env.XHDCP1X_PORT_SIZE_KSVFIFO > p.NumToRead then p.NumToRead
      else env.XHDCP1X_PORT_SIZE_KSVFIFO) = min env.XHDCP1X_PORT_SIZE_KSVFIFO p.NumToRead := by
    split_ifs <;> omega
  unfold ReadKsvChunk
  dsimp only
  rw [hn]
  split_ifs <;> simp

theorem KsvReadsBySpec_done (env : Env) (f : Nat) (h : List Call) :
    KsvReadsBySpec env f h 0 = ([], true) := by
  cases f <;> simp [KsvReadsBySpec]

theorem KsvReadsBySpec_succ (env : Env) (f : Nat) (h : List Call) (M : Nat) (h0 : M ≠ 0) :
    KsvReadsBySpec env (f + 1) h M
      = if (env.PortRead h env.XHDCP1X_PORT_OFFSET_KSVFIFO
            (min env.XHDCP1X_PORT_SIZE_KSVFIFO M)).1 > 0 then
          (min env.XHDCP1X_PORT_SIZE_KSVFIFO M
              :: (KsvReadsBySpec env f
                  (h ++ [Call.PortRead env.XHDCP1X_PORT_OFFSET_KSVFIFO
                    (min env.XHDCP1X_PORT_SIZE_KSVFIFO M)])
                  (M - min env.XHDCP1X_PORT_SIZE_KSVFIFO M)).1,
            (KsvReadsBySpec env f
                (h ++ [Call.PortRead env.XHDCP1X_PORT_OFFSET_KSVFIFO
                  (min env.XHDCP1X_PORT_SIZE_KSVFIFO M)])
                (M - min env.XHDCP1X_PORT_SIZE_KSVFIFO M)).2)
        else ([min env.XHDCP1X_PORT_SIZE_KSVFIFO M], false) := by
  rw [KsvReadsBySpec, if_neg h0]

theorem KsvReadsBySpec_nil (env : Env) (f : Nat) (h : List Call) (M : Nat)
    (hn : (KsvReadsBySpec env f h M).1 = []) : (KsvReadsBySpec env f h M).2 = true := by
  cases f with
  | zero => rfl
  | succ f =>
    by_cases h0 : M = 0
    · rw [h0, KsvReadsBySpec_done]
    · rw [KsvReadsBySpec_succ env f h M h0] at hn
      split_ifs at hn

theorem ReadKsvChunks_succ (env : Env) (f : Nat) (p : KsvListState) :
    ReadKsvChunks env (f + 1) p
      = if 0 < (ReadKsvChunk env p).NumToRead ∧ (ReadKsvChunk env p).IsValid = true then
          ReadKsvChunks env f (ReadKsvChunk env p)
        else ReadKsvChunk env p := by
  rw [ReadKsvChunks]

/-- The loop of `ValidateKsvList` that reads the ksv list is the reading of the spec. -/
theorem ReadKsvChunks_by_spec (env : Env) (f : Nat) : ∀ p : KsvListState,
    p.IsValid = true → 0 < p.NumToRead → p.NumToRead ≤ f + 1 →
    (ReadKsvChunks env f p).Tx.Calls
        = p.Tx.Calls ++ (KsvReadsBySpec env (f + 1) p.Tx.Calls p.NumToRead).1.map
            (fun n => Call.PortRead env.XHDCP1X_PORT_OFFSET_KSVFIFO n)
    ∧ (ReadKsvChunks env f p).IsValid
        = (KsvReadsBySpec env (f + 1) p.Tx.Calls p.NumToRead).2 := by
  have hpos := env.size_ksvfifo_pos
  induction f with
  | zero =>
    intro p hv h0 hle
    obtain ⟨c1, c2, c3⟩ := ReadKsvChunk_step env p
    have h1 : p.NumToRead = 1 := by omega
    have e0 : ReadKsvChunks env 0 p = ReadKsvChunk env p := by rw [ReadKsvChunks]
    rw [e0, c1, c3, hv, KsvReadsBySpec_succ env 0 _ _ (by omega)]
    split_ifs <;> simp [KsvReadsBySpec]
  | succ f ih =>
    intro p hv h0 hle
    obtain ⟨c1, c2, c3⟩ := ReadKsvChunk_step env p
    have hn1 : 1 ≤ min env.XHDCP1X_PORT_SIZE_KSVFIFO p.NumToRead := by
      rw [Nat.le_min]; omega
    have hn2 : min env.XHDCP1X_PORT_SIZE_KSVFIFO p.NumToRead ≤ p.NumToRead := Nat.min_le_right _ _
    rw [ReadKsvChunks_succ, KsvReadsBySpec_succ env (f + 1) _ _ (by omega)]
    by_cases hr : (env.PortRead p.Tx.Calls env.XHDCP1X_PORT_OFFSET_KSVFIFO
        (min env.XHDCP1X_PORT_SIZE_KSVFIFO p.NumToRead)).1 > 0
    · rw [if_pos hr] at c3
      rw [if_pos hr]
      rw [hv] at c3
      by_cases hm : 0 < (ReadKsvChunk env p).NumToRead
      · rw [if_pos ⟨hm, c3⟩]
        obtain ⟨i1, i2⟩ := ih (ReadKsvChunk env p) c3 hm (by rw [c2]; omega)
        rw [i1, i2, c1, c2]
        simp
      · rw [if_neg (fun h => hm h.1)]
        have hz : p.NumToRead - min env.XHDCP1X_PORT_SIZE_KSVFIFO p.NumToRead = 0 := by
          rw [← c2]; omega
        rw [c1, c3, hz, KsvReadsBySpec_done]
        simp
    · rw [if_neg hr] at c3
      rw [if_neg hr, if_neg (by rw [c3]; simp), c1, c3]
      simp

/-- The sizes that the reading of the spec requests: each is at least 1 and at most the
size of a chunk; they add up to at most the number of bytes to read; and when every
read succeeds they are `⌈NumToRead / size⌉` and add up to the number of bytes to read. -/
theorem KsvReadsBySpec_sizes (env : Env) (f : Nat) : ∀ (h : List Call) (M : Nat), M ≤ f →
    (∀ n ∈ (KsvReadsBySpec env f h M).1, 1 ≤ n ∧ n ≤ env.XHDCP1X_PORT_SIZE_KSVFIFO)
    ∧ (KsvReadsBySpec env f h M).1.sum ≤ M
    ∧ ((KsvReadsBySpec env f h M).2 = true →
        (KsvReadsBySpec env f h M).1.sum = M
        ∧ (KsvReadsBySpec env f h M).1.length
            = (M + env.XHDCP1X_PORT_SIZE_KSVFIFO - 1) / env.XHDCP1X_PORT_SIZE_KSVFIFO) := by
  have hpos := env.size_ksvfifo_pos
  have hzero : (0 + env.XHDCP1X_PORT_SIZE_KSVFIFO - 1) / env.XHDCP1X_PORT_SIZE_KSVFIFO = 0 :=
    Nat.div_eq_of_lt (by omega)
  induction f with
  | zero =>
    intro h M hM
    have : M = 0 := by omega
    subst this
    rw [KsvReadsBySpec_done]
    exact ⟨by simp, by simp, fun _ => ⟨by simp, by rw [hzero]; rfl⟩⟩
  | succ f ih =>
    intro h M hM
    by_cases h0 : M = 0
    · subst h0
      rw [KsvReadsBySpec_done]
      exact ⟨by simp, by simp, fun _ => ⟨by simp, by rw [hzero]; rfl⟩⟩
    · rw [KsvReadsBySpec_succ env f h M h0]
      have hn1 : 1 ≤ min env.XHDCP1X_PORT_SIZE_KSVFIFO M := by
        rw [Nat.le_min]; omega
      have hn2 : min env.XHDCP1X_PORT_SIZE_KSVFIFO M ≤ env.XHDCP1X_PORT_SIZE_KSVFIFO :=
        Nat.min_le_left _ _
      have hn3 : min env.XHDCP1X_PORT_SIZE_KSVFIFO M ≤ M := Nat.min_le_right _ _
      split_ifs with hr
      · obtain ⟨i1, i2, i3⟩ := ih
          (h ++ [Call.PortRead env.XHDCP1X_PORT_OFFSET_KSVFIFO
            (min env.XHDCP1X_PORT_SIZE_KSVFIFO M)])
          (M - min env.XHDCP1X_PORT_SIZE_KSVFIFO M) (by omega)
        refine ⟨?_, ?_, ?_⟩
        · intro n hn
          simp only [List.mem_cons] at hn
          rcases hn with hn | hn
          · rw [hn]; exact ⟨hn1, hn2⟩
          · exact i1 n hn
        · simp only [List.sum_cons]
          omega
        · intro hv
          obtain ⟨j1, j2⟩ := i3 hv
          refine ⟨by simp only [List.sum_cons]; omega, ?_⟩
          simp only [List.length_cons, j2]
          by_cases hc : env.XHDCP1X_PORT_SIZE_KSVFIFO ≤ M
          · have e1 : min env.XHDCP1X_PORT_SIZE_KSVFIFO M = env.XHDCP1X_PORT_SIZE_KSVFIFO :=
              Nat.min_eq_left hc
            rw [e1]
            have e2 : M + env.XHDCP1X_PORT_SIZE_KSVFIFO - 1
                = (M - env.XHDCP1X_PORT_SIZE_KSVFIFO + env.XHDCP1X_PORT_SIZE_KSVFIFO - 1)
                  + env.XHDCP1X_PORT_SIZE_KSVFIFO := by omega
            rw [e2, Nat.add_div_right _ hpos]
          · have e1 : min env.XHDCP1X_PORT_SIZE_KSVFIFO M = M :=
              Nat.min_eq_right (by omega)
            rw [e1, Nat.sub_self]
            have e3 : M + env.XHDCP1X_PORT_SIZE_KSVFIFO - 1
                = (M - 1) + env.XHDCP1X_PORT_SIZE_KSVFIFO := by omega
            rw [hzero, e3, Nat.add_div_right _ hpos, Nat.div_eq_of_lt (by omega)]
      · refine ⟨?_, ?_, ?_⟩
        · intro n hn
          simp only [List.mem_singleton] at hn
          rw [hn]; exact ⟨hn1, hn2⟩
        · simp only [List.sum_cons, List.sum_nil]
          omega
        · intro hv
          simp at hv

/-- The reading of the spec stops at the first read that fails: a read requested has
succeeded exactly when it is not the last one requested or every read has
succeeded. -/
theorem KsvReadsBySpec_stops (env : Env) (f : Nat) : ∀ (h : List Call) (M : Nat) (i : Nat),
    i < (KsvReadsBySpec env f h M).1.length →
    ((env.PortRead
        (h ++ ((KsvReadsBySpec env f h M).1.take i).map
          (fun n => Call.PortRead env.XHDCP1X_PORT_OFFSET_KSVFIFO n))
        env.XHDCP1X_PORT_OFFSET_KSVFIFO ((KsvReadsBySpec env f h M).1.getD i 0)).1 > 0
      ↔ (i + 1 < (KsvReadsBySpec env f h M).1.length ∨ (KsvReadsBySpec env f h M).2 = true)) := by
  induction f with
  | zero =>
    intro h M i hi
    simp [KsvReadsBySpec] at hi
  | succ f ih =>
    intro h M i
    by_cases h0 : M = 0
    · rw [h0, KsvReadsBySpec_done]
      intro hi
      simp at hi
    · rw [KsvReadsBySpec_succ env f h M h0]
      generalize min env.XHDCP1X_PORT_SIZE_KSVFIFO M = n
      by_cases hr : (env.PortRead h env.XHDCP1X_PORT_OFFSET_KSVFIFO n).1 > 0
      · rw [if_pos hr]
        have hnil := KsvReadsBySpec_nil env f
          (h ++ [Call.PortRead env.XHDCP1X_PORT_OFFSET_KSVFIFO n]) (M - n)
        have ih2 := ih (h ++ [Call.PortRead env.XHDCP1X_PORT_OFFSET_KSVFIFO n]) (M - n)
        generalize KsvReadsBySpec env f
          (h ++ [Call.PortRead env.XHDCP1X_PORT_OFFSET_KSVFIFO n]) (M - n) = r at hnil ih2
        intro hi
        cases i with
        | zero =>
          simp only [List.take_zero, List.map_nil, List.append_nil, List.getD_cons_zero,
            List.length_cons]
          constructor
          · intro _
            by_cases hl : r.1 = []
            · exact Or.inr (hnil hl)
            · left
              have := List.length_pos.2 hl
              omega
          · intro _; exact hr
        | succ i =>
          simp only [List.length_cons] at hi
          have k := ih2 i (by omega)
          simp only [List.take_succ_cons, List.map_cons, List.getD_cons_succ,
            List.length_cons]
          rw [List.append_assoc, List.singleton_append] at k
          rw [k]
          constructor
          · rintro (k | k)
            · exact Or.inl (by omega)
            · exact Or.inr k
          · rintro (k | k)
            · exact Or.inl (by omega)
            · exact Or.inr k
      · rw [if_neg hr]
        intro hi
        simp only [List.length_singleton] at hi
        have hi0 : i = 0 := by omega
        subst hi0
        simp only [List.take_zero, List.map_nil, List.append_nil, List.getD_cons_zero,
          List.length_singleton]
        constructor
        · intro k; exact absurd k hr
        · rintro (k | k)
          · omega
          · simp at k

/-- Only the handler of WaitForReady asks for ReadKsvList, and it does so with the
repeater information in the state helper. -/
theorem RunState_to_ReadKsvList (env : Env) (s : XHdcp1x_Tx) (e : tEvent)
    (h : (RunState env s e).2 = STATE_READKSVLIST)
    (hne : s.CurrentState ≠ STATE_READKSVLIST) :
    s.CurrentState = STATE_WAITFORREADY ∧ ReadyInfo (RunState env s e).1.StateHelper := by
  have k1 := PollForComputations_next env s s.CurrentState
  have k2 := ValidateRx_next env s s.CurrentState
  have k3 := CheckLinkIntegrity_next env s s.CurrentState
  have k4 := TestForRepeater_next env s s.CurrentState
  have k5 := PollForWaitForReady_cases env s
  cases hs : s.CurrentState
  case STATE_READKSVLIST => exact absurd hs hne
  case STATE_WAITFORREADY =>
    refine ⟨rfl, ?_⟩
    cases e <;> simp only [RunState, hs, RunWaitForReadyState] at h ⊢
    case EVENT_POLL =>
      rcases k5 with k | k
      · exact k.2
      · exact absurd h k.1
    case EVENT_TIMEOUT =>
      split_ifs at h ⊢ with hw
      rcases k5 with k | k
      · exact k.2
      · exact absurd h k.1
    all_goals exact absurd h (by decide)
  case STATE_DISABLED =>
    exfalso
    cases e <;> simp [RunState, hs, RunDisabledState] at h
    split_ifs at h
  case STATE_PHYDOWN =>
    exfalso
    cases e <;> simp [RunState, hs, RunPhysicalLayerDownState] at h
    split_ifs at h
  case STATE_COMPUTATIONS =>
    exfalso
    rw [hs] at k1
    cases e <;> simp [RunState, hs, RunComputationsState] at h
    rcases k1 with k | k <;> rw [k] at h <;> exact absurd h (by decide)
  case STATE_VALIDATERX =>
    exfalso
    rw [hs] at k2
    cases e <;> simp [RunState, hs, RunValidateRxState] at h
    rcases k2 with k | k <;> rw [k] at h <;> exact absurd h (by decide)
  case STATE_LINKINTEGRITYCHECK =>
    exfalso
    rw [hs] at k3
    cases e <;> simp [RunState, hs, RunLinkIntegrityCheckState] at h
    rcases k3 with k | k <;> rw [k] at h <;> exact absurd h (by decide)
  case STATE_TESTFORREPEATER =>
    exfalso
    rw [hs] at k4
    cases e <;> simp [RunState, hs, RunTestForRepeaterState] at h
    rcases k4 with k | k <;> rw [k] at h <;> exact absurd h (by decide)
  all_goals
    exfalso
    cases e <;>
      simp [RunState, hs, RunDetermineRxCapableState, RunExchangeKsvsState,
        RunAuthenticatedState, RunUnauthenticatedState] at h

/-- No entry action chooses ReadKsvList as the next state. -/
theorem EnterState_next_ne_ReadKsvList (env : Env) (s : XHdcp1x_Tx) (st : tState) :
    (EnterState env s st st).2 ≠ STATE_READKSVLIST := by
  cases st
  case STATE_DETERMINERXCAPABLE =>
    rcases CheckRxCapable_next env
      (DisableEncryption env (SetCheckLinkState env
        (setFlags s (setBits16 s.Flags FLAG_PHY_UP)) false)) STATE_DETERMINERXCAPABLE
      with h | h <;> simp [EnterState, h]
  case STATE_EXCHANGEKSVS =>
    rcases ExchangeKsvs_next env (setStateHelper s 0) STATE_EXCHANGEKSVS
      with h | h <;> simp [EnterState, h]
  case STATE_READKSVLIST =>
    rcases ReadKsvList_next env s STATE_READKSVLIST
      with h | h <;> simp [EnterState, h]
  case STATE_LINKINTEGRITYCHECK =>
    rcases CheckLinkIntegrity_next env s STATE_LINKINTEGRITYCHECK
      with h | h <;> simp [EnterState, h]
  case STATE_AUTHENTICATED =>
    simp only [EnterState]
    split_ifs <;> simp
  all_goals simp [EnterState, StartComputations]

theorem TransitionLoop_to_ReadKsvList (env : Env) (n : Nat) : ∀ p : XHdcp1x_Tx × tState,
    (p.1.CurrentState ≠ p.2 → p.2 = STATE_READKSVLIST →
      p.1.CurrentState = STATE_WAITFORREADY ∧ ReadyInfo p.1.StateHelper) →
    (TransitionLoop env n p).1.CurrentState ≠ (TransitionLoop env n p).2 →
    (TransitionLoop env n p).2 = STATE_READKSVLIST →
    (TransitionLoop env n p).1.CurrentState = STATE_WAITFORREADY
      ∧ ReadyInfo (TransitionLoop env n p).1.StateHelper := by
  unfold TransitionLoop
  induction n with
  | zero => intro p h; exact h
  | succ n ih =>
    intro p h
    rw [Function.iterate_succ_apply]
    apply ih
    by_cases hc : LoopClosed p
    · rw [TransitionStep_closed env p hc]; exact h
    · intro _ h2
      rw [TransitionStep_open env p hc] at h2
      exact absurd h2 (EnterState_next_ne_ReadKsvList env _ _)

/-- The repeater information that `ReadKsvList` passes on, for a state helper set by the
handler of WaitForReady. -/
theorem ReadyInfo_passed (h : Nat) (hr : ReadyInfo h) :
    ((h &&& 0x0FFF) % 2 ^ 16) &&& 0x7F = h &&& 0x7F
    ∧ 1 ≤ ((h &&& 0x0FFF) % 2 ^ 16) &&& 0x7F
    ∧ ((h &&& 0x0FFF) % 2 ^ 16) &&& 0x7F ≤ 127
    ∧ ((h &&& 0x0FFF) % 2 ^ 16).testBit 7 = false
    ∧ ((h &&& 0x0FFF) % 2 ^ 16).testBit 11 = false := by
  obtain ⟨-, h1, h2⟩ := hr
  have e : ((h &&& 0x0FFF) % 2 ^ 16) &&& 0x7F = h &&& 0x7F := by
    rw [and_0FFF_mod, Nat.and_assoc]
    rfl
  have hb : ∀ i : Nat, (0x0880 : Nat).testBit i = true → h.testBit i = false := by
    intro i hi
    have := congrArg (fun v => v.testBit i) h1
    simp only [Nat.testBit_and, Nat.zero_testBit, hi, Bool.and_true] at this
    exact this
  refine ⟨e, ?_, ?_, ?_, ?_⟩
  · rw [e]; omega
  · exact Nat.and_le_right
  · rw [and_0FFF_mod, Nat.testBit_and, hb 7 (by decide)]; rfl
  · rw [and_0FFF_mod, Nat.testBit_and, hb 11 (by decide)]; rfl

/-- What a transition between two states other than Disabled does to the state pair,
the ghost path, the pending set, the encryption map and the counter of failed
authentications. -/
theorem Transition_fields (env : Env) (s : XHdcp1x_Tx) (st nx : tState)
    (hc : s.CurrentState ≠ STATE_DISABLED) (hst : st ≠ STATE_DISABLED) :
    (EnterState env (swapState (ExitState env s s.CurrentState) st) st nx).1.core
        = (st, s.CurrentState, s.Path ++ [st], s.PendingEvents, s.EncryptionMap)
    ∧ (EnterState env (swapState (ExitState env s s.CurrentState) st) st nx).1.Stats.AuthFailed
        = s.Stats.AuthFailed := by
  have hx := core_ExitState env s s.CurrentState
  constructor
  · rw [core_EnterState env _ st nx hst]
    simp [XHdcp1x_Tx.core, swapState, CurrentState_of_core hx, Path_of_core hx,
      PendingEvents_of_core hx, EncryptionMap_of_core hx]
  · rw [AuthFailed_EnterState]
    simp only [swapState_Stats]
    cases hs : s.CurrentState <;> simp [ExitState, hs] at hc ⊢

/-- What a transition between two states other than Disabled does to the counter of
passed authentications, when the state entered is neither LinkIntegrityCheck nor
ReadKsvList: the entry action of Authenticated counts, unless the state left is
LinkIntegrityCheck. -/
theorem Transition_AuthPassed (env : Env) (s : XHdcp1x_Tx) (st nx : tState)
    (hc : s.CurrentState ≠ STATE_DISABLED) (hst : st ≠ STATE_DISABLED)
    (hl : st ≠ STATE_LINKINTEGRITYCHECK) (hr : st ≠ STATE_READKSVLIST) :
    (EnterState env (swapState (ExitState env s s.CurrentState) st) st nx).1.Stats.AuthPassed
      = if st = STATE_AUTHENTICATED ∧ s.CurrentState ≠ STATE_LINKINTEGRITYCHECK
        then s.Stats.AuthPassed + 1 else s.Stats.AuthPassed := by
  have hx : (ExitState env s s.CurrentState).Stats.AuthPassed = s.Stats.AuthPassed :=
    congrArg (fun c => c.1) (linkStats_ExitState env s s.CurrentState hc)
  have hcs : (ExitState env s s.CurrentState).CurrentState = s.CurrentState :=
    CurrentState_of_core (core_ExitState env s s.CurrentState)
  have hAP : ∀ a b : XHdcp1x_Tx, a.linkStats = b.linkStats →
      a.Stats.AuthPassed = b.Stats.AuthPassed := fun a b h => congrArg (fun c => c.1) h
  cases st
  case STATE_DISABLED => exact absurd rfl hst
  case STATE_LINKINTEGRITYCHECK => exact absurd rfl hl
  case STATE_READKSVLIST => exact absurd rfl hr
  case STATE_AUTHENTICATED =>
    have hp : (EnableEncryption env (setStateHelper
        (swapState (ExitState env s s.CurrentState) STATE_AUTHENTICATED) 0)).PreviousState
        = s.CurrentState := by
      rw [PreviousState_of_core (core_EnableEncryption env _)]
      simp [swapState, hcs]
    have ha : (EnableEncryption env (setStateHelper
        (swapState (ExitState env s s.CurrentState) STATE_AUTHENTICATED) 0)).Stats.AuthPassed
        = s.Stats.AuthPassed := by
      rw [hAP _ _ (linkStats_EnableEncryption env _)]
      simp [swapState, hx]
    simp only [EnterState, hp]
    by_cases h : s.CurrentState = STATE_LINKINTEGRITYCHECK
    · rw [if_neg (by simp [h]), if_neg (by simp [h])]
      exact ha
    · rw [if_pos h, if_pos ⟨trivial, h⟩]
      simp [hAP _ _ (linkStats_SetCheckLinkState env _ true), countAuthPassed, ha]
  case STATE_DETERMINERXCAPABLE =>
    rw [hAP _ _ (linkStats_EnterState env _ _ _ (by simp))]
    simp [hx]
  case STATE_EXCHANGEKSVS =>
    rw [hAP _ _ (linkStats_EnterState env _ _ _ (by simp))]
    simp [hx]
  case STATE_COMPUTATIONS =>
    rw [hAP _ _ (linkStats_EnterState env _ _ _ (by simp))]
    simp [hx]
  case STATE_UNAUTHENTICATED =>
    rw [hAP _ _ (linkStats_EnterState env _ _ _ (by simp))]
    simp [hx]
  case STATE_PHYDOWN =>
    simp [EnterState, hAP _ _ (linkStats_DisableEncryption env _), hx]
  all_goals simp [EnterState, StartTimer, hx]

/-- A round of the loop of state transitions that enters a state other than Disabled,
LinkIntegrityCheck and ReadKsvList from a state other than Disabled. -/
theorem TransitionLoop_enter (env : Env) (n : Nat) (u : XHdcp1x_Tx) (st nx : tState)
    (hne : u.CurrentState ≠ st) (hc : u.CurrentState ≠ STATE_DISABLED)
    (hst : st ≠ STATE_DISABLED) (hl : st ≠ STATE_LINKINTEGRITYCHECK)
    (hr : st ≠ STATE_READKSVLIST)
    (hnx : (EnterState env (swapState (ExitState env u u.CurrentState) st) st st).2 = nx) :
    ∃ v : XHdcp1x_Tx, TransitionLoop env (n + 1) (u, st) = TransitionLoop env n (v, nx)
      ∧ v.progress = (st, u.CurrentState, u.Path ++ [st], u.PendingEvents,
          (if st = STATE_AUTHENTICATED ∧ u.CurrentState ≠ STATE_LINKINTEGRITYCHECK
            then u.Stats.AuthPassed + 1 else u.Stats.AuthPassed),
          u.Stats.AuthFailed) := by
  refine ⟨(EnterState env (swapState (ExitState env u u.CurrentState) st) st st).1, ?_, ?_⟩
  · rw [TransitionLoop_succ_open env n (u, st) hne, ← hnx]
  · obtain ⟨c, f⟩ := Transition_fields env u st st hc hst
    have a := Transition_AuthPassed env u st st hc hst hl hr
    have h1 : (EnterState env (swapState (ExitState env u u.CurrentState) st) st
        st).1.CurrentState = st := congrArg (fun c => c.1) c
    have h2 : (EnterState env (swapState (ExitState env u u.CurrentState) st) st
        st).1.PreviousState = u.CurrentState := congrArg (fun c => c.2.1) c
    have h3 : (EnterState env (swapState (ExitState env u u.CurrentState) st) st
        st).1.Path = u.Path ++ [st] := congrArg (fun c => c.2.2.1) c
    have h4 : (EnterState env (swapState (ExitState env u u.CurrentState) st) st
        st).1.PendingEvents = u.PendingEvents := congrArg (fun c => c.2.2.2.1) c
    unfold XHdcp1x_Tx.progress
    rw [a, f, h1, h2, h3, h4]

/-- When the first read of Ro' succeeds and gives the Ro of the cipher, `ValidateRx`
makes one attempt and asks for TestForRepeater. -/
theorem ValidateRx_first_match (env : Env) (s : XHdcp1x_Tx) (nx : tState)
    (hread : 0 < (env.PortRead s.Calls env.XHDCP1X_PORT_OFFSET_RO 2).1)
    (hm : env.CipherGetRo (s.Calls ++ [Call.PortRead env.XHDCP1X_PORT_OFFSET_RO 2]) % 2 ^ 16
      = XHDCP1X_PORT_BUF_TO_UINT
          (PortReadInto (UninitBuf env s.Calls 2)
            (env.PortRead s.Calls env.XHDCP1X_PORT_OFFSET_RO 2).2 2) 16 % 2 ^ 16) :
    ValidateRx env s nx
      = (issue (issue s (Call.PortRead env.XHDCP1X_PORT_OFFSET_RO 2)) Call.CipherGetRo,
          STATE_TESTFORREPEATER) := by
  have hb : ValidateRxBody env 3 (s, UninitBuf env s.Calls 2, STATE_UNAUTHENTICATED)
      = (issue (issue s (Call.PortRead env.XHDCP1X_PORT_OFFSET_RO 2)) Call.CipherGetRo,
          PortReadInto (UninitBuf env s.Calls 2)
            (env.PortRead s.Calls env.XHDCP1X_PORT_OFFSET_RO 2).2 2,
          STATE_TESTFORREPEATER) := by
    unfold ValidateRxBody
    dsimp only
    rw [if_pos (by omega), if_pos (by simpa using hm)]
  unfold ValidateRx
  simp only [ValidateRxLoop, hb]
  simp

set_option maxRecDepth 100000 in
/-- In Unauthenticated, with a capable receiver whose BKSV is read, is valid and is not
revoked, an Authenticate event leads through DetermineRxCapable and ExchangeKsvs to
Computations. -/
theorem Authenticate_step (env : Env) (t : XHdcp1x_Tx) (Ksv : Nat)
    (ht : t.CurrentState = STATE_UNAUTHENTICATED)
    (hcap : ∀ h, env.PortIsCapable h = true)
    (hread : ∀ h, 0 < (env.PortRead h env.XHDCP1X_PORT_OFFSET_BKSV 5).1)
    (hK : ∀ h, XHDCP1X_PORT_BUF_TO_UINT
        (PortReadInto (List.replicate 8 0) (env.PortRead h env.XHDCP1X_PORT_OFFSET_BKSV 5).2 5)
        (XHDCP1X_PORT_SIZE_BKSV * 8) = Ksv)
    (hval : IsKsvValid Ksv = true)
    (hrev : ∀ h, env.PlatformIsKsvRevoked h Ksv = false) :
    (DoTheState env t EVENT_AUTHENTICATE).progress
      = (STATE_COMPUTATIONS, STATE_EXCHANGEKSVS,
          t.Path ++ [STATE_DETERMINERXCAPABLE, STATE_EXCHANGEKSVS, STATE_COMPUTATIONS],
          t.PendingEvents, t.Stats.AuthPassed, t.Stats.AuthFailed) := by
  have hr : RunState env t EVENT_AUTHENTICATE = (t, STATE_DETERMINERXCAPABLE) := by
    simp [RunState, ht, RunUnauthenticatedState]
  unfold DoTheState
  rw [hr]
  obtain ⟨v1, e1, p1⟩ := TransitionLoop_enter env 3 t STATE_DETERMINERXCAPABLE
    STATE_EXCHANGEKSVS (by rw [ht]; decide) (by rw [ht]; decide) (by decide) (by decide)
    (by decide) (by simp [EnterState, CheckRxCapable, hcap])
  have c1 : v1.CurrentState = STATE_DETERMINERXCAPABLE := congrArg (fun c => c.1) p1
  obtain ⟨v2, e2, p2⟩ := TransitionLoop_enter env 2 v1 STATE_EXCHANGEKSVS
    STATE_COMPUTATIONS (by rw [c1]; decide) (by rw [c1]; decide) (by decide) (by decide)
    (by decide)
    (by
      simp only [EnterState]
      rw [ExchangeKsvs_success env _ _ Ksv (hread _) (hK _) hval (hrev _)])
  have c2 : v2.CurrentState = STATE_EXCHANGEKSVS := congrArg (fun c => c.1) p2
  obtain ⟨v3, e3, p3⟩ := TransitionLoop_enter env 1 v2 STATE_COMPUTATIONS
    STATE_COMPUTATIONS (by rw [c2]; decide) (by rw [c2]; decide) (by decide) (by decide)
    (by decide) (by simp [EnterState, StartComputations])
  have c3 : v3.CurrentState = STATE_COMPUTATIONS := congrArg (fun c => c.1) p3
  rw [e1, e2, e3, TransitionLoop_of_closed env 1 (v3, STATE_COMPUTATIONS) c3, p3]
  simp only [XHdcp1x_Tx.progress, Prod.mk.injEq] at p1 p2
  obtain ⟨_, _, a3, a4, a5, a6⟩ := p1
  obtain ⟨_, _, b3, b4, b5, b6⟩ := p2
  rw [c2, b3, b4, b5, b6, a3, a4, a5, a6, c1, ht]
  simp

/-- In Computations, when the cipher reports that its request is complete, a Poll event
leads to ValidateRx. -/
theorem Computations_poll_step (env : Env) (t : XHdcp1x_Tx)
    (ht : t.CurrentState = STATE_COMPUTATIONS)
    (hdone : ∀ h, env.CipherIsRequestComplete h = true) :
    (DoTheState env t EVENT_POLL).progress
      = (STATE_VALIDATERX, STATE_COMPUTATIONS, t.Path ++ [STATE_VALIDATERX],
          t.PendingEvents, t.Stats.AuthPassed, t.Stats.AuthFailed) := by
  have hr : RunState env t EVENT_POLL
      = (issue t Call.CipherIsRequestComplete, STATE_VALIDATERX) := by
    simp [RunState, ht, RunComputationsState, PollForComputations, hdone]
  unfold DoTheState
  rw [hr]
  obtain ⟨v1, e1, p1⟩ := TransitionLoop_enter env 3 (issue t Call.CipherIsRequestComplete)
    STATE_VALIDATERX STATE_VALIDATERX (by simp [ht]) (by simp [ht]) (by decide) (by decide)
    (by decide) (by simp [EnterState])
  have c1 : v1.CurrentState = STATE_VALIDATERX := congrArg (fun c => c.1) p1
  rw [e1, TransitionLoop_of_closed env 3 (v1, STATE_VALIDATERX) c1, p1]
  simp [ht]

/-- In ValidateRx, when the first read of Ro' succeeds and gives the Ro of the cipher,
a Timeout event leads to TestForRepeater. -/
theorem ValidateRx_timeout_step (env : Env) (t : XHdcp1x_Tx) (Ro : Nat)
    (ht : t.CurrentState = STATE_VALIDATERX)
    (hread : ∀ h, 0 < (env.PortRead h env.XHDCP1X_PORT_OFFSET_RO 2).1)
    (hRo' : ∀ h, XHDCP1X_PORT_BUF_TO_UINT
        (PortReadInto (UninitBuf env h 2) (env.PortRead h env.XHDCP1X_PORT_OFFSET_RO 2).2 2)
        16 % 2 ^ 16 = Ro)
    (hRo : ∀ h, env.CipherGetRo h % 2 ^ 16 = Ro) :
    (DoTheState env t EVENT_TIMEOUT).progress
      = (STATE_TESTFORREPEATER, STATE_VALIDATERX, t.Path ++ [STATE_TESTFORREPEATER],
          t.PendingEvents, t.Stats.AuthPassed, t.Stats.AuthFailed) := by
  have hr : RunState env t EVENT_TIMEOUT
      = (issue (issue t (Call.PortRead env.XHDCP1X_PORT_OFFSET_RO 2)) Call.CipherGetRo,
          STATE_TESTFORREPEATER) := by
    rw [RunState_ValidateRx_timeout env t ht]
    exact ValidateRx_first_match env t _ (hread _) ((hRo _).trans (hRo' _).symm)
  unfold DoTheState
  rw [hr]
  obtain ⟨v1, e1, p1⟩ := TransitionLoop_enter env 3
    (issue (issue t (Call.PortRead env.XHDCP1X_PORT_OFFSET_RO 2)) Call.CipherGetRo)
    STATE_TESTFORREPEATER STATE_TESTFORREPEATER (by simp [ht]) (by simp [ht]) (by decide)
    (by decide) (by decide) (by simp [EnterState])
  have c1 : v1.CurrentState = STATE_TESTFORREPEATER := congrArg (fun c => c.1) p1
  rw [e1, TransitionLoop_of_closed env 3 (v1, STATE_TESTFORREPEATER) c1, p1]
  simp [ht]

/-- In TestForRepeater, when the receiver is not a repeater, a Poll event leads to
Authenticated and the authentication is counted as passed. -/
theorem TestForRepeater_poll_step (env : Env) (t : XHdcp1x_Tx)
    (ht : t.CurrentState = STATE_TESTFORREPEATER)
    (hrep : ∀ h, env.PortIsRepeater h = false) :
    (DoTheState env t EVENT_POLL).progress
      = (STATE_AUTHENTICATED, STATE_TESTFORREPEATER, t.Path ++ [STATE_AUTHENTICATED],
          t.PendingEvents, t.Stats.AuthPassed + 1, t.Stats.AuthFailed) := by
  have hr : RunState env t EVENT_POLL
      = (setFlags (issue t Call.PortIsRepeater)
          (clearBits16 (issue t Call.PortIsRepeater).Flags FLAG_IS_REPEATER),
          STATE_AUTHENTICATED) := by
    simp [RunState, ht, RunTestForRepeaterState, TestForRepeater, hrep]
  unfold DoTheState
  rw [hr]
  obtain ⟨v1, e1, p1⟩ := TransitionLoop_enter env 3
    (setFlags (issue t Call.PortIsRepeater)
      (clearBits16 (issue t Call.PortIsRepeater).Flags FLAG_IS_REPEATER))
    STATE_AUTHENTICATED STATE_AUTHENTICATED (by simp [ht]) (by simp [ht]) (by decide)
    (by decide) (by decide)
    (by simp only [EnterState]; split_ifs <;> rfl)
  have c1 : v1.CurrentState = STATE_AUTHENTICATED := congrArg (fun c => c.1) p1
  rw [e1, TransitionLoop_of_closed env 3 (v1, STATE_AUTHENTICATED) c1, p1]
  simp [ht]

/-- A poll with only the Authenticate event pending handles Authenticate, then Poll. -/
theorem Poll_after_Authenticate (env : Env) (s : XHdcp1x_Tx) (hp : s.PendingEvents = 0) :
    (XHdcp1x_TxPoll env (XHdcp1x_TxAuthenticate s).1).1
      = DoTheState env (DoTheState env (setPendingEvents s 0) EVENT_AUTHENTICATE)
          EVENT_POLL := by
  unfold XHdcp1x_TxPoll XHdcp1x_TxAuthenticate
  dsimp only
  rw [ProcessPending_eq_foldl env _ (PostEvent_lt s _)]
  have h : (PostEvent s EVENT_AUTHENTICATE).PendingEvents = 2 := by
    simp [PostEvent, hp, setBits16, tEvent.toNat]
  have h0 : setPendingEvents (PostEvent s EVENT_AUTHENTICATE) 0 = setPendingEvents s 0 := by
    simp [PostEvent, setPendingEvents]
  rw [h, h0]
  simp [DrainOrder, tEvent.toNat, Nat.testBit]

/-- A poll with only the Timeout event pending handles Timeout, then Poll. -/
theorem Poll_after_HandleTimeout (env : Env) (s : XHdcp1x_Tx) (hp : s.PendingEvents = 0) :
    (XHdcp1x_TxPoll env (XHdcp1x_TxHandleTimeout s)).1
      = DoTheState env (DoTheState env (setPendingEvents s 0) EVENT_TIMEOUT)
          EVENT_POLL := by
  unfold XHdcp1x_TxPoll XHdcp1x_TxHandleTimeout
  dsimp only
  rw [ProcessPending_eq_foldl env _ (PostEvent_lt s _)]
  have h : (PostEvent s EVENT_TIMEOUT).PendingEvents = 512 := by
    simp [PostEvent, hp, setBits16, tEvent.toNat]
  have h0 : setPendingEvents (PostEvent s EVENT_TIMEOUT) 0 = setPendingEvents s 0 := by
    simp [PostEvent, setPendingEvents]
  rw [h, h0]
  simp [DrainOrder, tEvent.toNat, Nat.testBit]

/-- C31 (happy path S1): let the instance be in Unauthenticated with no event pending,
the port be HDCP capable and not a repeater, every read of BKSV succeed with a valid
KSV that is not revoked, every read of Ro' succeed with the Ro of the cipher, and the
cipher report its request complete.  Then the calls authenticate, poll, handle_timeout,
poll drive the state machine through DetermineRxCapable, ExchangeKsvs, Computations and
ValidateRx (where it rests after the first poll), then TestForRepeater, to
Authenticated; no other state is entered, the counter of passed authentications has
grown by one, the counter of failed authentications is unchanged, and no event is left
pending.  The path does not depend on the value of An. -/
theorem happy_path_to_Authenticated (env : Env) (s : XHdcp1x_Tx) (Ksv Ro : Nat)
    (hs : s.CurrentState = STATE_UNAUTHENTICATED) (hp : s.PendingEvents = 0)
    (hcap : ∀ h, env.PortIsCapable h = true)
    (hrep : ∀ h, env.PortIsRepeater h = false)
    (hread : ∀ h, 0 < (env.PortRead h env.XHDCP1X_PORT_OFFSET_BKSV 5).1)
    (hK : ∀ h, XHDCP1X_PORT_BUF_TO_UINT
        (PortReadInto (List.replicate 8 0) (env.PortRead h env.XHDCP1X_PORT_OFFSET_BKSV 5).2 5)
        (XHDCP1X_PORT_SIZE_BKSV * 8) = Ksv)
    (hval : IsKsvValid Ksv = true)
    (hrev : ∀ h, env.PlatformIsKsvRevoked h Ksv = false)
    (hdone : ∀ h, env.CipherIsRequestComplete h = true)
    (hroread : ∀ h, 0 < (env.PortRead h env.XHDCP1X_PORT_OFFSET_RO 2).1)
    (hRo' : ∀ h, XHDCP1X_PORT_BUF_TO_UINT
        (PortReadInto (UninitBuf env h 2) (env.PortRead h env.XHDCP1X_PORT_OFFSET_RO 2).2 2)
        16 % 2 ^ 16 = Ro)
    (hRo : ∀ h, env.CipherGetRo h % 2 ^ 16 = Ro) :
    ([TxOp.Authenticate, TxOp.Poll].foldl (TxOp.apply env) s).CurrentState
        = STATE_VALIDATERX
    ∧ ([TxOp.Authenticate, TxOp.Poll].foldl (TxOp.apply env) s).Path
        = s.Path ++ [STATE_DETERMINERXCAPABLE, STATE_EXCHANGEKSVS, STATE_COMPUTATIONS,
            STATE_VALIDATERX]
    ∧ ([TxOp.Authenticate, TxOp.Poll, TxOp.HandleTimeout, TxOp.Poll].foldl
          (TxOp.apply env) s).CurrentState = STATE_AUTHENTICATED
    ∧ ([TxOp.Authenticate, TxOp.Poll, TxOp.HandleTimeout, TxOp.Poll].foldl
          (TxOp.apply env) s).Path
        = s.Path ++ [STATE_DETERMINERXCAPABLE, STATE_EXCHANGEKSVS, STATE_COMPUTATIONS,
            STATE_VALIDATERX, STATE_TESTFORREPEATER, STATE_AUTHENTICATED]
    ∧ ([TxOp.Authenticate, TxOp.Poll, TxOp.HandleTimeout, TxOp.Poll].foldl
          (TxOp.apply env) s).Stats.AuthPassed = s.Stats.AuthPassed + 1
    ∧ ([TxOp.Authenticate, TxOp.Poll, TxOp.HandleTimeout, TxOp.Poll].foldl
          (TxOp.apply env) s).Stats.AuthFailed = s.Stats.AuthFailed
    ∧ ([TxOp.Authenticate, TxOp.Poll, TxOp.HandleTimeout, TxOp.Poll].foldl
          (TxOp.apply env) s).PendingEvents = 0 := by
  have A := Authenticate_step env (setPendingEvents s 0) Ksv (by simp [hs]) hcap hread hK
    hval hrev
  have cA : (DoTheState env (setPendingEvents s 0) EVENT_AUTHENTICATE).CurrentState
      = STATE_COMPUTATIONS := congrArg (fun c => c.1) A
  have B := Computations_poll_step env _ cA hdone
  have e1 := Poll_after_Authenticate env s hp
  simp only [List.foldl, TxOp.apply]
  rw [e1]
  generalize DoTheState env (DoTheState env (setPendingEvents s 0) EVENT_AUTHENTICATE)
    EVENT_POLL = u at B ⊢
  simp only [XHdcp1x_Tx.progress, Prod.mk.injEq] at A B
  obtain ⟨_, _, a3, a4, a5, a6⟩ := A
  obtain ⟨b1, _, b3, b4, b5, b6⟩ := B
  rw [a3] at b3
  rw [a4] at b4
  rw [a5] at b5
  rw [a6] at b6
  simp only [setPendingEvents_Path, setPendingEvents_PendingEvents, setPendingEvents_Stats,
    List.append_assoc, List.cons_append, List.nil_append] at b3 b4 b5 b6
  have C := ValidateRx_timeout_step env (setPendingEvents u 0) Ro (by simp [b1]) hroread
    hRo' hRo
  have cC : (DoTheState env (setPendingEvents u 0) EVENT_TIMEOUT).CurrentState
      = STATE_TESTFORREPEATER := congrArg (fun c => c.1) C
  have D := TestForRepeater_poll_step env _ cC hrep
  rw [Poll_after_HandleTimeout env u b4]
  generalize DoTheState env (DoTheState env (setPendingEvents u 0) EVENT_TIMEOUT)
    EVENT_POLL = w at D ⊢
  simp only [XHdcp1x_Tx.progress, Prod.mk.injEq] at C D
  obtain ⟨_, _, c3, c4, c5, c6⟩ := C
  obtain ⟨d1, _, d3, d4, d5, d6⟩ := D
  rw [c3] at d3
  rw [c4] at d4
  rw [c5] at d5
  rw [c6] at d6
  simp only [setPendingEvents_Path, setPendingEvents_PendingEvents, setPendingEvents_Stats,
    List.append_assoc, List.cons_append, List.nil_append] at d3 d4 d5 d6
  refine ⟨b1, b3, d1, ?_, ?_, ?_, d4⟩
  · rw [d3, b3]; simp
  · rw [d5, b5]
  · rw [d6, b6]

set_option maxRecDepth 100000 in
theorem happy_path_to_Authenticated_witness :
    (Run sampleEnv [TxOp.SetPhysicalState true, TxOp.Enable, TxOp.Poll]).CurrentState
        = STATE_UNAUTHENTICATED
    ∧ (Run sampleEnv [TxOp.SetPhysicalState true, TxOp.Enable, TxOp.Poll]).PendingEvents = 0
    ∧ (Run sampleEnv [TxOp.SetPhysicalState true, TxOp.Enable, TxOp.Poll]).Flags = 1
    ∧ IsKsvValid 0x00000FFFFF = true
    ∧ sampleEnv.CipherGetMi [] = 0x0123456789ABCDEF
    ∧ ([TxOp.Authenticate, TxOp.Poll, TxOp.HandleTimeout, TxOp.Poll].foldl
          (TxOp.apply sampleEnv)
          (Run sampleEnv [TxOp.SetPhysicalState true, TxOp.Enable, TxOp.Poll])).CurrentState
        = STATE_AUTHENTICATED
    ∧ ([TxOp.Authenticate, TxOp.Poll, TxOp.HandleTimeout, TxOp.Poll].foldl
          (TxOp.apply sampleEnv)
          (Run sampleEnv [TxOp.SetPhysicalState true, TxOp.Enable, TxOp.Poll])).Path
        = [STATE_PHYDOWN, STATE_UNAUTHENTICATED, STATE_DETERMINERXCAPABLE,
            STATE_EXCHANGEKSVS, STATE_COMPUTATIONS, STATE_VALIDATERX,
            STATE_TESTFORREPEATER, STATE_AUTHENTICATED]
    ∧ ([TxOp.Authenticate, TxOp.Poll, TxOp.HandleTimeout, TxOp.Poll].foldl
          (TxOp.apply sampleEnv)
          (Run sampleEnv [TxOp.SetPhysicalState true, TxOp.Enable,
            TxOp.Poll])).Stats.AuthPassed = 1
    ∧ ([TxOp.Authenticate, TxOp.Poll, TxOp.HandleTimeout, TxOp.Poll].foldl
          (TxOp.apply sampleEnv)
          (Run sampleEnv [TxOp.SetPhysicalState true, TxOp.Enable,
            TxOp.Poll])).Stats.AuthFailed = 0 :=
  have h := happy_path_to_Authenticated sampleEnv
    (Run sampleEnv [TxOp.SetPhysicalState true, TxOp.Enable, TxOp.Poll]) 0x00000FFFFF 0xBEEF
    (by decide) (by decide) (fun _ => rfl) (fun _ => rfl)
    (fun _ => (by decide : (0 : Int) < ((5 : Nat) : Int)))
    (fun _ => (by decide : XHDCP1X_PORT_BUF_TO_UINT
        (PortReadInto (List.replicate 8 0) [0xFF, 0xFF, 0x0F, 0x00, 0x00] 5)
        (XHDCP1X_PORT_SIZE_BKSV * 8) = 0x00000FFFFF))
    (by decide) (fun _ => rfl) (fun _ => rfl)
    (fun _ => (by decide : (0 : Int) < ((2 : Nat) : Int)))
    (fun _ => (by decide : XHDCP1X_PORT_BUF_TO_UINT
        (PortReadInto (UninitBuf sampleEnv [] 2) [0xEF, 0xBE] 2) 16 % 2 ^ 16 = 0xBEEF))
    (fun _ => (by decide : 0xBEEF % 2 ^ 16 = 0xBEEF))
  ⟨by decide, by decide, by decide, by decide, rfl, h.2.2.1, h.2.2.2.1.trans (by decide),
    h.2.2.2.2.1.trans (by decide), h.2.2.2.2.2.1.trans (by decide)⟩

/-! ## Transport errors in the exchange of the ksvs -/

theorem RunState_withPortWrite (env : Env) (W : List Call → Nat → List Nat → Int)
    (s : XHdcp1x_Tx) (e : tEvent) :
    RunState (withPortWrite env W) s e = RunState env s e := by
  unfold RunState
  cases s.CurrentState <;> rfl

theorem ReadKsvChunks_withPortWrite (env : Env) (W : List Call → Nat → List Nat → Int)
    (n : Nat) : ∀ p : KsvListState,
    ReadKsvChunks (withPortWrite env W) n p = ReadKsvChunks env n p := by
  induction n with
  | zero => intro p; rfl
  | succ n ih =>
    intro p
    unfold ReadKsvChunks
    rw [show ReadKsvChunk (withPortWrite env W) p = ReadKsvChunk env p from rfl]
    dsimp only
    rw [ih]

theorem CheckShaChunks_withPortWrite (env : Env) (W : List Call → Nat → List Nat → Int)
    (d : List Nat) (n : Nat) : ∀ p : VCheckState,
    CheckShaChunks (withPortWrite env W) d n p = CheckShaChunks env d n p := by
  induction n with
  | zero => intro p; rfl
  | succ n ih =>
    intro p
    unfold CheckShaChunks
    rw [show CheckShaChunk (withPortWrite env W) d p = CheckShaChunk env d p from rfl]
    dsimp only
    rw [ih]

theorem ValidateKsvList_withPortWrite (env : Env) (W : List Call → Nat → List Nat → Int)
    (s : XHdcp1x_Tx) (b : Nat) :
    ValidateKsvList (withPortWrite env W) s b = ValidateKsvList env s b := by
  unfold ValidateKsvList
  dsimp only
  rw [ReadKsvChunks_withPortWrite]
  simp only [CheckShaChunks_withPortWrite]
  rfl

theorem ReadKsvListLoop_withPortWrite (env : Env) (W : List Call → Nat → List Nat → Int)
    (b : Nat) (n : Nat) : ∀ s : XHdcp1x_Tx,
    ReadKsvListLoop (withPortWrite env W) b n s = ReadKsvListLoop env b n s := by
  induction n with
  | zero => intro s; exact ValidateKsvList_withPortWrite env W s b
  | succ n ih =>
    intro s
    unfold ReadKsvListLoop
    rw [ValidateKsvList_withPortWrite]
    dsimp only
    rw [ih]

theorem EnterState_withPortWrite (env : Env) (W : List Call → Nat → List Nat → Int)
    (s : XHdcp1x_Tx) (st nx : tState) :
    EnterState (withPortWrite env W) s st nx = EnterState env s st nx := by
  cases st
  case STATE_READKSVLIST =>
    simp only [EnterState, ReadKsvList, ReadKsvListLoop_withPortWrite]
  all_goals rfl

theorem TransitionStep_withPortWrite (env : Env) (W : List Call → Nat → List Nat → Int) :
    TransitionStep (withPortWrite env W) = TransitionStep env := by
  funext p
  unfold TransitionStep
  simp only [EnterState_withPortWrite]
  rfl

theorem DoTheState_withPortWrite (env : Env) (W : List Call → Nat → List Nat → Int)
    (s : XHdcp1x_Tx) (e : tEvent) :
    DoTheState (withPortWrite env W) s e = DoTheState env s e := by
  unfold DoTheState TransitionLoop
  rw [RunState_withPortWrite, TransitionStep_withPortWrite]

theorem Stats_AwaitStep_iterate (env : Env) (n : Nat) : ∀ p : XHdcp1x_Tx × Bool,
    ((AwaitStep env)^[n] p).1.Stats = p.1.Stats := by
  induction n with
  | zero => intro p; rfl
  | succ n ih =>
    intro p
    rw [Function.iterate_succ_apply, ih]
    unfold AwaitStep
    split_ifs <;> simp

theorem Stats_AwaitRequestComplete (env : Env) (s : XHdcp1x_Tx) :
    (AwaitRequestComplete env s).1.Stats = s.Stats :=
  Stats_AwaitStep_iterate env _ (s, false)

theorem Stats_GenerateAn (env : Env) (s : XHdcp1x_Tx) :
    (GenerateAn env s).1.Stats = s.Stats := by
  unfold GenerateAn
  dsimp only
  split_ifs <;> simp [Stats_AwaitRequestComplete]

/-- C33, as amended: in `ExchangeKsvs` a read of BKSV that returns a non-positive count
is counted in ReadFailures and leaves the next state Unauthenticated, with nothing
written to the port.  The counts returned by the writes of AN and AKSV are not looked
at: after a successful read of a valid BKSV that is not revoked both writes are issued,
the next state is Computations and ReadFailures is unchanged, and neither `ExchangeKsvs`
nor an event step as a whole depends on what the port answers to a write. -/
theorem ExchangeKsvs_transport_errors (env : Env) (s : XHdcp1x_Tx) (nx : tState)
    (Ksv : Nat) :
    ((env.PortRead s.Calls env.XHDCP1X_PORT_OFFSET_BKSV 5).1 ≤ 0 →
      ExchangeKsvs env s nx
        = (countReadFailures (issue s (Call.PortRead env.XHDCP1X_PORT_OFFSET_BKSV 5)),
            STATE_UNAUTHENTICATED)
      ∧ (ExchangeKsvs env s nx).1.Stats.ReadFailures = s.Stats.ReadFailures + 1
      ∧ (ExchangeKsvs env s nx).1.Calls
          = s.Calls ++ [Call.PortRead env.XHDCP1X_PORT_OFFSET_BKSV 5])
    ∧ (0 < (env.PortRead s.Calls env.XHDCP1X_PORT_OFFSET_BKSV 5).1 →
      XHDCP1X_PORT_BUF_TO_UINT
        (PortReadInto (List.replicate 8 0)
          (env.PortRead s.Calls env.XHDCP1X_PORT_OFFSET_BKSV 5).2 5)
        (XHDCP1X_PORT_SIZE_BKSV * 8) = Ksv →
      IsKsvValid Ksv = true →
      env.PlatformIsKsvRevoked
        (s.Calls ++ [Call.PortRead env.XHDCP1X_PORT_OFFSET_BKSV 5]) Ksv = false →
      (ExchangeKsvs env s nx).2 = STATE_COMPUTATIONS
      ∧ (ExchangeKsvs env s nx).1.Stats.ReadFailures = s.Stats.ReadFailures
      ∧ (ExchangeKsvs env s nx).1.Calls
          = (GenerateAn env (ExchangeKsvsBeforeAn env s Ksv)).1.Calls
            ++ [Call.CipherGetLocalKsv, Call.CipherSetRemoteKsv Ksv,
                Call.PortWrite env.XHDCP1X_PORT_OFFSET_AN
                  (LittleEndianBytes (GenerateAn env (ExchangeKsvsBeforeAn env s Ksv)).2 8),
                Call.PortWrite env.XHDCP1X_PORT_OFFSET_AKSV
                  (LittleEndianBytes
                    (env.CipherGetLocalKsv
                      (GenerateAn env (ExchangeKsvsBeforeAn env s Ksv)).1.Calls % 2 ^ 64) 5)])
    ∧ (∀ W : List Call → Nat → List Nat → Int,
        ExchangeKsvs (withPortWrite env W) s nx = ExchangeKsvs env s nx)
    ∧ (∀ (W : List Call → Nat → List Nat → Int) (e : tEvent),
        DoTheState (withPortWrite env W) s e = DoTheState env s e) := by
  refine ⟨?_, ?_, fun W => rfl, fun W e => DoTheState_withPortWrite env W s e⟩
  · intro h
    have hx : ExchangeKsvs env s nx
        = (countReadFailures (issue s (Call.PortRead env.XHDCP1X_PORT_OFFSET_BKSV 5)),
            STATE_UNAUTHENTICATED) := by
      unfold ExchangeKsvs
      dsimp only
      rw [if_neg (by omega)]
    rw [hx]
    exact ⟨rfl, rfl, rfl⟩
  · intro hread hK hval hrev
    rw [ExchangeKsvs_success env s nx Ksv hread hK hval hrev]
    refine ⟨rfl, ?_, ?_⟩
    · simp only [issue_Stats, setStateHelper_Stats, Stats_GenerateAn]
      unfold ExchangeKsvsBeforeAn
      dsimp only
      split_ifs <;> rfl
    · simp [issue]

set_option maxRecDepth 100000 in
theorem ExchangeKsvs_transport_errors_witness :
    (sampleEnvReadFails.PortRead (sampleTx STATE_EXCHANGEKSVS 1 0).Calls
        sampleEnvReadFails.XHDCP1X_PORT_OFFSET_BKSV 5).1 ≤ 0
    ∧ (ExchangeKsvs sampleEnvReadFails (sampleTx STATE_EXCHANGEKSVS 1 0)
        STATE_EXCHANGEKSVS).2 = STATE_UNAUTHENTICATED
    ∧ (ExchangeKsvs sampleEnvReadFails (sampleTx STATE_EXCHANGEKSVS 1 0)
        STATE_EXCHANGEKSVS).1.Stats.ReadFailures = 1
    ∧ 0 < (sampleEnvWriteFails.PortRead (sampleTx STATE_EXCHANGEKSVS 1 0).Calls
        sampleEnvWriteFails.XHDCP1X_PORT_OFFSET_BKSV 5).1
    ∧ IsKsvValid 0x00000FFFFF = true
    ∧ (∀ (h : List Call) (Offset : Nat) (Data : List Nat),
        sampleEnvWriteFails.PortWrite h Offset Data ≤ 0)
    ∧ (ExchangeKsvs sampleEnvWriteFails (sampleTx STATE_EXCHANGEKSVS 1 0)
        STATE_EXCHANGEKSVS).2 = STATE_COMPUTATIONS
    ∧ (ExchangeKsvs sampleEnvWriteFails (sampleTx STATE_EXCHANGEKSVS 1 0)
        STATE_EXCHANGEKSVS).1.Stats.ReadFailures = 0 :=
  have hf := (ExchangeKsvs_transport_errors sampleEnvReadFails
    (sampleTx STATE_EXCHANGEKSVS 1 0) STATE_EXCHANGEKSVS 0).1 (by decide)
  have hw := (ExchangeKsvs_transport_errors sampleEnvWriteFails
    (sampleTx STATE_EXCHANGEKSVS 1 0) STATE_EXCHANGEKSVS 0x00000FFFFF).2.1 (by decide)
    (by decide) (by decide) rfl
  ⟨by decide, congrArg Prod.snd hf.1, hf.2.1, by decide, by decide,
    fun _ _ _ => (by decide : (-1 : Int) ≤ 0), hw.1, hw.2.1⟩

end XHdcp1x
